import Mathlib

/-!
# ptserver: wire encoding, packet queue, registry and connection flows

A shallow embedding of the parts of `ptserver` (encode.c, packet.c, hash.c,
protocol.c, server_handler.c, server_login.c, server_registration.c, server.c,
user.c, devicelist.c, buddylist.c, room.c, server_general.c) that the verified
properties talk about.  C objects become Lean values:

* a byte is a `Nat` below 256, a buffer is a `List Nat`, a `char *` that may
  be `NULL` is an `Option (List Nat)`;
* `char` is signed (the x86 ABI the server is built for), so reading a byte as
  a `char` goes through `schar`;
* unsigned machine arithmetic is written over `Int`/`Nat` with an explicit
  reduction modulo `2^16`, `2^32` or `2^64` where the C type wraps;
* allocation is assumed to succeed (the `abort()` / out-of-memory paths are
  not modelled);
* values that come from the environment (`rand()`, the monotonic clock used by
  `my_seed()`, the byte count returned by `sendmsg`, the clock of the store, the
  content of a local array that is read before it is written) are explicit
  arguments;
* a read outside an object is undefined in C; the one the codec can make, past
  the end of the `ginger` literal, reads what the memory there holds, which is
  part of the state (`ginger_beyond`) and about which nothing is assumed;
* the SQLite store is a record of tables, each a list of rows; a query is
  evaluated over the rows in table order and statements are assumed to
  prepare and run without error (a statement that violates a constraint of
  the schema changes nothing);
* a loop whose end depends on the data takes a number of turns (`fuel`) and
  yields `none` when it has not ended by then; the same `none` stands for a
  call that does not return.
-/

namespace PtServer

/-! ## C characters, integers and strings -/

/-- Value of a `char` object that holds byte `b`: `char` is a signed 8-bit type. -/
def schar (b : Nat) : Int :=
  if b % 256 < 128 then ((b % 256 : Nat) : Int) else ((b % 256 : Nat) : Int) - 256

/-- Store of an integer value into a `char`: its low eight bits, as a byte. -/
def to_byte (x : Int) : Nat := (x % 256).toNat

/-- Conversion of an integer value to `unsigned short`. -/
def to_u16 (x : Int) : Nat := (x % 65536).toNat

/-- Conversion of an integer value to `unsigned` (32 bits). -/
def to_u32 (x : Int) : Nat := (x % 4294967296).toNat

/-- The C string stored in a buffer: the bytes before the first NUL. -/
def cstr (buf : List Nat) : List Nat := buf.takeWhile (fun b => b != 0)

/-- Truth value of a C expression as the integer `!x` yields: 1 when `x` is zero. -/
def c_not (x : Nat) : Nat := if x = 0 then 1 else 0

/-! ## encode.c -/

def ENCODE_MAX_LEN : Nat := 128
def DECODE_MAX_LEN : Nat := 128 <<< 2
def CODEBOOK_LEN : Nat := 0x558
def CHALLENGE_MAX : Nat := 226
def CODEBOOK1_LEN : Nat := 0x156
def CODEBOOK2_LEN : Nat := 0x156
def CODEBOOK2_STEP_MASK : Nat := 15
def CODEBOOK3_STEP_MASK : Nat := 15
def PROTOCOL_VERSION : Nat := 0xdead
def PROTOCOL_VERSION_50 : Nat := 0x0047
def PROTOCOL_VERSION_51 : Nat := 0x004b
def PROTOCOL_VERSION_70 : Nat := 0x004f
def PROTOCOL_VERSION_80 : Nat := 0x0053
def PROTOCOL_VERSION_82 : Nat := 0x0056

/-- The `ginger` text of encode.c as its 354 byte values (ASCII), without the terminating NUL. -/
def ginger : List Nat := [
  71, 105, 110, 103, 101, 114, 32, 119, 97, 115, 32, 97, 32, 98, 105, 103, 32, 102, 97, 116, 32, 104, 111, 114,
  115, 101, 44, 32, 97, 32, 98, 105, 103, 32, 102, 97, 116, 32, 104, 111, 114, 115, 101, 32, 119, 97, 115, 32,
  115, 104, 101, 46, 32, 66, 117, 116, 32, 100, 111, 110, 39, 116, 32, 116, 101, 108, 108, 32, 116, 104, 97, 116,
  32, 116, 111, 32, 77, 97, 114, 121, 76, 111, 117, 32, 98, 101, 99, 117, 97, 115, 101, 32, 105, 110, 32, 108,
  111, 118, 101, 32, 119, 105, 116, 104, 32, 104, 101, 114, 32, 105, 115, 32, 115, 104, 101, 46, 73, 32, 116, 101,
  108, 108, 32, 121, 111, 117, 32, 116, 104, 105, 115, 32, 105, 110, 32, 112, 114, 105, 118, 97, 116, 101, 44, 32,
  98, 101, 99, 97, 117, 115, 101, 32, 73, 32, 116, 104, 111, 117, 103, 104, 116, 32, 116, 104, 97, 116, 32, 121,
  111, 117, 32, 115, 104, 111, 117, 108, 100, 32, 107, 110, 111, 119, 46, 66, 117, 116, 32, 110, 101, 118, 101, 114,
  32, 115, 97, 121, 32, 116, 111, 32, 77, 97, 114, 121, 76, 111, 117, 32, 111, 114, 32, 98, 111, 116, 104, 32,
  111, 117, 114, 32, 104, 101, 97, 100, 115, 32, 119, 105, 108, 108, 32, 103, 111, 46, 73, 39, 118, 101, 32, 115,
  97, 105, 100, 32, 105, 116, 32, 111, 110, 99, 101, 44, 32, 73, 39, 118, 101, 32, 115, 97, 105, 100, 32, 105,
  116, 32, 116, 119, 105, 99, 101, 44, 32, 73, 39, 108, 108, 32, 115, 97, 121, 32, 105, 116, 32, 111, 110, 99,
  101, 32, 97, 103, 97, 105, 110, 46, 78, 111, 116, 32, 97, 32, 119, 111, 114, 100, 32, 111, 102, 32, 116, 104,
  105, 115, 32, 116, 111, 32, 121, 111, 117, 32, 107, 110, 111, 119, 32, 119, 104, 111, 32, 111, 114, 32, 105, 116,
  32, 119, 105, 108, 108, 32, 98, 101, 32, 111, 117, 114, 32, 101, 110, 100, 33, 13]

/-- The `codebook1` source text of encode.c as its 342 byte values. -/
def codebook1 : List Nat := [
  87, 104, 69, 116, 104, 101, 114, 32, 105, 116, 32, 119, 97, 115, 32, 109, 101, 32, 111, 114, 32, 119, 69, 97,
  116, 104, 101, 114, 32, 105, 116, 32, 119, 97, 115, 32, 121, 111, 117, 44, 32, 116, 105, 115, 32, 110, 111, 116,
  32, 116, 104, 101, 32, 112, 111, 105, 110, 84, 32, 73, 32, 115, 97, 121, 46, 32, 84, 104, 101, 32, 80, 111,
  105, 110, 116, 32, 116, 72, 97, 116, 32, 98, 101, 32, 105, 115, 32, 110, 79, 116, 32, 116, 111, 32, 83, 69,
  101, 32, 84, 104, 69, 32, 100, 105, 102, 102, 101, 114, 101, 110, 99, 101, 32, 98, 101, 116, 87, 69, 101, 110,
  32, 121, 111, 117, 32, 97, 110, 100, 32, 109, 101, 46, 70, 111, 117, 114, 32, 115, 99, 111, 110, 101, 83, 32,
  97, 110, 100, 32, 115, 111, 109, 101, 32, 116, 101, 110, 32, 112, 69, 110, 99, 101, 32, 69, 111, 110, 83, 32,
  97, 103, 111, 32, 73, 32, 108, 111, 83, 116, 32, 109, 89, 32, 119, 97, 121, 46, 32, 77, 97, 78, 121, 32,
  101, 79, 110, 115, 32, 104, 97, 118, 101, 32, 112, 65, 115, 116, 32, 115, 105, 110, 99, 101, 32, 116, 104, 69,
  110, 32, 98, 117, 116, 32, 73, 32, 115, 116, 105, 108, 108, 32, 100, 111, 110, 39, 84, 32, 104, 97, 118, 101,
  32, 109, 117, 99, 104, 32, 116, 111, 32, 115, 65, 89, 59, 32, 84, 72, 73, 82, 84, 69, 78, 78, 32, 65,
  110, 68, 32, 65, 32, 72, 65, 108, 70, 32, 68, 111, 76, 76, 65, 82, 83, 32, 70, 79, 82, 32, 65, 32,
  72, 65, 77, 66, 85, 82, 71, 69, 82, 63, 32, 32, 87, 72, 65, 84, 39, 83, 32, 73, 78, 32, 116, 72,
  69, 32, 83, 80, 69, 67, 73, 65, 76, 32, 83, 65, 85, 67, 69, 44, 32, 71, 79, 76, 68, 32, 78, 85,
  71, 71, 69, 84, 83, 33]

/-- The `codebook2` source text of encode.c as its 342 byte values. -/
def codebook2 : List Nat := [
  57, 53, 107, 106, 103, 114, 45, 116, 48, 71, 70, 71, 108, 108, 98, 99, 98, 105, 118, 118, 98, 59, 118, 109,
  98, 108, 59, 107, 119, 45, 103, 109, 110, 99, 70, 71, 68, 110, 120, 99, 118, 108, 107, 106, 116, 57, 94, 38,
  42, 94, 36, 36, 41, 110, 102, 100, 115, 48, 45, 45, 114, 119, 101, 102, 110, 102, 109, 99, 110, 102, 114, 57,
  48, 52, 57, 51, 106, 101, 71, 70, 68, 71, 115, 109, 107, 116, 101, 111, 116, 101, 112, 116, 59, 102, 100, 103,
  101, 59, 75, 76, 52, 53, 52, 57, 53, 52, 51, 56, 53, 114, 107, 97, 56, 37, 94, 35, 41, 64, 103, 107,
  102, 103, 48, 116, 51, 59, 108, 44, 48, 112, 101, 106, 103, 102, 103, 107, 106, 103, 107, 108, 102, 103, 107, 101,
  114, 66, 86, 66, 48, 51, 98, 32, 32, 109, 66, 32, 98, 105, 98, 66, 86, 51, 114, 116, 110, 106, 102, 121,
  103, 103, 111, 57, 103, 101, 97, 111, 103, 105, 103, 57, 54, 56, 57, 53, 57, 102, 107, 56, 53, 106, 110, 102,
  103, 115, 109, 67, 86, 98, 114, 107, 102, 44, 46, 101, 114, 39, 119, 115, 108, 114, 57, 56, 53, 66, 78, 86,
  66, 86, 88, 67, 86, 45, 57, 61, 93, 100, 108, 102, 107, 103, 86, 67, 86, 67, 86, 114, 107, 100, 103, 100,
  103, 111, 66, 32, 78, 74, 102, 103, 102, 120, 59, 108, 100, 102, 102, 103, 106, 107, 68, 68, 71, 106, 107, 102,
  100, 103, 107, 106, 114, 101, 111, 45, 114, 101, 70, 69, 84, 85, 116, 111, 103, 108, 100, 48, 57, 56, 54, 98,
  109, 85, 89, 85, 106, 84, 102, 104, 107, 103, 111, 120, 105, 111, 112, 103, 103, 111, 112, 102, 108, 103, 107, 102,
  100, 111, 103, 100, 111, 112, 103, 100, 108, 98, 100, 109, 103, 107, 101, 116, 48, 101, 116, 116, 108, 59, 104, 103,
  108, 104, 109, 110, 108, 108]

def tenpow : List Nat := [1000, 100, 10, 1, 0]

/-- `ginger[k]` read as a `char`.  The string literal has 354 characters and a NUL at
index 354.  An index of 355 or more is outside the object, and C leaves such a
read undefined (it may also fault): `beyond` stands for the memory that follows
the literal, the byte at index `355 + j` being byte `j` of the little-endian
number `beyond`, so that nothing is assumed about what such a read yields. -/
def ginger_at (beyond : Nat) (k : Nat) : Int :=
  if k < 355 then schar (ginger.getD k 0) else schar ((beyond >>> (8 * (k - 355))) % 256)

/-- The classic `rand()` step, `x * 0x343fd + 0x269e3c` in 32-bit unsigned arithmetic. -/
def ms_seed (x : Nat) : Nat := (x % 4294967296 * 0x343fd + 0x269e3c) % 4294967296

def ms_rand (x : Nat) : Nat := (ms_seed x >>> 16) &&& 0x7fff

/-- Digits written by `ustoa` for the value `u`, most significant first
(`buf[(len - 1) - i] = '0' + u % 10; u /= 10`). -/
def ustoa_digits : Nat → Nat → List Nat
  | _, 0 => []
  | u, len + 1 => ustoa_digits (u / 10) len ++ [48 + u % 10]

/-- The `len` bytes `ustoa(buf, u, len)` writes; the argument is converted to
`unsigned short` by the call. -/
def ustoa (u : Int) (len : Nat) : List Nat := ustoa_digits (to_u16 u) len

/-- Check digit `(unsigned)floor((ms_rand(time) / 32678.0f) * 10.0f) & 7`.
For every `r = ms_rand(time)` in `[0, 32767]` the single-precision quotient and
product are within `2e-6` of `10 r / 32678`, whose distance to the next integer
is 0 or at least `2 / 32678`, so the floor is the integer quotient used here. -/
def check_digit (time : Nat) : Nat := ((ms_rand time * 10) / 32678) &&& 7

/-- Codebook entries `codebook[i]`, `codebook[i + 1]` written by one turn of the
loop of `pt_encode_cook_codebook` (`i` even). -/
def cook_pair (cb1_offset cb2_step cb3_step i : Nat) : List Nat :=
  [ (if (i >>> 1) &&& 1 ≠ 0
      then codebook2.getD ((((i >>> 2) + 1) * cb2_step) % CODEBOOK2_LEN) 0
      else codebook1.getD (((i >>> 2) + cb1_offset) % CODEBOOK1_LEN) 0),
    to_byte (48 + ((((i >>> 1) + 1) * cb3_step) % 0x4b : Nat)) ]

/-- The loop `for (i = 0; i < CODEBOOK_LEN; i += 2)` with `n` turns left. -/
def cook_loop (cb1_offset cb2_step cb3_step : Nat) : Nat → Nat → List Nat
  | 0, _ => []
  | n + 1, i => cook_pair cb1_offset cb2_step cb3_step i ++ cook_loop cb1_offset cb2_step cb3_step n (i + 2)

/-- The three parameters `pt_encode_cook_codebook` draws from `rand()`
(`r1`, `r2`, `r3` are the three results, in call order). -/
def cook_params (r1 r2 r3 : Nat) : Nat × Nat × Nat :=
  (1 + r1 % (CODEBOOK1_LEN >>> 2), 1 + (r2 &&& CODEBOOK2_STEP_MASK), 1 + (r3 &&& CODEBOOK3_STEP_MASK))

/-- The 1368-byte codebook generated from the three parameters. -/
def cook_codebook (cb1_offset cb2_step cb3_step : Nat) : List Nat :=
  cook_loop cb1_offset cb2_step cb3_step (CODEBOOK_LEN / 2) 0

/-- Number of bytes of the start group and its padding: `(1 + !(s_pos % 3) + !(s_pos & 3)) << 2`. -/
def cb_header_len (s_pos : Nat) : Nat := (1 + c_not (s_pos % 3) + c_not (s_pos &&& 3)) <<< 2

/-- The start position `1001 + ((x >> 15) | ((x >> 14) & 1))` for `x = ms_rand(seed) * 1112`. -/
def cb_start_pos (seed : Nat) : Nat :=
  let x := (ms_rand seed * min 8999 (CODEBOOK_LEN - 256)) % 4294967296
  1001 + ((x >>> 15) ||| ((x >>> 14) &&& 1))

/-- The addend digit `(1 + ((x >> 15) | ((x >> 14) & 1))) % 10` for `x = ms_rand(seed) * 9`. -/
def cb_addend (seed : Nat) : Nat :=
  let x := (ms_rand seed * min 9 (CODEBOOK_LEN - 256)) % 4294967296
  (1 + ((x >>> 15) ||| ((x >>> 14) &&& 1))) % 10

/-- One digit character after `if ((out[o + j] += a) > '9') out[o + j] -= 10`. -/
def cb_shift_digit (a d : Nat) : Nat := if d + a > 57 then d + a - 10 else d + a

/-- The four output bytes for input byte `c` at index `i`. -/
def cb_encode_group (codebook : List Nat) (challenge s_pos i c a : Nat) : List Nat :=
  let cb := codebook.getD (challenge + i) 0
  let ds := (ustoa (0x71 + (i : Int) + schar c + (cb : Int)) 3).map (cb_shift_digit a)
  let j := (cb + i + s_pos) &&& 3
  ds.take j ++ [48 + a] ++ ds.drop j

/-- The loop over the input of `pt_encode_with_codebook`; `seeds i` is the value
`my_seed()` returns in turn `i`. -/
def cb_encode_loop (codebook : List Nat) (challenge s_pos : Nat) (seeds : Nat → Nat) :
    List Nat → Nat → List Nat
  | [], _ => []
  | c :: rest, i =>
    cb_encode_group codebook challenge s_pos i c (cb_addend (seeds i))
      ++ cb_encode_loop codebook challenge s_pos seeds rest (i + 1)

/-- The random digits `'0' + rand() % 10` written by the padding loop
`for (i = 4; i < (1 + !(s_pos % 3) + !(s_pos & 3)) << 2; i++)`; `rands k` is the
`k`-th `rand()` result. -/
def cb_padding (s_pos : Nat) (rands : Nat → Nat) : List Nat :=
  (List.range (cb_header_len s_pos - 4)).map (fun k => to_byte (48 + (rands k % 10 : Nat)))

/-- Function `pt_encode_with_codebook`.  `seed0` is the `my_seed()` value used for the
start position, `rands k` the `k`-th `rand()` result of the padding loop and
`seeds i` the `my_seed()` value of turn `i`. -/
def pt_encode_with_codebook (codebook : List Nat) (challenge : Nat) (s : Option (List Nat))
    (seed0 : Nat) (rands : Nat → Nat) (seeds : Nat → Nat) : Option (List Nat) :=
  let s_pos := cb_start_pos seed0
  match s with
  | none => none
  | some s =>
    if s.length = 0 then none
    else some (ustoa_digits (to_u16 s_pos) 4 ++ cb_padding s_pos rands
      ++ cb_encode_loop codebook (challenge % 65536) s_pos seeds s 0)

/-- Value `n` accumulated by the inner loop of `pt_decode_with_codebook` for the
group at `g` (four bytes), given the addend position. -/
def cb_decode_group (g : List Nat) (a_pos : Nat) : Nat :=
  let a := to_u32 (schar (g.getD a_pos 0) - 48)
  (List.range 4).foldl (fun n j =>
    let x := to_u32 (schar (g.getD j 0) - (a : Int) - 48)
    (n + tenpow.getD (if j = a_pos then 4 else j + (if j < a_pos then 1 else 0)) 0
          * (((x + 10) % 4294967296) % 10)) % 4294967296) 0

/-- The loop over the groups of `pt_decode_with_codebook`: `n` groups left, `i` the group index. -/
def cb_decode_loop (codebook : List Nat) (challenge s_pos : Nat) : Nat → Nat → List Nat → List Nat
  | 0, _, _ => []
  | n + 1, i, s =>
    let cb := codebook.getD (challenge + i) 0
    let a_pos := (cb + i + s_pos) &&& 3
    to_byte ((cb_decode_group (s.take 4) a_pos : Int) - 0x71 - cb - i)
      :: cb_decode_loop codebook challenge s_pos n (i + 1) (s.drop 4)

/-- Function `pt_decode_with_codebook`; the result is the buffer `out` (its C string
is `cstr` of it).  When the input is shorter than its own header the C code
computes a length near `2^64` and the allocation fails, which is the `none` here. -/
def pt_decode_with_codebook (codebook : List Nat) (challenge : Nat) (s : Option (List Nat)) :
    Option (List Nat) :=
  match s with
  | none => none
  | some s =>
    if s.length = 0 ∨ s.length &&& 3 ≠ 0 then none
    else
      let s_pos := to_u32 (schar (s.getD 0 0) * 1000 + schar (s.getD 1 0) * 100
                            + schar (s.getD 2 0) * 10 + schar (s.getD 3 0) - 53328)
      let hdr := cb_header_len s_pos
      if s.length < hdr then none
      else some (cb_decode_loop codebook (challenge % 65536) s_pos ((s.length - hdr) >>> 2) 0 (s.drop hdr))

/-- The value handed to `ustoa` by the `switch (variant)` of `pt_encode_with_challenge`
for input byte `c` at index `i` (`challenge` is the current, possibly decremented, key). -/
def encode_value (beyond variant challenge i c : Nat) : Int :=
  if variant = 1 then 0x7a + (i : Int) * (13 - (i : Int)) + schar c + ginger_at beyond (challenge + i)
  else if variant = 2 then 0x7a + (i : Int) + schar c + ginger_at beyond (challenge + i)
  else 0x7a + schar c + ginger_at beyond i + (challenge : Int) * (i : Int)

/-- The key after one turn: variant 3 runs `--challenge` on an `unsigned short`. -/
def next_challenge (variant challenge : Nat) : Nat :=
  if variant = 3 then (challenge + 65535) % 65536 else challenge

/-- The encoding loop of `pt_encode_with_challenge`; returns the output bytes and
the final `ctx->time`. -/
def encode_loop (beyond variant : Nat) : List Nat → Nat → Nat → Nat → List Nat × Nat
  | [], _, _, time => ([], time)
  | c :: rest, i, challenge, time =>
    let r := encode_loop beyond variant rest (i + 1) (next_challenge variant challenge) (ms_seed time)
    (ustoa (encode_value beyond variant challenge i c) 3 ++ [48 + check_digit time] ++ r.1, r.2)

/-- The byte `out[i]` stored by the `switch (variant)` of `pt_decode_with_challenge`. -/
def decode_value (beyond variant challenge i n : Nat) : Nat :=
  if variant = 1 then to_byte ((n : Int) - 0x7a - (i : Int) * (13 - (i : Int)) - ginger_at beyond (challenge + i))
  else if variant = 2 then to_byte ((n : Int) - 0x7a - (i : Int) - ginger_at beyond (challenge + i))
  else to_byte ((n : Int) - 0x7a - ginger_at beyond i - (challenge : Int) * (i : Int))

/-- Size of the object behind `ginger`: the 354 characters and the terminating NUL. -/
def GINGER_SIZE : Nat := 355

/-- The subscript of `ginger` in the `switch (variant)` of `pt_encode_with_challenge` and
`pt_decode_with_challenge` at index `i`: `challenge + i` for the variants 1 and 2, `i`
for variant 3. -/
def ginger_index (variant challenge i : Nat) : Nat :=
  if variant = 3 then i else challenge + i

/-- The decoding loop of `pt_decode_with_challenge` with `k` groups left; `none` is
the `goto err` taken when a group does not read as a number up to 999. -/
def decode_loop (beyond variant : Nat) : Nat → Nat → Nat → List Nat → Option (List Nat)
  | 0, _, _, _ => some []
  | k + 1, i, challenge, s =>
    let n := to_u32 (schar (s.getD 0 0) * 100 + schar (s.getD 1 0) * 10 + schar (s.getD 2 0) - 5328)
    if n > 999 then none
    else match decode_loop beyond variant k (i + 1) (next_challenge variant challenge) (s.drop 4) with
      | none => none
      | some out => some (decode_value beyond variant challenge i n :: out)

/-- The part of `struct pt_context` the codec reads and writes, and with it the memory
that follows the `ginger` literal (`ginger_beyond`, see `ginger_at`), which is not a
member of the structure. -/
structure codec_ctx where
  protocol_version : Nat
  cb1_offset : Nat
  codebook : List Nat
  time : Nat
  ginger_beyond : Nat
deriving DecidableEq, Repr

/-- The test `ctx->protocol_version >= PROTOCOL_VERSION_82 && ctx->cb1_offset`. -/
def uses_codebook (ctx : codec_ctx) : Bool :=
  decide (ctx.protocol_version ≥ PROTOCOL_VERSION_82) && decide (ctx.cb1_offset ≠ 0)

/-- Function `pt_encode_with_challenge`: the returned string (`none` for `NULL`) and the
context afterwards (`ctx->time` advances once per encoded byte). -/
def pt_encode_with_challenge (ctx : codec_ctx) (variant challenge : Nat) (s : Option (List Nat))
    (seed0 : Nat) (rands : Nat → Nat) (seeds : Nat → Nat) : Option (List Nat) × codec_ctx :=
  if uses_codebook ctx then
    (pt_encode_with_codebook ctx.codebook challenge s seed0 rands seeds, ctx)
  else
    match s with
    | none => (none, ctx)
    | some s =>
      if variant = 0 ∨ variant > 3 ∨ s.length = 0 then (none, ctx)
      else
        let r := encode_loop ctx.ginger_beyond variant (s.take ENCODE_MAX_LEN) 0 (challenge % 65536) ctx.time
        (some r.1, { ctx with time := r.2 })

/-- Function `pt_decode_with_challenge`; the result is the buffer `out` (`none` for `NULL`). -/
def pt_decode_with_challenge (ctx : codec_ctx) (variant challenge : Nat) (s : Option (List Nat)) :
    Option (List Nat) :=
  if uses_codebook ctx then
    pt_decode_with_codebook ctx.codebook challenge s
  else
    match s with
    | none => none
    | some s =>
      if variant = 0 ∨ variant > 3 ∨ s.length = 0 ∨ s.length &&& 3 ≠ 0 then none
      else decode_loop ctx.ginger_beyond variant ((min s.length DECODE_MAX_LEN) >>> 2) 0 (challenge % 65536) s

def fits_three_digits (beyond variant : Nat) : List Nat → Nat → Nat → Bool
  | [], _, _ => true
  | c :: rest, i, challenge =>
    decide (to_u16 (encode_value beyond variant challenge i c) ≤ 999)
      && fits_three_digits beyond variant rest (i + 1) (next_challenge variant challenge)


/-- The loop of `pt_validate` with `k` groups left: the result (1 when every check
digit read equals the digit drawn from `ctx->time`, which advances once per
group; 0 at the first mismatch) and the final `ctx->time`. -/
def validate_loop : Nat → List Nat → Nat → Nat × Nat
  | 0, _, time => (1, time)
  | k + 1, s, time =>
    if to_u32 (schar (s.getD 3 0) - 48) ≠ check_digit time then (0, time)
    else validate_loop k (s.drop 4) (ms_seed time)

/-- Function `pt_validate`: the result and the context afterwards. -/
def pt_validate (ctx : codec_ctx) (variant : Nat) (s : Option (List Nat)) : Nat × codec_ctx :=
  match s with
  | none => (0, ctx)
  | some s =>
    if variant = 0 ∨ variant > 3 ∨ s.length = 0 ∨ s.length &&& 3 ≠ 0 then (0, ctx)
    else
      let r := validate_loop (s.length >>> 2) s ctx.time
      (r.1, { ctx with time := r.2 })

/-! ## packet.h / packet.c -/

def PACKET_F_STATIC : Nat := 0x01
def PACKET_F_COPY : Nat := 0x02

/-- `struct pt_packet`.  The 16-bit fields hold host-order values; `data` is the
buffer the `data` pointer refers to (`none` for `NULL`). -/
structure pt_packet where
  type : Nat
  version : Nat
  length : Nat
  data : Option (List Nat)
  refcnt : Nat
  flags : Nat
  remaining : Nat
deriving DecidableEq, Repr

/-- The heap of packet objects: the address of a packet is its index; `none` is
a freed (or never allocated) object. -/
abbrev pkt_heap := List (Option pt_packet)

/-- What an `iov_base` of the output queue points into: one of the three header
fields of a packet object, or the buffer behind its `data` pointer. -/
inductive pkt_field where
  | type
  | version
  | length
  | data
deriving DecidableEq, Repr

/-- A `struct iovec` of `pkt_out`: `iov_base` is `off` bytes into `field` of the
packet at address `pkt`, `iov_len` is `len`. -/
structure iovec where
  pkt : Nat
  field : pkt_field
  off : Nat
  len : Nat
deriving DecidableEq, Repr

/-- The packet flows a connection can have installed as `on_packet`. -/
inductive flow where
  | login_flow
  | registration_flow
  | password_reset_flow
  | general_flow
deriving DecidableEq, Repr

/-- `struct user` (user.h). -/
structure user where
  uid : Nat
  password : Option (List Nat)
  nickname : Option (List Nat)
  email : Option (List Nat)
  first : Option (List Nat)
  last : Option (List Nat)
  privacy : Option (List Nat)
  verified : Nat
  random : Nat
  paid1 : Option (List Nat)
  get_offers_from_us : Nat
  get_offers_from_affiliates : Nat
  banners : Nat
  admin : Nat
  sup : Nat
deriving DecidableEq, Repr

/-- A `struct user` after `memset(.., 0, ..)`. -/
def user_zero : user :=
  ⟨0, none, none, none, none, none, none, 0, 0, none, 0, 0, 0, 0, 0⟩

/-- `struct pt_context`, without the socket address and the database handles.
`pkt_out` is `pkt_out.msg_iov[0 .. msg_iovlen)`; `pkts_out` is the array behind the
pointer (`none` for `NULL`) and `npkts_out` its logical length; `data_in_len` is
`data_in.msg_iov[0].iov_len`, and while a body is being read `pkt_in.data` holds the
bytes received so far (the rest of the zeroed buffer is not stored).
`ginger_beyond` is not a member: it is the memory that follows the `ginger` literal
of encode.c, which the codec can reach from a connection (see `ginger_at`). -/
structure pt_context where
  fd : Int
  disconnect : Nat
  user : user
  time : Nat
  protocol_version : Nat
  challenge : Nat
  ccban_level : Nat
  status : Nat
  status_msg : Option (List Nat)
  device_id : Option (List Nat)
  uid : Nat
  uid_str : List Nat
  server_ip : Nat
  cb1_offset : Nat
  cb2_step : Nat
  cb3_step : Nat
  codebook : List Nat
  data_in_len : Nat
  pkt_out : List iovec
  pkt_in : pt_packet
  pkts_out : Option (List Nat)
  npkts_out : Nat
  on_packet : Option flow
  prev_on_packet : Option flow
  ginger_beyond : Nat
deriving DecidableEq, Repr

/-- The codec's view of a connection context. -/
def pt_context.codec (ctx : pt_context) : codec_ctx :=
  ⟨ctx.protocol_version, ctx.cb1_offset, ctx.codebook, ctx.time, ctx.ginger_beyond⟩

/-- Function `pt_context_init`: the zeroed context with `fd`, `uid = -1`
(as `unsigned long`) and `challenge = 1 + rand() % CHALLENGE_MAX`; `r` is the
`rand()` result.  The function does not touch the memory behind `ginger`; the
contexts built here take it as zero bytes. -/
def pt_context_init (fd : Int) (r : Nat) : pt_context :=
  { fd := fd, disconnect := 0, user := user_zero, time := 0, protocol_version := 0,
    challenge := to_u16 (1 + (r % CHALLENGE_MAX : Nat)), ccban_level := 0, status := 0,
    status_msg := none, device_id := none, uid := 18446744073709551615, uid_str := [],
    server_ip := 0, cb1_offset := 0, cb2_step := 0, cb3_step := 0,
    codebook := List.replicate CODEBOOK_LEN 0, data_in_len := 0, pkt_out := [],
    pkt_in := ⟨0, 0, 0, none, 0, 0, 0⟩, pkts_out := none, npkts_out := 0,
    on_packet := none, prev_on_packet := none, ginger_beyond := 0 }

/-- Byte swap of a 16-bit value. -/
def bswap16 (x : Nat) : Nat := (x % 256) * 256 + (x / 256) % 256

/-- Functions `htons` / `ntohs` on a host that is little-endian (`le = true`) or big-endian. -/
def htons (le : Bool) (x : Nat) : Nat := if le then bswap16 x else x % 65536

/-- The two bytes in memory of an `unsigned short` object holding `v`. -/
def u16_mem (le : Bool) (v : Nat) : List Nat :=
  if le then [v % 256, (v / 256) % 256] else [(v / 256) % 256, v % 256]

/-- The `unsigned short` value of the object whose two bytes in memory are `b0`, `b1`. -/
def u16_of_mem (le : Bool) (b0 b1 : Nat) : Nat :=
  if le then b0 % 256 + (b1 % 256) * 256 else (b0 % 256) * 256 + b1 % 256

/-- Function `new_packet`: allocates the packet object and returns the heap and
the address.  With `PACKET_F_COPY` the body is a copy of the first `len` bytes
of `data`, otherwise the packet refers to the caller's buffer. -/
def new_packet (heap : pkt_heap) (type len : Nat) (data : Option (List Nat)) (flags : Nat) :
    pkt_heap × Nat :=
  let len := match data with
    | none => 0
    | some _ => len % 65536
  let body := if flags &&& PACKET_F_COPY ≠ 0 ∧ len ≠ 0 then data.map (fun d => d.take len) else data
  (heap ++ [some ⟨type % 65536, PROTOCOL_VERSION, len, body, 0, flags, 0⟩], heap.length)

/-- Replace the object at address `a`. -/
def heap_set (heap : pkt_heap) (a : Nat) (p : Option pt_packet) : pkt_heap := heap.set a p

/-- Function `send_packet` for the packet at address `a`: the packet is appended to
`pkts_out`, three (or, with a body, four) iovecs are appended to `pkt_out`, and
the header fields are converted in place with `htons`.  A `NULL` or freed packet
leaves everything unchanged. -/
def send_packet (le : Bool) (heap : pkt_heap) (ctx : pt_context) (a : Nat) :
    pkt_heap × pt_context :=
  match heap.getD a none with
  | none => (heap, ctx)
  | some pkt =>
    let hdr : List iovec := [⟨a, .type, 0, 2⟩, ⟨a, .version, 0, 2⟩, ⟨a, .length, 0, 2⟩]
    let iov := if pkt.length ≠ 0 then hdr ++ [⟨a, .data, 0, pkt.length⟩] else hdr
    let pkt1 : pt_packet :=
      if pkt.length ≠ 0 then { pkt with remaining := pkt.length, length := htons le pkt.length }
      else pkt
    let pkt2 : pt_packet :=
      { pkt1 with type := htons le pkt1.type, version := htons le pkt1.version,
                  remaining := (pkt1.remaining + 6) % 18446744073709551616,
                  refcnt := (pkt1.refcnt + 1) % 4294967296 }
    (heap_set heap a (some pkt2),
     { ctx with pkts_out := some ((ctx.pkts_out.getD []).take ctx.npkts_out ++ [a]),
                npkts_out := ctx.npkts_out + 1,
                pkt_out := ctx.pkt_out ++ iov })

/-- Function `free_packet`: frees the object when its reference count is zero. -/
def free_packet (heap : pkt_heap) (a : Nat) : pkt_heap :=
  match heap.getD a none with
  | none => heap
  | some pkt => if pkt.refcnt ≠ 0 then heap else heap_set heap a none

/-- The first loop of `packet_out` over the iovec list with `bs` bytes left to
account for: returns the list with the first incomplete iovec advanced in place,
and the number `freed` of fully written ones. -/
def iov_scan : List iovec → Nat → List iovec × Nat
  | [], _ => ([], 0)
  | v :: rest, bs =>
    if bs = 0 then (v :: rest, 0)
    else if v.len ≤ bs then
      let r := iov_scan rest (bs - v.len)
      (v :: r.1, r.2 + 1)
    else ({ v with len := v.len - bs, off := v.off + bs } :: rest, 0)

/-- One turn of the `do .. while` of `packet_out` on the packet at address `a`:
returns the heap and the new `bp`.  An address that holds no object (a freed
packet, or an entry read through a `NULL` array) is left alone; the C code
dereferences it there, which is undefined. -/
def deref_step (heap : pkt_heap) (a bp : Nat) : pkt_heap × Nat :=
  match heap.getD a none with
  | none => (heap, bp)
  | some pkt =>
    let pkt1 : pt_packet := if pkt.remaining ≥ bp then { pkt with remaining := pkt.remaining - bp } else pkt
    let bp1 := if pkt.remaining ≥ bp then 0 else bp - pkt.remaining
    let pkt2 : pt_packet := { pkt1 with refcnt := (pkt1.refcnt + 4294967295) % 4294967296 }
    let heap1 := heap_set heap a (some pkt2)
    (if pkt2.refcnt = 0 then free_packet heap1 a else heap1, bp1)

/-- The `do .. while (bp && ++i < ctx->npkts_out)` of `packet_out`, entered at index
`i` with `fuel` turns allowed; returns the heap and the final `i`. -/
def deref_loop (pkts : List Nat) (npkts_out : Nat) : Nat → pkt_heap → Nat → Nat → pkt_heap × Nat
  | 0, heap, i, _ => (heap, i)
  | fuel + 1, heap, i, bp =>
    let r := deref_step heap (pkts.getD i 0) bp
    if r.2 ≠ 0 ∧ i + 1 < npkts_out then deref_loop pkts npkts_out fuel r.1 (i + 1) r.2
    else (r.1, if r.2 ≠ 0 then i + 1 else i)

/-- The `memmove(ctx->pkts_out, ctx->pkts_out + i + 1, (ctx->npkts_out - i + 1) * sizeof ..)`
of `packet_out` on the array `arr`, `n` being the already reduced `npkts_out`.  The
count is computed in `size_t`; a source element past the end of the array reads
as 0 and writes past its end are dropped. -/
def pkts_memmove (arr : List Nat) (n i : Nat) : List Nat :=
  let count := (n + 18446744073709551616 - i % 18446744073709551616 + 1) % 18446744073709551616
  (List.range arr.length).map (fun k => if k < count then arr.getD (i + 1 + k) 0 else arr.getD k 0)

/-- Function `packet_out`; `sent` is the value returned by `sendmsg`. -/
def packet_out (heap : pkt_heap) (ctx : pt_context) (sent : Int) : pkt_heap × pt_context :=
  if ctx.pkt_out.length = 0 ∨ sent ≤ 0 then (heap, ctx)
  else
    let bp := sent.toNat
    let sc := iov_scan ctx.pkt_out bp
    let iov := sc.1.drop sc.2
    let pkts := ctx.pkts_out.getD []
    let d := deref_loop pkts ctx.npkts_out (ctx.npkts_out + 1) heap 0 bp
    let n := (ctx.npkts_out + 18446744073709551616 - (d.2 + 1)) % 18446744073709551616
    let pkts_out := if n = 0 then none else some (pkts_memmove pkts n d.2)
    let ctx1 : pt_context := { ctx with pkt_out := iov, pkts_out := pkts_out, npkts_out := n }
    (d.1, if ctx1.on_packet = none ∧ ctx1.pkts_out = none
          then { ctx1 with disconnect := ctx1.disconnect + 1 } else ctx1)

/-- Memory as the output queue sees it: the byte at offset `k` of the given
field of the packet at the given address. -/
abbrev pkt_memory := Nat → pkt_field → Nat → Nat

/-- The memory behind a packet heap: header fields in host byte order, the
body behind `data`; bytes of freed objects and bytes past the end of a buffer
are not determined by the heap and read as 0. -/
def heap_memory (le : Bool) (heap : pkt_heap) : pkt_memory := fun a f k =>
  match heap.getD a none with
  | none => 0
  | some pkt =>
    match f with
    | .type => (u16_mem le pkt.type).getD k 0
    | .version => (u16_mem le pkt.version).getD k 0
    | .length => (u16_mem le pkt.length).getD k 0
    | .data => (pkt.data.getD []).getD k 0

/-- The `iov_len` bytes an iovec denotes. -/
def iov_bytes (mem : pkt_memory) (v : iovec) : List Nat :=
  (List.range v.len).map (fun k => mem v.pkt v.field (v.off + k))

/-- The bytes an iovec list denotes, in order: what `sendmsg` transmits from. -/
def iov_concat (mem : pkt_memory) : List iovec → List Nat
  | [] => []
  | v :: rest => iov_bytes mem v ++ iov_concat mem rest

/-- `POLLIN` of `<poll.h>`. -/
def POLLIN : Nat := 0x001

/-- `POLLOUT` of `<poll.h>`. -/
def POLLOUT : Nat := 0x004

/-- The events `poll_sockets` (server.c) asks for on a connection at the end of its turn
of the service loop: `(ctx->on_packet ? POLLIN : 0) | (ctx->npkts_out ? POLLOUT : 0)`. -/
def poll_events (ctx : pt_context) : Nat :=
  (if ctx.on_packet.isSome then POLLIN else 0) ||| (if ctx.npkts_out ≠ 0 then POLLOUT else 0)

/-- The test of the first branch of the service loop of `poll_sockets`,
`(fds[i].revents & fds[i].events) & POLLOUT && ctx[i]->npkts_out`: whether
`packet_out` is called for the connection. -/
def poll_calls_packet_out (events revents : Nat) (ctx : pt_context) : Bool :=
  decide ((revents &&& events) &&& POLLOUT ≠ 0 ∧ ctx.npkts_out ≠ 0)

/-- The receiving half of `packet_in` (up to the dispatch): `sock` holds the bytes
the socket can deliver now and `eof` tells whether the peer has closed.  Returns
the context, the remaining socket bytes and whether a complete packet is in
`pkt_in` (the handler is to be called). -/
def packet_in_recv (le : Bool) (ctx : pt_context) (sock : List Nat) (eof : Bool) :
    pt_context × List Nat × Bool :=
  if ctx.data_in_len ≠ 0 then
    if sock.length = 0 then
      if eof then ({ ctx with disconnect := ctx.disconnect + 1 }, sock, false)
      else (ctx, sock, false)
    else
      let br := min ctx.data_in_len sock.length
      let ctx1 : pt_context :=
        { ctx with data_in_len := ctx.data_in_len - br,
                   pkt_in := { ctx.pkt_in with
                     data := some ((ctx.pkt_in.data.getD []) ++ sock.take br) } }
      (ctx1, sock.drop br, decide (ctx1.data_in_len = 0))
  else
    if sock.length = 0 then
      if eof then ({ ctx with disconnect := ctx.disconnect + 1 }, sock, false)
      else (ctx, sock, false)
    else if sock.length < 6 then (ctx, sock, false)
    else
      let type := htons le (u16_of_mem le (sock.getD 0 0) (sock.getD 1 0))
      let version := htons le (u16_of_mem le (sock.getD 2 0) (sock.getD 3 0))
      let length := htons le (u16_of_mem le (sock.getD 4 0) (sock.getD 5 0))
      if length ≠ 0 then
        ({ ctx with pkt_in := { ctx.pkt_in with type := type, version := version,
                                                length := length, data := some [] },
                    data_in_len := length }, sock.drop 6, false)
      else
        ({ ctx with pkt_in := { ctx.pkt_in with type := type, version := version,
                                                length := length } }, sock.drop 6, true)

/-- The end of `packet_in` after the dispatch: the body is wiped and freed and the
data iovec reset. -/
def packet_in_done (ctx : pt_context) : pt_context :=
  { ctx with pkt_in := if ctx.pkt_in.length ≠ 0 then { ctx.pkt_in with data := none } else ctx.pkt_in,
             data_in_len := 0 }

/-- The framing rule of `packet_in` run over a byte stream: `packet_in` is called
`fuel` times (or until the stream is used up) and every completed packet is
recorded as (type, version, body) where the handler would be called. -/
def packet_in_frames (le : Bool) : Nat → pt_context → List Nat → List (Nat × Nat × List Nat)
  | 0, _, _ => []
  | fuel + 1, ctx, sock =>
    if sock.length = 0 then []
    else
      let r := packet_in_recv le ctx sock false
      if r.2.2 then
        (r.1.pkt_in.type, r.1.pkt_in.version, if r.1.pkt_in.length ≠ 0 then r.1.pkt_in.data.getD [] else [])
          :: packet_in_frames le fuel (packet_in_done r.1) r.2.1
      else packet_in_frames le fuel r.1 r.2.1

/-- Allocating each packet of a list with `new_packet` (type, body, flags; the
length argument is the body length) and enqueueing it once with `send_packet`
on one connection, in order. -/
def send_all (le : Bool) : List (Nat × List Nat × Nat) → pkt_heap → pt_context → pkt_heap × pt_context
  | [], heap, ctx => (heap, ctx)
  | p :: rest, heap, ctx =>
    let np := new_packet heap p.1 p.2.1.length (some p.2.1) p.2.2
    let st := send_packet le np.1 ctx np.2
    send_all le rest st.1 st.2

/-- A packet as framed on the wire: type, version and body length as big-endian
16-bit values, then the body. -/
def wire_frame (type version : Nat) (body : List Nat) : List Nat :=
  [type / 256 % 256, type % 256, version / 256 % 256, version % 256,
   body.length / 256 % 256, body.length % 256] ++ body

/-! ## server_handler.c and the constants of protocol.h / server_login.c -/

def PACKET_RETURN_CODE : Nat := 0x0064
def PACKET_HELLO : Nat := 0x0075
def PACKET_SERVER_DISCONNECT : Nat := 0x044c
def PACKET_LOGIN_SUCCESS : Nat := 0x04a6
def PACKET_DO_REGISTRATION : Nat := 0x058c
def PACKET_REGISTRATION_FAILED : Nat := 0x05a1
def PACKET_ROOM_USER_REDDOT_ON : Nat := 0x017d
def PACKET_REGISTRATION_CHALLENGE : Nat := 0xfa73
def PACKET_REGISTRATION : Nat := 0xfa74
def PACKET_LOGIN : Nat := 0xfb84
def PACKET_PT5_REGISTRATION : Nat := 0xfb6e
def PACKET_CLIENT_DISCONNECT : Nat := 0xfbb4
def UID_NEWUSER : Nat := 0x7fffffff
def HELLO_LEN : Nat := 18
def UNKNOWN_USER_LEN : Nat := 12
def MULTI_LOGIN_LEN : Nat := 84
def BAD_PASSWORD_LEN : Nat := 38

/-- The text "Hello-From:PaLTaLK". -/
def hello : List Nat := [72, 101, 108, 108, 111, 45, 70, 114, 111, 109, 58, 80, 97, 76, 84, 97, 76, 75]

/-- The text "Unknown user". -/
def unknown_user : List Nat := [85, 110, 107, 110, 111, 119, 110, 32, 117, 115, 101, 114]

/-- The multi-login text of server_login.c, "You've logged in from another client,
if it wasn't you, please change your password." (84 bytes). -/
def multi_login : List Nat := [89, 111, 117, 39, 118, 101, 32, 108, 111, 103, 103, 101, 100, 32, 105, 110, 32, 102, 114, 111, 109, 32, 97, 110, 111, 116, 104, 101, 114, 32, 99, 108, 105, 101, 110, 116, 44, 32, 105, 102, 32, 105, 116, 32, 119, 97, 115, 110, 39, 116, 32, 121, 111, 117, 44, 32, 112, 108, 101, 97, 115, 101, 32, 99, 104, 97, 110, 103, 101, 32, 121, 111, 117, 114, 32, 112, 97, 115, 115, 119, 111, 114, 100, 46]

/-- The text "The password you entered is incorrect." (38 bytes). -/
def bad_password : List Nat := [84, 104, 101, 32, 112, 97, 115, 115, 119, 111, 114, 100, 32, 121, 111, 117, 32, 101, 110, 116, 101, 114, 101, 100, 32, 105, 115, 32, 105, 110, 99, 111, 114, 114, 101, 99, 116, 46]

/-- Macro `UID_IS_ERROR(X)` on an `unsigned long`. -/
def UID_IS_ERROR (x : Nat) : Bool :=
  decide (x = 0) || (decide (x >>> 31 ≠ 0) && decide (x ≠ 0xfffffffe) && decide (x ≠ 0xffffffe4))

/-- Function `send_return_code`: the body is the incoming packet type and the code,
both big-endian, followed by the message (`msglen = 0` with a message means
`strlen(msg)`). -/
def send_return_code (le : Bool) (heap : pkt_heap) (ctx : pt_context) (code : Nat)
    (msg : Option (List Nat)) (msglen : Nat) : pkt_heap × pt_context :=
  let msglen := match msg with
    | some m => if msglen = 0 then (cstr m).length else msglen
    | none => msglen
  let text := match msg with
    | some m => if msglen ≠ 0 then m.take msglen else []
    | none => []
  let buf := [(ctx.pkt_in.type >>> 8) &&& 0xff, ctx.pkt_in.type &&& 0xff,
              ((code % 65536) >>> 8) &&& 0xff, (code % 65536) &&& 0xff]
             ++ text ++ List.replicate (msglen - text.length) 0
  let np := new_packet heap PACKET_RETURN_CODE (msglen + 4) (some buf) 0
  send_packet le np.1 ctx np.2

/-- Function `kick`: clears the handler and enqueues a `SERVER_DISCONNECT` carrying
the first `len` bytes of `msg` (the `shutdown` of the read side has no
counterpart in the model). -/
def kick (le : Bool) (heap : pkt_heap) (ctx : pt_context) (msg : Option (List Nat)) (len : Nat) :
    pkt_heap × pt_context :=
  if ctx.fd < 0 then (heap, ctx)
  else
    let np := new_packet heap PACKET_SERVER_DISCONNECT len msg PACKET_F_COPY
    send_packet le np.1 { ctx with on_packet := none } np.2

/-- Enqueueing one packet object on several connections in turn, as `broadcast`
and as `broadcast_to_room` followed by a `send_packet` to the sender do. -/
def send_packet_each (le : Bool) (a : Nat) : pkt_heap → List pt_context → pkt_heap × List pt_context
  | heap, [] => (heap, [])
  | heap, ctx :: rest =>
    let st := send_packet le heap ctx a
    let r := send_packet_each le a st.1 rest
    (r.1, st.2 :: r.2)

/-! ## hash.h / hash.c -/

def HT_LONG : Nat := 0
def HT_STR : Nat := 1
def HT_PTR : Nat := 2
def HT_MAX : Nat := HT_PTR
def HT_VALUE_DEFAULT : Nat := 0
def HT_STATIC_KEYS : Nat := 0x01
def HT_RESIZE : Nat := 0x10
def HT_DEFAULT_SIZE : Nat := 32
def HT_TOMBSTONE : Nat := 1 <<< 15
def HT_GAP_S : Nat := 7
def HT_GAP_L : Nat := 313
def UINT_MAX : Nat := 4294967295

/-- The `union value` of an entry: zeroed, a long, a (copied) string or a pointer.
A pointer is the address of what it points to (for the registry, the index of
a connection context). -/
inductive ht_value where
  | null
  | long (l : Nat)
  | str (s : List Nat)
  | ptr (p : Nat)
deriving DecidableEq, Repr

/-- `struct entry`.  The key is held by value (with `HT_STATIC_KEYS` the table
stores the caller's pointer; the model assumes the string behind it stays as it
was when stored). -/
structure entry where
  v : ht_value
  h : Nat
  t : Nat
  k : Option (List Nat)
deriving DecidableEq, Repr

/-- An entry as `calloc` leaves it. -/
def entry_zero : entry := ⟨.null, 0, 0, none⟩

/-- `struct ht`; `e` has `capacity` entries. -/
structure ht where
  e : List entry
  gap : Nat
  max_pd : Nat
  size : Nat
  capacity : Nat
  mask : Nat
  flags : Nat
  v : Nat
deriving DecidableEq, Repr

/-- Function `hash`: FNV-1a over the bytes of the key in `unsigned long` (64-bit)
arithmetic, then `(v & ~HT_TOMBSTONE) | 1` returned as `unsigned int`. -/
def hash (s : List Nat) (v : Nat) : Nat :=
  let v0 := if v = 0 then 2166136261 else v
  let v1 := s.foldl (fun v c => ((v ^^^ (c &&& 0xff)) * 16777619) % 18446744073709551616) v0
  ((v1 &&& 0xFFFFFFFFFFFF7FFF) ||| 1) % 4294967296

/-- The probe step `i = (i + (q += ht->gap)) & ht->mask` in `unsigned int`: returns
the new `i` and `q`. -/
def probe_next (t : ht) (i q : Nat) : Nat × Nat :=
  let q1 := (q + t.gap) % 4294967296
  (((i + q1) % 4294967296) &&& t.mask, q1)

/-- The loop of `search` (its `j` stays 1): `none` when the loop has not stopped
after `fuel` turns, `some UINT_MAX` for a miss, `some i` for the slot found. -/
def search_loop (t : ht) (key : List Nat) (h : Nat) : Nat → Nat → Nat → Option Nat
  | 0, _, _ => none
  | fuel + 1, i, q =>
    let ent := t.e.getD i entry_zero
    if ent.h ≠ 0 ∧ 1 ≤ t.max_pd then
      if ent.h = h ∧ ent.k = some key then some i
      else search_loop t key h fuel (probe_next t i q).1 (probe_next t i q).2
    else some UINT_MAX

/-- Function `search`.  The probe sequence is followed for at most `capacity`
turns; `none` stands for a loop that has not stopped by then. -/
def search (t : ht) (key : List Nat) : Option Nat :=
  search_loop t key (hash key t.v) t.capacity ((hash key t.v) &&& t.mask) 0

/-- The probing loop of `insert`: `none` when it has not stopped after `fuel` turns,
otherwise the slot `i`, the depth `j` and whether the key was found there. -/
def insert_loop (t : ht) (key : List Nat) (h : Nat) : Nat → Nat → Nat → Nat → Option (Nat × Nat × Bool)
  | 0, _, _, _ => none
  | fuel + 1, i, j, q =>
    let ent := t.e.getD i entry_zero
    if ent.h &&& 0xFFFF7FFF ≠ 0 then
      if ent.h = h ∧ ent.k = some key then some (i, j, true)
      else insert_loop t key h fuel (probe_next t i q).1 (j + 1) (probe_next t i q).2
    else some (i, j, false)

/-- Function `insert` (its result is always 0 here): a key that is already
present leaves the table as it is; otherwise the entry is written into the
slot found and `size` grows.  `none` stands for a probing loop that does not
stop. -/
def insert (t : ht) (key : List Nat) (v : ht_value) (ty : Nat) : Option ht :=
  match insert_loop t key (hash key t.v) t.capacity ((hash key t.v) &&& t.mask) 1 0 with
  | none => none
  | some (_, _, true) => some t
  | some (i, j, false) =>
    some { t with max_pd := max t.max_pd j,
                  e := t.e.set i ⟨v, hash key t.v, ty % 256, some key⟩,
                  size := (t.size + 1) % 4294967296 }

/-- The re-hashing loop of `resize` over the old entries from index `i` on, with
`j` the count of non-empty old slots seen and `sz` the old `size`. -/
def resize_loop (sz : Nat) : List entry → Nat → ht → Option ht
  | [], _, t => some t
  | ent :: rest, j, t =>
    if j < sz then
      let j1 := if ent.h ≠ 0 then j + 1 else j
      if ent.k = none ∨ ent.h &&& HT_TOMBSTONE ≠ 0 then resize_loop sz rest j1 t
      else
        match insert t (ent.k.getD []) ent.v ent.t with
        | none => none
        | some t1 => resize_loop sz rest j1 t1
    else some t

/-- Function `resize` (allocation succeeds). -/
def resize (t : ht) (capacity : Nat) : Option ht :=
  let capacity := max (capacity % 4294967296) HT_DEFAULT_SIZE
  let t1 : ht :=
    { t with e := List.replicate capacity entry_zero, size := 0, max_pd := 0, capacity := capacity,
             mask := capacity - 1, gap := if capacity > 8000 then HT_GAP_L else HT_GAP_S,
             flags := t.flags ||| HT_RESIZE }
  match resize_loop t.size (t.e.take t.capacity) 0 t1 with
  | none => none
  | some t2 => some { t2 with flags := t2.flags &&& (4294967295 - HT_RESIZE) }

/-- Function `ht_alloc`. -/
def ht_alloc (value flags : Nat) : Option ht :=
  resize ⟨[], HT_GAP_S, 0, 0, 0, 0, flags, value⟩ HT_DEFAULT_SIZE

/-- Function `ht_get`: the outer `none` is a lookup that does not return, the
inner `none` is the `NULL` result (no entry, wrong type or invalid arguments). -/
def ht_get (t : ht) (key : List Nat) (type : Nat) : Option (Option ht_value) :=
  if key = [] ∨ type > HT_MAX then some none
  else
    match search t key with
    | none => none
    | some i =>
      if i = UINT_MAX then some none
      else if (t.e.getD i entry_zero).t ≠ type then some none
      else some (some (t.e.getD i entry_zero).v)

/-- Function `ht_get_ptr_nc`: the pointer stored for the key, or `NULL`. -/
def ht_get_ptr_nc (t : ht) (key : List Nat) : Option (Option Nat) :=
  match ht_get t key HT_PTR with
  | none => none
  | some (some (.ptr p)) => some (some p)
  | some _ => some none

/-- Function `ht_rm`; `none` stands for a call that does not return. -/
def ht_rm (t : ht) (key : List Nat) : Option ht :=
  if key = [] then some t
  else if t.size = 0 then some t
  else
    match search t key with
    | none => none
    | some i =>
      if i = UINT_MAX then some t
      else
        let ent := t.e.getD i entry_zero
        let t1 : ht := { t with size := t.size - 1,
                                e := t.e.set i { ent with k := none, v := .null, h := ent.h ||| HT_TOMBSTONE } }
        if t1.size < t1.capacity >>> 2 then resize t1 (t1.size >>> 1) else some t1

/-- Function `ht_set` for a non-`NULL` value; `none` stands for a call that does
not return. -/
def ht_set (t : ht) (key : List Nat) (type : Nat) (v : ht_value) : Option ht :=
  if key = [] ∨ type > HT_MAX then some t
  else
    let t1 := if t.size > (t.capacity >>> 1) + (t.capacity >>> 2) then resize t (t.capacity <<< 1) else some t
    match t1 with
    | none => none
    | some t1 => insert t1 key v type

/-! ## The persistent store, as far as the login and registration flows use it -/

/-- A row of `users`: every column but `last_login`, which is kept as the log
`last_login_stamps` of the store. -/
structure user_row where
  uid : Int
  nickname : List Nat
  email : List Nat
  first : List Nat
  last : List Nat
  privacy : List Nat
  verified : Int
  random : Int
  paid1 : List Nat
  get_offers_from_us : Int
  get_offers_from_affiliates : Int
  banners : Int
  admin : Int
  sup : Int
  created : List Nat
deriving DecidableEq, Repr

/-- The row `INSERT INTO users(uid, nickname, email) VALUES(..)` creates: the other
columns take the defaults of the schema. -/
def user_row_default (uid : Int) (nickname email : List Nat) : user_row :=
  ⟨uid, nickname, email, [], [], [65], 0, 0, [78], 1, 1, 0, 0, 0, []⟩

/-- A row of `secret_questions`. -/
structure question_row where
  id : Int
  secret_q : List Nat
deriving DecidableEq, Repr

/-- A row of `secrets` (`sq_index`, `sq_answer` may be `NULL`). -/
structure secret_row where
  uid : Int
  password : Option (List Nat)
  sq_index : Option Int
  sq_answer : Option (List Nat)
deriving DecidableEq, Repr

/-- A row of `user_devices`. -/
structure device_row where
  uid : Int
  device_id : List Nat
  logins : Int
deriving DecidableEq, Repr

/-- A row of `buddylist` or of `blocklist`: (uid, buddy). -/
structure buddy_row where
  uid : Int
  buddy : Int
deriving DecidableEq, Repr

/-- A row of `offline_messages`.  `from_uid` may be `NULL`; `tstamp` and `msg` are
declared `NOT NULL`. -/
structure offline_row where
  from_uid : Option Int
  to_uid : Int
  tstamp : List Nat
  msg : List Nat
deriving DecidableEq, Repr

/-- A row of the temporary table `room_users`: (id, uid, req, mic) and the column
`admin` that the queries of room.c name.  The `CREATE` statement of database.c
has no column `admin`; in a store without it those queries cannot be
prepared, which reads as `admin` being 0 in every row. -/
structure room_user_row where
  id : Int
  uid : Int
  req : Int
  mic : Int
  admin : Int
deriving DecidableEq, Repr

/-- A row of `rooms`, as far as room.c writes it: (id, mike, text, video, topic,
topic_setter). -/
structure room_row where
  id : Int
  mike : Int
  text : Int
  video : Int
  topic : Option (List Nat)
  topic_setter : Option Int
deriving DecidableEq, Repr

/-- A row of `room_bans`: (id, uid, banner, ts). -/
structure room_ban_row where
  id : Int
  uid : Int
  banner : Int
  ts : List Nat
deriving DecidableEq, Repr

/-- A row of `room_bounces`: (id, uid, bouncer, reason, ts). -/
structure room_bounce_row where
  id : Int
  uid : Int
  bouncer : Int
  reason : Option (List Nat)
  ts : List Nat
deriving DecidableEq, Repr

/-- The tables read and written by the modelled handlers: `secrets`,
`user_devices`, `users` together with the log of `last_login` stamps (the uids
stamped, oldest first), `buddylist`, `blocklist`, `offline_messages`,
`room_users`, `secret_questions`, `rooms`, `room_bans` and `room_bounces`.  A query
is evaluated over the rows in table order. -/
structure database where
  secrets : List secret_row
  user_devices : List device_row
  users : List user_row
  last_login_stamps : List Int
  buddylist : List buddy_row
  blocklist : List buddy_row
  offline_messages : List offline_row
  room_users : List room_user_row
  secret_questions : List question_row
  rooms : List room_row
  room_bans : List room_ban_row
  room_bounces : List room_bounce_row
deriving DecidableEq, Repr

/-- The uid column of `users`. -/
def database.user_uids (db : database) : List Int := db.users.map (fun r => r.uid)

/-- A text value as the `NOCASE` collation of the store compares it: the 26 upper
case ASCII letters are folded to lower case. -/
def nocase (s : List Nat) : List Nat := s.map (fun b => if 65 ≤ b ∧ b ≤ 90 then b + 32 else b)

/-- The `int` that `db_bind` hands to the store for an `unsigned long` argument
bound with format `i` (`va_arg(ap, int)`): its low 32 bits, signed. -/
def db_int (x : Nat) : Int :=
  if x % 4294967296 < 2147483648 then ((x % 4294967296 : Nat) : Int)
  else ((x % 4294967296 : Nat) : Int) - 4294967296

/-- The password column the store returns for a uid (`SELECT password FROM secrets
WHERE uid=?`), if any. -/
def stored_password (db : database) (uid : Nat) : Option (List Nat) :=
  (db.secrets.find? (fun r => r.uid = db_int uid)).bind (fun r => r.password)

/-- Function `user_check_password`: 1 when the password column of the first
`secrets` row of the uid equals the non-empty string `pw`, else 0. -/
def user_check_password (db : database) (uid : Nat) (pw : Option (List Nat)) : Nat :=
  match pw with
  | none => 0
  | some pw =>
    if pw = [] ∨ UID_IS_ERROR uid then 0
    else
      match stored_password db uid with
      | none => 0
      | some s => if s = pw then 1 else 0

/-- Function `user_check_question_response`. -/
def user_check_question_response (db : database) (uid : Nat) (response : Option (List Nat)) : Nat :=
  match response with
  | none => 0
  | some resp =>
    match (db.secrets.find? (fun r => r.uid = db_int uid)).bind (fun r => r.sq_answer) with
    | none => 0
    | some s => if s = resp then 1 else 0

/-- Function `device_in_list` (devicelist.c): non-zero when `user_devices` has a row
for the session uid and the session's device id (`device_id` is declared
`COLLATE NOCASE`). -/
def device_in_list (db : database) (ctx : pt_context) : Nat :=
  match ctx.device_id with
  | none => 0
  | some d =>
    if (db.user_devices.filter (fun r =>
          decide (r.uid = db_int ctx.uid ∧ nocase r.device_id = nocase (cstr d)))).length ≠ 0
    then 1 else 0

/-- Function `device_add`: inserts (uid, device_id) with the default login count. -/
def device_add (db : database) (ctx : pt_context) : database :=
  match ctx.device_id with
  | none => db
  | some d => { db with user_devices := db.user_devices ++ [⟨db_int ctx.uid, cstr d, 0⟩] }

/-- Function `device_inc_logins`. -/
def device_inc_logins (db : database) (ctx : pt_context) : database :=
  match ctx.device_id with
  | none => db
  | some d =>
    { db with user_devices := db.user_devices.map (fun r =>
        if r.uid = db_int ctx.uid ∧ nocase r.device_id = nocase (cstr d)
        then { r with logins := r.logins + 1 } else r) }

/-- Function `user_logged_in`: stamps `last_login` of the rows of `users` with this uid. -/
def user_logged_in (db : database) (uid : Nat) : database :=
  if UID_IS_ERROR uid then db
  else if db_int uid ∈ db.user_uids then { db with last_login_stamps := db.last_login_stamps ++ [db_int uid] }
  else db

/-! ## The server state and the flows (server.c, server_login.c, server_registration.c) -/

/-- The state of the server process: the packet heap, the connection contexts
(a context pointer is an index into `ctxs`), the `uid_to_context` registry and
the store. -/
structure world where
  heap : pkt_heap
  ctxs : List pt_context
  uid_to_context : ht
  db : database
deriving DecidableEq, Repr

/-- The context at address `c`. -/
def world.ctx (w : world) (c : Nat) : pt_context := w.ctxs.getD c (pt_context_init (-1) 0)

/-- Run an operation on the heap and the context at address `c`. -/
def world.on_ctx (w : world) (c : Nat) (f : pkt_heap → pt_context → pkt_heap × pt_context) : world :=
  { w with heap := (f w.heap (w.ctx c)).1, ctxs := w.ctxs.set c (f w.heap (w.ctx c)).2 }

/-- Tokens of a string as successive `strtok(.., delim)` calls return them: the
maximal runs of bytes other than the delimiter (`cur` is the run being read). -/
def strtok_all (delim : Nat) : List Nat → List Nat → List (List Nat)
  | [], cur => if cur = [] then [] else [cur]
  | b :: rest, cur =>
    if b = delim then
      if cur = [] then strtok_all delim rest [] else cur :: strtok_all delim rest []
    else strtok_all delim rest (cur ++ [b])

/-- Decimal digits of a number, as `sprintf` with `%lu` prints them. -/
def utoa (n : Nat) : List Nat := (Nat.toDigits 10 n).map Char.toNat

/-- Function `atoi`: optional white space, an optional sign, then decimal digits
(the value is not reduced to `int` here). -/
def atoi_digits : List Nat → Int → Int
  | [], acc => acc
  | b :: rest, acc => if 48 ≤ b ∧ b ≤ 57 then atoi_digits rest (acc * 10 + ((b - 48 : Nat) : Int)) else acc

def atoi (s : List Nat) : Int :=
  match s.dropWhile (fun b => b = 32 || (9 ≤ b && b ≤ 13)) with
  | [] => 0
  | b :: rest =>
    if b = 45 then - atoi_digits rest 0
    else if b = 43 then atoi_digits rest 0
    else atoi_digits (b :: rest) 0

/-- The uid the flows read from the first four bytes of the packet body
(`(data[0] & 0xff) << 24 | ..`, an `int`, stored into an `unsigned long`). -/
def packet_uid (p : pt_packet) : Nat :=
  if p.length ≥ 4 then
    let d := p.data.getD []
    let x := (d.getD 0 0 % 256) * 16777216 + (d.getD 1 0 % 256) * 65536
              + (d.getD 2 0 % 256) * 256 + d.getD 3 0 % 256
    if x ≥ 2147483648 then x + 18446744069414584320 else x
  else 0

/-- Function `login_transition`. -/
def login_transition (le : Bool) (heap : pkt_heap) (ctx : pt_context) : pkt_heap × pt_context :=
  let np := new_packet heap PACKET_HELLO 0 none 0
  send_packet le np.1 ctx np.2

/-- The text of the return code sent to version 5 clients by `registration_transition`,
"Press (backquote)Ok' to begin New User registration.". -/
def press_ok : List Nat :=
  [80, 114, 101, 115, 115, 32, 96, 79, 107, 39, 32, 116, 111, 32, 98, 101, 103, 105, 110, 32, 78,
   101, 119, 32, 85, 115, 101, 114, 32, 114, 101, 103, 105, 115, 116, 114, 97, 116, 105, 111,
   110, 46]

/-- Function `registration_transition`; `r1`, `r2`, `r3` are the `rand()` results
`pt_encode_cook_codebook` draws for version 8.2 and later. -/
def registration_transition (le : Bool) (r1 r2 r3 : Nat) (heap : pkt_heap) (ctx : pt_context) :
    pkt_heap × pt_context :=
  let ctx : pt_context := { ctx with protocol_version := ctx.pkt_in.version }
  if ctx.pkt_in.version < PROTOCOL_VERSION_70 then
    if ctx.pkt_in.type ≠ PACKET_PT5_REGISTRATION then
      send_return_code le heap { ctx with pkt_in := { ctx.pkt_in with type := PACKET_PT5_REGISTRATION } }
        1 (some press_ok) 0
    else (heap, ctx)
  else
    let ctx1 : pt_context :=
      if ctx.pkt_in.version ≥ PROTOCOL_VERSION_82 then
        { ctx with cb1_offset := (cook_params r1 r2 r3).1, cb2_step := (cook_params r1 r2 r3).2.1,
                   cb3_step := (cook_params r1 r2 r3).2.2,
                   codebook := cook_codebook (cook_params r1 r2 r3).1 (cook_params r1 r2 r3).2.1
                                 (cook_params r1 r2 r3).2.2 }
      else ctx
    let buf := [(ctx1.challenge >>> 8) &&& 0xff, ctx1.challenge &&& 0xff]
      ++ (if ctx1.pkt_in.version ≥ PROTOCOL_VERSION_82 then
            [(ctx1.cb1_offset >>> 8) &&& 0xff, ctx1.cb1_offset &&& 0xff,
             (ctx1.cb2_step >>> 8) &&& 0xff, ctx1.cb2_step &&& 0xff,
             (ctx1.cb3_step >>> 8) &&& 0xff, ctx1.cb3_step &&& 0xff]
          else [0, 0, 0, 0, 0, 0])
      ++ [0, 0, 0, 0, 0, 0, 0, 0]
    let np := new_packet heap PACKET_DO_REGISTRATION 16 (some buf) PACKET_F_COPY
    send_packet le np.1 ctx1 np.2

/-- Function `transition_to` for the registration flow: the handler is exchanged and
`registration_transition` runs. -/
def transition_to_registration (le : Bool) (r1 r2 r3 : Nat) (heap : pkt_heap) (ctx : pt_context) :
    pkt_heap × pt_context :=
  registration_transition le r1 r2 r3 heap
    { ctx with prev_on_packet := ctx.on_packet, on_packet := some flow.registration_flow }

/-- The `PACKET_REGISTRATION_CHALLENGE` case of `registration_flow`: the body is decoded
with variant 1 and the session challenge, and `ctx->challenge = 1 + atoi(dec)`; a
body that does not decode is answered with `REGISTRATION_FAILED` and a kick. -/
def registration_flow_challenge (le : Bool) (heap : pkt_heap) (ctx : pt_context) :
    pkt_heap × pt_context :=
  match pt_decode_with_challenge ctx.codec 1 ctx.challenge
      (some (cstr (ctx.pkt_in.data.getD []))) with
  | some dec => (heap, { ctx with challenge := to_u16 (1 + atoi (cstr dec)) })
  | none =>
    let np := new_packet heap PACKET_REGISTRATION_FAILED 0 none 0
    let st := send_packet le np.1 ctx np.2
    kick le st.1 st.2 none 0

/-- The `PACKET_REGISTRATION` case of `login_flow` (a packet whose type is not
`PACKET_PT5_REGISTRATION`): the connection moves to the registration flow. -/
def login_flow_registration (le : Bool) (r1 r2 r3 : Nat) (heap : pkt_heap) (ctx : pt_context) :
    pkt_heap × pt_context :=
  transition_to_registration le r1 r2 r3 heap ctx

/-- Outcome of the password check of the `PACKET_LOGIN` case: `pass_ok`. -/
def login_pass_ok (db : database) (ctx : pt_context) : Nat :=
  match pt_decode_with_challenge ctx.codec 1 ctx.challenge
      ((strtok_all 10 (cstr ((ctx.pkt_in.data.getD []).drop 4)) []).head?) with
  | some buf => user_check_password db ctx.uid (some (cstr buf))
  | none => 0

/-- Little-endian form of the address `inet_addr` returned (the four byte swaps
of the `PACKET_LOGIN` case). -/
def swap_ip (ip : Nat) : Nat :=
  (((ip % 4294967296) <<< 24) &&& 0xff000000) ||| (((ip % 4294967296) <<< 8) &&& 0x00ff0000)
    ||| (((ip % 4294967296) >>> 8) &&& 0x0000ff00) ||| (((ip % 4294967296) >>> 24) &&& 0x000000ff)

/-- The success part of the `PACKET_LOGIN` case (from `device_inc_logins` on): the
uid string is printed, whatever connection the registry holds for it is
kicked with the multi-login message, `ht_set` is called for this connection,
`LOGIN_SUCCESS` is enqueued and `last_login` is stamped. -/
def login_success (le : Bool) (w : world) (c : Nat) : Option world :=
  let w1 : world := { w with db := device_inc_logins w.db (w.ctx c) }
  let w2 : world := w1.on_ctx c (fun heap ctx => (heap, { ctx with uid_str := utoa ctx.uid }))
  match ht_get_ptr_nc w2.uid_to_context (w2.ctx c).uid_str with
  | none => none
  | some incumbent =>
    let w3 : world := match incumbent with
      | none => w2
      | some o => w2.on_ctx o (fun heap ctx => kick le heap ctx (some multi_login) MULTI_LOGIN_LEN)
    match ht_set w3.uid_to_context (w3.ctx c).uid_str HT_PTR (.ptr c) with
    | none => none
    | some t =>
      let w4 : world := { w3 with uid_to_context := t }
      let w5 : world := w4.on_ctx c (fun heap ctx =>
        send_packet le (new_packet heap PACKET_LOGIN_SUCCESS 0 none 0).1 ctx
          (new_packet heap PACKET_LOGIN_SUCCESS 0 none 0).2)
      some { w5 with db := user_logged_in w5.db (w5.ctx c).uid }

/-- The `PACKET_LOGIN` case of `login_flow` for the connection at address `c`.
`inet_addr` is the C library function; the transition to the registration flow
for the "newuser" uid draws `r1`, `r2`, `r3` from `rand()`.  `none` stands for a
registry call that does not return. -/
def login_flow_login (le : Bool) (inet_addr : List Nat → Nat) (r1 r2 r3 : Nat) (w : world) (c : Nat) :
    Option world :=
  let ctx := w.ctx c
  let uid := packet_uid ctx.pkt_in
  if uid ≠ ctx.uid ∨ ctx.uid = 0 ∨ UID_IS_ERROR ctx.uid then
    some (w.on_ctx c (fun heap ctx => send_return_code le heap ctx 0x63 (some unknown_user) 0))
  else if ctx.uid = UID_NEWUSER then
    some (w.on_ctx c (transition_to_registration le r1 r2 r3))
  else if login_pass_ok w.db ctx = 0 then
    some (w.on_ctx c (fun heap ctx => send_return_code le heap ctx 0x63 (some bad_password) BAD_PASSWORD_LEN))
  else
    let toks := strtok_all 10 (cstr ((ctx.pkt_in.data.getD []).drop 4)) []
    let w1 : world :=
      match pt_decode_with_challenge ctx.codec 2 ctx.challenge (toks.get? 1) with
      | some buf => w.on_ctx c (fun heap ctx => (heap, { ctx with server_ip := swap_ip (inet_addr (cstr buf)) }))
      | none => w
    match pt_decode_with_challenge ctx.codec 1 ctx.challenge (toks.get? 2) with
    | some buf =>
      if user_check_question_response w1.db ctx.uid (some (cstr buf)) = 0 then
        some (w1.on_ctx c (fun heap ctx =>
          send_return_code le heap ctx 0x63 (some bad_password) BAD_PASSWORD_LEN))
      else
        login_success le
          (if toks.get? 3 = some [97, 100, 100] then { w1 with db := device_add w1.db (w1.ctx c) } else w1) c
    | none => login_success le w1 c

/-- The reaping of the connection at address `c` by `poll_sockets`, as far as the
registry is concerned: `if (*ctx->uid_str) ht_rm(uid_to_context, ctx->uid_str)`. -/
def reap_registry (w : world) (c : Nat) : Option world :=
  if (w.ctx c).uid_str ≠ [] then
    match ht_rm w.uid_to_context (w.ctx c).uid_str with
    | none => none
    | some t => some { w with uid_to_context := t }
  else some w

/-- The iovecs `send_packet` appends for the packet at address `a` whose body has
`len` bytes. -/
def frame_iovecs (a len : Nat) : List iovec :=
  if len ≠ 0 then [⟨a, .type, 0, 2⟩, ⟨a, .version, 0, 2⟩, ⟨a, .length, 0, 2⟩, ⟨a, .data, 0, len⟩]
  else [⟨a, .type, 0, 2⟩, ⟨a, .version, 0, 2⟩, ⟨a, .length, 0, 2⟩]


/-! ## Concrete states used by the witnesses and the failing inputs -/

/-- The `users` row of `uid` with nickname "u" followed by the uid, email "e" and the
defaults of the schema. -/
def example_user (uid : Int) : user_row := user_row_default uid (117 :: utoa uid.toNat) [101]

/-- A store with the single user 42 whose password is "pw". -/
def example_db : database :=
  ⟨[⟨42, some [112, 119], some 0, none⟩], [], [example_user 42], [], [], [], [], [], [], [], [], []⟩

/-- A connection that has logged in as uid 42 and is in the general flow. -/
def example_incumbent : pt_context :=
  { pt_context_init 3 0 with
    uid := 42
    uid_str := [52, 50]
    on_packet := some flow.general_flow }

/-- A connection in the login flow for uid 42 (challenge 1, protocol version
0x0053) that has just received a `LOGIN` packet whose body is the uid followed
by `field`. -/
def example_login (field : List Nat) : pt_context :=
  { pt_context_init 4 0 with
    uid := 42
    protocol_version := 0x53
    on_packet := some flow.login_flow
    pkt_in := ⟨PACKET_LOGIN, 0x53, 4 + field.length, some ([0, 0, 0, 42] ++ field), 0, 0, 0⟩ }

/-- The registry after `ht_alloc(HT_VALUE_DEFAULT, HT_STATIC_KEYS)` and the
`ht_set` of key "42" for the context at address 0 (both calls return). -/
def example_registry : ht :=
  ((ht_alloc HT_VALUE_DEFAULT HT_STATIC_KEYS).bind
    (fun t => ht_set t [52, 50] HT_PTR (.ptr 0))).getD ⟨[], HT_GAP_S, 0, 0, 0, 0, HT_STATIC_KEYS, 0⟩

/-- The server state with `example_incumbent` at address 0, registered under "42",
and `example_login field` at address 1. -/
def example_world (field : List Nat) : world :=
  ⟨[], [example_incumbent, example_login field], example_registry, example_db⟩

/-- Variant 1 encoding of "pw" with challenge 1: "33903632". -/
def example_pw_ok : List Nat := [51, 51, 57, 48, 51, 54, 51, 50]

/-- Variant 1 encoding of "nope" with challenge 1: "3370355235933541". -/
def example_pw_bad : List Nat := [51, 51, 55, 48, 51, 53, 53, 50, 51, 53, 57, 51, 51, 53, 52, 49]

/-- A fresh connection (challenge 1) in the login flow that has received a
`REGISTRATION` packet of protocol version 0x0053. -/
def example_registering : pt_context :=
  { pt_context_init 5 0 with
    on_packet := some flow.login_flow
    pkt_in := ⟨PACKET_REGISTRATION, 0x53, 0, none, 0, 0, 0⟩ }

/-- A `REGISTRATION_CHALLENGE` packet whose body is the variant 1 encoding of "999"
with challenge 1: "284030123043". -/
def example_challenge_packet : pt_packet :=
  ⟨PACKET_REGISTRATION_CHALLENGE, 0x53, 12, some [50, 56, 52, 48, 51, 48, 49, 50, 51, 48, 52, 51], 0, 0, 0⟩

/-- A connection in the login flow on which one `HELLO` packet with a 10-byte body has
been allocated and enqueued (little-endian host): 16 bytes are queued. -/
def example_hello_queued : pkt_heap × pt_context :=
  send_packet true
    (new_packet [] PACKET_HELLO 10 (some [1, 2, 3, 4, 5, 6, 7, 8, 9, 10]) PACKET_F_COPY).1
    { pt_context_init 3 0 with on_packet := some flow.login_flow } 0

/-! ## buddylist.c, room.c and the general flow (server_general.c) -/

def PACKET_IM_OUT : Nat := 0xffec
def PACKET_IM_IN : Nat := 0x0014
def PACKET_BUDDY_STATUSCHANGE : Nat := 0x0190
def PACKET_NUDGE_IN : Nat := 0x0085
def STATUS_BLOCKED : Nat := 0xffffffff
def STATUS_OFFLINE : Nat := 0x00000000
def STATUS_ONLINE : Nat := 0x0000001e
def STATUSMSG_MAX : Nat := 50
def UID_MIN : Nat := 2
def NXUSER_LEN : Nat := 12

/-- The text "No such user". -/
def nxuser : List Nat := [78, 111, 32, 115, 117, 99, 104, 32, 117, 115, 101, 114]

/-- An `unsigned long` value read as a `long`: what `%ld` prints for it. -/
def long_of (x : Nat) : Int :=
  if x % 18446744073709551616 < 9223372036854775808 then ((x % 18446744073709551616 : Nat) : Int)
  else ((x % 18446744073709551616 : Nat) : Int) - 18446744073709551616

/-- A `long` value converted to `unsigned long`. -/
def ulong_of (x : Int) : Nat := (x % 18446744073709551616).toNat

/-- Decimal text of an integer, as `%ld` prints it and as the store returns an
integer column to a `db_exec` callback. -/
def itoa (x : Int) : List Nat := if x < 0 then 45 :: utoa (-x).toNat else utoa x.toNat

/-- The four bytes `(x >> 24) & 0xff`, `(x >> 16) & 0xff`, `(x >> 8) & 0xff`, `x & 0xff`. -/
def be32 (x : Nat) : List Nat :=
  [(x >>> 24) &&& 0xff, (x >>> 16) &&& 0xff, (x >>> 8) &&& 0xff, x &&& 0xff]

/-- Function `i_blocked_user`: non-zero if `uid` is on the blocklist of `ctx`
(`SELECT COUNT(*) FROM blocklist WHERE uid=? AND buddy=?` bound to `ctx->uid`, `uid`). -/
def i_blocked_user (db : database) (ctx : pt_context) (uid : Nat) : Nat :=
  if (db.blocklist.filter (fun r =>
        decide (r.uid = db_int ctx.uid ∧ r.buddy = db_int uid))).length % 4294967296 ≠ 0
  then 1 else 0

/-- Function `user_blocked_me`: non-zero if `ctx` is on the blocklist of `uid`
(the same query bound to `uid`, `ctx->uid`). -/
def user_blocked_me (db : database) (ctx : pt_context) (uid : Nat) : Nat :=
  if (db.blocklist.filter (fun r =>
        decide (r.uid = db_int uid ∧ r.buddy = db_int ctx.uid))).length % 4294967296 ≠ 0
  then 1 else 0

/-- Function `user_exists` (user.c): the number of `users` rows with this uid, 0 for
an error uid, a uid below `UID_MIN` and the "newuser" uid. -/
def user_exists (db : database) (uid : Nat) : Nat :=
  if UID_IS_ERROR uid ∨ uid < UID_MIN ∨ uid = UID_NEWUSER then 0
  else (db.user_uids.filter (fun u => decide (u = db_int uid))).length % 4294967296

/-- Function `db_exec` with a callback that returns 0: the callback runs once for
every result row, in order.  `none` stands for a callback that does not return. -/
def db_exec_each {α : Type} (cb : world → α → Option world) : List α → world → Option world
  | [], w => some w
  | r :: rest, w =>
    match cb w r with
    | none => none
    | some w1 => db_exec_each cb rest w1

/-- Function `send_buddy_status`, the callback of `buddy_statuses` for the connection at
address `c`; `val0` is the `buddy` column of the row.  The status sent is
`STATUS_BLOCKED` if `ctx` has the buddy on its blocklist, otherwise the status
of the connection the registry holds for the buddy (followed, for a status
other than online and a version 8.2 packet, by at most 50 bytes of its status
message), otherwise `STATUS_OFFLINE`. -/
def send_buddy_status (le : Bool) (c : Nat) (w : world) (val0 : Int) : Option world :=
  let ctx := w.ctx c
  let uid := ulong_of val0
  let uid_str := itoa (long_of uid)
  if i_blocked_user w.db ctx uid ≠ 0 then
    some (w.on_ctx c (fun heap ctx =>
      send_packet le
        (new_packet heap PACKET_BUDDY_STATUSCHANGE 8 (some (be32 uid ++ be32 STATUS_BLOCKED))
          PACKET_F_COPY).1 ctx
        (new_packet heap PACKET_BUDDY_STATUSCHANGE 8 (some (be32 uid ++ be32 STATUS_BLOCKED))
          PACKET_F_COPY).2))
  else
    match ht_get_ptr_nc w.uid_to_context uid_str with
    | none => none
    | some none =>
      some (w.on_ctx c (fun heap ctx =>
        send_packet le
          (new_packet heap PACKET_BUDDY_STATUSCHANGE 8 (some (be32 uid ++ be32 STATUS_OFFLINE))
            PACKET_F_COPY).1 ctx
          (new_packet heap PACKET_BUDDY_STATUSCHANGE 8 (some (be32 uid ++ be32 STATUS_OFFLINE))
            PACKET_F_COPY).2))
    | some (some b) =>
      let buddy := w.ctx b
      let msg : List Nat :=
        if buddy.status ≠ STATUS_ONLINE ∧ ctx.pkt_in.version ≥ PROTOCOL_VERSION_82 then
          match buddy.status_msg with
          | some m => (cstr m).take STATUSMSG_MAX
          | none => []
        else []
      some (w.on_ctx c (fun heap ctx =>
        send_packet le
          (new_packet heap PACKET_BUDDY_STATUSCHANGE (8 + msg.length)
            (some (be32 uid ++ be32 buddy.status ++ msg)) PACKET_F_COPY).1 ctx
          (new_packet heap PACKET_BUDDY_STATUSCHANGE (8 + msg.length)
            (some (be32 uid ++ be32 buddy.status ++ msg)) PACKET_F_COPY).2))

/-- Function `buddy_statuses` for the connection at address `c`:
`SELECT buddy FROM buddylist WHERE uid=<ctx uid>` with `send_buddy_status` as callback. -/
def buddy_statuses (le : Bool) (w : world) (c : Nat) : Option world :=
  db_exec_each (send_buddy_status le c)
    ((w.db.buddylist.filter (fun r => decide (r.uid = long_of (w.ctx c).uid))).map (fun r => r.buddy)) w

/-- The body of the `BUDDY_STATUSCHANGE` for the buddy `uid` as the amended C16 words it
(written from the claim, to be compared with `send_buddy_status`): the uid, then
`STATUS_BLOCKED` when the receiving user blocks the buddy; otherwise the status of
the connection `buddy` the registry holds for the buddy, followed by at most 50
bytes of its status message when that status is not online and the packet being
handled has version 8.2 or later; otherwise, with no such connection,
`STATUS_OFFLINE`.  Whether the buddy blocks the receiving user plays no part. -/
def buddy_status_body (uid : Nat) (blocked : Bool) (buddy : Option pt_context) (version : Nat) :
    List Nat :=
  if blocked then be32 uid ++ be32 STATUS_BLOCKED
  else
    match buddy with
    | none => be32 uid ++ be32 STATUS_OFFLINE
    | some b =>
      be32 uid ++ be32 b.status
        ++ (if b.status ≠ STATUS_ONLINE ∧ version ≥ PROTOCOL_VERSION_82 then
              match b.status_msg with
              | some m => (cstr m).take STATUSMSG_MAX
              | none => []
            else [])

/-- What `send_buddy_status` leaves unchanged, and what it reads of the world. -/
def buddy_listing_same (w w1 : world) : Prop :=
  w1.db = w.db ∧ w1.uid_to_context = w.uid_to_context ∧ w1.ctxs.length = w.ctxs.length
    ∧ ∀ k, (w1.ctx k).status = (w.ctx k).status ∧ (w1.ctx k).status_msg = (w.ctx k).status_msg
        ∧ (w1.ctx k).uid = (w.ctx k).uid ∧ (w1.ctx k).pkt_in = (w.ctx k).pkt_in

/-- Function `can_send_to_user`: the heap and context afterwards (a recipient that
does not exist is answered with a return code) and the result. -/
def can_send_to_user (le : Bool) (db : database) (heap : pkt_heap) (ctx : pt_context) (uid : Nat) :
    (pkt_heap × pt_context) × Nat :=
  if user_exists db uid = 0 then
    (send_return_code le heap ctx 0x63 (some nxuser) NXUSER_LEN, 0)
  else ((heap, ctx), c_not (i_blocked_user db ctx uid ||| user_blocked_me db ctx uid))

/-- Function `store_offline_message`; `now` is the value of `datetime(now, subsec)`.
The insert is dropped on a conflict with the primary key (from_uid, to_uid,
tstamp) and fails when one of the two uids has no row in `users` (foreign keys
are enforced). -/
def store_offline_message (db : database) (ctx : pt_context) (uid : Nat) (msg : List Nat)
    (now : List Nat) : database :=
  if db_int ctx.uid ∈ db.user_uids ∧ db_int uid ∈ db.user_uids
      ∧ ¬ (∃ r ∈ db.offline_messages,
            r.from_uid = some (db_int ctx.uid) ∧ r.to_uid = db_int uid ∧ r.tstamp = now)
  then { db with offline_messages := db.offline_messages ++ [⟨some (db_int ctx.uid), db_int uid, now, msg⟩] }
  else db

/-- The `PACKET_IM_OUT` case of `general_flow` for the connection at address `c`.  The
array `buf` the registry is looked up with is not written before the lookup in
this case: `buf` is what the 256 bytes of stack happen to hold.  `now` is the
clock of the store.  `none` stands for a registry call that does not return. -/
def general_flow_im_out (le : Bool) (buf : List Nat) (now : List Nat) (w : world) (c : Nat) :
    Option world :=
  let ctx := w.ctx c
  let uid := packet_uid ctx.pkt_in
  let r := can_send_to_user le w.db w.heap ctx uid
  let w1 : world := { w with heap := r.1.1, ctxs := w.ctxs.set c r.1.2 }
  if r.2 = 0 then some w1
  else
    match ht_get_ptr_nc w1.uid_to_context (cstr buf) with
    | none => none
    | some none =>
      some { w1 with db := store_offline_message w1.db ctx uid
                            (cstr ((ctx.pkt_in.data.getD []).drop 4)) now }
    | some (some target) =>
      let data := be32 ctx.uid ++ (ctx.pkt_in.data.getD []).drop 4
      let w2 : world := w1.on_ctx c (fun heap ctx =>
        (heap, { ctx with pkt_in := { ctx.pkt_in with data := some data } }))
      let w3 : world := w2.on_ctx target (fun heap t =>
        send_packet le (new_packet heap PACKET_IM_IN ctx.pkt_in.length (some data) 0).1 t
          (new_packet heap PACKET_IM_IN ctx.pkt_in.length (some data) 0).2)
      some (w3.on_ctx c (fun heap ctx => (heap, { ctx with pkt_in := { ctx.pkt_in with length := 0 } })))

/-- Function `relay_offline_message`, the callback of the last query of
`general_transition` for the connection at address `c`: a row whose sender is on the
blocklist of `ctx` (or is `NULL`) is skipped, any other row is sent as an
`IM_IN` whose body is the sender uid and the text
"<<(tstamp UTC)>>msg". -/
def relay_offline_message (le : Bool) (c : Nat) (w : world) (row : offline_row) : world :=
  match row.from_uid with
  | none => w
  | some f =>
    if i_blocked_user w.db (w.ctx c) (ulong_of f) ≠ 0 then w
    else
      w.on_ctx c (fun heap ctx =>
        send_packet le
          (new_packet heap PACKET_IM_IN (14 + (cstr row.tstamp).length + (cstr row.msg).length)
            (some (be32 (ulong_of f) ++ [60, 60, 40] ++ cstr row.tstamp
                    ++ [32, 85, 84, 67, 41, 62, 62] ++ cstr row.msg)) 0).1 ctx
          (new_packet heap PACKET_IM_IN (14 + (cstr row.tstamp).length + (cstr row.msg).length)
            (some (be32 (ulong_of f) ++ [60, 60, 40] ++ cstr row.tstamp
                    ++ [32, 85, 84, 67, 41, 62, 62] ++ cstr row.msg)) 0).2)

/-- The last block of `general_transition` ("Relay offline messages") for the
connection at address `c`: `relay_offline_message` runs for every row of
`SELECT from_uid, tstamp, msg FROM offline_messages WHERE to_uid=<ctx uid>`, then
`DELETE FROM offline_messages WHERE to_uid=<ctx uid>` is executed. -/
def general_transition_relay (le : Bool) (w : world) (c : Nat) : world :=
  let w1 := (w.db.offline_messages.filter (fun r => decide (r.to_uid = long_of (w.ctx c).uid))).foldl
    (relay_offline_message le c) w
  { w1 with db := { w1.db with offline_messages :=
      w1.db.offline_messages.filter (fun r => decide (r.to_uid ≠ long_of (w1.ctx c).uid)) } }

/-- Function `user_in_room` (room.c): `return 1 || !!db_get_count(in_room)`. -/
def user_in_room (db : database) (rid uid : Nat) : Nat :=
  if (1 : Nat) ≠ 0 ∨ (db.room_users.filter (fun r =>
        decide (r.id = db_int rid ∧ r.uid = db_int uid))).length % 4294967296 ≠ 0
  then 1 else 0

/-- Function `broadcast_to_room_cb` for the packet at address `a`; `val0` is the `uid`
column of the row.  A uid without a registry entry is skipped, and so is, for a
packet whose type field reads `PACKET_NUDGE_IN`, a connection whose protocol
version is not 8.2. -/
def broadcast_to_room_cb (le : Bool) (a : Nat) (w : world) (val0 : Int) : Option world :=
  match ht_get_ptr_nc w.uid_to_context (itoa val0) with
  | none => none
  | some none => some w
  | some (some k) =>
    match w.heap.getD a none with
    | none => some w
    | some pkt =>
      if pkt.type = PACKET_NUDGE_IN ∧ (w.ctx k).protocol_version ≠ PROTOCOL_VERSION_82 then some w
      else some (w.on_ctx k (fun heap ctx => send_packet le heap ctx a))

/-- Function `broadcast_to_room` for the sender at address `c`, the room `rid` and the
packet at address `a`: `SELECT uid FROM room_users WHERE id=<rid> AND uid<>(ctx uid)`
with `broadcast_to_room_cb` as callback. -/
def broadcast_to_room (le : Bool) (w : world) (c : Nat) (rid : Nat) (a : Nat) : Option world :=
  if user_in_room w.db rid (w.ctx c).uid = 0 then some w
  else
    db_exec_each (broadcast_to_room_cb le a)
      ((w.db.room_users.filter (fun r =>
          decide (r.id = long_of rid ∧ r.uid ≠ long_of (w.ctx c).uid))).map (fun r => r.uid)) w

/-- The packets a connection has queued: `pkts_out[0 .. npkts_out)`. -/
def pkts_queued (ctx : pt_context) : List Nat := (ctx.pkts_out.getD []).take ctx.npkts_out

/-- A store with the single user 42 (password "pw", secret answer "blue") whose
device list holds the device "old". -/
def example_db_secret : database :=
  ⟨[⟨42, some [112, 119], some 1, some [98, 108, 117, 101]⟩], [⟨42, [111, 108, 100], 3⟩],
   [example_user 42], [], [], [], [], [], [], [], [], []⟩

/-- The empty registry `ht_alloc(HT_VALUE_DEFAULT, HT_STATIC_KEYS)` returns. -/
def example_registry_empty : ht :=
  (ht_alloc HT_VALUE_DEFAULT HT_STATIC_KEYS).getD ⟨[], HT_GAP_S, 0, 0, 0, 0, HT_STATIC_KEYS, 0⟩

/-- The only connection, in the login flow for uid 42 from the device "dev", has
received a `LOGIN` packet whose body is the uid followed by `field`; nobody is
logged in. -/
def example_world_device (field : List Nat) : world :=
  ⟨[], [{ example_login field with device_id := some [100, 101, 118] }], example_registry_empty,
   example_db_secret⟩

/-- The `LOGIN` fields "33903632", "x" and "abc": the encoded password, a
server address that does not decode and a response that does not decode. -/
def example_fields_undecodable : List Nat :=
  example_pw_ok ++ [10, 120, 10, 97, 98, 99]

/-- The `LOGIN` fields "33903632", "x" and the encoding of "nope": a response that
decodes to a wrong answer. -/
def example_fields_wrong : List Nat :=
  example_pw_ok ++ [10, 120, 10] ++ example_pw_bad

/-- A table with copied keys after `ht_set(t, "a", HT_LONG, &one)` with `one = 1`. -/
def example_table_a : ht :=
  ((ht_alloc HT_VALUE_DEFAULT 0).bind (fun t => ht_set t [97] HT_LONG (.long 1))).getD
    ⟨[], HT_GAP_S, 0, 0, 0, 0, 0, 0⟩

/-- The registry with uid 7 registered for the context at address 0 and uid 9 for
the context at address 1. -/
def example_registry_two : ht :=
  (((ht_alloc HT_VALUE_DEFAULT HT_STATIC_KEYS).bind (fun t => ht_set t [55] HT_PTR (.ptr 0))).bind
    (fun t => ht_set t [57] HT_PTR (.ptr 1))).getD ⟨[], HT_GAP_S, 0, 0, 0, 0, HT_STATIC_KEYS, 0⟩

/-- A connection logged in as `uid` with the given status, in the general flow,
protocol version 0x0053. -/
def example_online (fd : Int) (uid : Nat) (status : Nat) : pt_context :=
  { pt_context_init fd 0 with
    uid := uid
    uid_str := utoa uid
    status := status
    protocol_version := 0x53
    on_packet := some flow.general_flow }

/-- Users 7 (A) and 9 (B) are on each other's buddy list and B is on A's
blocklist; both are logged in, A with status online (0x1e). -/
def example_world_buddies : world :=
  ⟨[], [example_online 3 7 STATUS_ONLINE, example_online 4 9 STATUS_ONLINE], example_registry_two,
   ⟨[], [], [example_user 7, example_user 9], [], [⟨7, 9⟩, ⟨9, 7⟩], [⟨7, 9⟩], [], [], [], [], [],
    []⟩⟩

/-- Users 7 and 9 are logged in (addresses 0 and 1), 11 is not; `blocklist` is the
given one; user 7 has just sent `pkt`. -/
def example_world_im (blocklist : List buddy_row) (pkt : pt_packet) : world :=
  ⟨[], [{ example_online 3 7 STATUS_ONLINE with pkt_in := pkt }, example_online 4 9 STATUS_ONLINE],
   example_registry_two,
   ⟨[], [], [example_user 7, example_user 9, example_user 11], [], [], blocklist, [], [], [], [],
    [], []⟩⟩

/-- An `IM_OUT` packet to uid 9 with the text "hi". -/
def example_im_out : pt_packet :=
  ⟨PACKET_IM_OUT, 0x53, 6, some [0, 0, 0, 9, 104, 105], 0, 0, 0⟩

/-- The text "2024-01-01 00:00:00.000". -/
def example_now : List Nat :=
  [50, 48, 50, 52, 45, 48, 49, 45, 48, 49, 32, 48, 48, 58, 48, 48, 58, 48, 48, 46, 48, 48, 48]

/-- Users 7, 9 and 11 are in room 100 and 9 is also in room 200; 7 and 9 are logged
in (addresses 0 and 1, protocol version 0x0053); the heap holds one packet of
the given type with an 8-byte body. -/
def example_world_room (type : Nat) : world :=
  ⟨(new_packet [] type 8 (some [0, 0, 0, 100, 0, 0, 0, 7]) PACKET_F_COPY).1,
   [example_online 3 7 STATUS_ONLINE, example_online 4 9 STATUS_ONLINE], example_registry_two,
   ⟨[], [], [example_user 7, example_user 9, example_user 11], [], [], [], [],
    [⟨100, 7, 0, 0, 0⟩, ⟨100, 9, 0, 0, 0⟩, ⟨100, 11, 0, 0, 0⟩, ⟨200, 9, 0, 0, 0⟩], [], [], [], []⟩⟩

/-- The type field and the body of every object in the packet heap. -/
def heap_view (w : world) : List (Option (Nat × Option (List Nat))) :=
  w.heap.map (fun p => p.map (fun q => (q.type, q.data)))

/-- The `pkts_out` array of the connection at address `k`. -/
def queue_view (k : Nat) (w : world) : Option (List Nat) := (w.ctx k).pkts_out

/-! ## Sequences of calls on a table -/

/-- One call on a table of pointers: `ht_set(ht, key, HT_PTR, p)` with a non-`NULL`
pointer `p`, or `ht_rm(ht, key)`. -/
inductive ht_call where
  | set (key : List Nat) (p : Nat)
  | rm (key : List Nat)
deriving DecidableEq, Repr

/-- The table after one call (`none`: the call does not return). -/
def ht_call.run (t : ht) : ht_call → Option ht
  | .set key p => ht_set t key HT_PTR (.ptr p)
  | .rm key => ht_rm t key

/-- The table after a sequence of calls, first call first. -/
def ht_calls : List ht_call → ht → Option ht
  | [], t => some t
  | o :: rest, t => (o.run t).bind (ht_calls rest)

/-- The table reached from `ht_alloc(HT_VALUE_DEFAULT, HT_STATIC_KEYS)` by a sequence
of calls that all return. -/
def ht_reach (calls : List ht_call) : Option ht :=
  (ht_alloc HT_VALUE_DEFAULT HT_STATIC_KEYS).bind (ht_calls calls)

/-- Capacity, mask and size of a table. -/
def ht_shape (t : ht) : Nat × Nat × Nat := (t.capacity, t.mask, t.size)

/-- Nine keys "a" .. "i" are stored, then the key "x" is stored and removed 23 times. -/
def example_churn_calls : List ht_call :=
  (List.range 9).map (fun n => ht_call.set [97 + n] n)
    ++ (List.replicate 23 [ht_call.set [120] 99, ht_call.rm [120]]).flatten

/-- The table after `example_churn_calls`. -/
def example_table_churn : ht :=
  (ht_reach example_churn_calls).getD ⟨[], HT_GAP_S, 0, 0, 0, 0, HT_STATIC_KEYS, 0⟩

/-- Keys removed first in `example_shrink_calls` (as numbers, stored under their
decimal strings). -/
def example_shrink_removed : List Nat :=
  [166, 84, 75, 38, 69, 56, 28, 179, 95, 67, 128, 138, 155, 144, 181, 37, 51, 101, 172, 60, 47,
   121, 152, 3, 10, 184, 133, 71, 32, 80, 104, 26, 162, 91, 114, 4, 169, 74, 134, 85, 55, 94, 29,
   64, 176, 125, 156, 143, 139, 180, 190, 50, 36, 22, 173, 40, 110, 0, 61, 17, 100, 70, 120, 130,
   165, 153]

/-- Pairs (key stored, key removed) of the third part of `example_shrink_calls`. -/
def example_shrink_exchanged : List (Nat × Nat) :=
  [(1002, 81), (1003, 115), (1006, 158), (1007, 59), (1009, 90), (1011, 27), (1017, 5),
   (1033, 77), (1034, 135), (1044, 149), (1048, 109), (1051, 79), (1054, 86), (1058, 147),
   (1067, 168), (1068, 54), (1069, 177), (1072, 88), (1091, 157), (1097, 99), (1106, 124),
   (1109, 44), (1170, 161), (1185, 142), (1206, 187), (1250, 13), (1251, 31), (1280, 65),
   (1316, 191), (1345, 107)]

/-- 320 calls with decimal keys: "0" .. "193" are stored (the table grows to
capacity 512), 66 keys are removed (size 128), then 30 times a new key is
stored and an old one removed (size 128 after each pair). -/
def example_shrink_calls : List ht_call :=
  (List.range 194).map (fun n => ht_call.set (utoa n) n)
    ++ example_shrink_removed.map (fun n => ht_call.rm (utoa n))
    ++ (example_shrink_exchanged.map
          (fun p => [ht_call.set (utoa p.1) p.1, ht_call.rm (utoa p.2)])).flatten

/-! ## A long sequence of calls evaluated in parts -/

/-- The first turns of the loop of `resize`, over the old entries given: the count
`j` and the new table after them (`resize_loop` on a part of the old entries,
without the turns that follow). -/
def resize_steps (sz : Nat) : List entry → Nat → ht → Option (Nat × ht)
  | [], j, t => some (j, t)
  | ent :: rest, j, t =>
    if j < sz then
      let j1 := if ent.h ≠ 0 then j + 1 else j
      if ent.k = none ∨ ent.h &&& HT_TOMBSTONE ≠ 0 then resize_steps sz rest j1 t
      else
        match insert t (ent.k.getD []) ent.v ent.t with
        | none => none
        | some t1 => resize_steps sz rest j1 t1
    else some (j, t)

/-- The entry that `ht_set(ht, key, HT_PTR, n)` writes for the decimal string of `n`
as key, and what `ht_rm` makes of it (`dead`). -/
def example_cell (n : Nat) (dead : Bool) : entry :=
  if dead then ⟨.null, hash (utoa n) 0 ||| HT_TOMBSTONE, HT_PTR, none⟩
  else ⟨.ptr n, hash (utoa n) 0, HT_PTR, some (utoa n)⟩

/-- The entries of `k` slots from slot `i` on at a given time, from the history of
the used slots in slot order: slot, number stored, time of the insertion and time
of the removal (0: never). -/
def example_entries (time : Nat) : Nat → Nat → List (Nat × Nat × Nat × Nat) → List entry
  | 0, _, _ => []
  | k + 1, i, [] => entry_zero :: example_entries time k (i + 1) []
  | k + 1, i, (s, n, born, died) :: rest =>
    if s = i then
      (if born ≤ time then example_cell n (decide (died ≠ 0 ∧ died ≤ time)) else entry_zero)
        :: example_entries time k (i + 1) rest
    else entry_zero :: example_entries time k (i + 1) ((s, n, born, died) :: rest)

/-- The table of the given capacity (at most 8000) at a given time, from the
history of its slots. -/
def example_state (capacity : Nat) (cells : List (Nat × Nat × Nat × Nat))
    (time max_pd flags : Nat) : ht :=
  { e := example_entries time capacity 0 cells,
    gap := HT_GAP_S,
    max_pd := max_pd,
    size := (cells.filter (fun c => decide (c.2.2.1 ≤ time ∧ ¬ (c.2.2.2 ≠ 0 ∧ c.2.2.2 ≤ time)))).length,
    capacity := capacity,
    mask := capacity - 1,
    flags := flags,
    v := HT_VALUE_DEFAULT }

/-- Equality of two values of an entry, as a Boolean. -/
def ht_value.same : ht_value → ht_value → Bool
  | .null, .null => true
  | .long a, .long b => a == b
  | .str a, .str b => a == b
  | .ptr a, .ptr b => a == b
  | _, _ => false

/-- Equality of two keys, as a Boolean. -/
def key_same : Option (List Nat) → Option (List Nat) → Bool
  | none, none => true
  | some a, some b => a == b
  | _, _ => false

/-- Equality of two entries, field by field, as a Boolean. -/
def entry.same (a b : entry) : Bool :=
  a.v.same b.v && a.h == b.h && a.t == b.t && key_same a.k b.k

/-- Equality of two lists of entries, as a Boolean. -/
def entries_same : List entry → List entry → Bool
  | [], [] => true
  | a :: as, b :: bs => a.same b && entries_same as bs
  | _, _ => false

/-- Equality of two tables, field by field, as a Boolean. -/
def ht.same (a b : ht) : Bool :=
  entries_same a.e b.e && a.gap == b.gap && a.max_pd == b.max_pd && a.size == b.size
    && a.capacity == b.capacity && a.mask == b.mask && a.flags == b.flags && a.v == b.v

/-- Whether a call returned the table `t`. -/
def ht_result_is (r : Option ht) (t : ht) : Bool :=
  match r with
  | none => false
  | some t1 => t1.same t

/-- Whether a part of the loop of `resize` ended with the count `j` and the table `t`. -/
def resize_steps_is (r : Option (Nat × ht)) (j : Nat) (t : ht) : Bool :=
  match r with
  | none => false
  | some p => p.1 == j && p.2.same t

/-- History of the slots of the table of capacity 64 under `example_shrink_calls`
(the first 49 calls): slot, number, time of the insertion (the old slot plus one for an entry
that `resize` moved, 1000 plus the number of the call otherwise) and of the
removal (1000 plus the number of the call, 0: none). -/
def example_shrink_cells_64 : List (Nat × Nat × Nat × Nat) :=
  [(1, 48, 1049, 0), (3, 3, 4, 0), (4, 47, 1048, 0), (5, 10, 6, 0), (6, 20, 21, 0), (7, 8, 8, 0),
   (9, 6, 10, 0), (10, 34, 1035, 0), (11, 15, 19, 0), (12, 29, 1030, 0), (13, 45, 1046, 0),
   (14, 27, 1028, 0), (15, 38, 1039, 0), (16, 31, 1032, 0), (17, 5, 18, 0), (19, 23, 20, 0),
   (21, 2, 22, 0), (22, 42, 1043, 0), (23, 11, 31, 0), (24, 32, 1033, 0), (25, 26, 1027, 0),
   (28, 35, 1036, 0), (29, 1, 30, 0), (30, 28, 1029, 0), (31, 16, 32, 0), (33, 25, 1026, 0),
   (34, 46, 1047, 0), (35, 4, 11, 0), (36, 36, 1037, 0), (37, 22, 13, 0), (40, 39, 1040, 0),
   (41, 40, 1041, 0), (42, 33, 1034, 0), (43, 12, 12, 0), (44, 41, 1042, 0), (45, 21, 3, 0),
   (47, 0, 16, 0), (49, 17, 25, 0), (51, 24, 27, 0), (52, 18, 14, 0), (53, 9, 29, 0),
   (54, 37, 1038, 0), (55, 7, 24, 0), (56, 43, 1044, 0), (57, 14, 26, 0), (60, 44, 1045, 0),
   (61, 13, 5, 0), (62, 30, 1031, 0), (63, 19, 7, 0)]

/-- The table of capacity 64 under `example_shrink_calls` at a given time. -/
def example_shrink_state_64 (time max_pd flags : Nat) : ht :=
  example_state 64 example_shrink_cells_64 time max_pd flags

/-- History of the slots of the table of capacity 128 under `example_shrink_calls`
(the first 97 calls): slot, number, time of the insertion (the old slot plus one for an entry
that `resize` moved, 1000 plus the number of the call otherwise) and of the
removal (1000 plus the number of the call, 0: none). -/
def example_shrink_cells_128 : List (Nat × Nat × Nat × Nat) :=
  [(0, 75, 1076, 0), (1, 94, 1095, 0), (2, 88, 1089, 0), (3, 42, 23, 0), (5, 29, 13, 0),
   (6, 55, 1056, 0), (7, 64, 1065, 0), (9, 6, 10, 0), (11, 15, 12, 0), (12, 85, 1086, 0),
   (13, 52, 1053, 0), (15, 38, 16, 0), (16, 31, 17, 0), (17, 69, 1070, 0), (19, 23, 20, 0),
   (20, 72, 1073, 0), (23, 28, 31, 0), (24, 82, 1083, 0), (26, 56, 1057, 0), (27, 67, 1068, 0),
   (29, 1, 30, 0), (30, 41, 45, 0), (31, 16, 32, 0), (33, 25, 34, 0), (35, 68, 1069, 0),
   (36, 36, 37, 0), (37, 22, 38, 0), (38, 73, 1074, 0), (39, 96, 1097, 0), (40, 39, 41, 0),
   (41, 40, 42, 0), (42, 76, 1077, 0), (44, 57, 1058, 0), (45, 18, 53, 0), (47, 0, 48, 0),
   (48, 61, 1062, 0), (49, 17, 50, 0), (50, 83, 1084, 0), (51, 24, 52, 0), (52, 66, 1067, 0),
   (53, 9, 54, 0), (54, 37, 55, 0), (57, 58, 1059, 0), (58, 51, 1052, 0), (59, 60, 1061, 0),
   (61, 47, 5, 0), (62, 80, 1081, 0), (63, 19, 64, 0), (65, 48, 2, 0), (66, 95, 1096, 0),
   (67, 3, 4, 0), (68, 49, 1050, 0), (69, 10, 6, 0), (71, 8, 8, 0), (72, 70, 1071, 0),
   (74, 34, 11, 0), (75, 50, 1051, 0), (76, 71, 1072, 0), (77, 90, 1091, 0), (78, 27, 15, 0),
   (79, 46, 35, 0), (81, 5, 18, 0), (82, 59, 1060, 0), (83, 77, 1078, 0), (85, 2, 22, 0),
   (86, 63, 1064, 0), (87, 11, 24, 0), (88, 32, 25, 0), (89, 26, 26, 0), (91, 89, 1090, 0),
   (92, 35, 29, 0), (93, 79, 1080, 0), (94, 78, 1079, 0), (95, 91, 1092, 0), (96, 53, 1054, 0),
   (97, 62, 1063, 0), (99, 45, 14, 0), (101, 81, 1082, 0), (102, 87, 1088, 0), (103, 74, 1075, 0),
   (106, 4, 36, 0), (107, 12, 44, 0), (109, 21, 46, 0), (110, 93, 1094, 0), (113, 43, 57, 0),
   (114, 84, 1085, 0), (115, 92, 1093, 0), (116, 54, 1055, 0), (117, 44, 61, 0),
   (118, 86, 1087, 0), (119, 7, 56, 0), (120, 33, 43, 0), (121, 14, 58, 0), (124, 65, 1066, 0),
   (125, 13, 62, 0), (126, 30, 63, 0), (127, 20, 7, 0)]

/-- The table of capacity 128 under `example_shrink_calls` at a given time. -/
def example_shrink_state_128 (time max_pd flags : Nat) : ht :=
  example_state 128 example_shrink_cells_128 time max_pd flags

/-- History of the slots of the table of capacity 256 under `example_shrink_calls`
(the first 193 calls): slot, number, time of the insertion (the old slot plus one for an entry
that `resize` moved, 1000 plus the number of the call otherwise) and of the
removal (1000 plus the number of the call, 0: none). -/
def example_shrink_cells_256 : List (Nat × Nat × Nat × Nat) :=
  [(0, 14, 122, 0), (1, 187, 1188, 0), (2, 54, 117, 0), (4, 161, 1162, 0), (6, 137, 1138, 0),
   (9, 31, 17, 0), (10, 157, 1158, 0), (11, 191, 1192, 0), (13, 115, 1116, 0), (14, 166, 1167, 0),
   (15, 38, 16, 0), (16, 84, 115, 0), (17, 69, 18, 0), (18, 188, 1189, 0), (19, 23, 20, 0),
   (20, 142, 1143, 0), (21, 151, 1152, 0), (23, 28, 24, 0), (25, 179, 1180, 0), (26, 56, 27, 0),
   (27, 67, 28, 0), (29, 1, 30, 0), (30, 41, 31, 0), (31, 16, 32, 0), (34, 123, 1124, 0),
   (37, 131, 1132, 0), (38, 73, 39, 0), (39, 181, 1182, 0), (40, 95, 67, 0), (44, 128, 1129, 0),
   (47, 82, 25, 0), (48, 155, 1156, 0), (51, 24, 52, 0), (52, 138, 1139, 0), (53, 108, 1109, 0),
   (54, 37, 55, 0), (55, 159, 1160, 0), (57, 58, 58, 0), (58, 51, 59, 0), (59, 60, 60, 0),
   (61, 47, 62, 0), (63, 19, 64, 0), (64, 97, 1098, 0), (65, 76, 43, 0), (66, 152, 1153, 0),
   (67, 3, 68, 0), (68, 101, 1102, 0), (69, 10, 70, 0), (71, 8, 72, 0), (72, 48, 66, 0),
   (73, 164, 1165, 0), (75, 78, 95, 0), (76, 71, 77, 0), (77, 183, 1184, 0), (78, 170, 1171, 0),
   (79, 107, 1108, 0), (80, 184, 1185, 0), (81, 32, 89, 0), (82, 118, 1119, 0), (85, 80, 63, 0),
   (86, 113, 1114, 0), (88, 87, 103, 0), (89, 26, 90, 0), (90, 162, 1163, 0), (91, 89, 92, 0),
   (92, 35, 93, 0), (93, 116, 1117, 0), (95, 91, 96, 0), (96, 53, 97, 0), (97, 62, 98, 0),
   (99, 45, 100, 0), (101, 98, 1099, 0), (102, 104, 1105, 0), (103, 74, 104, 0),
   (104, 150, 1151, 0), (106, 4, 107, 0), (107, 12, 108, 0), (108, 169, 1170, 0),
   (110, 114, 1115, 0), (111, 186, 1187, 0), (114, 134, 1135, 0), (115, 192, 1193, 0),
   (116, 172, 1173, 0), (117, 133, 1134, 0), (119, 85, 13, 0), (124, 111, 1112, 0),
   (126, 30, 127, 0), (127, 55, 7, 0), (128, 141, 1142, 0), (129, 94, 2, 0), (131, 42, 4, 0),
   (133, 29, 6, 0), (134, 20, 128, 0), (135, 64, 8, 0), (136, 171, 1172, 0), (137, 6, 10, 0),
   (139, 15, 12, 0), (140, 93, 111, 0), (141, 72, 21, 0), (142, 144, 1145, 0), (143, 189, 1190, 0),
   (144, 122, 1123, 0), (145, 127, 1128, 0), (146, 167, 1168, 0), (148, 112, 1113, 0),
   (149, 160, 1161, 0), (152, 136, 1137, 0), (153, 190, 1191, 0), (154, 176, 1177, 0),
   (155, 103, 1104, 0), (156, 156, 1157, 0), (157, 36, 37, 0), (161, 25, 34, 0),
   (162, 125, 1126, 0), (163, 68, 36, 0), (164, 83, 51, 0), (165, 22, 38, 0), (166, 143, 1144, 0),
   (167, 96, 40, 0), (168, 39, 41, 0), (169, 40, 42, 0), (170, 121, 1122, 0), (171, 119, 1120, 0),
   (172, 57, 45, 0), (173, 18, 46, 0), (174, 173, 1174, 0), (175, 0, 48, 0), (176, 61, 49, 0),
   (177, 17, 50, 0), (178, 100, 1101, 0), (179, 70, 73, 0), (180, 66, 53, 0), (181, 9, 54, 0),
   (182, 49, 69, 0), (183, 130, 1131, 0), (184, 165, 1166, 0), (186, 110, 1111, 0),
   (187, 182, 1183, 0), (189, 106, 1107, 0), (190, 129, 1130, 0), (191, 180, 1181, 0),
   (192, 178, 1179, 0), (194, 154, 1155, 0), (195, 34, 75, 0), (196, 120, 1121, 0),
   (199, 52, 14, 0), (200, 174, 1175, 0), (201, 158, 1159, 0), (202, 81, 102, 0), (203, 50, 76, 0),
   (204, 145, 1146, 0), (205, 90, 78, 0), (206, 27, 79, 0), (207, 46, 80, 0), (209, 5, 82, 0),
   (210, 59, 83, 0), (211, 77, 84, 0), (212, 148, 1149, 0), (213, 2, 86, 0), (214, 63, 87, 0),
   (215, 11, 88, 0), (216, 102, 1103, 0), (217, 135, 1136, 0), (218, 149, 1150, 0),
   (219, 185, 1186, 0), (220, 109, 1110, 0), (221, 79, 94, 0), (222, 146, 1147, 0),
   (224, 140, 1141, 0), (226, 175, 1176, 0), (227, 86, 119, 0), (228, 132, 1133, 0),
   (231, 117, 1118, 0), (232, 168, 1169, 0), (234, 33, 121, 0), (236, 163, 1164, 0),
   (237, 88, 3, 0), (239, 153, 1154, 0), (241, 43, 114, 0), (242, 147, 1148, 0), (243, 92, 116, 0),
   (244, 21, 110, 0), (245, 44, 118, 0), (246, 139, 1140, 0), (247, 7, 120, 0),
   (248, 105, 1106, 0), (249, 75, 1, 0), (250, 177, 1178, 0), (251, 124, 1125, 0),
   (252, 65, 125, 0), (253, 13, 126, 0), (254, 99, 1100, 0), (255, 126, 1127, 0)]

/-- The table of capacity 256 under `example_shrink_calls` at a given time. -/
def example_shrink_state_256 (time max_pd flags : Nat) : ht :=
  example_state 256 example_shrink_cells_256 time max_pd flags

/-- History of the slots of the table of capacity 512 under `example_shrink_calls`
(all 320 calls): slot, number, time of the insertion (the old slot plus one for an entry
that `resize` moved, 1000 plus the number of the call otherwise) and of the
removal (1000 plus the number of the call, 0: none). -/
def example_shrink_cells_512 : List (Nat × Nat × Nat × Nat) :=
  [(0, 166, 15, 1195), (9, 84, 17, 1196), (14, 75, 250, 1197), (15, 38, 16, 1198),
   (17, 69, 18, 1199), (19, 56, 27, 1200), (23, 28, 24, 1201), (25, 179, 26, 1202),
   (26, 95, 41, 1203), (27, 67, 28, 1204), (30, 128, 45, 1205), (31, 138, 53, 1206),
   (34, 155, 49, 1207), (37, 144, 143, 1208), (39, 181, 40, 1209), (47, 37, 55, 1210),
   (51, 51, 59, 1211), (54, 101, 69, 1212), (57, 172, 117, 1213), (59, 60, 60, 1214),
   (61, 47, 62, 1215), (65, 121, 171, 1216), (66, 152, 67, 1217), (67, 3, 68, 1218),
   (69, 10, 70, 1219), (73, 184, 81, 1220), (75, 133, 118, 1221), (76, 71, 77, 1222),
   (81, 32, 82, 1223), (85, 80, 86, 1224), (88, 104, 103, 1225), (89, 26, 90, 1226),
   (90, 162, 91, 1227), (95, 91, 96, 1228), (96, 114, 111, 1229), (99, 4, 107, 1230),
   (101, 169, 109, 1231), (103, 74, 104, 1232), (107, 134, 115, 1233), (119, 85, 120, 1234),
   (127, 55, 128, 1235), (129, 94, 130, 1236), (133, 29, 134, 1237), (135, 64, 136, 1238),
   (140, 176, 155, 1239), (141, 125, 163, 1240), (142, 156, 157, 1241), (145, 143, 167, 1242),
   (148, 139, 247, 1243), (149, 180, 192, 1244), (157, 190, 154, 1245), (161, 50, 204, 1246),
   (164, 36, 158, 1247), (165, 22, 166, 1248), (167, 173, 175, 1249), (169, 40, 170, 1250),
   (172, 110, 187, 1251), (175, 0, 176, 1252), (176, 61, 177, 1253), (177, 17, 178, 1254),
   (178, 100, 179, 1255), (179, 70, 180, 1256), (182, 120, 197, 1257), (183, 130, 184, 1258),
   (184, 165, 185, 1259), (190, 153, 240, 1260), (195, 81, 203, 1262), (199, 115, 14, 1264),
   (201, 158, 202, 1266), (203, 59, 211, 1268), (205, 90, 206, 1270), (206, 27, 207, 1272),
   (209, 5, 210, 1274), (211, 77, 212, 1276), (217, 135, 218, 1278), (218, 149, 219, 1280),
   (220, 109, 221, 1282), (221, 79, 222, 1284), (227, 86, 228, 1286), (228, 147, 243, 1288),
   (232, 168, 233, 1290), (237, 54, 3, 1292), (243, 177, 251, 1294), (244, 88, 238, 1296),
   (245, 157, 11, 1298), (247, 99, 255, 1300), (251, 124, 252, 1302), (252, 44, 246, 1304),
   (253, 161, 5, 1306), (255, 142, 21, 1308), (257, 187, 2, 1310), (260, 13, 254, 1312),
   (265, 31, 10, 1314), (266, 65, 253, 1316), (267, 191, 12, 1318), (272, 107, 80, 1320),
   (275, 23, 20, 0), (279, 41, 31, 0), (282, 170, 79, 0), (283, 123, 35, 0), (285, 1, 30, 0),
   (287, 16, 32, 0), (293, 131, 38, 0), (294, 73, 39, 0), (296, 111, 125, 0), (303, 82, 48, 0),
   (305, 1007, 1267, 0), (307, 24, 52, 0), (308, 164, 74, 0), (309, 108, 54, 0), (311, 159, 56, 0),
   (313, 58, 58, 0), (314, 116, 94, 0), (315, 1011, 1271, 0), (317, 118, 83, 0), (319, 19, 64, 0),
   (320, 97, 65, 0), (321, 76, 66, 0), (323, 1091, 1297, 0), (327, 8, 72, 0), (328, 48, 73, 0),
   (329, 1206, 1309, 0), (331, 78, 76, 0), (333, 183, 78, 0), (337, 87, 89, 0), (338, 146, 223, 0),
   (339, 1067, 1289, 0), (341, 35, 93, 0), (342, 148, 213, 0), (343, 1316, 1317, 0),
   (345, 53, 97, 0), (347, 89, 92, 0), (348, 103, 156, 0), (349, 1069, 1293, 0),
   (351, 174, 201, 0), (353, 62, 98, 0), (355, 45, 100, 0), (357, 98, 102, 0), (359, 127, 146, 0),
   (360, 150, 105, 0), (361, 1106, 1301, 0), (363, 12, 108, 0), (365, 1044, 1279, 0),
   (367, 186, 112, 0), (370, 141, 129, 0), (373, 1054, 1285, 0), (375, 192, 116, 0),
   (381, 1003, 1263, 0), (382, 30, 127, 0), (383, 20, 135, 0), (384, 160, 150, 0),
   (385, 171, 137, 0), (387, 42, 132, 0), (389, 93, 141, 0), (390, 112, 149, 0),
   (391, 1250, 1311, 0), (393, 6, 138, 0), (395, 15, 140, 0), (396, 106, 190, 0),
   (397, 72, 142, 0), (399, 189, 144, 0), (400, 122, 145, 0), (401, 136, 153, 0),
   (402, 167, 147, 0), (403, 1033, 1275, 0), (405, 1109, 1303, 0), (407, 1051, 1283, 0),
   (409, 1185, 1307, 0), (413, 83, 165, 0), (415, 1006, 1265, 0), (417, 25, 162, 0),
   (419, 68, 164, 0), (421, 57, 173, 0), (423, 96, 168, 0), (424, 39, 169, 0), (425, 129, 191, 0),
   (427, 119, 172, 0), (429, 18, 174, 0), (431, 49, 183, 0), (433, 1170, 1305, 0),
   (434, 178, 193, 0), (435, 1034, 1277, 0), (436, 66, 181, 0), (437, 9, 182, 0),
   (438, 117, 232, 0), (439, 145, 205, 0), (441, 1048, 1281, 0), (443, 182, 188, 0),
   (447, 1009, 1269, 0), (449, 1058, 1287, 0), (450, 154, 195, 0), (451, 34, 196, 0),
   (455, 52, 200, 0), (457, 1017, 1273, 0), (458, 102, 217, 0), (459, 1068, 1291, 0),
   (461, 175, 227, 0), (463, 151, 22, 0), (465, 1097, 1299, 0), (467, 1280, 1315, 0),
   (469, 2, 214, 0), (470, 46, 208, 0), (471, 11, 216, 0), (473, 140, 225, 0), (475, 185, 220, 0),
   (476, 126, 256, 0), (477, 132, 229, 0), (478, 163, 237, 0), (481, 1072, 1295, 0),
   (483, 33, 235, 0), (484, 63, 215, 0), (485, 193, 1194, 0), (490, 105, 249, 0),
   (491, 1002, 1261, 0), (493, 113, 87, 0), (497, 43, 242, 0), (499, 92, 244, 0),
   (500, 21, 245, 0), (501, 1251, 1313, 0), (503, 7, 248, 0), (505, 14, 1, 0),
   (507, 1345, 1319, 0), (509, 188, 19, 0), (511, 137, 7, 0)]

/-- The table of capacity 512 under `example_shrink_calls` at a given time. -/
def example_shrink_state_512 (time max_pd flags : Nat) : ht :=
  example_state 512 example_shrink_cells_512 time max_pd flags

/-! ## protocol.c -/

/-- The separators `value_sep` ('='), `field_sep` (newline) and `record_sep` (0xc8). -/
def value_sep : List Nat := [61]
def field_sep : List Nat := [10]
def record_sep : List Nat := [0xc8]

/-- `strspn(p, delim)` over the bytes from `p` on: the length of the run of
delimiter bytes (a NUL ends the string). -/
def c_strspn (l delim : List Nat) : Nat :=
  (l.takeWhile (fun b => decide (b ≠ 0 ∧ b ∈ delim))).length

/-- `strcspn(p, delim)` over the bytes from `p` on: the length of the run of bytes
that are neither NUL nor a delimiter. -/
def c_strcspn (l delim : List Nat) : Nat :=
  (l.takeWhile (fun b => decide (b ≠ 0 ∧ b ∉ delim))).length

/-- What `strtok` works on: the memory its pointers point into (a pointer is an
index; a read past the end of the stored bytes yields 0) and the pointer it
saved in the previous call. -/
structure strtok_state where
  mem : List Nat
  saved : Nat
deriving DecidableEq, Repr

/-- The C string at address `p`. -/
def strtok_state.str (st : strtok_state) (p : Nat) : List Nat := cstr (st.mem.drop p)

/-- The C library function `strtok(str, delim)` (`str = none` for `NULL`): leading
delimiters are skipped, the token ends at the next delimiter, which is
overwritten with NUL, and the position after it is saved.  Returns the state
afterwards and the token (`none` for `NULL`). -/
def strtok (st : strtok_state) (str : Option Nat) (delim : List Nat) :
    strtok_state × Option Nat :=
  let p0 := str.getD st.saved
  let p := p0 + c_strspn (st.mem.drop p0) delim
  if st.mem.getD p 0 = 0 then ({ st with saved := p }, none)
  else
    let e := p + c_strcspn (st.mem.drop p) delim
    if st.mem.getD e 0 = 0 then ({ st with saved := e }, some p)
    else ({ mem := st.mem.set e 0, saved := e + 1 }, some p)

/-- The `do .. while` loop of `each_field_kv` with `s` and `f` as at the start of a
turn: the list of (key, value) arguments of the callback, call by call, each
string as it reads when the callback is entered (`none` for `NULL`).  The
outer `none` stands for a loop that has not ended after `fuel` turns. -/
def each_field_kv_loop :
    Nat → strtok_state → Nat → Nat → Option (List (Option (List Nat) × Option (List Nat)))
  | 0, _, _, _ => none
  | fuel + 1, st, s, f =>
    let s1 := s + (st.str f).length + 1
    let r1 := strtok st (some f) value_sep
    let r2 := strtok r1.1 none value_sep
    let call := (r1.2.map r2.1.str, r2.2.map r2.1.str)
    if r2.1.mem.getD s1 0 ≠ 0 then
      match strtok r2.1 (some s1) field_sep with
      | (st3, some f3) => (each_field_kv_loop fuel st3 s1 f3).map (fun l => call :: l)
      | (_, none) => some [call]
    else some [call]

/-- Function `each_field_kv` with a non-`NULL` callback, run on the string `s`
(`none` for `NULL`) held in a buffer of its own: the callback's arguments, call
by call.  Every turn moves `s` forward, so the loop is given one turn per
byte of the buffer. -/
def each_field_kv (s : Option (List Nat)) :
    Option (List (Option (List Nat) × Option (List Nat))) :=
  match s with
  | none => some []
  | some str =>
    let mem := cstr str ++ [0]
    if mem.getD 0 0 = 0 then some []
    else
      match strtok ⟨mem, 0⟩ (some 0) field_sep with
      | (_, none) => some []
      | (st, some f) => each_field_kv_loop mem.length st 0 f

/-- Function `append_value`. -/
def append_value (s v : Option (List Nat)) : Option (List Nat) :=
  match v with
  | none => s
  | some v => if cstr v = [] then s else some (cstr (s.getD []) ++ cstr v ++ field_sep)

/-- Function `append_field`: `s` (or the empty string for `NULL`) followed by
`k=v` and a newline; `s` itself when the key or the value is `NULL` or empty. -/
def append_field (s k v : Option (List Nat)) : Option (List Nat) :=
  match k, v with
  | some k, some v =>
    if cstr k = [] ∨ cstr v = [] then s
    else some (cstr (s.getD []) ++ cstr k ++ value_sep ++ cstr v ++ field_sep)
  | _, _ => s

/-- The string built from `NULL` by one `append_field` call per (key, value) pair. -/
def append_fields (pairs : List (List Nat × List Nat)) : Option (List Nat) :=
  pairs.foldl (fun s p => append_field s (some p.1) (some p.2)) none

/-- A key or value of a field: a non-empty C string without '=' and newline. -/
def field_text_ok (x : List Nat) : Bool :=
  decide (x ≠ []) && x.all (fun b => decide (b ≠ 0 ∧ b ≠ 61 ∧ b ≠ 10))

/-- The text `k=v` plus newline of each pair, one after the other. -/
def fields_text (pairs : List (List Nat × List Nat)) : List Nat :=
  (pairs.map (fun p => p.1 ++ value_sep ++ p.2 ++ field_sep)).flatten

/-! ## user.c -/

def NICKNAME_MAX : Nat := 26
def PACKET_CHALLENGE : Nat := 0x0474
def PACKET_INITIAL_STATUS : Nat := 0xfb96
def PACKET_INITIAL_STATUS_2 : Nat := 0xfba1
def PACKET_UID_FONTDEPTH_ETC : Nat := 0xf7cc
def PACKET_CLIENT_CONTROL : Nat := 0x0834
def PACKET_USER_DATA : Nat := 0x019a
def PACKET_BANNER_INTERVAL : Nat := 0x02b2
def PACKET_CATEGORY_LIST : Nat := 0x019c
def PACKET_SUBCATEGORY_LIST : Nat := 0x019e
def PACKET_BUDDY_LIST : Nat := 0x0043
def PACKET_BLOCKED_BUDDIES : Nat := 0x01fe
def PACKET_REGISTRATION_INFO : Nat := 0xfa6a
def PACKET_REGISTRATION_SUCCESS : Nat := 0x05a0
def PACKET_REGISTRATION_NAME_IN_USE : Nat := 0x05aa

/-- Names of the columns of `users` and of the fields of a user record, as bytes. -/
def name_uid : List Nat := [117, 105, 100]
def name_sup : List Nat := [115, 117, 112]
def name_last : List Nat := [108, 97, 115, 116]
def name_admin : List Nat := [97, 100, 109, 105, 110]
def name_email : List Nat := [101, 109, 97, 105, 108]
def name_first : List Nat := [102, 105, 114, 115, 116]
def name_paid1 : List Nat := [112, 97, 105, 100, 49]
def name_random : List Nat := [114, 97, 110, 100, 111, 109]
def name_banners : List Nat := [98, 97, 110, 110, 101, 114, 115]
def name_privacy : List Nat := [112, 114, 105, 118, 97, 99, 121]
def name_nickname : List Nat := [110, 105, 99, 107, 110, 97, 109, 101]
def name_password : List Nat := [112, 97, 115, 115, 119, 111, 114, 100]
def name_verified : List Nat := [118, 101, 114, 105, 102, 105, 101, 100]
def name_get_offers_from_affiliates : List Nat := [103, 101, 116, 95, 111, 102, 102, 101, 114, 115, 95, 102, 114, 111, 109, 95, 97, 102, 102, 105, 108, 105, 97, 116, 101, 115]
def name_get_offers_from_us : List Nat := [103, 101, 116, 95, 111, 102, 102, 101, 114, 115, 95, 102, 114, 111, 109, 95, 117, 115]
def name_created : List Nat := [99, 114, 101, 97, 116, 101, 100]
def name_ei : List Nat := [101, 105]
def name_smtp : List Nat := [115, 109, 116, 112]

/-- The result of `SELECT COUNT(*) FROM users WHERE nickname=?` bound to the C string
`s`, as `db_get_count` returns it (`nickname` is declared `COLLATE NOCASE`). -/
def nickname_count (db : database) (s : List Nat) : Nat :=
  (db.users.filter (fun r => decide (nocase r.nickname = nocase (cstr s)))).length % 4294967296

/-- Function `nickname_in_use`: non-zero if a row of `users` has the nickname (a
`NULL` nickname is bound as `NULL` and matches no row). -/
def nickname_in_use (db : database) (nick : Option (List Nat)) : Nat :=
  match nick with
  | none => 0
  | some n => if nickname_count db n ≠ 0 then 1 else 0

/-- The string `sprintf(s, "%.*s%d", min(NICKNAME_MAX - 3, strlen(nick)), nick, r % 1000)`
writes for the `rand()` result `r`. -/
def suggest_candidate (nick : List Nat) (r : Nat) : List Nat :=
  (cstr nick).take (min (NICKNAME_MAX - 3) (cstr nick).length) ++ utoa (r % 1000)

/-- The `do .. while (db_get_count(p))` loop of `suggest_nickname` from the `k`-th
`rand()` result on; `none` stands for a loop that has not ended after `fuel`
turns. -/
def suggest_loop (db : database) (nick : List Nat) (rands : Nat → Nat) : Nat → Nat → Option (List Nat)
  | 0, _ => none
  | fuel + 1, k =>
    if nickname_count db (suggest_candidate nick (rands k)) ≠ 0 then
      suggest_loop db nick rands fuel (k + 1)
    else some (suggest_candidate nick (rands k))

/-- Function `suggest_nickname` (allocation and `db_prepare` succeed); `rands k` is the
`k`-th result of `rand()`.  The outer `none` stands for a call that has not
returned after `fuel` turns of its loop, the inner one for the `NULL` result. -/
def suggest_nickname (db : database) (nick : Option (List Nat)) (rands : Nat → Nat) (fuel : Nat) :
    Option (Option (List Nat)) :=
  match nick with
  | none => some none
  | some n => (suggest_loop db n rands fuel 0).map some

/-- The test `tolower(*v) == 'y'` as 0 or 1. -/
def starts_with_y (v : List Nat) : Nat :=
  if (cstr v).head? = some 121 ∨ (cstr v).head? = some 89 then 1 else 0

/-- Function `user_from_named_field`: sets the field of `u` named by `k` from the text
`v`; an unknown name, an empty or `NULL` name and a `NULL` value change nothing. -/
def user_from_named_field (u : user) (k v : Option (List Nat)) : user :=
  match k, v with
  | some k, some v =>
    if cstr k = name_uid then { u with uid := ulong_of (atoi (cstr v)) }
    else if cstr k = name_sup then { u with sup := to_byte (atoi (cstr v)) }
    else if cstr k = name_last then { u with last := some (cstr v) }
    else if cstr k = name_admin then { u with admin := to_byte (atoi (cstr v)) }
    else if cstr k = name_email then { u with email := some (cstr v) }
    else if cstr k = name_first then { u with first := some (cstr v) }
    else if cstr k = name_paid1 then { u with paid1 := some (cstr v) }
    else if cstr k = name_random then { u with random := starts_with_y v }
    else if cstr k = name_banners then { u with banners := starts_with_y v }
    else if cstr k = name_privacy then { u with privacy := some (cstr v) }
    else if cstr k = name_nickname then { u with nickname := some (cstr v) }
    else if cstr k = name_password then { u with password := some (cstr v) }
    else if cstr k = name_verified then { u with verified := starts_with_y v }
    else if cstr k = name_get_offers_from_affiliates then
      { u with get_offers_from_affiliates := starts_with_y v }
    else if cstr k = name_get_offers_from_us then { u with get_offers_from_us := starts_with_y v }
    else u
  | _, _ => u

/-- The columns of a `users` row as `sqlite3_exec` hands them to a callback: name
and value as text, in table order (`last_login`, which no callback here reads,
is left out). -/
def user_row.columns (r : user_row) : List (List Nat × List Nat) :=
  [(name_uid, itoa r.uid), (name_nickname, r.nickname), (name_email, r.email),
   (name_first, r.first), (name_last, r.last), (name_privacy, r.privacy),
   (name_verified, itoa r.verified), (name_random, itoa r.random), (name_paid1, r.paid1),
   (name_get_offers_from_us, itoa r.get_offers_from_us),
   (name_get_offers_from_affiliates, itoa r.get_offers_from_affiliates),
   (name_banners, itoa r.banners), (name_admin, itoa r.admin), (name_sup, itoa r.sup),
   (name_created, r.created)]

/-- Function `user_from_row`: `user_from_named_field` for every column of the row. -/
def user_from_row (u : user) (r : user_row) : user :=
  r.columns.foldl (fun u kv => user_from_named_field u (some kv.1) (some kv.2)) u

/-- Function `lookup_user`: the return value and the user structure afterwards.
The query `SELECT * FROM users WHERE uid=<uid>` succeeds also when no row has
the uid; the structure is then left as it was. -/
def lookup_user (db : database) (uid : Nat) (u : user) : Int × user :=
  if UID_IS_ERROR uid then (-1, u)
  else (0, (db.users.filter (fun r => decide (r.uid = long_of uid))).foldl user_from_row u)

/-- Function `user_get_secret_question`: the string stored into `*q` (`none` for `NULL`;
for an error uid `*q` is not written, and both callers have set it to `NULL`). -/
def user_get_secret_question (db : database) (uid : Nat) : Option (List Nat) :=
  if UID_IS_ERROR uid then none
  else
    match (db.secrets.find? (fun r => r.uid = db_int uid)).bind (fun r => r.sq_index) with
    | none => none
    | some i => (db.secret_questions.find? (fun q => q.id = i)).map (fun q => cstr q.secret_q)

/-- The text of a flag of `user_to_record`. -/
def flag_text (x : Nat) (yes no : List Nat) : List Nat := if x ≠ 0 then yes else no

/-- Function `user_to_record`. -/
def user_to_record (u : user) (version : Nat) : Option (List Nat) :=
  let s := append_field none (some name_first) u.first
  let s := append_field s (some name_last) u.last
  let s := append_field s (some name_nickname) u.nickname
  let s := append_field s (some name_email) u.email
  let s := append_field s (some name_uid) (some (itoa (long_of u.uid)))
  let s := append_field s (some name_admin) (some (flag_text u.admin [49] [48]))
  let s := append_field s (some name_banners) (some (flag_text u.banners [121, 101, 115] [110, 111]))
  let s := append_field s (some name_get_offers_from_us)
    (some (flag_text u.get_offers_from_us [89] [78]))
  let s := append_field s (some name_get_offers_from_affiliates)
    (some (flag_text u.get_offers_from_affiliates [89] [78]))
  let s := append_field s (some name_random) (some (flag_text u.random [89] [78]))
  let s := append_field s (some name_verified) (some (flag_text u.verified [89] [78]))
  let s := append_field s (some name_privacy) u.privacy
  match u.paid1 with
  | some p =>
    if p.getD 0 0 = 69 ∧ version < PROTOCOL_VERSION_80 then append_field s (some name_paid1) (some [54])
    else append_field s (some name_paid1) (some p)
  | none => append_field s (some name_paid1) (some [78])

/-- The truth value `!!x` as 0 or 1. -/
def c_bool (x : Nat) : Int := if x ≠ 0 then 1 else 0

/-- Function `register_user`; `now` is the value of `datetime(now, subsec)`.  Returns
the return value, the store and the user structure afterwards.  The insert
fails when `nickname`, `email`, `first` or `last` is `NULL` (the columns are
declared `NOT NULL`) and when the nickname is taken (`UNIQUE`, `NOCASE`);
`u->uid` is the uid the store returns, read as `unsigned`, and 0 after a failed
insert.  The new uid is one more than the largest uid (the server never
deletes a row of `users`). -/
def register_user (db : database) (u : user) (now : List Nat) : Int × database × user :=
  match u.nickname, u.email, u.first, u.last with
  | some nick, some email, some first, some last =>
    if nickname_count db nick ≠ 0 then (-1, db, { u with uid := 0 })
    else
      let uid : Int := db.user_uids.foldl max 0 + 1
      let row : user_row :=
        ⟨uid, cstr nick, cstr email, cstr first, cstr last, cstr (u.privacy.getD [71]),
         c_bool u.verified, c_bool u.random, cstr (u.paid1.getD [89]), c_bool u.get_offers_from_us,
         c_bool u.get_offers_from_affiliates, c_bool u.banners, c_bool u.admin, c_bool u.sup, now⟩
      (if to_u32 uid ≠ 0 then 0 else -1, { db with users := db.users ++ [row] },
       { u with uid := to_u32 uid })
  | _, _, _, _ => (-1, db, { u with uid := 0 })

/-- Function `user_set_password`: the return value and the store afterwards.  The
row of the uid gets the password; without such a row one is inserted, which
fails when `users` has no row with the uid (foreign keys are enforced). -/
def user_set_password (db : database) (uid : Nat) (pw : Option (List Nat)) : Int × database :=
  match pw with
  | none => (-1, db)
  | some pw =>
    if cstr pw = [] ∨ UID_IS_ERROR uid then (-1, db)
    else if ∃ r ∈ db.secrets, r.uid = db_int uid then
      (0, { db with secrets := db.secrets.map (fun r =>
              if r.uid = db_int uid then { r with password := some (cstr pw) } else r) })
    else if db_int uid ∈ db.user_uids then
      (0, { db with secrets := db.secrets ++ [⟨db_int uid, some (cstr pw), none, none⟩] })
    else (-1, db)

/-- Function `user_set_secret_question`: the return value and the store afterwards.
The update fails, and changes nothing, when it would store an index that
`secret_questions` does not have (foreign keys are enforced). -/
def user_set_secret_question (db : database) (uid : Nat) (id : Nat) (response : Option (List Nat)) :
    Int × database :=
  if UID_IS_ERROR uid then (-1, db)
  else if (∃ r ∈ db.secrets, r.uid = db_int uid)
      ∧ ¬ (∃ q ∈ db.secret_questions, q.id = db_int id) then (-1, db)
  else
    (0, { db with secrets := db.secrets.map (fun r =>
            if r.uid = db_int uid
            then { r with sq_index := some (db_int id), sq_answer := response.map cstr }
            else r) })

/-! ## server_login.c, server_handler.c, server_general.c, buddylist.c: the ways into the general flow -/

/-- A 32-bit word read as the handlers read it, `(data[k] & 0xff) << 24 | ..`: an `int`
stored into an `unsigned long`. -/
def packet_word (data : List Nat) (k : Nat) : Nat :=
  let x := (data.getD k 0 % 256) * 16777216 + (data.getD (k + 1) 0 % 256) * 65536
            + (data.getD (k + 2) 0 % 256) * 256 + data.getD (k + 3) 0 % 256
  if x ≥ 2147483648 then x + 18446744069414584320 else x

/-- Four digits `'0' + rand() % 10` from the `k`-th `rand()` result on. -/
def pad_digits (rands : Nat → Nat) (k : Nat) : List Nat :=
  [48 + rands k % 10, 48 + rands (k + 1) % 10, 48 + rands (k + 2) % 10, 48 + rands (k + 3) % 10]

/-- The secret question the `INITIAL_STATUS` case looks up: only for a uid other than
"newuser" whose device is not in the device list; `none` for `NULL`. -/
def initial_status_question (db : database) (ctx : pt_context) : Option (List Nat) :=
  if ctx.uid ≠ UID_NEWUSER ∧ device_in_list db ctx = 0 then user_get_secret_question db ctx.uid
  else none

/-- The context after the assignments of the cases `PACKET_INITIAL_STATUS_2` and
`PACKET_INITIAL_STATUS` of `login_flow` and the call of `lookup_user`: the status word is
read at offset 4 (`INITIAL_STATUS`) or 10, the device id of an `INITIAL_STATUS` is
decoded with variant 1 and the challenge `ctx->uid % 0x37` of the uid the
context had before, then uid and protocol version are taken from the packet
and the user structure is filled from the row of the uid. -/
def initial_status_context (db : database) (ctx : pt_context) : pt_context :=
  { ctx with
    status := packet_word (ctx.pkt_in.data.getD [])
      (10 - (if ctx.pkt_in.type = PACKET_INITIAL_STATUS then 6 else 0))
    device_id :=
      if ctx.pkt_in.type = PACKET_INITIAL_STATUS then
        pt_decode_with_challenge ctx.codec 1 (ctx.uid % 0x37)
          (some (cstr ((ctx.pkt_in.data.getD []).drop 14)))
      else ctx.device_id
    uid := packet_uid ctx.pkt_in
    protocol_version := ctx.pkt_in.version
    user := (lookup_user db (packet_uid ctx.pkt_in) ctx.user).2 }

/-- The cases `PACKET_INITIAL_STATUS_2` and `PACKET_INITIAL_STATUS` of `login_flow` (the packet
type is one of the two); `rands k` is the `k`-th result of `rand()`.  `none` stands
for a body so short that the case reads outside the buffer of the body. -/
def login_flow_initial_status (le : Bool) (rands : Nat → Nat) (db : database) (heap : pkt_heap)
    (ctx : pt_context) : Option (pkt_heap × pt_context) :=
  if ctx.pkt_in.length < (if ctx.pkt_in.type = PACKET_INITIAL_STATUS then 14 else 13) then none
  else
    let ctx4 := initial_status_context db ctx
    if (lookup_user db (packet_uid ctx.pkt_in) ctx.user).1 ≠ 0 then
      some (send_return_code le heap
        { ctx4 with pkt_in := { ctx4.pkt_in with type := PACKET_INITIAL_STATUS } } 0
        (some unknown_user) UNKNOWN_USER_LEN)
    else
      let s := (initial_status_question db ctx4).getD []
      if ctx4.pkt_in.version < PROTOCOL_VERSION_82 then
        let buf := pad_digits rands 0 ++ ustoa ((ctx4.challenge : Int) + 0x01fd) 3 ++ [10] ++ s
        let np := new_packet heap PACKET_CHALLENGE (8 + s.length) (some buf) 0
        some (send_packet le np.1 ctx4 np.2)
      else
        let ctx5 : pt_context :=
          { ctx4 with cb1_offset := (cook_params (rands 0) (rands 1) (rands 2)).1,
                      cb2_step := (cook_params (rands 0) (rands 1) (rands 2)).2.1,
                      cb3_step := (cook_params (rands 0) (rands 1) (rands 2)).2.2,
                      codebook := cook_codebook (cook_params (rands 0) (rands 1) (rands 2)).1
                        (cook_params (rands 0) (rands 1) (rands 2)).2.1
                        (cook_params (rands 0) (rands 1) (rands 2)).2.2 }
        let buf := [(ctx5.cb1_offset >>> 8) &&& 0xff, ctx5.cb1_offset &&& 0xff,
                    (ctx5.cb2_step >>> 8) &&& 0xff, ctx5.cb2_step &&& 0xff,
                    (ctx5.cb3_step >>> 8) &&& 0xff, ctx5.cb3_step &&& 0xff]
                   ++ [0, 0, 0, 0, 0, 0, 0, 0] ++ pad_digits rands 3
                   ++ ustoa ((ctx5.challenge : Int) + 0x1fd) 3 ++ s
                   ++ (match initial_status_question db ctx4 with
                       | some _ => [0, 0]
                       | none => [])
        let np := new_packet heap PACKET_CHALLENGE (21 + s.length) (some buf) 0
        some (send_packet le np.1 ctx5 np.2)

/-- Byte swap of a 32-bit value. -/
def bswap32 (x : Nat) : Nat :=
  (x % 256) * 16777216 + ((x / 256) % 256) * 65536 + ((x / 65536) % 256) * 256 + (x / 16777216) % 256

/-- Function `htonl` on a little-endian (`le = true`) or big-endian host. -/
def htonl (le : Bool) (x : Nat) : Nat := if le then bswap32 (x % 4294967296) else x % 4294967296

/-- The first four bytes in memory of an `unsigned long` (64 bits) holding `v`. -/
def ulong_mem4 (le : Bool) (v : Nat) : List Nat :=
  if le then [v % 256, (v / 256) % 256, (v / 65536) % 256, (v / 16777216) % 256]
  else [(v >>> 56) % 256, (v >>> 48) % 256, (v >>> 40) % 256, (v >>> 32) % 256]

/-- Function `ccban`.  The packet is made with `PACKET_F_STATIC` and refers to the
parameter `level`, which is gone when the packet is written to the socket; the
model keeps the bytes the parameter holds when `new_packet` is called. -/
def ccban (le : Bool) (heap : pkt_heap) (ctx : pt_context) (level : Nat) : pkt_heap × pt_context :=
  if ctx.fd < 0 then (heap, ctx)
  else
    let np := new_packet heap PACKET_CLIENT_CONTROL 4 (some (ulong_mem4 le (htonl le level)))
      PACKET_F_STATIC
    send_packet le np.1 ctx np.2

/-- Function `ccunban`. -/
def ccunban (le : Bool) (heap : pkt_heap) (ctx : pt_context) : pkt_heap × pt_context :=
  ccban le heap ctx 0

/-- Function `do_broadcast_status`, the callback of `broadcast_status` for the connection
at address `c`: `val0` is the `buddy` column, `a1` and `a2` the two packets. -/
def do_broadcast_status (le : Bool) (c a1 a2 : Nat) (w : world) (val0 : Int) : Option world :=
  let uid := ulong_of val0
  match ht_get_ptr_nc w.uid_to_context (itoa (long_of uid)) with
  | none => none
  | some none => some w
  | some (some b) =>
    if user_blocked_me w.db (w.ctx c) uid ≠ 0 then some w
    else
      some (w.on_ctx b (fun heap buddy =>
        send_packet le heap buddy (if buddy.protocol_version ≥ PROTOCOL_VERSION_82 then a2 else a1)))

/-- Function `broadcast_status` for the connection at address `c`. -/
def broadcast_status (le : Bool) (w : world) (c : Nat) : Option world :=
  let ctx := w.ctx c
  let msg : List Nat :=
    if ctx.status ≠ STATUS_ONLINE then
      match ctx.status_msg with
      | some m => (cstr m).take STATUSMSG_MAX
      | none => []
    else []
  let buf := be32 ctx.uid ++ be32 ctx.status ++ msg
  let n1 := new_packet w.heap PACKET_BUDDY_STATUSCHANGE 8 (some buf) PACKET_F_COPY
  let n2 := new_packet n1.1 PACKET_BUDDY_STATUSCHANGE (8 + msg.length) (some buf) PACKET_F_COPY
  match db_exec_each (do_broadcast_status le c n1.2 n2.2)
      ((w.db.buddylist.filter (fun r => decide (r.uid = long_of ctx.uid))).map (fun r => r.buddy))
      { w with heap := n2.1 } with
  | none => none
  | some w1 => some { w1 with heap := free_packet (free_packet w1.heap n1.2) n2.2 }

/-- Function `send_buddy_list` for the connection at address `c`.  `text` is the record
text `db_row_to_record` builds from the rows of the list joined with `users`
(`none` when there is no row); the display names of the list are not part of
the modelled store. -/
def send_buddy_list (le : Bool) (text : Option (List Nat)) (w : world) (c : Nat) (blocked : Nat) :
    Option world :=
  let w1 : world :=
    match text with
    | some s =>
      w.on_ctx c (fun heap ctx =>
        send_packet le
          (new_packet heap (if blocked ≠ 0 then PACKET_BLOCKED_BUDDIES else PACKET_BUDDY_LIST)
            (cstr s).length (some s) 0).1 ctx
          (new_packet heap (if blocked ≠ 0 then PACKET_BLOCKED_BUDDIES else PACKET_BUDDY_LIST)
            (cstr s).length (some s) 0).2)
    | none => w
  if blocked = 0 then
    match buddy_statuses le w1 c with
    | none => none
    | some w2 => broadcast_status le w2 c
  else some w1

/-- What `general_transition` takes from outside the modelled state: the `my_seed()` and
`rand()` values of its two `pt_encode` calls and the record texts of the
category, subcategory, buddy and block list queries (`none` when a query has no
row). -/
structure transition_env where
  seed1 : Nat
  rands1 : Nat → Nat
  seeds1 : Nat → Nat
  seed2 : Nat
  rands2 : Nat → Nat
  seeds2 : Nat → Nat
  categories : Option (List Nat)
  subcategories : Option (List Nat)
  buddies : Option (List Nat)
  blocked : Option (List Nat)

/-- The text "127.0.0.1:25:user:pass". -/
def smtp_text : List Nat :=
  [49, 50, 55, 46, 48, 46, 48, 46, 49, 58, 50, 53, 58, 117, 115, 101, 114, 58, 112, 97, 115, 115]

/-- Enqueue a new packet on the connection at address `c`. -/
def world.send_new (le : Bool) (w : world) (c : Nat) (type len : Nat) (data : Option (List Nat))
    (flags : Nat) : world :=
  w.on_ctx c (fun heap ctx =>
    send_packet le (new_packet heap type len data flags).1 ctx (new_packet heap type len data flags).2)

/-- Function `general_transition` for the connection at address `c`: `USER_DATA`, two
`BANNER_INTERVAL` packets, the category list, for version 8.2 and later the
subcategory list (its text continues the category text), the buddy list with
the statuses in both directions, the block list and the relay of the stored
messages.  `none` stands for a registry call that does not return. -/
def general_transition (le : Bool) (env : transition_env) (w : world) (c : Nat) : Option world :=
  let ctx := w.ctx c
  let e1 := pt_encode_with_challenge ctx.codec 1 ctx.challenge
    (some (utoa (ctx.server_ip % 4294967296))) env.seed1 env.rands1 env.seeds1
  let s2 := append_field (user_to_record ctx.user ctx.pkt_in.version) (some name_ei) e1.1
  let e2 := pt_encode_with_challenge e1.2 2 0x19 (some smtp_text) env.seed2 env.rands2 env.seeds2
  let s3 := append_field s2 (some name_smtp) e2.1
  let w1 : world := w.on_ctx c (fun heap ctx => (heap, { ctx with time := e2.2.time }))
  let w2 := w1.send_new le c PACKET_USER_DATA ((s3.getD []).length) s3 0
  let w3 := w2.send_new le c PACKET_BANNER_INTERVAL 3 (some [0x7f, 0xff, 67]) PACKET_F_COPY
  let w4 := w3.send_new le c PACKET_BANNER_INTERVAL 3 (some [0x7f, 0xff, 71]) PACKET_F_COPY
  let w5 : world :=
    match env.categories with
    | some s => w4.send_new le c PACKET_CATEGORY_LIST (cstr s).length (some s) 0
    | none => w4
  let w6 : world :=
    if (w5.ctx c).protocol_version ≥ PROTOCOL_VERSION_82 then
      match env.subcategories with
      | some s => w5.send_new le c PACKET_SUBCATEGORY_LIST (cstr s).length (some s) 0
      | none => w5
    else w5
  match send_buddy_list le env.buddies w6 c 0 with
  | none => none
  | some w7 =>
    match send_buddy_list le env.blocked w7 c 1 with
    | none => none
    | some w8 => some (general_transition_relay le w8 c)

/-- Function `transition_to` for the general flow: the handler is exchanged and
`general_transition` runs. -/
def transition_to_general (le : Bool) (env : transition_env) (w : world) (c : Nat) : Option world :=
  general_transition le env
    (w.on_ctx c (fun heap ctx =>
      (heap, { ctx with prev_on_packet := ctx.on_packet, on_packet := some flow.general_flow }))) c

/-- The `PACKET_UID_FONTDEPTH_ETC` case of `login_flow` for the connection at address `c`. -/
def login_flow_fontdepth (le : Bool) (env : transition_env) (w : world) (c : Nat) : Option world :=
  let uid := packet_uid (w.ctx c).pkt_in
  let w1 : world :=
    if uid ≠ 0 ∧ (w.ctx c).ccban_level = 0 then w.on_ctx c (ccunban le)
    else if uid ≠ (w.ctx c).ccban_level then
      w.on_ctx c (fun heap ctx => ccban le heap ctx ctx.ccban_level)
    else w
  transition_to_general le env w1 c

/-! ## server_registration.c: the `PACKET_REGISTRATION_INFO` case -/

/-- The array `field_names` (`none` for `NULL`). -/
def field_names : List (Option (List Nat)) :=
  [some name_nickname, some name_password, some name_email, none, none, some name_first,
   some name_last, none, some name_get_offers_from_us, some name_get_offers_from_affiliates,
   none, none, none, none, none, none]

/-- The array `field_encoded`. -/
def field_encoded : List Nat := [2, 2, 2, 0, 2, 2, 2, 2, 0, 0, 0, 0, 0, 0, 0, 0]

/-- Function `transition_fro`. -/
def transition_fro (ctx : pt_context) : pt_context :=
  match ctx.prev_on_packet with
  | none => ctx
  | some f => { ctx with on_packet := some f, prev_on_packet := none }

/-- The `do .. while` loop of the `PACKET_REGISTRATION_INFO` case over the tokens still to
come, with `i` as at the start of a turn: the question number `id`, the decoded
response `q` and the user structure afterwards.  A field that does not decode
ends the loop.  The outer `none` stands for a turn that reads past the 16
entries of `field_names`. -/
def registration_info_loop (ctx : pt_context) :
    List (List Nat) → Int → Nat × Option (List Nat) × user → Option (Nat × Option (List Nat) × user)
  | [], _, st => some st
  | s :: rest, i, (id, q, u) =>
    let id1 := if i = 2 then to_u32 (atoi s) else id
    let q1 := if i = 3
      then pt_decode_with_challenge ctx.codec (field_encoded.getD (i + 1).toNat 0) ctx.challenge (some s)
      else q
    let i1 := i + 1
    if i1 ≥ 16 then none
    else
      match field_names.getD i1.toNat none with
      | none => registration_info_loop ctx rest i1 (id1, q1, u)
      | some name =>
        if field_encoded.getD i1.toNat 0 ≠ 0 then
          match pt_decode_with_challenge ctx.codec (field_encoded.getD i1.toNat 0) ctx.challenge
              (some s) with
          | none => some (id1, q1, u)
          | some dec =>
            registration_info_loop ctx rest i1 (id1, q1, user_from_named_field u (some name) (some dec))
        else registration_info_loop ctx rest i1 (id1, q1, user_from_named_field u (some name) (some s))

/-- The `PACKET_REGISTRATION_INFO` case of `registration_flow` for the connection at address
`c`; `rands` and `fuel` are those of `suggest_nickname`, `now` is the clock of the
store.  `none` stands for a call that does not return or reads past
`field_names`. -/
def registration_flow_info (le : Bool) (rands : Nat → Nat) (fuel : Nat) (now : List Nat)
    (w : world) (c : Nat) : Option world :=
  let ctx := w.ctx c
  match registration_info_loop ctx (strtok_all 10 (cstr (ctx.pkt_in.data.getD [])) []) (-1)
      (0, none, ctx.user) with
  | none => none
  | some (id, q, u) =>
    let w1 : world := w.on_ctx c (fun heap ctx => (heap, { ctx with user := u }))
    if nickname_in_use w1.db u.nickname ≠ 0 then
      match suggest_nickname w1.db u.nickname rands fuel with
      | some (some s) => some (w1.send_new le c PACKET_REGISTRATION_NAME_IN_USE s.length (some s) 0)
      | _ => none
    else if u.nickname = none ∨ u.password = none then
      some (w1.send_new le c PACKET_REGISTRATION_FAILED 0 none 0)
    else
      let r := register_user w1.db u now
      let w2 : world :=
        ({ w1 with db := r.2.1 } : world).on_ctx c (fun heap ctx => (heap, { ctx with user := r.2.2 }))
      if r.1 ≠ 0 then some (w2.send_new le c PACKET_REGISTRATION_FAILED 0 none 0)
      else
        let d1 := (user_set_password w2.db r.2.2.uid r.2.2.password).2
        let d2 := (user_set_secret_question d1 r.2.2.uid id q).2
        let w3 : world := { w2 with db := d2 }
        let w4 := w3.send_new le c PACKET_REGISTRATION_SUCCESS 4 (some (be32 r.2.2.uid)) PACKET_F_COPY
        if (w4.ctx c).pkt_in.version < PROTOCOL_VERSION_82 then
          some (w4.on_ctx c (fun heap ctx => (heap, transition_fro ctx)))
        else some w4

/-- Whether a byte is a letter or a digit (`isalnum` in the C locale). -/
def isalnum (b : Nat) : Bool :=
  (decide (48 ≤ b) && decide (b ≤ 57)) || (decide (65 ≤ b) && decide (b ≤ 90))
    || (decide (97 ≤ b) && decide (b ≤ 122))

/-! ## room.c: the operations of a room admin -/

def PACKET_ROOM_TOPIC : Nat := 0x015f
def PACKET_ROOM_SET_MIC : Nat := 0x0163
def PACKET_ROOM_CLOSED : Nat := 0x017c
def PACKET_ROOM_USER_REDDOT_OFF : Nat := 0x018d
def PACKET_ROOM_USER_HAND_DOWN : Nat := 0x018f
def UID_ALL : Nat := 0xffffffff

/-- The text "You have been banned from this room.". -/
def banned_text : List Nat :=
  [89, 111, 117, 32, 104, 97, 118, 101, 32, 98, 101, 101, 110, 32, 98, 97, 110, 110, 101, 100, 32,
   102, 114, 111, 109, 32, 116, 104, 105, 115, 32, 114, 111, 111, 109, 46]

/-- The text "You have been bounced from this room.". -/
def bounced_text : List Nat :=
  [89, 111, 117, 32, 104, 97, 118, 101, 32, 98, 101, 101, 110, 32, 98, 111, 117, 110, 99, 101, 100,
   32, 102, 114, 111, 109, 32, 116, 104, 105, 115, 32, 114, 111, 111, 109, 46]

/-- Function `user_is_room_admin`: non-zero when `room_users` has a row (rid, uid) with
`admin = 1` (`SELECT COUNT(*) FROM room_users WHERE id=? AND uid=? AND admin=1`). -/
def user_is_room_admin (db : database) (rid uid : Nat) : Nat :=
  if (db.room_users.filter (fun r =>
        decide (r.id = db_int rid ∧ r.uid = db_int uid ∧ r.admin = 1))).length % 4294967296 ≠ 0
  then 1 else 0

/-- A new packet that is broadcast to the room and then, when `to_sender` is set,
enqueued on the sender at address `c`. -/
def room_announce (le : Bool) (w : world) (c : Nat) (rid type len : Nat) (data : List Nat)
    (flags : Nat) (to_sender : Bool) : Option world :=
  let np := new_packet w.heap type len (some data) flags
  match broadcast_to_room le { w with heap := np.1 } c rid np.2 with
  | none => none
  | some w1 =>
    if to_sender then some (w1.on_ctx c (fun heap ctx => send_packet le heap ctx np.2))
    else some w1

/-- Function `reddot_user` for the connection at address `c`. -/
def reddot_user (le : Bool) (w : world) (c : Nat) (rid uid : Nat) (onoff : Int) : Option world :=
  if user_is_room_admin w.db rid (w.ctx c).uid = 0 then some w
  else
    room_announce le w c rid
      (if onoff ≠ 0 then PACKET_ROOM_USER_REDDOT_ON else PACKET_ROOM_USER_REDDOT_OFF) 8
      (be32 rid ++ be32 uid) PACKET_F_COPY true

/-- Function `set_all_mics` (`UPDATE room_users SET mic=? WHERE id=?`). -/
def set_all_mics (le : Bool) (w : world) (c : Nat) (rid : Nat) (onoff : Int) : Option world :=
  if user_is_room_admin w.db rid (w.ctx c).uid = 0 then some w
  else
    let rows := w.db.room_users.map (fun r =>
      if r.id = db_int rid then { r with mic := if onoff ≠ 0 then 1 else 0 } else r)
    let db1 : database := { w.db with room_users := rows }
    room_announce le { w with db := db1 } c rid PACKET_ROOM_SET_MIC 10
      (be32 rid ++ [0, if onoff ≠ 0 then 1 else 0] ++ be32 (w.ctx c).uid) PACKET_F_COPY true

/-- Function `lower_all_hands` (`UPDATE room_users SET req=? WHERE id=?` with 0). -/
def lower_all_hands (le : Bool) (w : world) (c : Nat) (rid : Nat) : Option world :=
  if user_is_room_admin w.db rid (w.ctx c).uid = 0 then some w
  else
    let rows := w.db.room_users.map (fun r => if r.id = db_int rid then { r with req := 0 } else r)
    let db1 : database := { w.db with room_users := rows }
    room_announce le { w with db := db1 } c rid PACKET_ROOM_USER_HAND_DOWN 8
      (be32 rid ++ be32 UID_ALL) PACKET_F_COPY false

/-- Function `room_topic` (`UPDATE rooms SET topic=?,topic_setter=? WHERE id=?`; the update
fails when the room exists and `users` has no row for the setter).  The buffer
handed to the packet has 8 + strlen(topic) bytes; the terminating NUL that
`memcpy` writes behind them is not part of it. -/
def room_topic (le : Bool) (w : world) (c : Nat) (rid : Nat) (topic : Option (List Nat)) :
    Option world :=
  if user_is_room_admin w.db rid (w.ctx c).uid = 0 then some w
  else
    let text := cstr (topic.getD [])
    let db1 : database :=
      if db_int (w.ctx c).uid ∈ w.db.user_uids then
        { w.db with rooms := w.db.rooms.map (fun r =>
            if r.id = db_int rid then ⟨r.id, r.mike, r.text, r.video, some text, some (db_int (w.ctx c).uid)⟩
            else r) }
      else w.db
    room_announce le { w with db := db1 } c rid PACKET_ROOM_TOPIC (8 + text.length)
      (be32 rid ++ be32 (w.ctx c).uid ++ text) 0 false

/-- The notice `ban_user` and `bounce_user` send to the connection registered for `uid`,
when the sender passes `user_in_room` and the registry has the uid: a
`ROOM_CLOSED` packet with the room, the sender and the first `n` bytes of `text`. -/
def room_closed_notice (le : Bool) (w : world) (c : Nat) (rid uid : Nat) (text : List Nat) (n : Nat) :
    Option world :=
  if user_in_room w.db rid (w.ctx c).uid = 0 then some w
  else
    match ht_get_ptr_nc w.uid_to_context (itoa (long_of uid)) with
    | none => none
    | some none => some w
    | some (some t) =>
      let np := new_packet w.heap PACKET_ROOM_CLOSED (8 + n)
        (some (be32 rid ++ be32 (w.ctx c).uid ++ text.take n)) PACKET_F_COPY
      some (({ w with heap := np.1 } : world).on_ctx t (fun heap ctx => send_packet le heap ctx np.2))

/-- Function `ban_user`; `now` is the clock of the store.  The insert is dropped on a
conflict with the primary key (id, uid) and fails when the room or one of the
two users has no row (foreign keys are enforced). -/
def ban_user (le : Bool) (now : List Nat) (w : world) (c : Nat) (rid uid : Nat) : Option world :=
  if user_is_room_admin w.db rid (w.ctx c).uid = 0 then some w
  else
    let db1 : database :=
      if (∃ r ∈ w.db.rooms, r.id = db_int rid) ∧ db_int uid ∈ w.db.user_uids
          ∧ db_int (w.ctx c).uid ∈ w.db.user_uids
          ∧ ¬ (∃ r ∈ w.db.room_bans, r.id = db_int rid ∧ r.uid = db_int uid)
      then { w.db with room_bans := w.db.room_bans ++ [⟨db_int rid, db_int uid, db_int (w.ctx c).uid, now⟩] }
      else w.db
    room_closed_notice le { w with db := db1 } c rid uid banned_text 35

/-- Function `unban_user` (`DELETE FROM room_bans WHERE id=? AND uid=?`). -/
def unban_user (w : world) (c : Nat) (rid uid : Nat) : Option world :=
  if user_is_room_admin w.db rid (w.ctx c).uid = 0 then some w
  else
    let rows := w.db.room_bans.filter (fun r => decide (¬ (r.id = db_int rid ∧ r.uid = db_int uid)))
    some { w with db := { w.db with room_bans := rows } }

/-- Function `bounce_user`.  The call `db_bind(do_bounce, "iiit", 0, rid, uid, ctx->uid, reason)`
has one argument more than its format: the columns id, uid and bouncer get 0,
`rid` and `uid`, and the text column gets what `strdup` reads at the address
`ctx->uid`.  `stray` is the C string at that address; `none` stands for an address
that cannot be read, for which the call does not return. -/
def bounce_user (le : Bool) (now : List Nat) (stray : Option (List Nat)) (w : world) (c : Nat)
    (rid uid : Nat) : Option world :=
  if user_is_room_admin w.db rid (w.ctx c).uid = 0 then some w
  else
    match stray with
    | none => none
    | some text =>
      let db1 : database :=
        if (∃ r ∈ w.db.rooms, r.id = 0) ∧ db_int rid ∈ w.db.user_uids ∧ db_int uid ∈ w.db.user_uids
            ∧ ¬ (∃ r ∈ w.db.room_bounces, r.id = 0 ∧ r.uid = db_int rid)
        then { w.db with room_bounces := w.db.room_bounces ++ [⟨0, db_int rid, db_int uid, some (cstr text), now⟩] }
        else w.db
      room_closed_notice le { w with db := db1 } c rid uid bounced_text 36

/-- Function `unbounce_user` (`DELETE FROM room_bounces WHERE id=? AND uid=?`). -/
def unbounce_user (w : world) (c : Nat) (rid uid : Nat) : Option world :=
  if user_is_room_admin w.db rid (w.ctx c).uid = 0 then some w
  else
    let rows :=
      w.db.room_bounces.filter (fun r => decide (¬ (r.id = db_int rid ∧ r.uid = db_int uid)))
    some { w with db := { w.db with room_bounces := rows } }

/-- Function `new_user_mic` (`UPDATE rooms SET mike=? WHERE id=?`). -/
def new_user_mic (w : world) (c : Nat) (rid : Nat) (onoff : Int) : Option world :=
  if user_is_room_admin w.db rid (w.ctx c).uid = 0 then some w
  else
    let rows := w.db.rooms.map (fun r =>
      if r.id = db_int rid then { r with mike := if onoff ≠ 0 then 1 else 0 } else r)
    some { w with db := { w.db with rooms := rows } }

/-- Function `reddot_text` (`UPDATE rooms SET text=? WHERE id=?`). -/
def reddot_text (w : world) (c : Nat) (rid : Nat) (onoff : Int) : Option world :=
  if user_is_room_admin w.db rid (w.ctx c).uid = 0 then some w
  else
    let rows := w.db.rooms.map (fun r =>
      if r.id = db_int rid then { r with text := if onoff ≠ 0 then 1 else 0 } else r)
    some { w with db := { w.db with rooms := rows } }

/-- Function `reddot_video` (`UPDATE rooms SET video=? WHERE id=?`). -/
def reddot_video (w : world) (c : Nat) (rid : Nat) (onoff : Int) : Option world :=
  if user_is_room_admin w.db rid (w.ctx c).uid = 0 then some w
  else
    let rows := w.db.rooms.map (fun r =>
      if r.id = db_int rid then { r with video := if onoff ≠ 0 then 1 else 0 } else r)
    some { w with db := { w.db with rooms := rows } }

/-! ## Concrete states for nicknames, the challenge, registration and rooms -/

/-- A store whose `users` are "nxuser" (uid 1), "Bob" (uid 2) and "bob7" (uid 3). -/
def example_db_nick : database :=
  ⟨[], [],
   [user_row_default 1 [110, 120, 117, 115, 101, 114] [101], user_row_default 2 [66, 111, 98] [101],
    user_row_default 3 [98, 111, 98, 55] [101]],
   [], [], [], [], [], [], [], [], []⟩

/-- A `rand()` sequence that starts 1007, 5, 5, .. -/
def example_rands (k : Nat) : Nat := if k = 0 then 1007 else 5

/-- The store of `example_db_secret` with the ten questions of the schema reduced to
the one with index 1, "Street?". -/
def example_db_question : database :=
  { example_db_secret with secret_questions := [⟨1, [83, 116, 114, 101, 101, 116, 63]⟩] }

/-- A fresh connection (challenge 1) in the login flow that has received an
`INITIAL_STATUS` packet of protocol version 0x0053 for uid 42 whose encoded
device id is `dev` (an empty `dev` leaves the connection without a device id). -/
def example_initial_status (dev : List Nat) : pt_context :=
  { pt_context_init 4 0 with
    on_packet := some flow.login_flow
    pkt_in := ⟨PACKET_INITIAL_STATUS, 0x53, 14 + dev.length,
               some ([0, 0, 0, 42, 0, 0, 0, 1, 0, 0, 0, 0, 0, 30] ++ dev), 0, 0, 0⟩ }

/-- A `UID_FONTDEPTH_ETC` packet with ban level 0 and no accounts. -/
def example_fontdepth_packet : pt_packet :=
  ⟨PACKET_UID_FONTDEPTH_ETC, 0x53, 6, some [0, 0, 0, 0, 0, 0], 0, 0, 0⟩

/-- A `LOGIN` packet for uid 42 whose password field is the encoding of "nope". -/
def example_login_packet_bad : pt_packet :=
  ⟨PACKET_LOGIN, 0x53, 4 + example_pw_bad.length, some ([0, 0, 0, 42] ++ example_pw_bad), 0, 0, 0⟩

/-- An environment of `general_transition` with zero seeds and no category, buddy or
block list rows. -/
def example_env : transition_env :=
  ⟨0, fun _ => 0, fun _ => 0, 0, fun _ => 0, fun _ => 0, none, none, none, none⟩

/-- The server with one fresh connection (address 0, login flow) and nobody logged
in; the store holds user 42 with password "pw". -/
def example_world_fresh : world :=
  ⟨[], [example_initial_status []], example_registry_empty, example_db_question⟩

/-- The connection at address 0 has received `pkt`. -/
def world.receive (w : world) (pkt : pt_packet) : world :=
  w.on_ctx 0 (fun heap ctx => (heap, { ctx with pkt_in := pkt }))

/-- The state after the connection of `example_world_fresh` has sent `INITIAL_STATUS` for
uid 42 and then a `LOGIN` with the wrong password "nope", each handled by its
case of `login_flow`. -/
def example_world_rejected : Option world :=
  ((login_flow_initial_status true (fun k => k) example_world_fresh.db example_world_fresh.heap
      (example_world_fresh.ctx 0)).map
    (fun r => ({ example_world_fresh with heap := r.1, ctxs := [r.2] } : world))).bind
    (fun w => login_flow_login true (fun _ => 0) 0 0 0 (w.receive example_login_packet_bad) 0)

/-- The state after the same connection has then sent `UID_FONTDEPTH_ETC`. -/
def example_world_bypass : Option world :=
  example_world_rejected.bind
    (fun w => login_flow_fontdepth true example_env (w.receive example_fontdepth_packet) 0)

/-- The variant 2 encoding of a string with challenge 1 on a version 0x0053
context at time 0. -/
def example_encode2 (s : List Nat) : List Nat :=
  ((pt_encode_with_challenge ⟨0x53, 0, [], 0, 0⟩ 2 1 (some s) 0 (fun _ => 0) (fun _ => 0)).1).getD []

/-- The nickname "!" followed by 27 times "a": 28 characters, the first one not
alphanumeric. -/
def example_bad_nickname : List Nat := 33 :: List.replicate 27 97

/-- The body of a `REGISTRATION_INFO` packet with seven fields: the encoded nickname
`nick`, password "pw" and email "a@b", the question number "1", the encoded
response "blue", first name "x" and last name "y". -/
def example_registration_body (nick : List Nat) : List Nat :=
  example_encode2 nick ++ [10] ++ example_encode2 [112, 119] ++ [10]
    ++ example_encode2 [97, 64, 98] ++ [10, 49, 10] ++ example_encode2 [98, 108, 117, 101] ++ [10]
    ++ example_encode2 [120] ++ [10] ++ example_encode2 [121]

/-- A connection in the registration flow (challenge 1, version 0x0053, entered
from the login flow) that has received a `REGISTRATION_INFO` packet for the
nickname `nick`; the store has the users "nxuser", "Bob" and "bob7" and the
question 1. -/
def example_world_registration (nick : List Nat) : world :=
  ⟨[], [{ pt_context_init 5 0 with
          protocol_version := 0x53
          on_packet := some flow.registration_flow
          prev_on_packet := some flow.login_flow
          pkt_in := ⟨PACKET_REGISTRATION_INFO, 0x53, (example_registration_body nick).length,
                     some (example_registration_body nick), 0, 0, 0⟩ }],
   example_registry_empty,
   { example_db_nick with secret_questions := [⟨1, [83, 116, 114, 101, 101, 116, 63]⟩] }⟩

/-- The state of `example_world_room` in which user 9 is an admin of room 100 and the
store has the rooms 100 and 200. -/
def example_world_admin : world :=
  { example_world_room PACKET_ROOM_USER_REDDOT_ON with
    db := { (example_world_room PACKET_ROOM_USER_REDDOT_ON).db with
      room_users := [⟨100, 7, 0, 0, 0⟩, ⟨100, 9, 0, 0, 1⟩, ⟨100, 11, 0, 0, 0⟩, ⟨200, 9, 0, 0, 0⟩]
      rooms := [⟨100, 1, 0, 0, none, none⟩, ⟨200, 1, 0, 0, none, none⟩] } }

/-! # Theorems -/

/-! ## Lemmas on the codec -/

theorem schar_small (b : Nat) (h : b < 128) : schar b = (b : Int) := by
  unfold schar; split <;> omega

theorem and_three_eq_mod (n : Nat) : n &&& 3 = n % 4 := Nat.and_pow_two_sub_one_eq_mod n 2

theorem ustoa_digits_three (n : Nat) :
    ustoa_digits n 3 = [48 + n / 100 % 10, 48 + n / 10 % 10, 48 + n % 10] := by
  simp [ustoa_digits]
  omega

theorem three_digits_value (n : Nat) (h : n ≤ 999) :
    to_u32 (schar (48 + n / 100 % 10) * 100 + schar (48 + n / 10 % 10) * 10
      + schar (48 + n % 10) - 5328) = n := by
  rw [schar_small _ (by omega), schar_small _ (by omega), schar_small _ (by omega)]
  have e : n / 100 % 10 * 100 + n / 10 % 10 * 10 + n % 10 = n := by omega
  generalize n / 100 % 10 = a at e ⊢
  generalize n / 10 % 10 = b at e ⊢
  generalize n % 10 = d at e ⊢
  unfold to_u32
  omega

theorem decode_value_encode_value (gb v ch i c : Nat) (hc : c < 256) :
    decode_value gb v ch i (to_u16 (encode_value gb v ch i c)) = c := by
  unfold decode_value encode_value
  generalize ginger_at gb (ch + i) = g
  generalize ginger_at gb i = g'
  generalize (i : Int) * (13 - (i : Int)) = q
  generalize (ch : Int) * (i : Int) = q'
  unfold to_u16 to_byte schar
  split <;> [skip; split] <;> split <;> omega

theorem encode_loop_length (gb v : Nat) (s : List Nat) : ∀ (i ch time : Nat),
    (encode_loop gb v s i ch time).1.length = 4 * s.length := by
  induction s with
  | nil => intro i ch time; simp [encode_loop]
  | cons c rest ih =>
    intro i ch time
    simp [encode_loop, ih, ustoa, ustoa_digits_three]
    omega

theorem decode_encode_loop (gb v : Nat) (s : List Nat) : ∀ (i ch time : Nat),
    (∀ b ∈ s, b < 256) → fits_three_digits gb v s i ch = true →
    decode_loop gb v s.length i ch (encode_loop gb v s i ch time).1 = some s := by
  induction s with
  | nil => intro i ch time _ _; simp [decode_loop]
  | cons c rest ih =>
    intro i ch time hb hfit
    simp only [fits_three_digits, Bool.and_eq_true, decide_eq_true_eq] at hfit
    have hrest := ih (i + 1) (next_challenge v ch) (ms_seed time)
      (fun b hb' => hb b (List.mem_cons_of_mem _ hb')) hfit.2
    have hc : c < 256 := hb c (List.mem_cons_self _ _)
    have hn := three_digits_value _ hfit.1
    simp only [encode_loop, List.length_cons, decode_loop, ustoa, ustoa_digits_three,
      List.cons_append, List.nil_append, List.getD_cons_zero, List.getD_cons_succ,
      List.drop_succ_cons, List.drop_zero, hn, hrest]
    rw [if_neg (by omega), decode_value_encode_value gb v ch i c hc]

theorem cb_addend_read (a : Nat) (ha : a < 10) : to_u32 (schar (48 + a) - 48) = a := by
  rw [schar_small _ (by omega)]; unfold to_u32; omega

theorem cb_unshift_digit (a d : Nat) (ha : a < 10) (hd : d < 10) :
    ((to_u32 (schar (cb_shift_digit a (48 + d)) - (a : Int) - 48) + 10) % 4294967296) % 10 = d := by
  unfold cb_shift_digit
  split
  · rw [schar_small _ (by omega)]; unfold to_u32; omega
  · rw [schar_small _ (by omega)]; unfold to_u32; omega

theorem cb_decode_group_insert (d0 d1 d2 a j : Nat) (h0 : d0 < 10) (h1 : d1 < 10) (h2 : d2 < 10)
    (ha : a < 10) (hj : j < 4) :
    cb_decode_group ((([48 + d0, 48 + d1, 48 + d2].map (cb_shift_digit a)).take j ++ [48 + a])
        ++ ([48 + d0, 48 + d1, 48 + d2].map (cb_shift_digit a)).drop j) j
      = 100 * d0 + 10 * d1 + d2 := by
  have e0 := cb_unshift_digit a d0 ha h0
  have e1 := cb_unshift_digit a d1 ha h1
  have e2 := cb_unshift_digit a d2 ha h2
  have ea := cb_addend_read a ha
  have hr : List.range 4 = [0, 1, 2, 3] := by decide
  interval_cases j <;>
    simp [cb_decode_group, hr, tenpow, ea, e0, e1, e2] <;> omega



theorem ms_rand_le (x : Nat) : ms_rand x ≤ 32767 := by
  unfold ms_rand; exact Nat.and_le_right

theorem cb_start_pos_bounds (seed : Nat) : 1001 ≤ cb_start_pos seed ∧ cb_start_pos seed < 10000 := by
  have h := ms_rand_le seed
  unfold cb_start_pos
  simp only [CODEBOOK_LEN]
  have hx : (ms_rand seed * min 8999 (0x558 - 256)) % 4294967296 < 2 ^ 26 := by
    have : min 8999 (0x558 - 256) = 1112 := by decide
    have hlt : ms_rand seed * 1112 < 4294967296 := by omega
    rw [this, Nat.mod_eq_of_lt hlt]; omega
  generalize (ms_rand seed * min 8999 (0x558 - 256)) % 4294967296 = x at hx
  have h1 : x >>> 15 < 2 ^ 11 := by rw [Nat.shiftRight_eq_div_pow]; omega
  have h2 : (x >>> 14) &&& 1 < 2 ^ 11 := lt_of_le_of_lt Nat.and_le_right (by decide)
  have := Nat.or_lt_two_pow h1 h2
  omega

theorem cb_addend_lt (seed : Nat) : cb_addend seed < 10 := by
  unfold cb_addend; exact Nat.mod_lt _ (by decide)

theorem cb_header_len_cases (p : Nat) :
    cb_header_len p = 4 ∨ cb_header_len p = 8 ∨ cb_header_len p = 12 := by
  unfold cb_header_len c_not
  simp only [Nat.shiftLeft_eq]
  split <;> split <;> simp

theorem ustoa_digits_four (n : Nat) :
    ustoa_digits n 4 = [48 + n / 1000 % 10, 48 + n / 100 % 10, 48 + n / 10 % 10, 48 + n % 10] := by
  simp [ustoa_digits]
  omega

theorem four_digits_value (n : Nat) (h : n < 10000) :
    to_u32 (schar (48 + n / 1000 % 10) * 1000 + schar (48 + n / 100 % 10) * 100
      + schar (48 + n / 10 % 10) * 10 + schar (48 + n % 10) - 53328) = n := by
  rw [schar_small _ (by omega), schar_small _ (by omega), schar_small _ (by omega),
    schar_small _ (by omega)]
  have e : n / 1000 % 10 * 1000 + n / 100 % 10 * 100 + n / 10 % 10 * 10 + n % 10 = n := by omega
  generalize n / 1000 % 10 = a at e ⊢
  generalize n / 100 % 10 = b at e ⊢
  generalize n / 10 % 10 = d at e ⊢
  generalize n % 10 = f at e ⊢
  unfold to_u32
  omega

theorem cb_encode_group_eq (codebook : List Nat) (ch s_pos i c a : Nat) (n : Nat)
    (hn : to_u16 (0x71 + (i : Int) + schar c + ((codebook.getD (ch + i) 0 : Nat) : Int)) = n) :
    cb_encode_group codebook ch s_pos i c a
      = (([48 + n / 100 % 10, 48 + n / 10 % 10, 48 + n % 10].map (cb_shift_digit a)).take
            ((codebook.getD (ch + i) 0 + i + s_pos) &&& 3) ++ [48 + a])
          ++ ([48 + n / 100 % 10, 48 + n / 10 % 10, 48 + n % 10].map (cb_shift_digit a)).drop
            ((codebook.getD (ch + i) 0 + i + s_pos) &&& 3) := by
  simp only [cb_encode_group, ustoa, hn, ustoa_digits_three]

theorem cb_encode_group_length (codebook : List Nat) (ch s_pos i c a : Nat) :
    (cb_encode_group codebook ch s_pos i c a).length = 4 := by
  rw [cb_encode_group_eq codebook ch s_pos i c a _ rfl]
  have : (codebook.getD (ch + i) 0 + i + s_pos) &&& 3 < 4 := by rw [and_three_eq_mod]; omega
  generalize (codebook.getD (ch + i) 0 + i + s_pos) &&& 3 = j at this
  interval_cases j <;> simp

theorem cb_group_roundtrip (codebook : List Nat) (ch s_pos i c a : Nat)
    (hcb : 32 ≤ codebook.getD (ch + i) 0 ∧ codebook.getD (ch + i) 0 ≤ 122)
    (hc : c < 256) (hi : i < 128) (ha : a < 10) :
    to_byte ((cb_decode_group (cb_encode_group codebook ch s_pos i c a)
        ((codebook.getD (ch + i) 0 + i + s_pos) &&& 3) : Int) - 0x71
        - ((codebook.getD (ch + i) 0 : Nat) : Int) - (i : Int)) = c := by
  have hn : ∃ n, to_u16 (0x71 + (i : Int) + schar c + ((codebook.getD (ch + i) 0 : Nat) : Int)) = n
      ∧ n ≤ 999 ∧ (n : Int) = 0x71 + (i : Int) + schar c + ((codebook.getD (ch + i) 0 : Nat) : Int) := by
    refine ⟨_, rfl, ?_, ?_⟩ <;> (unfold to_u16 schar; split <;> omega)
  obtain ⟨n, hn, hle, heq⟩ := hn
  rw [cb_encode_group_eq codebook ch s_pos i c a n hn]
  have hj : (codebook.getD (ch + i) 0 + i + s_pos) &&& 3 < 4 := by rw [and_three_eq_mod]; omega
  rw [cb_decode_group_insert _ _ _ a _ (by omega) (by omega) (by omega) ha hj]
  have e : 100 * (n / 100 % 10) + 10 * (n / 10 % 10) + n % 10 = n := by omega
  rw [e, heq]
  unfold to_byte schar
  split <;> omega

theorem cb_decode_encode_loop (codebook : List Nat) (ch s_pos : Nat) (seeds : Nat → Nat)
    (hcb : ∀ k, k < ch + 128 → 32 ≤ codebook.getD k 0 ∧ codebook.getD k 0 ≤ 122)
    (s : List Nat) : ∀ (i : Nat), i + s.length ≤ 128 → (∀ b ∈ s, b < 256) →
    cb_decode_loop codebook ch s_pos s.length i (cb_encode_loop codebook ch s_pos seeds s i) = s := by
  induction s with
  | nil => intro i _ _; simp [cb_decode_loop]
  | cons c rest ih =>
    intro i hi hb
    simp only [List.length_cons] at hi
    have hlen := cb_encode_group_length codebook ch s_pos i c (cb_addend (seeds i))
    simp only [cb_encode_loop, List.length_cons, cb_decode_loop]
    rw [List.take_left' hlen, List.drop_left' hlen,
      ih (i + 1) (by omega) (fun b h => hb b (List.mem_cons_of_mem _ h)),
      cb_group_roundtrip codebook ch s_pos i c _ (hcb _ (by omega)) (hb c (List.mem_cons_self _ _))
        (by omega) (cb_addend_lt _)]



set_option maxRecDepth 100000 in
theorem codebook1_length : codebook1.length = 342 := by decide

set_option maxRecDepth 100000 in
theorem codebook2_length : codebook2.length = 342 := by decide

theorem cb_encode_loop_length (codebook : List Nat) (ch s_pos : Nat) (seeds : Nat → Nat)
    (s : List Nat) : ∀ (i : Nat),
    (cb_encode_loop codebook ch s_pos seeds s i).length = 4 * s.length := by
  induction s with
  | nil => intro i; simp [cb_encode_loop]
  | cons c rest ih =>
    intro i
    simp only [cb_encode_loop, List.length_append, cb_encode_group_length, ih, List.length_cons]
    omega

set_option maxRecDepth 100000 in
theorem codebook1_range : ∀ x ∈ codebook1, 32 ≤ x ∧ x ≤ 122 := by decide

set_option maxRecDepth 100000 in
theorem codebook2_range : ∀ x ∈ codebook2, 32 ≤ x ∧ x ≤ 122 := by decide

theorem getD_range_of_mem (l : List Nat) (k lo hi : Nat) (hk : k < l.length)
    (h : ∀ x ∈ l, lo ≤ x ∧ x ≤ hi) : lo ≤ l.getD k 0 ∧ l.getD k 0 ≤ hi := by
  rw [List.getD_eq_getElem l 0 hk]
  exact h _ (List.getElem_mem hk)

theorem cook_pair_range (o s2 s3 i : Nat) :
    ∀ x ∈ cook_pair o s2 s3 i, 32 ≤ x ∧ x ≤ 122 := by
  intro x hx
  simp only [cook_pair, List.mem_cons, List.mem_singleton, List.not_mem_nil, or_false] at hx
  rcases hx with hx | hx
  · subst hx
    split
    · exact getD_range_of_mem _ _ _ _ (by rw [codebook2_length]; exact Nat.mod_lt _ (by decide))
        codebook2_range
    · exact getD_range_of_mem _ _ _ _ (by rw [codebook1_length]; exact Nat.mod_lt _ (by decide))
        codebook1_range
  · subst hx
    unfold to_byte
    omega

theorem cook_loop_range (o s2 s3 : Nat) : ∀ (n i : Nat),
    ∀ x ∈ cook_loop o s2 s3 n i, 32 ≤ x ∧ x ≤ 122 := by
  intro n
  induction n with
  | zero => intro i x hx; simp [cook_loop] at hx
  | succ n ih =>
    intro i x hx
    simp only [cook_loop, List.mem_append] at hx
    rcases hx with hx | hx
    · exact cook_pair_range o s2 s3 i x hx
    · exact ih (i + 2) x hx

theorem cook_loop_length (o s2 s3 : Nat) : ∀ (n i : Nat),
    (cook_loop o s2 s3 n i).length = 2 * n := by
  intro n
  induction n with
  | zero => intro i; simp [cook_loop]
  | succ n ih => intro i; simp [cook_loop, cook_pair, ih]; omega

theorem cook_codebook_range (o s2 s3 k : Nat) (hk : k < 1368) :
    32 ≤ (cook_codebook o s2 s3).getD k 0 ∧ (cook_codebook o s2 s3).getD k 0 ≤ 122 := by
  unfold cook_codebook
  refine getD_range_of_mem _ _ _ _ ?_ (cook_loop_range o s2 s3 _ _)
  rw [cook_loop_length]; simp only [CODEBOOK_LEN]; omega

theorem pt_decode_with_codebook_parts (codebook : List Nat) (ch d0 d1 d2 d3 s_pos n : Nat)
    (pads body : List Nat)
    (hpos : to_u32 (schar d0 * 1000 + schar d1 * 100 + schar d2 * 10 + schar d3 - 53328) = s_pos)
    (hpads : 4 + pads.length = cb_header_len s_pos) (hbody : body.length = 4 * n) :
    pt_decode_with_codebook codebook ch (some (d0 :: d1 :: d2 :: d3 :: (pads ++ body)))
      = some (cb_decode_loop codebook (ch % 65536) s_pos n 0 body) := by
  have hlen : (d0 :: d1 :: d2 :: d3 :: (pads ++ body)).length = cb_header_len s_pos + 4 * n := by
    simp only [List.length_cons, List.length_append, hbody]; omega
  have hdrop : (d0 :: d1 :: d2 :: d3 :: (pads ++ body)).drop (cb_header_len s_pos) = body := by
    rw [← hpads]
    simp only [List.drop_succ_cons, Nat.add_comm 4 pads.length]
    exact List.drop_left' rfl
  have hhdr := cb_header_len_cases s_pos
  unfold pt_decode_with_codebook
  simp only [List.getD_cons_zero, List.getD_cons_succ, hpos, hdrop, hlen, and_three_eq_mod]
  have h1 : ¬ (cb_header_len s_pos + 4 * n = 0 ∨ (cb_header_len s_pos + 4 * n) % 4 ≠ 0) := by omega
  have h2 : ¬ (cb_header_len s_pos + 4 * n < cb_header_len s_pos) := by omega
  have h3 : (cb_header_len s_pos + 4 * n - cb_header_len s_pos) >>> 2 = n := by
    rw [Nat.shiftRight_eq_div_pow]; omega
  rw [if_neg h1, if_neg h2, h3]

theorem cb_padding_length (s_pos : Nat) (rands : Nat → Nat) :
    (cb_padding s_pos rands).length = cb_header_len s_pos - 4 := by
  unfold cb_padding
  generalize cb_header_len s_pos - 4 = n
  simp only [List.length_map, List.length_range]

theorem pt_encode_with_codebook_parts (codebook : List Nat) (c : Nat) (s : List Nat)
    (seed0 : Nat) (rands seeds : Nat → Nat) (hc : c < 65536) (hs : s.length ≠ 0) :
    pt_encode_with_codebook codebook c (some s) seed0 rands seeds
      = some ((48 + cb_start_pos seed0 / 1000 % 10) :: (48 + cb_start_pos seed0 / 100 % 10)
          :: (48 + cb_start_pos seed0 / 10 % 10) :: (48 + cb_start_pos seed0 % 10)
          :: (cb_padding (cb_start_pos seed0) rands
              ++ cb_encode_loop codebook c (cb_start_pos seed0) seeds s 0)) := by
  have hp := cb_start_pos_bounds seed0
  have hu : to_u16 ((cb_start_pos seed0 : Nat) : Int) = cb_start_pos seed0 := by
    unfold to_u16; omega
  have hmod : c % 65536 = c := by omega
  simp only [pt_encode_with_codebook, if_neg hs]
  rw [hu, ustoa_digits_four, hmod]
  generalize cb_padding (cb_start_pos seed0) rands = pads
  generalize cb_encode_loop codebook c (cb_start_pos seed0) seeds s 0 = body
  generalize cb_start_pos seed0 = p
  rw [List.cons_append, List.cons_append, List.cons_append, List.cons_append,
    List.cons_append, List.cons_append, List.cons_append, List.cons_append, List.nil_append]

theorem cb_roundtrip (codebook : List Nat) (c : Nat) (s : List Nat) (seed0 : Nat)
    (rands seeds : Nat → Nat)
    (hcb : ∀ k, k < c + 128 → 32 ≤ codebook.getD k 0 ∧ codebook.getD k 0 ≤ 122)
    (hc : c < 65536) (hs : 1 ≤ s.length ∧ s.length ≤ 128) (hb : ∀ b ∈ s, b < 256) :
    pt_decode_with_codebook codebook c
      (pt_encode_with_codebook codebook c (some s) seed0 rands seeds) = some s := by
  have hp := cb_start_pos_bounds seed0
  have hmod : c % 65536 = c := by omega
  have hhdr := cb_header_len_cases (cb_start_pos seed0)
  have hpad := cb_padding_length (cb_start_pos seed0) rands
  rw [pt_encode_with_codebook_parts codebook c s seed0 rands seeds hc (by omega),
    pt_decode_with_codebook_parts codebook c _ _ _ _ (cb_start_pos seed0) s.length _ _
      (four_digits_value _ hp.2) (by omega)
      (cb_encode_loop_length codebook c (cb_start_pos seed0) seeds s 0),
    hmod, cb_decode_encode_loop codebook c (cb_start_pos seed0) seeds hcb s 0
      (by omega) hb]

/-! ## C1 and C2: encode / decode round trips -/

/-- Claim C1, amended: on a context that does not use the codebook, for every
variant in 1..3, every challenge in [1,226] and every non-empty string of at
most 128 non-NUL bytes whose per-position values all fit three decimal digits
(`fits_three_digits`: the value handed to `ustoa`, as an `unsigned short`, is at
most 999), decoding the encoded string with the same variant and challenge is
non-null and returns the string. -/
theorem pt_decode_encode_of_fits (ctx : codec_ctx) (v c : Nat) (s : List Nat)
    (seed0 : Nat) (rands seeds : Nat → Nat)
    (hcb : uses_codebook ctx = false) (hv : 1 ≤ v ∧ v ≤ 3) (hc : 1 ≤ c ∧ c ≤ 226)
    (hs : 1 ≤ s.length ∧ s.length ≤ 128) (hb : ∀ b ∈ s, 1 ≤ b ∧ b ≤ 255)
    (hfit : fits_three_digits ctx.ginger_beyond v s 0 c = true) :
    pt_decode_with_challenge (pt_encode_with_challenge ctx v c (some s) seed0 rands seeds).2 v c
      (pt_encode_with_challenge ctx v c (some s) seed0 rands seeds).1 = some s := by
  have hv0 : ¬ (v = 0 ∨ v > 3 ∨ s.length = 0) := by omega
  have htake : s.take ENCODE_MAX_LEN = s := List.take_of_length_le (by unfold ENCODE_MAX_LEN; omega)
  have hmod : c % 65536 = c := by omega
  have hcb' : uses_codebook { ctx with time := (encode_loop ctx.ginger_beyond v s 0 c ctx.time).2 } = false := by
    simpa [uses_codebook] using hcb
  simp only [pt_encode_with_challenge, hcb, Bool.false_eq_true, if_false, hv0, htake, hmod]
  simp only [pt_decode_with_challenge, hcb', Bool.false_eq_true, if_false, encode_loop_length,
    and_three_eq_mod]
  have hv1 : ¬ (v = 0 ∨ v > 3 ∨ 4 * s.length = 0 ∨ 4 * s.length % 4 ≠ 0) := by omega
  have hk : (min (4 * s.length) DECODE_MAX_LEN) >>> 2 = s.length := by
    rw [Nat.shiftRight_eq_div_pow]; unfold DECODE_MAX_LEN
    simp only [Nat.shiftLeft_eq]; omega
  rw [if_neg hv1, hk, hmod]
  exact decode_encode_loop _ v s 0 c ctx.time (fun b h => by have := hb b h; omega) hfit

/-- Witness for C1 (amended): variant 1, challenge 1, the string "hunter2". -/
theorem pt_decode_encode_of_fits_witness :
    pt_decode_with_challenge
      (pt_encode_with_challenge ⟨0x53, 0, [], 7, 0⟩ 1 1 (some [104, 117, 110, 116, 101, 114, 50]) 0
        (fun _ => 0) (fun _ => 0)).2 1 1
      (pt_encode_with_challenge ⟨0x53, 0, [], 7, 0⟩ 1 1 (some [104, 117, 110, 116, 101, 114, 50]) 0
        (fun _ => 0) (fun _ => 0)).1 = some [104, 117, 110, 116, 101, 114, 50] :=
  pt_decode_encode_of_fits ⟨0x53, 0, [], 7, 0⟩ 1 1 [104, 117, 110, 116, 101, 114, 50] 0
    (fun _ => 0) (fun _ => 0) (by decide) (by decide) (by decide) (by decide) (by decide)
    (by decide)

/-- Counterexample to C1 as stated: variant 3 with challenge 226 encodes "aaaaa"
(five bytes 97) to "29005492777399112082"; the fifth value, 0x7a + 97 + 101 + 222 * 4 = 1208,
is written as "208", and decoding returns "aaaay" (last byte 121) instead of "aaaaa". -/
theorem pt_decode_encode_variant3_counterexample :
    uses_codebook ⟨0x53, 0, [], 0, 0⟩ = false
    ∧ (pt_encode_with_challenge ⟨0x53, 0, [], 0, 0⟩ 3 226 (some [97, 97, 97, 97, 97]) 0
        (fun _ => 0) (fun _ => 0)).1
      = some [50, 57, 48, 48, 53, 52, 57, 50, 55, 55, 55, 51, 57, 57, 49, 49, 50, 48, 56, 50]
    ∧ pt_decode_with_challenge
        (pt_encode_with_challenge ⟨0x53, 0, [], 0, 0⟩ 3 226 (some [97, 97, 97, 97, 97]) 0
          (fun _ => 0) (fun _ => 0)).2 3 226
        (pt_encode_with_challenge ⟨0x53, 0, [], 0, 0⟩ 3 226 (some [97, 97, 97, 97, 97]) 0
          (fun _ => 0) (fun _ => 0)).1
      = some [97, 97, 97, 97, 121] := by
  decide

/-- Claim C2: for every codebook generated by `pt_encode_cook_codebook` (any
`cb1_offset`, `cb2_step`, `cb3_step`, in particular `cb1_offset` in [1,85] and the
steps in [1,16]), every challenge in [1,226], every non-empty string of at most
128 non-NUL bytes and every value of the random start position, padding digits
and addend digits, `pt_decode_with_codebook` applied to the output of
`pt_encode_with_codebook` returns the string. -/
theorem pt_codebook_round_trip (cb1_offset cb2_step cb3_step c : Nat) (s : List Nat)
    (seed0 : Nat) (rands seeds : Nat → Nat) (hc : 1 ≤ c ∧ c ≤ 226)
    (hs : 1 ≤ s.length ∧ s.length ≤ 128) (hb : ∀ b ∈ s, 1 ≤ b ∧ b ≤ 255) :
    pt_decode_with_codebook (cook_codebook cb1_offset cb2_step cb3_step) c
      (pt_encode_with_codebook (cook_codebook cb1_offset cb2_step cb3_step) c (some s)
        seed0 rands seeds) = some s :=
  cb_roundtrip (cook_codebook cb1_offset cb2_step cb3_step) c s seed0 rands seeds
    (fun k hk => cook_codebook_range cb1_offset cb2_step cb3_step k (by omega))
    (by omega) hs (fun b h => by have := hb b h; omega)

/-- Witness for C2: the codebook for parameters (5, 3, 7), challenge 226, the string "p". -/
theorem pt_codebook_round_trip_witness :
    pt_decode_with_codebook (cook_codebook 5 3 7) 226
      (pt_encode_with_codebook (cook_codebook 5 3 7) 226 (some [112]) 6
        (fun k => 7 * k + 3) (fun k => 1000 * k + 77)) = some [112] :=
  pt_codebook_round_trip 5 3 7 226 [112] 6 (fun k => 7 * k + 3) (fun k => 1000 * k + 77)
    (by decide) (by decide) (by decide)

/-! ## Lemmas on the packet queue -/

theorem iov_bytes_length (mem : pkt_memory) (v : iovec) : (iov_bytes mem v).length = v.len := by
  simp [iov_bytes]

theorem range_map_drop (f : Nat → Nat) (len bs : Nat) :
    ((List.range len).map f).drop bs = (List.range (len - bs)).map (fun k => f (bs + k)) := by
  apply List.ext_getElem
  · simp
  · intro i h1 h2
    simp

theorem iov_bytes_advance (mem : pkt_memory) (v : iovec) (bs : Nat) :
    iov_bytes mem { v with len := v.len - bs, off := v.off + bs } = (iov_bytes mem v).drop bs := by
  simp only [iov_bytes, range_map_drop, Nat.add_assoc]

theorem iov_scan_drop (mem : pkt_memory) (l : List iovec) : ∀ (bs : Nat),
    bs ≤ (iov_concat mem l).length →
    iov_concat mem ((iov_scan l bs).1.drop (iov_scan l bs).2) = (iov_concat mem l).drop bs := by
  induction l with
  | nil => intro bs _; simp [iov_scan, iov_concat]
  | cons v rest ih =>
    intro bs hbs
    simp only [iov_concat, List.length_append, iov_bytes_length] at hbs
    unfold iov_scan
    by_cases h0 : bs = 0
    · subst h0; simp
    · rw [if_neg h0]
      by_cases hle : v.len ≤ bs
      · rw [if_pos hle]
        simp only [List.drop_succ_cons, iov_concat]
        rw [ih (bs - v.len) (by omega)]
        have : bs = (iov_bytes mem v).length + (bs - v.len) := by rw [iov_bytes_length]; omega
        conv => rhs; rw [this, List.drop_append]
      · rw [if_neg hle]
        simp only [List.drop_zero, iov_concat, iov_bytes_advance]
        rw [List.drop_append_of_le_length (by rw [iov_bytes_length]; omega)]

theorem packet_out_pkt_out (heap : pkt_heap) (ctx : pt_context) (n : Nat) (h0 : 0 < n)
    (hq : ctx.pkt_out ≠ []) :
    (packet_out heap ctx (n : Int)).2.pkt_out
      = (iov_scan ctx.pkt_out n).1.drop (iov_scan ctx.pkt_out n).2 := by
  have h1 : ¬ (ctx.pkt_out.length = 0 ∨ (n : Int) ≤ 0) := by
    intro h
    rcases h with h | h
    · exact hq (List.length_eq_zero.mp h)
    · omega
  unfold packet_out
  rw [if_neg h1]
  simp only [Int.toNat_ofNat]
  split <;> split <;> rfl

theorem packet_out_iov (mem : pkt_memory) (heap : pkt_heap) (ctx : pt_context) (n : Nat)
    (h0 : 0 < n) (hle : n ≤ (iov_concat mem ctx.pkt_out).length) :
    iov_concat mem (packet_out heap ctx (n : Int)).2.pkt_out
      = (iov_concat mem ctx.pkt_out).drop n := by
  have hq : ctx.pkt_out ≠ [] := by
    intro h; rw [h] at hle; simp [iov_concat] at hle; omega
  rw [packet_out_pkt_out heap ctx n h0 hq]
  exact iov_scan_drop mem ctx.pkt_out n hle

theorem bswap16_split (hi lo : Nat) (hh : hi < 256) (hl : lo < 256) :
    bswap16 (hi * 256 + lo) = lo * 256 + hi := by
  unfold bswap16; omega

theorem u16_mem_split (le : Bool) (hi lo : Nat) (hh : hi < 256) (hl : lo < 256) :
    u16_mem le (hi * 256 + lo) = if le then [lo, hi] else [hi, lo] := by
  unfold u16_mem
  have e1 : (hi * 256 + lo) % 256 = lo := by omega
  have e2 : (hi * 256 + lo) / 256 % 256 = hi := by omega
  rw [e1, e2]

theorem u16_mem_htons (le : Bool) (x : Nat) (hx : x < 65536) :
    u16_mem le (htons le x) = [x / 256, x % 256] := by
  have hx' : x = x / 256 * 256 + x % 256 := by omega
  have hh : x / 256 < 256 := by omega
  have hl : x % 256 < 256 := by omega
  generalize x / 256 = hi at hx' hh
  generalize x % 256 = lo at hx' hl
  subst hx'
  cases le
  · have : htons false (hi * 256 + lo) = hi * 256 + lo := by unfold htons; simp; omega
    rw [this, u16_mem_split false hi lo hh hl]; simp
  · have : htons true (hi * 256 + lo) = lo * 256 + hi := by
      unfold htons; simp [bswap16_split hi lo hh hl]
    rw [this, u16_mem_split true lo hi hl hh]; simp

theorem htons_u16_of_mem (le : Bool) (b0 b1 : Nat) (h0 : b0 < 256) (h1 : b1 < 256) :
    htons le (u16_of_mem le b0 b1) = b0 * 256 + b1 := by
  have e0 : b0 % 256 = b0 := by omega
  have e1 : b1 % 256 = b1 := by omega
  cases le
  · simp only [u16_of_mem, htons, e0, e1, Bool.false_eq_true, if_false]; omega
  · simp only [u16_of_mem, htons, e0, e1, if_true]
    rw [Nat.add_comm, bswap16_split b1 b0 h1 h0]

theorem heap_getD_append_new (heap : pkt_heap) (x : Option pt_packet) :
    (heap ++ [x]).getD heap.length none = x := by
  simp [List.getD_eq_getElem?_getD]

theorem heap_getD_append_old (heap : pkt_heap) (x : Option pt_packet) (a : Nat)
    (ha : a < heap.length) : (heap ++ [x]).getD a none = heap.getD a none := by
  simp [List.getD_eq_getElem?_getD, List.getElem?_append_left ha]

theorem heap_set_append_new (heap : pkt_heap) (x y : Option pt_packet) :
    heap_set (heap ++ [x]) heap.length y = heap ++ [y] := by
  unfold heap_set
  rw [List.set_append_right _ _ (Nat.le_refl _)]
  simp

theorem range_map_getD (l : List Nat) : (List.range l.length).map (fun k => l.getD k 0) = l := by
  apply List.ext_getElem
  · simp
  · intro i h1 h2
    simp at h1
    simp [List.getD_eq_getElem?_getD, List.getElem?_eq_getElem h1]

theorem iov_concat_append (mem : pkt_memory) (l1 l2 : List iovec) :
    iov_concat mem (l1 ++ l2) = iov_concat mem l1 ++ iov_concat mem l2 := by
  induction l1 with
  | nil => simp [iov_concat]
  | cons v rest ih => simp [iov_concat, ih]

theorem iov_concat_congr (mem1 mem2 : pkt_memory) (l : List iovec)
    (h : ∀ v ∈ l, mem1 v.pkt = mem2 v.pkt) : iov_concat mem1 l = iov_concat mem2 l := by
  induction l with
  | nil => simp [iov_concat]
  | cons v rest ih =>
    simp only [iov_concat, iov_bytes]
    rw [h v (List.mem_cons_self _ _), ih (fun w hw => h w (List.mem_cons_of_mem _ hw))]

theorem heap_memory_append_old (le : Bool) (heap : pkt_heap) (x : Option pt_packet) (a : Nat)
    (ha : a < heap.length) : heap_memory le (heap ++ [x]) a = heap_memory le heap a := by
  funext f k
  simp only [heap_memory, heap_getD_append_old heap x a ha]



theorem new_packet_eq (heap : pkt_heap) (type : Nat) (body : List Nat) (flags : Nat)
    (ht : type < 65536) (hb : body.length ≤ 65535) :
    new_packet heap type body.length (some body) flags
      = (heap ++ [some ⟨type, PROTOCOL_VERSION, body.length, some body, 0, flags, 0⟩], heap.length) := by
  have e1 : type % 65536 = type := by omega
  have e2 : body.length % 65536 = body.length := by omega
  simp only [new_packet, e1, e2, Option.map_some', List.take_length, ite_self]

theorem send_packet_new (le : Bool) (heap : pkt_heap) (ctx : pt_context) (p : pt_packet) :
    (send_packet le (heap ++ [some p]) ctx heap.length).2.pkt_out
        = ctx.pkt_out ++ (if p.length ≠ 0
            then [⟨heap.length, .type, 0, 2⟩, ⟨heap.length, .version, 0, 2⟩,
                  ⟨heap.length, .length, 0, 2⟩, ⟨heap.length, .data, 0, p.length⟩]
            else [⟨heap.length, .type, 0, 2⟩, ⟨heap.length, .version, 0, 2⟩,
                  ⟨heap.length, .length, 0, 2⟩])
    ∧ (send_packet le (heap ++ [some p]) ctx heap.length).1
        = heap ++ [some { p with
            type := htons le p.type, version := htons le p.version,
            length := if p.length ≠ 0 then htons le p.length else p.length,
            remaining := ((if p.length ≠ 0 then p.length else p.remaining) + 6) % 18446744073709551616,
            refcnt := (p.refcnt + 1) % 4294967296 }] := by
  unfold send_packet
  rw [heap_getD_append_new]
  simp only [heap_set_append_new]
  by_cases h : p.length = 0
  · simp [h]
  · simp [h]



theorem heap_memory_new (le : Bool) (heap : pkt_heap) (q : pt_packet) :
    heap_memory le (heap ++ [some q]) heap.length = fun f k =>
      match f with
      | .type => (u16_mem le q.type).getD k 0
      | .version => (u16_mem le q.version).getD k 0
      | .length => (u16_mem le q.length).getD k 0
      | .data => (q.data.getD []).getD k 0 := by
  funext f k
  simp only [heap_memory, heap_getD_append_new]

theorem iov_bytes_two (mem : pkt_memory) (a : Nat) (f : pkt_field) :
    iov_bytes mem ⟨a, f, 0, 2⟩ = [mem a f 0, mem a f 1] := by
  simp [iov_bytes, List.range_succ]

theorem iov_bytes_data (le : Bool) (heap : pkt_heap) (q : pt_packet) (body : List Nat)
    (hq : q.data = some body) :
    iov_bytes (heap_memory le (heap ++ [some q])) ⟨heap.length, .data, 0, body.length⟩ = body := by
  simp only [iov_bytes, heap_memory_new, hq, Option.getD_some, Nat.zero_add]
  exact range_map_getD body

theorem wire_of_new_packet (le : Bool) (heap : pkt_heap) (ctx : pt_context) (type : Nat)
    (body : List Nat) (flags : Nat) (ht : type < 65536) (hb : body.length ≤ 65535)
    (hwf : ∀ v ∈ ctx.pkt_out, v.pkt < heap.length) :
    iov_concat
        (heap_memory le (send_packet le (new_packet heap type body.length (some body) flags).1 ctx
          (new_packet heap type body.length (some body) flags).2).1)
        (send_packet le (new_packet heap type body.length (some body) flags).1 ctx
          (new_packet heap type body.length (some body) flags).2).2.pkt_out
      = iov_concat (heap_memory le heap) ctx.pkt_out ++ wire_frame type PROTOCOL_VERSION body := by
  rw [new_packet_eq heap type body flags ht hb]
  obtain ⟨h1, h2⟩ := send_packet_new le heap ctx
    ⟨type, PROTOCOL_VERSION, body.length, some body, 0, flags, 0⟩
  simp only [] at h1 h2
  rw [h1, h2, iov_concat_append]
  congr 1
  · exact iov_concat_congr _ _ _ (fun v hv => heap_memory_append_old le heap _ v.pkt (hwf v hv))
  · have hv : PROTOCOL_VERSION < 65536 := by decide
    have e1 : type / 256 % 256 = type / 256 := by omega
    have e2 : PROTOCOL_VERSION / 256 % 256 = PROTOCOL_VERSION / 256 := by decide
    have e3 : body.length / 256 % 256 = body.length / 256 := by omega
    unfold wire_frame
    rw [e1, e2, e3]
    by_cases hl : body.length = 0
    · have hnil : body = [] := List.length_eq_zero.mp hl
      subst hnil
      simp only [List.length_nil, ne_eq, not_true_eq_false, if_false, iov_concat, iov_bytes_two,
        heap_memory_new, u16_mem_htons le type ht, u16_mem_htons le PROTOCOL_VERSION hv]
      cases le <;> simp [u16_mem]
    · simp only [ne_eq, hl, not_false_eq_true, if_true, iov_concat, iov_bytes_two]
      rw [iov_bytes_data le heap _ body rfl]
      simp only [heap_memory_new, u16_mem_htons le type ht, u16_mem_htons le PROTOCOL_VERSION hv,
        u16_mem_htons le body.length (by omega)]
      simp



theorem send_new_packet_wf (le : Bool) (heap : pkt_heap) (ctx : pt_context) (type : Nat)
    (body : List Nat) (flags : Nat) (ht : type < 65536) (hb : body.length ≤ 65535)
    (hwf : ∀ v ∈ ctx.pkt_out, v.pkt < heap.length) :
    ∀ v ∈ (send_packet le (new_packet heap type body.length (some body) flags).1 ctx
          (new_packet heap type body.length (some body) flags).2).2.pkt_out,
      v.pkt < (send_packet le (new_packet heap type body.length (some body) flags).1 ctx
          (new_packet heap type body.length (some body) flags).2).1.length := by
  rw [new_packet_eq heap type body flags ht hb]
  obtain ⟨h1, h2⟩ := send_packet_new le heap ctx
    ⟨type, PROTOCOL_VERSION, body.length, some body, 0, flags, 0⟩
  rw [h1, h2]
  intro v hv
  simp only [List.length_append, List.length_singleton]
  rcases List.mem_append.mp hv with hv | hv
  · have := hwf v hv; omega
  · have hall : ∀ w ∈ ([⟨heap.length, .type, 0, 2⟩, ⟨heap.length, .version, 0, 2⟩,
        ⟨heap.length, .length, 0, 2⟩, ⟨heap.length, .data, 0, body.length⟩] : List iovec),
        w.pkt = heap.length := by
      intro w hw
      simp only [List.mem_cons, List.mem_singleton, List.not_mem_nil, or_false] at hw
      rcases hw with hw | hw | hw | hw <;> rw [hw]
    have hmem : v ∈ ([⟨heap.length, .type, 0, 2⟩, ⟨heap.length, .version, 0, 2⟩,
        ⟨heap.length, .length, 0, 2⟩, ⟨heap.length, .data, 0, body.length⟩] : List iovec) := by
      split at hv
      · exact hv
      · simp only [List.mem_cons, List.mem_singleton, List.not_mem_nil, or_false] at hv ⊢
        rcases hv with hv | hv | hv
        · exact Or.inl hv
        · exact Or.inr (Or.inl hv)
        · exact Or.inr (Or.inr (Or.inl hv))
    rw [hall v hmem]; omega

theorem send_all_wire (le : Bool) (pkts : List (Nat × List Nat × Nat)) :
    ∀ (heap : pkt_heap) (ctx : pt_context),
    (∀ v ∈ ctx.pkt_out, v.pkt < heap.length) →
    (∀ p ∈ pkts, p.1 < 65536 ∧ p.2.1.length ≤ 65535) →
    iov_concat (heap_memory le (send_all le pkts heap ctx).1) (send_all le pkts heap ctx).2.pkt_out
      = iov_concat (heap_memory le heap) ctx.pkt_out
        ++ (pkts.map (fun p => wire_frame p.1 PROTOCOL_VERSION p.2.1)).flatten := by
  induction pkts with
  | nil => intro heap ctx _ _; simp [send_all]
  | cons p rest ih =>
    intro heap ctx hwf hp
    have hp0 := hp p (List.mem_cons_self _ _)
    simp only [send_all, List.map_cons, List.flatten_cons]
    rw [ih _ _ (send_new_packet_wf le heap ctx p.1 p.2.1 p.2.2 hp0.1 hp0.2 hwf)
        (fun q hq => hp q (List.mem_cons_of_mem _ hq)),
      wire_of_new_packet le heap ctx p.1 p.2.1 p.2.2 hp0.1 hp0.2 hwf, List.append_assoc]



theorem packet_in_recv_header (le : Bool) (rx : pt_context) (b0 b1 b2 b3 b4 b5 : Nat)
    (rest : List Nat) (hrx : rx.data_in_len = 0)
    (h0 : b0 < 256) (h1 : b1 < 256) (h2 : b2 < 256) (h3 : b3 < 256) (h4 : b4 < 256) (h5 : b5 < 256) :
    packet_in_recv le rx (b0 :: b1 :: b2 :: b3 :: b4 :: b5 :: rest) false
      = if b4 * 256 + b5 ≠ 0 then
          ({ rx with pkt_in := { rx.pkt_in with type := b0 * 256 + b1, version := b2 * 256 + b3,
                                                length := b4 * 256 + b5, data := some [] },
                     data_in_len := b4 * 256 + b5 }, rest, false)
        else
          ({ rx with pkt_in := { rx.pkt_in with type := b0 * 256 + b1, version := b2 * 256 + b3,
                                                length := b4 * 256 + b5 } }, rest, true) := by
  unfold packet_in_recv
  have hl : ¬ ((b0 :: b1 :: b2 :: b3 :: b4 :: b5 :: rest).length = 0) := by simp
  have hl6 : ¬ ((b0 :: b1 :: b2 :: b3 :: b4 :: b5 :: rest).length < 6) := by simp
  simp only [hrx, ne_eq, not_true_eq_false, if_false, hl, hl6, List.getD_cons_zero,
    List.getD_cons_succ, htons_u16_of_mem le _ _ h0 h1, htons_u16_of_mem le _ _ h2 h3,
    htons_u16_of_mem le _ _ h4 h5, List.drop_succ_cons, List.drop_zero]

theorem packet_in_recv_body (le : Bool) (rx : pt_context) (body rest : List Nat)
    (hrx : rx.data_in_len = body.length) (hd : rx.pkt_in.data = some []) (hb : body ≠ []) :
    packet_in_recv le rx (body ++ rest) false
      = ({ rx with data_in_len := 0, pkt_in := { rx.pkt_in with data := some body } }, rest, true) := by
  have hlen : body.length ≠ 0 := fun h => hb (List.length_eq_zero.mp h)
  have hl : ¬ ((body ++ rest).length = 0) := by simp [hb]
  have hmin : min body.length (body ++ rest).length = body.length := by simp
  unfold packet_in_recv
  simp only [hrx, ne_eq, hlen, not_false_eq_true, if_true, hl, if_false, hmin, hd,
    Option.getD_some, List.nil_append, List.take_left', List.drop_left', Nat.sub_self,
    decide_True]



theorem packet_in_frames_nil (le : Bool) (fuel : Nat) (rx : pt_context) :
    packet_in_frames le fuel rx [] = [] := by
  cases fuel <;> simp [packet_in_frames]

theorem packet_in_frames_frame (le : Bool) (fuel : Nat) (rx : pt_context) (t v : Nat)
    (body rest : List Nat) (hrx : rx.data_in_len = 0) (ht : t < 65536) (hv : v < 65536)
    (hb : body.length ≤ 65535) :
    ∃ rx', rx'.data_in_len = 0 ∧
      packet_in_frames le (fuel + 2) rx (wire_frame t v body ++ rest)
        = (t, v, body) :: packet_in_frames le (if body = [] then fuel + 1 else fuel) rx' rest := by
  have e1 : t / 256 % 256 * 256 + t % 256 = t := by omega
  have e2 : v / 256 % 256 * 256 + v % 256 = v := by omega
  have e3 : body.length / 256 % 256 * 256 + body.length % 256 = body.length := by omega
  have hhdr := packet_in_recv_header le rx (t / 256 % 256) (t % 256) (v / 256 % 256) (v % 256)
    (body.length / 256 % 256) (body.length % 256) (body ++ rest) hrx
    (by omega) (by omega) (by omega) (by omega) (by omega) (by omega)
  rw [e1, e2, e3] at hhdr
  have hne : ¬ ((wire_frame t v body ++ rest).length = 0) := by simp [wire_frame]
  have hw : wire_frame t v body ++ rest
      = t / 256 % 256 :: t % 256 :: v / 256 % 256 :: v % 256 :: body.length / 256 % 256
          :: body.length % 256 :: (body ++ rest) := by
    simp [wire_frame]
  by_cases hbody : body = []
  · subst hbody
    simp only [List.length_nil, ne_eq, not_true_eq_false, if_false, List.nil_append] at hhdr
    refine ⟨packet_in_done { rx with pkt_in := { rx.pkt_in with type := t, version := v, length := 0 } },
      rfl, ?_⟩
    rw [packet_in_frames, if_neg hne, hw]
    simp only [List.nil_append, List.length_nil, Nat.zero_div, Nat.zero_mod] at hhdr ⊢
    simp only [hhdr, if_true, ne_eq, not_true_eq_false, if_false]
  · have hlen : body.length ≠ 0 := fun h => hbody (List.length_eq_zero.mp h)
    simp only [ne_eq, hlen, not_false_eq_true, if_true] at hhdr
    have hbd := packet_in_recv_body le
      { rx with pkt_in := { rx.pkt_in with type := t, version := v, length := body.length,
                                            data := some [] },
                data_in_len := body.length } body rest rfl rfl hbody
    have hne2 : ¬ ((body ++ rest).length = 0) := by simp [hbody]
    refine ⟨packet_in_done
      { rx with
        data_in_len := 0
        pkt_in := { rx.pkt_in with type := t, version := v, length := body.length, data := some body } },
      rfl, ?_⟩
    rw [packet_in_frames, if_neg hne, hw, hhdr]
    simp only [Bool.false_eq_true, if_false]
    rw [packet_in_frames, if_neg hne2, hbd]
    simp only [if_true, ne_eq, hlen, not_false_eq_true, Option.getD_some, hbody, if_false]



theorem packet_in_frames_wire (le : Bool) (pkts : List (Nat × List Nat × Nat)) :
    ∀ (fuel : Nat) (rx : pt_context), rx.data_in_len = 0 → 2 * pkts.length ≤ fuel →
    (∀ p ∈ pkts, p.1 < 65536 ∧ p.2.1.length ≤ 65535) →
    packet_in_frames le fuel rx (pkts.map (fun p => wire_frame p.1 PROTOCOL_VERSION p.2.1)).flatten
      = pkts.map (fun p => (p.1, PROTOCOL_VERSION, p.2.1)) := by
  induction pkts with
  | nil => intro fuel rx _ _ _; simp [packet_in_frames_nil]
  | cons p rest ih =>
    intro fuel rx hrx hfuel hp
    have hp0 := hp p (List.mem_cons_self _ _)
    simp only [List.length_cons] at hfuel
    obtain ⟨f, rfl⟩ : ∃ f, fuel = f + 2 := ⟨fuel - 2, by omega⟩
    obtain ⟨rx', hrx', hstep⟩ := packet_in_frames_frame le f rx p.1 PROTOCOL_VERSION p.2.1
      ((rest.map (fun p => wire_frame p.1 PROTOCOL_VERSION p.2.1)).flatten) hrx hp0.1
      (by decide) hp0.2
    simp only [List.map_cons, List.flatten_cons]
    rw [hstep, ih _ rx' hrx' (by split <;> omega) (fun q hq => hp q (List.mem_cons_of_mem _ hq))]

/-! ## C5 to C9: framing and the output queue -/

/-- Claim C5: for any sequence of packets built by `new_packet` (any 16-bit type,
any body of at most 65535 bytes, any flags) and each enqueued once with
`send_packet` on one connection whose output queue was empty, parsing the bytes
the output iovecs denote with the `packet_in` framing rule yields the same
sequence of (type, version = 0xDEAD, body) triples in enqueue order; two
`packet_in` calls per packet are enough.  It holds on a little-endian and on a
big-endian host. -/
theorem framing_round_trip (le : Bool) (pkts : List (Nat × List Nat × Nat)) (heap : pkt_heap)
    (ctx rx : pt_context) (fuel : Nat)
    (hq : ctx.pkt_out = []) (hrx : rx.data_in_len = 0) (hfuel : 2 * pkts.length ≤ fuel)
    (hp : ∀ p ∈ pkts, p.1 < 65536 ∧ p.2.1.length ≤ 65535) :
    packet_in_frames le fuel rx
        (iov_concat (heap_memory le (send_all le pkts heap ctx).1) (send_all le pkts heap ctx).2.pkt_out)
      = pkts.map (fun p => (p.1, PROTOCOL_VERSION, p.2.1)) := by
  rw [send_all_wire le pkts heap ctx (by rw [hq]; intro v hv; cases hv) hp, hq]
  simp only [iov_concat, List.nil_append]
  exact packet_in_frames_wire le pkts fuel rx hrx hfuel hp

/-- Witness for C5: a HELLO with the 18-byte greeting followed by an empty LOGIN_SUCCESS. -/
theorem framing_round_trip_witness :
    packet_in_frames true 4 (pt_context_init 4 0)
        (iov_concat
          (heap_memory true (send_all true [(PACKET_HELLO, hello, PACKET_F_STATIC),
            (PACKET_LOGIN_SUCCESS, [], 0)] [] (pt_context_init 3 0)).1)
          (send_all true [(PACKET_HELLO, hello, PACKET_F_STATIC),
            (PACKET_LOGIN_SUCCESS, [], 0)] [] (pt_context_init 3 0)).2.pkt_out)
      = [(PACKET_HELLO, PROTOCOL_VERSION, hello), (PACKET_LOGIN_SUCCESS, PROTOCOL_VERSION, [])] :=
  framing_round_trip true [(PACKET_HELLO, hello, PACKET_F_STATIC), (PACKET_LOGIN_SUCCESS, [], 0)]
    [] (pt_context_init 3 0) (pt_context_init 4 0) 4 (by decide) (by decide) (by decide)
    (by decide)

/-- Claim C6 fails on the code (little-endian host): a ROOM_USER_REDDOT_ON packet with
an 8-byte body is enqueued with `send_packet` on two connections, as `reddot_user`
does.  The second call converts the shared header fields back to host order and
takes the already converted length as `iov_len`: the first connection has
queued the header bytes 7d 01 ad de 08 00 instead of 01 7d de ad 00 08, and the
body iovec of the second connection is 2048 bytes long instead of 8. -/
theorem send_packet_on_two_connections :
    (send_packet_each true 0
        (new_packet [] PACKET_ROOM_USER_REDDOT_ON 8 (some [0, 0, 1, 194, 0, 0, 0, 11]) PACKET_F_COPY).1
        [pt_context_init 3 0, pt_context_init 4 0]).2.map (fun c => c.pkt_out.map iovec.len)
      = [[2, 2, 2, 8], [2, 2, 2, 2048]]
    ∧ ((send_packet_each true 0
        (new_packet [] PACKET_ROOM_USER_REDDOT_ON 8 (some [0, 0, 1, 194, 0, 0, 0, 11]) PACKET_F_COPY).1
        [pt_context_init 3 0, pt_context_init 4 0]).2.map
          (fun c => iov_concat
            (heap_memory true (send_packet_each true 0
              (new_packet [] PACKET_ROOM_USER_REDDOT_ON 8 (some [0, 0, 1, 194, 0, 0, 0, 11])
                PACKET_F_COPY).1 [pt_context_init 3 0, pt_context_init 4 0]).1)
            (c.pkt_out.take 3))).head?
      = some [125, 1, 173, 222, 8, 0]
    ∧ wire_frame PACKET_ROOM_USER_REDDOT_ON PROTOCOL_VERSION [0, 0, 1, 194, 0, 0, 0, 11]
      = [1, 125, 222, 173, 0, 8, 0, 0, 1, 194, 0, 0, 0, 11] := by
  decide

/-- Claim C7 fails on the code: one HELLO packet with a 10-byte body is queued
(`remaining` 16, reference count 1) and `sendmsg` reports 3 bytes.  `packet_out`
decrements the reference count although 13 bytes are unsent: the packet object
is freed and `pkts_out` becomes `NULL`, while the iovec list still refers to
the packet. -/
theorem packet_out_partial_write_drops_packet :
    (send_packet true
        (new_packet [] PACKET_HELLO 10 (some [1, 2, 3, 4, 5, 6, 7, 8, 9, 10]) PACKET_F_COPY).1
        (pt_context_init 3 0) 0).1.map (fun p => p.map (fun q => (q.remaining, q.refcnt)))
      = [some (16, 1)]
    ∧ (packet_out
        (send_packet true
          (new_packet [] PACKET_HELLO 10 (some [1, 2, 3, 4, 5, 6, 7, 8, 9, 10]) PACKET_F_COPY).1
          (pt_context_init 3 0) 0).1
        (send_packet true
          (new_packet [] PACKET_HELLO 10 (some [1, 2, 3, 4, 5, 6, 7, 8, 9, 10]) PACKET_F_COPY).1
          (pt_context_init 3 0) 0).2 3).1 = [none]
    ∧ (packet_out
        (send_packet true
          (new_packet [] PACKET_HELLO 10 (some [1, 2, 3, 4, 5, 6, 7, 8, 9, 10]) PACKET_F_COPY).1
          (pt_context_init 3 0) 0).1
        (send_packet true
          (new_packet [] PACKET_HELLO 10 (some [1, 2, 3, 4, 5, 6, 7, 8, 9, 10]) PACKET_F_COPY).1
          (pt_context_init 3 0) 0).2 3).2.pkts_out = none
    ∧ (packet_out
        (send_packet true
          (new_packet [] PACKET_HELLO 10 (some [1, 2, 3, 4, 5, 6, 7, 8, 9, 10]) PACKET_F_COPY).1
          (pt_context_init 3 0) 0).1
        (send_packet true
          (new_packet [] PACKET_HELLO 10 (some [1, 2, 3, 4, 5, 6, 7, 8, 9, 10]) PACKET_F_COPY).1
          (pt_context_init 3 0) 0).2 3).2.pkt_out
      = [⟨0, .version, 1, 1⟩, ⟨0, .length, 0, 2⟩, ⟨0, .data, 0, 10⟩] := by
  decide

/-- Claim C8 fails on the code: a connection in the login flow is kicked with the
84-byte multi-login message (90 bytes queued) and `sendmsg` reports 10 bytes.
`packet_out` raises `disconnect` in that call, with 80 bytes of the body still
queued in the iovec list. -/
theorem packet_out_kicked_partial_write_disconnects :
    (kick true [] { pt_context_init 3 0 with on_packet := some flow.login_flow }
        (some multi_login) MULTI_LOGIN_LEN).2.disconnect = 0
    ∧ (packet_out
        (kick true [] { pt_context_init 3 0 with on_packet := some flow.login_flow }
          (some multi_login) MULTI_LOGIN_LEN).1
        (kick true [] { pt_context_init 3 0 with on_packet := some flow.login_flow }
          (some multi_login) MULTI_LOGIN_LEN).2 10).2.disconnect = 1
    ∧ (packet_out
        (kick true [] { pt_context_init 3 0 with on_packet := some flow.login_flow }
          (some multi_login) MULTI_LOGIN_LEN).1
        (kick true [] { pt_context_init 3 0 with on_packet := some flow.login_flow }
          (some multi_login) MULTI_LOGIN_LEN).2 10).2.pkt_out.map iovec.len = [80] := by
  decide

set_option maxRecDepth 100000 in
/-- Claim C9 fails on the code in its consequence: one `HELLO` packet with a 10-byte
body is queued on a connection in the login flow (16 bytes; `POLLOUT` is asked
for) and `sendmsg` reports 3 bytes.  The iovec list is advanced as claimed: read
against the memory before the call it denotes the 16 bytes without the first
3.  But the same call frees the packet the iovecs point into and leaves
`npkts_out` 0, so `poll_sockets` no longer asks for `POLLOUT` and does not call
`packet_out` for the connection again, whatever `poll` reports: the remaining 13
bytes are not put on the wire. -/
theorem packet_out_partial_write_stalls_output :
    iov_concat (heap_memory true example_hello_queued.1) example_hello_queued.2.pkt_out
      = wire_frame PACKET_HELLO PROTOCOL_VERSION [1, 2, 3, 4, 5, 6, 7, 8, 9, 10]
    ∧ poll_events example_hello_queued.2 &&& POLLOUT ≠ 0
    ∧ iov_concat (heap_memory true example_hello_queued.1)
        (packet_out example_hello_queued.1 example_hello_queued.2 3).2.pkt_out
      = (wire_frame PACKET_HELLO PROTOCOL_VERSION [1, 2, 3, 4, 5, 6, 7, 8, 9, 10]).drop 3
    ∧ (packet_out example_hello_queued.1 example_hello_queued.2 3).1 = [none]
    ∧ (packet_out example_hello_queued.1 example_hello_queued.2 3).2.pkts_out = none
    ∧ (packet_out example_hello_queued.1 example_hello_queued.2 3).2.npkts_out = 0
    ∧ (packet_out example_hello_queued.1 example_hello_queued.2 3).2.disconnect = 0
    ∧ poll_events (packet_out example_hello_queued.1 example_hello_queued.2 3).2 &&& POLLOUT = 0
    ∧ ∀ events revents : Nat, poll_calls_packet_out events revents
        (packet_out example_hello_queued.1 example_hello_queued.2 3).2 = false := by
  have hn : (packet_out example_hello_queued.1 example_hello_queued.2 3).2.npkts_out = 0 := by
    decide
  refine ⟨by decide, by decide, by decide, by decide, by decide, hn, by decide, by decide, ?_⟩
  intro events revents
  simp [poll_calls_packet_out, hn]

/-! ## Lemmas on the flows -/

theorem send_new_packet_spec (le : Bool) (heap : pkt_heap) (ctx : pt_context) (type : Nat)
    (body : List Nat) (flags : Nat) (ht : type < 65536) (hb : body.length ≤ 65535) :
    send_packet le (new_packet heap type body.length (some body) flags).1 ctx
        (new_packet heap type body.length (some body) flags).2
      = (heap ++ [some ⟨htons le type, htons le PROTOCOL_VERSION,
                        if body.length ≠ 0 then htons le body.length else body.length,
                        some body, 1, flags, body.length + 6⟩],
         { ctx with pkts_out := some ((ctx.pkts_out.getD []).take ctx.npkts_out ++ [heap.length]),
                    npkts_out := ctx.npkts_out + 1,
                    pkt_out := ctx.pkt_out ++ frame_iovecs heap.length body.length }) := by
  rw [new_packet_eq heap type body flags ht hb]
  unfold send_packet
  rw [heap_getD_append_new]
  simp only [heap_set_append_new, frame_iovecs]
  by_cases h : body.length = 0
  · simp [h]
  · have : (body.length + 6) % 18446744073709551616 = body.length + 6 := by omega
    simp [h, this]

theorem wire_of_frame_iovecs (le : Bool) (heap : pkt_heap) (type : Nat) (body : List Nat)
    (flags refcnt remaining : Nat) (ht : type < 65536) (hb : body.length ≤ 65535) :
    iov_concat
        (heap_memory le (heap ++ [some ⟨htons le type, htons le PROTOCOL_VERSION,
                        if body.length ≠ 0 then htons le body.length else body.length,
                        some body, refcnt, flags, remaining⟩]))
        (frame_iovecs heap.length body.length)
      = wire_frame type PROTOCOL_VERSION body := by
  have hv : PROTOCOL_VERSION < 65536 := by decide
  have e1 : type / 256 % 256 = type / 256 := by omega
  have e2 : PROTOCOL_VERSION / 256 % 256 = PROTOCOL_VERSION / 256 := by decide
  have e3 : body.length / 256 % 256 = body.length / 256 := by omega
  unfold wire_frame frame_iovecs
  rw [e1, e2, e3]
  by_cases hl : body.length = 0
  · have hnil : body = [] := List.length_eq_zero.mp hl
    subst hnil
    simp only [List.length_nil, ne_eq, not_true_eq_false, if_false, iov_concat, iov_bytes_two,
      heap_memory_new, u16_mem_htons le type ht, u16_mem_htons le PROTOCOL_VERSION hv]
    cases le <;> simp [u16_mem]
  · simp only [ne_eq, hl, not_false_eq_true, if_true, iov_concat, iov_bytes_two]
    rw [iov_bytes_data le heap _ body rfl]
    simp only [heap_memory_new, u16_mem_htons le type ht, u16_mem_htons le PROTOCOL_VERSION hv,
      u16_mem_htons le body.length (by omega)]
    simp

theorem login_pass_ok_zero (db : database) (ctx : pt_context)
    (hpw : ∀ dec, pt_decode_with_challenge ctx.codec 1 ctx.challenge
        ((strtok_all 10 (cstr ((ctx.pkt_in.data.getD []).drop 4)) []).head?) = some dec →
      stored_password db ctx.uid ≠ some (cstr dec)) :
    login_pass_ok db ctx = 0 := by
  unfold login_pass_ok
  cases hdec : pt_decode_with_challenge ctx.codec 1 ctx.challenge
      ((strtok_all 10 (cstr ((ctx.pkt_in.data.getD []).drop 4)) []).head?) with
  | none => rfl
  | some dec =>
    have h := hpw dec hdec
    simp only [user_check_password]
    split
    · rfl
    · split
      · rfl
      · rename_i s hs
        rw [hs] at h
        have : s ≠ cstr dec := fun e => h (by rw [e])
        simp [this]



theorem send_return_code_bad_password (le : Bool) (heap : pkt_heap) (ctx : pt_context)
    (htype : ctx.pkt_in.type = PACKET_LOGIN) :
    send_return_code le heap ctx 0x63 (some bad_password) BAD_PASSWORD_LEN
      = (heap ++ [some ⟨htons le PACKET_RETURN_CODE, htons le PROTOCOL_VERSION, htons le 42,
                        some ([0xfb, 0x84, 0x00, 0x63] ++ bad_password), 1, 0, 48⟩],
         { ctx with pkts_out := some ((ctx.pkts_out.getD []).take ctx.npkts_out ++ [heap.length]),
                    npkts_out := ctx.npkts_out + 1,
                    pkt_out := ctx.pkt_out ++ frame_iovecs heap.length 42 }) := by
  have hspec := send_new_packet_spec le heap ctx PACKET_RETURN_CODE
    ([0xfb, 0x84, 0x00, 0x63] ++ bad_password) 0 (by decide) (by decide)
  have hlen : ([0xfb, 0x84, 0x00, 0x63] ++ bad_password).length = 42 := by decide
  rw [hlen] at hspec
  have hbuf : [(PACKET_LOGIN >>> 8) &&& 0xff, PACKET_LOGIN &&& 0xff,
              ((0x63 % 65536) >>> 8) &&& 0xff, (0x63 % 65536) &&& 0xff]
             ++ bad_password.take BAD_PASSWORD_LEN
             ++ List.replicate (BAD_PASSWORD_LEN - (bad_password.take BAD_PASSWORD_LEN).length) 0
      = [0xfb, 0x84, 0x00, 0x63] ++ bad_password := by decide
  have hne : BAD_PASSWORD_LEN ≠ 0 := by decide
  have h42 : BAD_PASSWORD_LEN + 4 = 42 := by decide
  unfold send_return_code
  simp only [htype, hne, if_false, ne_eq, not_false_eq_true, if_true, hbuf, h42]
  exact hspec



theorem world_ctx_set_self (w : world) (c : Nat) (x : pt_context) (heap : pkt_heap)
    (hc : c < w.ctxs.length) :
    ({ w with heap := heap, ctxs := w.ctxs.set c x } : world).ctx c = x := by
  simp [world.ctx, List.getD_eq_getElem?_getD, hc]

theorem world_ctx_set_other (w : world) (c k : Nat) (x : pt_context) (heap : pkt_heap)
    (hk : k ≠ c) :
    ({ w with heap := heap, ctxs := w.ctxs.set c x } : world).ctx k = w.ctx k := by
  simp [world.ctx, List.getD_eq_getElem?_getD, List.getElem?_set_ne (Ne.symm hk)]

/-! ## C3, C4 and C10: the login and registration flows -/

/-- Claim C3: for a `LOGIN` packet whose uid equals the session uid of a real user
(not 0, not an error value, not the "newuser" uid) and whose password field
fails to decode or decodes to a string other than the stored password, the
`PACKET_LOGIN` case of `login_flow` enqueues exactly one packet on that connection:
a `RETURN_CODE` whose body is 0xFB84, 0x0063 (both big-endian) and the 38 bytes
"The password you entered is incorrect."; the installed handler is still
`login_flow`, and the registry, the store and every other connection are
unchanged. -/
theorem login_wrong_password (le : Bool) (inet_addr : List Nat → Nat) (r1 r2 r3 : Nat) (w : world) (c : Nat)
    (hc : c < w.ctxs.length)
    (htype : (w.ctx c).pkt_in.type = PACKET_LOGIN)
    (hflow : (w.ctx c).on_packet = some flow.login_flow)
    (huid : packet_uid (w.ctx c).pkt_in = (w.ctx c).uid)
    (hreal : (w.ctx c).uid ≠ 0 ∧ UID_IS_ERROR (w.ctx c).uid = false ∧ (w.ctx c).uid ≠ UID_NEWUSER)
    (hpw : ∀ dec, pt_decode_with_challenge (w.ctx c).codec 1 (w.ctx c).challenge
        ((strtok_all 10 (cstr (((w.ctx c).pkt_in.data.getD []).drop 4)) []).head?) = some dec →
      stored_password w.db (w.ctx c).uid ≠ some (cstr dec)) :
    ∃ w', login_flow_login le inet_addr r1 r2 r3 w c = some w'
      ∧ w'.heap = w.heap ++ [some ⟨htons le PACKET_RETURN_CODE, htons le PROTOCOL_VERSION,
            htons le 42, some ([0xfb, 0x84, 0x00, 0x63] ++ bad_password), 1, 0, 48⟩]
      ∧ iov_concat (heap_memory le w'.heap) (frame_iovecs w.heap.length 42)
          = wire_frame PACKET_RETURN_CODE PROTOCOL_VERSION ([0xfb, 0x84, 0x00, 0x63] ++ bad_password)
      ∧ (w'.ctx c).pkts_out
          = some (((w.ctx c).pkts_out.getD []).take (w.ctx c).npkts_out ++ [w.heap.length])
      ∧ (w'.ctx c).npkts_out = (w.ctx c).npkts_out + 1
      ∧ (w'.ctx c).pkt_out = (w.ctx c).pkt_out ++ frame_iovecs w.heap.length 42
      ∧ (w'.ctx c).on_packet = some flow.login_flow
      ∧ w'.uid_to_context = w.uid_to_context
      ∧ w'.db = w.db
      ∧ ∀ k, k ≠ c → w'.ctx k = w.ctx k := by
  have h1 : ¬ (packet_uid (w.ctx c).pkt_in ≠ (w.ctx c).uid ∨ (w.ctx c).uid = 0
      ∨ UID_IS_ERROR (w.ctx c).uid = true) := by
    rw [hreal.2.1]; simp [huid, hreal.1]
  have h3 := login_pass_ok_zero w.db (w.ctx c) hpw
  have hsend := send_return_code_bad_password le w.heap (w.ctx c) htype
  refine ⟨w.on_ctx c (fun heap ctx =>
    send_return_code le heap ctx 0x63 (some bad_password) BAD_PASSWORD_LEN), ?_, ?_⟩
  · unfold login_flow_login
    simp only []
    rw [if_neg h1, if_neg hreal.2.2, if_pos h3]
  · simp only [world.on_ctx, hsend]
    refine ⟨trivial, ?_, ?_, ?_, ?_, ?_, trivial, trivial, ?_⟩
    · have := wire_of_frame_iovecs le w.heap PACKET_RETURN_CODE
        ([0xfb, 0x84, 0x00, 0x63] ++ bad_password) 0 1 48 (by decide) (by decide)
      exact this
    · rw [world_ctx_set_self w c _ _ hc]
    · rw [world_ctx_set_self w c _ _ hc]
    · rw [world_ctx_set_self w c _ _ hc]
    · rw [world_ctx_set_self w c _ _ hc]; exact hflow
    · intro k hk
      exact world_ctx_set_other w c k _ _ hk

/-- Witness for C3: uid 42 with stored password "pw" sends the encoding of "nope". -/
theorem login_wrong_password_witness :
    (login_flow_login true (fun _ => 0) 0 0 0 (example_world example_pw_bad) 1).map
        (fun w' => ((w'.ctx 1).on_packet, (w'.ctx 1).npkts_out, w'.uid_to_context))
      = some (some flow.login_flow, 1, example_registry) := by
  obtain ⟨w', h, _, _, _, hn, _, hf, hr, _, _⟩ :=
    login_wrong_password true (fun _ => 0) 0 0 0 (example_world example_pw_bad) 1
      (by decide) (by decide) (by decide) (by decide) (by decide)
      (by
        intro dec hdec
        have e : pt_decode_with_challenge ((example_world example_pw_bad).ctx 1).codec 1
            ((example_world example_pw_bad).ctx 1).challenge
            ((strtok_all 10 (cstr ((((example_world example_pw_bad).ctx 1).pkt_in.data.getD []).drop 4))
              []).head?) = some [110, 111, 112, 101] := by decide
        rw [e] at hdec
        cases hdec
        decide)
  rw [h, Option.map_some', hn, hf, hr]
  rfl


/-- Claim C4 fails on the code: uid 42 is registered for the connection at address 0
and a `LOGIN` with the right password succeeds on the connection at address 1.
The incumbent is kicked (handler cleared, a `SERVER_DISCONNECT` with the
multi-login message queued), but `ht_set` finds the key present and leaves the
entry as it is: the registry still returns the incumbent (address 0), and once
the incumbent is reaped (`ht_rm` on its uid string) the lookup of "42" returns
`NULL` although the new connection is logged in. -/
theorem multi_login_registry_entry :
    ht_get_ptr_nc example_registry [52, 50] = some (some 0)
    ∧ (login_flow_login true (fun _ => 0) 0 0 0 (example_world example_pw_ok) 1).map
        (fun w1 => ((w1.ctx 0).on_packet, (w1.ctx 0).pkts_out, (w1.ctx 1).uid_str))
      = some (none, some [0], [52, 50])
    ∧ (login_flow_login true (fun _ => 0) 0 0 0 (example_world example_pw_ok) 1).map
        (fun w1 => (w1.heap.getD 0 none).map (fun p => (p.type, p.data)))
      = some (some (htons true PACKET_SERVER_DISCONNECT, some multi_login))
    ∧ (login_flow_login true (fun _ => 0) 0 0 0 (example_world example_pw_ok) 1).map
        (fun w1 => ht_get_ptr_nc w1.uid_to_context [52, 50])
      = some (some (some 0))
    ∧ ((login_flow_login true (fun _ => 0) 0 0 0 (example_world example_pw_ok) 1).bind
          (fun w1 => reap_registry w1 0)).map
        (fun w2 => ht_get_ptr_nc w2.uid_to_context [52, 50])
      = some (some none) := by
  decide

/-- Claim C10 fails on the code: a fresh connection with challenge 1 receives
`REGISTRATION` (it moves to the registration flow, challenge still 1) and then a
`REGISTRATION_CHALLENGE` whose body decodes to "999"; the handler stores
`1 + atoi("999")`, so `ctx.challenge` is 1000. -/
theorem registration_challenge_out_of_range :
    example_registering.challenge = 1
    ∧ (login_flow_registration true 0 0 0 [] example_registering).2.on_packet
        = some flow.registration_flow
    ∧ (login_flow_registration true 0 0 0 [] example_registering).2.challenge = 1
    ∧ (registration_flow_challenge true
        (login_flow_registration true 0 0 0 [] example_registering).1
        { (login_flow_registration true 0 0 0 [] example_registering).2 with
          pkt_in := example_challenge_packet }).2.challenge = 1000 := by
  decide

/-! ## Lemmas on the check digits and on the length rules of the codec -/

theorem check_digit_le (t : Nat) : check_digit t ≤ 7 := by
  unfold check_digit
  exact Nat.and_le_right

theorem check_digit_read (t : Nat) : to_u32 (schar (48 + check_digit t) - 48) = check_digit t := by
  have h := check_digit_le t
  rw [schar_small _ (by omega)]
  unfold to_u32
  omega

theorem encode_loop_cons (gb v c : Nat) (rest : List Nat) (i ch time : Nat) :
    (encode_loop gb v (c :: rest) i ch time).1
      = [48 + to_u16 (encode_value gb v ch i c) / 100 % 10, 48 + to_u16 (encode_value gb v ch i c) / 10 % 10,
         48 + to_u16 (encode_value gb v ch i c) % 10, 48 + check_digit time]
        ++ (encode_loop gb v rest (i + 1) (next_challenge v ch) (ms_seed time)).1 := by
  simp only [encode_loop, ustoa, ustoa_digits_three, List.cons_append, List.nil_append]

theorem validate_loop_group (k a b c d : Nat) (X : List Nat) (t cd : Nat)
    (hd : to_u32 (schar d - 48) = cd) :
    validate_loop (k + 1) ([a, b, c, d] ++ X) t
      = if cd ≠ check_digit t then (0, t) else validate_loop k X (ms_seed t) := by
  rw [validate_loop]
  have e1 : ([a, b, c, d] ++ X).getD 3 0 = d := rfl
  have e2 : ([a, b, c, d] ++ X).drop 4 = X := rfl
  rw [e1, e2, hd]

theorem validate_encode_loop (gb v : Nat) (s : List Nat) : ∀ (i ch t0 t : Nat),
    (validate_loop s.length (encode_loop gb v s i ch t0).1 t).1 = 1
      ↔ ∀ j, j < s.length → check_digit (ms_seed^[j] t) = check_digit (ms_seed^[j] t0) := by
  induction s with
  | nil =>
    intro i ch t0 t
    have e : (validate_loop ([] : List Nat).length (encode_loop gb v [] i ch t0).1 t).1 = 1 := rfl
    constructor
    · intro _ j hj
      exact absurd hj (Nat.not_lt_zero j)
    · intro _
      exact e
  | cons c rest ih =>
    intro i ch t0 t
    rw [encode_loop_cons, List.length_cons,
      validate_loop_group rest.length _ _ _ _ _ t (check_digit t0) (check_digit_read t0)]
    by_cases h0 : check_digit t0 = check_digit t
    · rw [if_neg (not_not.mpr h0), ih (i + 1) (next_challenge v ch) (ms_seed t0) (ms_seed t)]
      constructor
      · intro h j hj
        cases j with
        | zero => exact h0.symm
        | succ j =>
          rw [Function.iterate_succ_apply, Function.iterate_succ_apply]
          exact h j (Nat.lt_of_succ_lt_succ hj)
      · intro h j hj
        have := h (j + 1) (Nat.succ_lt_succ hj)
        rw [Function.iterate_succ_apply, Function.iterate_succ_apply] at this
        exact this
    · rw [if_pos h0]
      constructor
      · intro h
        exact absurd h Nat.zero_ne_one
      · intro h
        exact absurd (h 0 (Nat.succ_pos _)).symm h0

theorem ms_seed_low (t t' : Nat) (h : t' % 2147483648 = t % 2147483648) :
    ms_seed t' % 2147483648 = ms_seed t % 2147483648 := by
  unfold ms_seed
  omega

theorem check_digit_low (t t' : Nat) (h : t' % 2147483648 = t % 2147483648) :
    check_digit t' = check_digit t := by
  have hs := ms_seed_low t t' h
  unfold check_digit ms_rand
  have e : ∀ y : Nat, (y >>> 16) &&& 0x7fff = y / 65536 % 32768 := by
    intro y
    rw [Nat.shiftRight_eq_div_pow]
    exact Nat.and_pow_two_sub_one_eq_mod _ 15
  rw [e, e]
  have : ms_seed t' / 65536 % 32768 = ms_seed t / 65536 % 32768 := by omega
  rw [this]

theorem iterate_low (j : Nat) : ∀ (t t' : Nat), t' % 2147483648 = t % 2147483648 →
    (ms_seed^[j] t') % 2147483648 = (ms_seed^[j] t) % 2147483648 := by
  induction j with
  | zero => intro t t' h; exact h
  | succ j ih =>
    intro t t' h
    rw [Function.iterate_succ_apply, Function.iterate_succ_apply]
    exact ih _ _ (ms_seed_low t t' h)

theorem encode_loop_digits (gb v : Nat) (s : List Nat) : ∀ (i ch time : Nat),
    ∀ x ∈ (encode_loop gb v s i ch time).1, 48 ≤ x ∧ x ≤ 57 := by
  induction s with
  | nil => intro i ch time x hx; simp [encode_loop] at hx
  | cons c rest ih =>
    intro i ch time x hx
    rw [encode_loop_cons] at hx
    have hcd := check_digit_le time
    simp only [List.cons_append, List.nil_append, List.mem_cons] at hx
    rcases hx with h | h | h | h | h
    · omega
    · omega
    · omega
    · omega
    · exact ih _ _ _ x h

theorem getD_group (a b c d : Nat) (X : List Nat) (g : Nat) :
    ([a, b, c, d] ++ X).getD (4 * (g + 1) + 3) 0 = X.getD (4 * g + 3) 0 := by
  have e : 4 * (g + 1) + 3 = (4 * g + 3) + 1 + 1 + 1 + 1 := by omega
  rw [e]
  rfl

theorem getD_group_zero (a b c d : Nat) (X : List Nat) :
    ([a, b, c, d] ++ X).getD (4 * 0 + 3) 0 = d := rfl

theorem encode_loop_check (gb v : Nat) (s : List Nat) : ∀ (i ch time g : Nat), g < s.length →
    (encode_loop gb v s i ch time).1.getD (4 * g + 3) 0 = 48 + check_digit (ms_seed^[g] time) := by
  induction s with
  | nil => intro i ch time g hg; exact absurd hg (Nat.not_lt_zero g)
  | cons c rest ih =>
    intro i ch time g hg
    rw [encode_loop_cons]
    cases g with
    | zero => rw [getD_group_zero, Function.iterate_zero_apply]
    | succ g =>
      rw [getD_group, Function.iterate_succ_apply]
      exact ih _ _ _ g (Nat.lt_of_succ_lt_succ hg)

theorem decode_loop_take (gb v : Nat) (k : Nat) : ∀ (i ch : Nat) (s : List Nat),
    decode_loop gb v k i ch (s.take (4 * k)) = decode_loop gb v k i ch s := by
  induction k with
  | zero => intro i ch s; simp [decode_loop]
  | succ k ih =>
    intro i ch s
    have e : 4 * (k + 1) = 4 * k + 4 := by omega
    have g : ∀ j, j < 4 → (s.take (4 * k + 4)).getD j 0 = s.getD j 0 := by
      intro j hj
      simp only [List.getD_eq_getElem?_getD]
      rw [List.getElem?_take_of_lt (by omega)]
    have d : (s.take (4 * k + 4)).drop 4 = (s.drop 4).take (4 * k) := by
      rw [List.drop_take]
      simp
    simp only [decode_loop, e, g 0 (by omega), g 1 (by omega), g 2 (by omega), d, ih]


theorem encode_plain_eq (ctx : codec_ctx) (v c : Nat) (s : List Nat) (seed0 : Nat)
    (rands seeds : Nat → Nat) (hcb : uses_codebook ctx = false) (hv : 1 ≤ v ∧ v ≤ 3) (hs : s ≠ []) :
    (pt_encode_with_challenge ctx v c (some s) seed0 rands seeds).1
      = some (encode_loop ctx.ginger_beyond v (s.take ENCODE_MAX_LEN) 0 (c % 65536) ctx.time).1 := by
  have hl : s.length ≠ 0 := fun h => hs (List.length_eq_zero.mp h)
  have hv0 : ¬ (v = 0 ∨ v > 3 ∨ s.length = 0) := by omega
  simp only [pt_encode_with_challenge, hcb, Bool.false_eq_true, if_false, hv0]

theorem validate_of_groups (ctx : codec_ctx) (v : Nat) (e : List Nat) (n : Nat)
    (hv : 1 ≤ v ∧ v ≤ 3) (hn : n ≠ 0) (he : e.length = 4 * n) :
    (pt_validate ctx v (some e)).1 = (validate_loop n e ctx.time).1 := by
  have h3 : e.length &&& 3 = 0 := by rw [and_three_eq_mod]; omega
  have h2 : e.length >>> 2 = n := by rw [Nat.shiftRight_eq_div_pow]; omega
  have hv0 : ¬ (v = 0 ∨ v > 3 ∨ e.length = 0 ∨ e.length &&& 3 ≠ 0) := by rw [h3]; omega
  simp only [pt_validate, hv0, if_false, h2]

/-! ## C12, C13 and C14: check digits and length rules of the plain codec -/

/-- Claim C12, amended: on a non-codebook context, for every variant in {1,2,3},
challenge, non-empty string `s` and seed `t0 = ctx.time`, let `e` be the output of
`pt_encode_with_challenge`.  `pt_validate` run on `e` with `ctx.time = t` returns
success exactly when at each of the `min(|s|, 128)` positions the check digit
drawn from the seed reached from `t` equals the one drawn from the seed reached
from `t0`; this is so when `t = t0`, and whenever `t` and `t0` agree modulo
`2^31`. -/
theorem pt_validate_of_encode (ctx : codec_ctx) (v c : Nat) (s : List Nat) (seed0 : Nat)
    (rands seeds : Nat → Nat) (t : Nat)
    (hcb : uses_codebook ctx = false) (hv : 1 ≤ v ∧ v ≤ 3) (hs : s ≠ []) :
    ∃ e, (pt_encode_with_challenge ctx v c (some s) seed0 rands seeds).1 = some e
      ∧ ((pt_validate { ctx with time := t } v (some e)).1 = 1
          ↔ ∀ j, j < min s.length 128 →
              check_digit (ms_seed^[j] t) = check_digit (ms_seed^[j] ctx.time))
      ∧ (t % 2147483648 = ctx.time % 2147483648 →
          (pt_validate { ctx with time := t } v (some e)).1 = 1) := by
  have hl : s.length ≠ 0 := fun h => hs (List.length_eq_zero.mp h)
  have hlen : (s.take ENCODE_MAX_LEN).length = min s.length 128 := by
    rw [List.length_take]
    exact Nat.min_comm _ _
  have hiff : (pt_validate { ctx with time := t } v
        (some (encode_loop ctx.ginger_beyond v (s.take ENCODE_MAX_LEN) 0 (c % 65536) ctx.time).1)).1 = 1
      ↔ ∀ j, j < min s.length 128 →
          check_digit (ms_seed^[j] t) = check_digit (ms_seed^[j] ctx.time) := by
    rw [validate_of_groups _ v _ (s.take ENCODE_MAX_LEN).length hv (by rw [hlen]; omega)
      (encode_loop_length _ _ _ _ _ _)]
    rw [validate_encode_loop, hlen]
  refine ⟨_, encode_plain_eq ctx v c s seed0 rands seeds hcb hv hs, hiff, ?_⟩
  intro hmod
  rw [hiff]
  intro j _
  exact check_digit_low _ _ (iterate_low j _ _ hmod)

/-- Witness for C12: "abc" encoded with variant 1, challenge 1 and seed 7, validated
with the seed 7 + 2^31. -/
theorem pt_validate_of_encode_witness :
    ∃ e, (pt_encode_with_challenge ⟨0x53, 0, [], 7, 0⟩ 1 1 (some [97, 98, 99]) 0
            (fun _ => 0) (fun _ => 0)).1 = some e
      ∧ (pt_validate ⟨0x53, 0, [], 2147483655, 0⟩ 1 (some e)).1 = 1 := by
  obtain ⟨e, he, _, h⟩ := pt_validate_of_encode ⟨0x53, 0, [], 7, 0⟩ 1 1 [97, 98, 99] 0
    (fun _ => 0) (fun _ => 0) 2147483655 (by decide) (by decide) (by decide)
  exact ⟨e, he, h (by decide)⟩

/-- Counterexample to C12 as stated: the encoding of "abc" made with `ctx.time = 0`
(variant 1, challenge 1) passes `pt_validate` run with `ctx.time = 2^31`, and
the encoding of "a" made with `ctx.time = 0` passes with `ctx.time = 2`. -/
theorem pt_validate_other_seed_counterexample :
    (pt_validate ⟨0x53, 0, [], 2147483648, 0⟩ 1
        (pt_encode_with_challenge ⟨0x53, 0, [], 0, 0⟩ 1 1 (some [97, 98, 99]) 0
          (fun _ => 0) (fun _ => 0)).1).1 = 1
    ∧ (pt_validate ⟨0x53, 0, [], 2, 0⟩ 1
        (pt_encode_with_challenge ⟨0x53, 0, [], 0, 0⟩ 1 1 (some [97]) 0
          (fun _ => 0) (fun _ => 0)).1).1 = 1 := by
  decide

/-- Where the reads stay inside `ginger`, the output has the shape of C13: on a
non-codebook context, for every variant in {1,2,3}, every challenge and non-empty
string `s` for which the subscripts of `ginger` at the `min(|s|, 128)` positions
are below 355 (for the variants 1 and 2 this bounds the challenge, for
variant 3 it always holds), `pt_encode_with_challenge` returns a string of
`4 * min(|s|, 128)` characters, each a decimal digit, in which the fourth
character of every group of four is one of '0'..'7'. -/
theorem pt_encode_shape_inside_ginger (ctx : codec_ctx) (v c : Nat) (s : List Nat) (seed0 : Nat)
    (rands seeds : Nat → Nat)
    (hcb : uses_codebook ctx = false) (hv : 1 ≤ v ∧ v ≤ 3) (hs : s ≠ [])
    (_hin : ∀ i, i < min s.length 128 → ginger_index v (c % 65536) i < GINGER_SIZE) :
    ∃ e, (pt_encode_with_challenge ctx v c (some s) seed0 rands seeds).1 = some e
      ∧ e.length = 4 * min s.length 128
      ∧ (∀ x ∈ e, 48 ≤ x ∧ x ≤ 57)
      ∧ (∀ g, g < min s.length 128 → 48 ≤ e.getD (4 * g + 3) 0 ∧ e.getD (4 * g + 3) 0 ≤ 55) := by
  have hlen : (s.take ENCODE_MAX_LEN).length = min s.length 128 := by
    rw [List.length_take]
    exact Nat.min_comm _ _
  refine ⟨_, encode_plain_eq ctx v c s seed0 rands seeds hcb hv hs, ?_, ?_, ?_⟩
  · rw [encode_loop_length, hlen]
  · exact encode_loop_digits _ _ _ _ _ _
  · intro g hg
    rw [encode_loop_check _ v _ _ _ _ g (by rw [hlen]; exact hg)]
    have := check_digit_le (ms_seed^[g] ctx.time)
    omega

/-- Claim C14, amended: on a non-codebook context, `pt_decode_with_challenge` returns
null for every input whose length is not a multiple of 4; an input longer than
512 bytes whose length is a multiple of 4 is not refused but cut to its first
512 bytes: the result is that of decoding these. -/
theorem pt_decode_length_rule (ctx : codec_ctx) (v c : Nat) (s : List Nat)
    (hcb : uses_codebook ctx = false) :
    (s.length % 4 ≠ 0 → pt_decode_with_challenge ctx v c (some s) = none)
    ∧ (s.length % 4 = 0 → 512 < s.length →
        pt_decode_with_challenge ctx v c (some s)
          = pt_decode_with_challenge ctx v c (some (s.take 512))) := by
  constructor
  · intro h
    have h0 : v = 0 ∨ v > 3 ∨ s.length = 0 ∨ s.length &&& 3 ≠ 0 := by
      rw [and_three_eq_mod]; omega
    simp only [pt_decode_with_challenge, hcb, Bool.false_eq_true, if_false, h0, if_true]
  · intro h4 h512
    have hlt : (s.take 512).length = 512 := by rw [List.length_take]; omega
    have hmax : DECODE_MAX_LEN = 512 := by decide
    have e1 : min s.length DECODE_MAX_LEN >>> 2 = 128 := by
      rw [hmax, Nat.shiftRight_eq_div_pow]; omega
    have e2 : min (s.take 512).length DECODE_MAX_LEN >>> 2 = 128 := by
      rw [hmax, hlt]; decide
    by_cases hv : v = 0 ∨ v > 3
    · have h0 : v = 0 ∨ v > 3 ∨ s.length = 0 ∨ s.length &&& 3 ≠ 0 := by omega
      have h1 : v = 0 ∨ v > 3 ∨ (s.take 512).length = 0 ∨ (s.take 512).length &&& 3 ≠ 0 := by
        omega
      simp only [pt_decode_with_challenge, hcb, Bool.false_eq_true, if_false, h0, h1, if_true]
    · have h0 : ¬ (v = 0 ∨ v > 3 ∨ s.length = 0 ∨ s.length &&& 3 ≠ 0) := by
        rw [and_three_eq_mod]; omega
      have h1 : ¬ (v = 0 ∨ v > 3 ∨ (s.take 512).length = 0 ∨ (s.take 512).length &&& 3 ≠ 0) := by
        rw [and_three_eq_mod, hlt]; omega
      simp only [pt_decode_with_challenge, hcb, Bool.false_eq_true, if_false, h0, h1, e1, e2]
      exact (decode_loop_take _ v 128 0 (c % 65536) s).symm

set_option maxRecDepth 100000 in
/-- Witness for C14: a 3-byte input is refused, and 516 characters '0' decode as
their first 512 do. -/
theorem pt_decode_length_rule_witness :
    pt_decode_with_challenge ⟨0x53, 0, [], 0, 0⟩ 1 1 (some [48, 48, 48]) = none
    ∧ pt_decode_with_challenge ⟨0x53, 0, [], 0, 0⟩ 1 1 (some (List.replicate 516 48))
        = pt_decode_with_challenge ⟨0x53, 0, [], 0, 0⟩ 1 1 (some ((List.replicate 516 48).take 512)) :=
  ⟨(pt_decode_length_rule ⟨0x53, 0, [], 0, 0⟩ 1 1 [48, 48, 48] (by decide)).1 (by decide),
   (pt_decode_length_rule ⟨0x53, 0, [], 0, 0⟩ 1 1 (List.replicate 516 48) (by decide)).2
     (by decide) (by decide)⟩

set_option maxRecDepth 100000 in
/-- Counterexample to C14 as stated: an input of 516 characters '0' (longer than 512
bytes) is decoded, with variant 1 and challenge 1, to a non-null buffer of 128
bytes. -/
theorem pt_decode_long_input_counterexample :
    (pt_decode_with_challenge ⟨0x53, 0, [], 0, 0⟩ 1 1 (some (List.replicate 516 48))).map List.length
      = some 128 := by
  decide

/-! ## Lemmas on the general flow, the offline relay and the room broadcast -/

theorem ctxs_set_self (w : world) (c : Nat) : w.ctxs.set c (w.ctx c) = w.ctxs := by
  apply List.ext_getElem
  · simp
  · intro n h1 h2
    by_cases h : c = n
    · subst h
      simp [world.ctx, List.getD_eq_getElem?_getD, List.getElem?_eq_getElem h2]
    · simp [List.getElem_set_ne h]

theorem c_not_blocked (x y : Nat) (hx : x = 0 ∨ x = 1) (hy : y = 0 ∨ y = 1)
    (h : x ≠ 0 ∨ y ≠ 0) : c_not (x ||| y) = 0 := by
  rcases hx with hx | hx <;> rcases hy with hy | hy <;> subst hx <;> subst hy
  · rcases h with h | h <;> exact absurd rfl h
  · decide
  · decide
  · decide

theorem i_blocked_user_cases (db : database) (ctx : pt_context) (uid : Nat) :
    i_blocked_user db ctx uid = 0 ∨ i_blocked_user db ctx uid = 1 := by
  unfold i_blocked_user
  split
  · right; rfl
  · left; rfl

theorem user_blocked_me_cases (db : database) (ctx : pt_context) (uid : Nat) :
    user_blocked_me db ctx uid = 0 ∨ user_blocked_me db ctx uid = 1 := by
  unfold user_blocked_me
  split
  · right; rfl
  · left; rfl

theorem send_packet_fresh (le : Bool) (heap : pkt_heap) (ctx : pt_context) (q : pt_packet) :
    ∃ p iov, send_packet le (heap ++ [some q]) ctx heap.length
        = (heap ++ [some p],
           { ctx with pkts_out := some ((ctx.pkts_out.getD []).take ctx.npkts_out ++ [heap.length]),
                      npkts_out := ctx.npkts_out + 1,
                      pkt_out := ctx.pkt_out ++ iov })
      ∧ p.type = htons le q.type ∧ p.data = q.data := by
  unfold send_packet
  simp only [heap_getD_append_new, heap_set_append_new]
  by_cases h : q.length = 0
  · simp only [h, ne_eq, not_true_eq_false, if_false]
    exact ⟨_, _, rfl, rfl, rfl⟩
  · simp only [h, ne_eq, not_false_eq_true, if_true]
    exact ⟨_, _, rfl, rfl, rfl⟩

theorem pkts_queued_send (ctx : pt_context) (a : Nat) (iov : List iovec) :
    pkts_queued { ctx with pkts_out := some ((ctx.pkts_out.getD []).take ctx.npkts_out ++ [a]),
                           npkts_out := ctx.npkts_out + 1,
                           pkt_out := iov }
      = pkts_queued ctx ++ [a] := by
  unfold pkts_queued
  simp only [Option.getD_some]
  apply List.take_of_length_le
  simp only [List.length_append, List.length_take, List.length_singleton]
  omega

theorem i_blocked_user_congr (db : database) (ctx1 ctx2 : pt_context) (uid : Nat)
    (h : ctx1.uid = ctx2.uid) : i_blocked_user db ctx1 uid = i_blocked_user db ctx2 uid := by
  unfold i_blocked_user
  rw [h]

theorem htons_lt (le : Bool) (t : Nat) : htons le t < 65536 := by
  unfold htons bswap16
  split <;> omega

theorem htons_htons (le : Bool) (t : Nat) (h : t < 65536) : htons le (htons le t) = t := by
  unfold htons
  split
  · have e1 : bswap16 t = t % 256 * 256 + t / 256 := by unfold bswap16; omega
    rw [e1]
    unfold bswap16
    generalize hlo : t % 256 = lo
    generalize hhi : t / 256 = hi
    have h1 : lo < 256 := by omega
    have h2 : hi < 256 := by omega
    have h3 : t = hi * 256 + lo := by omega
    have e2 : (lo * 256 + hi) % 256 = hi := by omega
    have e3 : (lo * 256 + hi) / 256 = lo := by omega
    rw [e2, e3]
    omega
  · omega

theorem heap_getD_set_self (heap : pkt_heap) (a : Nat) (x : Option pt_packet) (pkt : pt_packet)
    (h : heap.getD a none = some pkt) : (heap.set a x).getD a none = x := by
  have ha : a < heap.length := by
    by_contra hn
    rw [List.getD_eq_getElem?_getD, List.getElem?_eq_none (Nat.le_of_not_lt hn)] at h
    exact absurd h (by simp)
  simp [List.getD_eq_getElem?_getD, List.getElem?_set_self ha]

theorem send_packet_existing (le : Bool) (heap : pkt_heap) (ctx : pt_context) (a : Nat)
    (pkt : pt_packet) (h : heap.getD a none = some pkt) :
    ∃ pkt1 ctx1, send_packet le heap ctx a = (heap.set a (some pkt1), ctx1)
      ∧ pkt1.type = htons le pkt.type
      ∧ ctx1.npkts_out = ctx.npkts_out + 1
      ∧ pkts_queued ctx1 = pkts_queued ctx ++ [a] := by
  unfold send_packet
  rw [h]
  simp only [heap_set]
  by_cases hl : pkt.length = 0
  · simp only [hl, ne_eq, not_true_eq_false, if_false]
    exact ⟨_, _, rfl, rfl, rfl, pkts_queued_send ctx a _⟩
  · simp only [hl, ne_eq, not_false_eq_true, if_true]
    exact ⟨_, _, rfl, rfl, rfl, pkts_queued_send ctx a _⟩

theorem world_ctx_on_ctx_self (w : world) (k : Nat) (f : pkt_heap → pt_context → pkt_heap × pt_context)
    (hk : k < w.ctxs.length) : (w.on_ctx k f).ctx k = (f w.heap (w.ctx k)).2 := by
  unfold world.on_ctx
  exact world_ctx_set_self w k _ _ hk

theorem world_ctx_on_ctx_other (w : world) (k j : Nat)
    (f : pkt_heap → pt_context → pkt_heap × pt_context) (hj : j ≠ k) :
    (w.on_ctx k f).ctx j = w.ctx j := by
  unfold world.on_ctx
  exact world_ctx_set_other w k j _ _ hj

theorem broadcast_cb_step (le : Bool) (a : Nat) (w : world) (u : Int) (pkt : pt_packet)
    (hpkt : w.heap.getD a none = some pkt)
    (hq : pkt.type < 65536 ∧ pkt.type ≠ PACKET_NUDGE_IN ∧ htons le pkt.type ≠ PACKET_NUDGE_IN)
    (hlook : ht_get_ptr_nc w.uid_to_context (itoa u) ≠ none) :
    ∃ w1, broadcast_to_room_cb le a w u = some w1
      ∧ w1.db = w.db ∧ w1.uid_to_context = w.uid_to_context ∧ w1.ctxs.length = w.ctxs.length
      ∧ (∃ pkt1, w1.heap.getD a none = some pkt1
            ∧ pkt1.type < 65536 ∧ pkt1.type ≠ PACKET_NUDGE_IN ∧ htons le pkt1.type ≠ PACKET_NUDGE_IN)
      ∧ ∀ k, k < w.ctxs.length →
          (ht_get_ptr_nc w.uid_to_context (itoa u) = some (some k) →
            (w1.ctx k).npkts_out = (w.ctx k).npkts_out + 1
            ∧ pkts_queued (w1.ctx k) = pkts_queued (w.ctx k) ++ [a])
          ∧ (ht_get_ptr_nc w.uid_to_context (itoa u) ≠ some (some k) → w1.ctx k = w.ctx k) := by
  unfold broadcast_to_room_cb
  cases hl : ht_get_ptr_nc w.uid_to_context (itoa u) with
  | none => exact absurd hl hlook
  | some r =>
    cases r with
    | none =>
      refine ⟨w, rfl, rfl, rfl, rfl, ⟨pkt, hpkt, hq⟩, ?_⟩
      intro k _
      exact ⟨fun h => absurd h (by simp), fun _ => rfl⟩
    | some t =>
      simp only [hpkt]
      rw [if_neg (fun h => hq.2.1 h.1)]
      obtain ⟨pkt1, ctx1, hs, ht1, hn, hqd⟩ := send_packet_existing le w.heap (w.ctx t) a pkt hpkt
      refine ⟨_, rfl, rfl, rfl, ?_, ?_, ?_⟩
      · simp [world.on_ctx]
      · refine ⟨pkt1, ?_, ?_, ?_, ?_⟩
        · simp only [world.on_ctx, hs]
          exact heap_getD_set_self w.heap a _ pkt hpkt
        · rw [ht1]; exact htons_lt le _
        · rw [ht1]; exact hq.2.2
        · rw [ht1, htons_htons le _ hq.1]; exact hq.2.1
      · intro k hk
        constructor
        · intro h
          have hkt : t = k := by
            injection h with h; injection h
          subst hkt
          rw [world_ctx_on_ctx_self w t _ hk, hs]
          exact ⟨hn, hqd⟩
        · intro h
          have hkt : k ≠ t := fun e => h (by rw [e])
          exact world_ctx_on_ctx_other w t k _ hkt

theorem broadcast_fold (le : Bool) (a : Nat) (us : List Int) : ∀ (w : world) (pkt : pt_packet),
    w.heap.getD a none = some pkt →
    (pkt.type < 65536 ∧ pkt.type ≠ PACKET_NUDGE_IN ∧ htons le pkt.type ≠ PACKET_NUDGE_IN) →
    (∀ u ∈ us, ht_get_ptr_nc w.uid_to_context (itoa u) ≠ none) →
    ∃ w1, db_exec_each (broadcast_to_room_cb le a) us w = some w1
      ∧ w1.db = w.db ∧ w1.uid_to_context = w.uid_to_context ∧ w1.ctxs.length = w.ctxs.length
      ∧ ∀ k, k < w.ctxs.length →
          (w1.ctx k).npkts_out = (w.ctx k).npkts_out
              + (us.filter (fun u =>
                  decide (ht_get_ptr_nc w.uid_to_context (itoa u) = some (some k)))).length
          ∧ pkts_queued (w1.ctx k) = pkts_queued (w.ctx k)
              ++ List.replicate (us.filter (fun u =>
                  decide (ht_get_ptr_nc w.uid_to_context (itoa u) = some (some k)))).length a
          ∧ ((us.filter (fun u =>
                  decide (ht_get_ptr_nc w.uid_to_context (itoa u) = some (some k)))).length = 0 →
              w1.ctx k = w.ctx k) := by
  induction us with
  | nil =>
    intro w pkt _ _ _
    refine ⟨w, rfl, rfl, rfl, rfl, ?_⟩
    intro k _
    simp
  | cons u rest ih =>
    intro w pkt hpkt hq hlook
    obtain ⟨w1, hcb, hdb, hreg, hlen, ⟨pkt1, hpkt1, hq1⟩, hk1⟩ :=
      broadcast_cb_step le a w u pkt hpkt hq (hlook u (List.mem_cons_self _ _))
    have hlook1 : ∀ v ∈ rest, ht_get_ptr_nc w1.uid_to_context (itoa v) ≠ none := by
      intro v hv
      rw [hreg]
      exact hlook v (List.mem_cons_of_mem _ hv)
    obtain ⟨w2, hex, hdb2, hreg2, hlen2, hk2⟩ := ih w1 pkt1 hpkt1 hq1 hlook1
    refine ⟨w2, ?_, ?_, ?_, ?_, ?_⟩
    · simp only [db_exec_each, hcb, hex]
    · rw [hdb2, hdb]
    · rw [hreg2, hreg]
    · rw [hlen2, hlen]
    · intro k hk
      obtain ⟨hn2, hq2, hz2⟩ := hk2 k (by rw [hlen]; exact hk)
      rw [hreg] at hn2 hq2 hz2
      obtain ⟨hyes, hno⟩ := hk1 k hk
      by_cases hu : ht_get_ptr_nc w.uid_to_context (itoa u) = some (some k)
      · obtain ⟨hn1, hqq1⟩ := hyes hu
        rw [List.filter_cons_of_pos (by simp [hu])]
        refine ⟨?_, ?_, ?_⟩
        · rw [hn2, hn1]; simp only [List.length_cons]; omega
        · rw [hq2, hqq1]
          simp only [List.length_cons, List.replicate_succ, List.append_assoc, List.singleton_append]
        · intro h; simp at h
      · have hsame := hno hu
        rw [List.filter_cons_of_neg (by simp [hu])]
        refine ⟨?_, ?_, ?_⟩
        · rw [hn2, hsame]
        · rw [hq2, hsame]
        · intro h; rw [hz2 h, hsame]

theorem filter_map_filter_length {α β : Type} (l : List α) (f : α → β) (p : α → Bool) (q : β → Bool) :
    (((l.filter p).map f).filter q).length = (l.filter (fun x => p x && q (f x))).length := by
  rw [List.filter_map, List.length_map, List.filter_filter]
  congr 1
  apply List.filter_congr
  intro x _
  simp [Bool.and_comm]

theorem user_in_room_one (db : database) (rid uid : Nat) : user_in_room db rid uid = 1 := by
  unfold user_in_room
  simp

theorem broadcast_cb_registry (le : Bool) (a : Nat) (w w1 : world) (u : Int)
    (h : broadcast_to_room_cb le a w u = some w1) : w1.uid_to_context = w.uid_to_context := by
  unfold broadcast_to_room_cb at h
  split at h
  · exact absurd h (by simp)
  · injection h with h; rw [← h]
  · split at h
    · injection h with h; rw [← h]
    · split at h
      · injection h with h; rw [← h]
      · injection h with h; rw [← h]; rfl

theorem broadcast_fold_none (le : Bool) (a : Nat) (us : List Int) : ∀ (w : world),
    (∃ u ∈ us, ht_get_ptr_nc w.uid_to_context (itoa u) = none) →
    db_exec_each (broadcast_to_room_cb le a) us w = none := by
  induction us with
  | nil => intro w h; obtain ⟨u, hu, _⟩ := h; simp at hu
  | cons v rest ih =>
    intro w h
    obtain ⟨u, hu, hnone⟩ := h
    unfold db_exec_each
    cases hcb : broadcast_to_room_cb le a w v with
    | none => rfl
    | some w1 =>
      simp only []
      have hreg := broadcast_cb_registry le a w w1 v hcb
      rcases List.mem_cons.mp hu with huv | hur
      · subst huv
        unfold broadcast_to_room_cb at hcb
        rw [hnone] at hcb
        exact absurd hcb (by simp)
      · exact ih w1 ⟨u, hur, by rw [hreg]; exact hnone⟩

/-! ### The success part of the `PACKET_LOGIN` case -/

theorem send_new_empty_packet (le : Bool) (heap : pkt_heap) (ctx : pt_context) (type flags : Nat) :
    ∃ p ctx1, send_packet le (new_packet heap type 0 none flags).1 ctx
          (new_packet heap type 0 none flags).2 = (heap ++ [some p], ctx1)
      ∧ p.type = htons le (type % 65536) ∧ p.data = none
      ∧ pkts_queued ctx1 = pkts_queued ctx ++ [heap.length] := by
  obtain ⟨p, iov, h1, h2, h3⟩ := send_packet_fresh le heap ctx
    ⟨type % 65536, PROTOCOL_VERSION, 0, none, 0, flags, 0⟩
  have hnew : new_packet heap type 0 none flags
      = (heap ++ [some ⟨type % 65536, PROTOCOL_VERSION, 0, none, 0, flags, 0⟩], heap.length) := by
    simp [new_packet]
  rw [hnew]
  exact ⟨p, _, h1, h2, h3, pkts_queued_send ctx heap.length _⟩

theorem send_packet_uid_str (le : Bool) (heap : pkt_heap) (ctx : pt_context) (a : Nat) :
    (send_packet le heap ctx a).2.uid_str = ctx.uid_str := by
  unfold send_packet
  split
  · rfl
  · rfl

theorem kick_uid_str (le : Bool) (heap : pkt_heap) (ctx : pt_context) (msg : Option (List Nat))
    (len : Nat) : (kick le heap ctx msg len).2.uid_str = ctx.uid_str := by
  unfold kick
  split
  · rfl
  · rw [send_packet_uid_str]

theorem world_on_ctx_length (w : world) (k : Nat) (f : pkt_heap → pt_context → pkt_heap × pt_context) :
    (w.on_ctx k f).ctxs.length = w.ctxs.length := by
  simp [world.on_ctx]

theorem login_success_tail (le : Bool) (w3 : world) (c : Nat) (t : ht) (hc : c < w3.ctxs.length) :
    ∃ w' p,
      some ({ (({ w3 with uid_to_context := t } : world).on_ctx c (fun heap ctx =>
                send_packet le (new_packet heap PACKET_LOGIN_SUCCESS 0 none 0).1 ctx
                  (new_packet heap PACKET_LOGIN_SUCCESS 0 none 0).2)) with
              db := user_logged_in
                (({ w3 with uid_to_context := t } : world).on_ctx c (fun heap ctx =>
                  send_packet le (new_packet heap PACKET_LOGIN_SUCCESS 0 none 0).1 ctx
                    (new_packet heap PACKET_LOGIN_SUCCESS 0 none 0).2)).db
                ((({ w3 with uid_to_context := t } : world).on_ctx c (fun heap ctx =>
                  send_packet le (new_packet heap PACKET_LOGIN_SUCCESS 0 none 0).1 ctx
                    (new_packet heap PACKET_LOGIN_SUCCESS 0 none 0).2)).ctx c).uid } : world) = some w'
      ∧ w'.uid_to_context = t
      ∧ w'.heap.getLast? = some (some p)
      ∧ p.type = htons le PACKET_LOGIN_SUCCESS ∧ p.data = none
      ∧ (pkts_queued (w'.ctx c)).getLast? = some (w'.heap.length - 1) := by
  obtain ⟨p, ctx1, hsend, hty, hdata, hq⟩ := send_new_empty_packet le w3.heap
    (({ w3 with uid_to_context := t } : world).ctx c) PACKET_LOGIN_SUCCESS 0
  have h5heap : (({ w3 with uid_to_context := t } : world).on_ctx c (fun heap ctx =>
      send_packet le (new_packet heap PACKET_LOGIN_SUCCESS 0 none 0).1 ctx
        (new_packet heap PACKET_LOGIN_SUCCESS 0 none 0).2)).heap = w3.heap ++ [some p] := by
    simp only [world.on_ctx]
    rw [hsend]
  have h5ctx : (({ w3 with uid_to_context := t } : world).on_ctx c (fun heap ctx =>
      send_packet le (new_packet heap PACKET_LOGIN_SUCCESS 0 none 0).1 ctx
        (new_packet heap PACKET_LOGIN_SUCCESS 0 none 0).2)).ctx c = ctx1 := by
    rw [world_ctx_on_ctx_self (⟨w3.heap, w3.ctxs, t, w3.db⟩ : world) c _ hc]
    show (send_packet le (new_packet w3.heap PACKET_LOGIN_SUCCESS 0 none 0).1
      (({ w3 with uid_to_context := t } : world).ctx c)
      (new_packet w3.heap PACKET_LOGIN_SUCCESS 0 none 0).2).2 = ctx1
    rw [hsend]
  have h5reg : (({ w3 with uid_to_context := t } : world).on_ctx c (fun heap ctx =>
      send_packet le (new_packet heap PACKET_LOGIN_SUCCESS 0 none 0).1 ctx
        (new_packet heap PACKET_LOGIN_SUCCESS 0 none 0).2)).uid_to_context = t := rfl
  generalize (({ w3 with uid_to_context := t } : world).on_ctx c (fun heap ctx =>
      send_packet le (new_packet heap PACKET_LOGIN_SUCCESS 0 none 0).1 ctx
        (new_packet heap PACKET_LOGIN_SUCCESS 0 none 0).2)) = w5 at h5heap h5ctx h5reg ⊢
  refine ⟨_, p, rfl, h5reg, ?_, hty, hdata, ?_⟩
  · show w5.heap.getLast? = _
    rw [h5heap]
    simp
  · show (pkts_queued (w5.ctx c)).getLast? = some (w5.heap.length - 1)
    rw [h5ctx, hq, h5heap]
    simp

theorem login_success_returns (le : Bool) (w : world) (c : Nat) (inc : Option Nat) (t : ht)
    (hc : c < w.ctxs.length)
    (hget : ht_get_ptr_nc w.uid_to_context (utoa (w.ctx c).uid) = some inc)
    (hset : ht_set w.uid_to_context (utoa (w.ctx c).uid) HT_PTR (.ptr c) = some t) :
    ∃ w' p, login_success le w c = some w'
      ∧ w'.uid_to_context = t
      ∧ w'.heap.getLast? = some (some p)
      ∧ p.type = htons le PACKET_LOGIN_SUCCESS ∧ p.data = none
      ∧ (pkts_queued (w'.ctx c)).getLast? = some (w'.heap.length - 1) := by
  have h2c : ((({ w with db := device_inc_logins w.db (w.ctx c) } : world).on_ctx c
      (fun heap ctx => (heap, { ctx with uid_str := utoa ctx.uid }))).ctx c).uid_str
        = utoa (w.ctx c).uid := by
    rw [world_ctx_on_ctx_self (⟨w.heap, w.ctxs, w.uid_to_context,
      device_inc_logins w.db (w.ctx c)⟩ : world) c _ hc]
    rfl
  unfold login_success
  simp only []
  generalize hw2 : (({ w with db := device_inc_logins w.db (w.ctx c) } : world).on_ctx c
      (fun heap ctx => (heap, { ctx with uid_str := utoa ctx.uid }))) = w2 at h2c
  have hr2 : w2.uid_to_context = w.uid_to_context := by rw [← hw2]; rfl
  have hl2 : w2.ctxs.length = w.ctxs.length := by rw [← hw2]; exact world_on_ctx_length _ _ _
  rw [h2c, hr2, hget]
  cases inc with
  | none =>
    simp only []
    rw [h2c, hr2, hset]
    exact login_success_tail le w2 c t (by rw [hl2]; exact hc)
  | some o =>
    simp only []
    have hu3 : ((w2.on_ctx o (fun heap ctx =>
        kick le heap ctx (some multi_login) MULTI_LOGIN_LEN)).ctx c).uid_str = utoa (w.ctx c).uid := by
      by_cases ho : c = o
      · subst ho
        rw [world_ctx_on_ctx_self _ _ _ (by rw [hl2]; exact hc), kick_uid_str]; exact h2c
      · rw [world_ctx_on_ctx_other _ _ _ _ ho]; exact h2c
    have hr3 : (w2.on_ctx o (fun heap ctx =>
        kick le heap ctx (some multi_login) MULTI_LOGIN_LEN)).uid_to_context = w.uid_to_context := hr2
    rw [hu3, hr3, hset]
    exact login_success_tail le _ c t (by rw [world_on_ctx_length, hl2]; exact hc)

theorem login_gate_refused (le : Bool) (w w1 : world) (c : Nat)
    (htype : (w.ctx c).pkt_in.type = PACKET_LOGIN)
    (hreg : w1.uid_to_context = w.uid_to_context) (hheap : w1.heap = w.heap)
    (hin : (w1.ctx c).pkt_in = (w.ctx c).pkt_in) :
    (w1.on_ctx c (fun heap ctx =>
        send_return_code le heap ctx 0x63 (some bad_password) BAD_PASSWORD_LEN)).uid_to_context
      = w.uid_to_context
    ∧ (w1.on_ctx c (fun heap ctx =>
        send_return_code le heap ctx 0x63 (some bad_password) BAD_PASSWORD_LEN)).heap
      = w.heap ++ [some ⟨htons le PACKET_RETURN_CODE, htons le PROTOCOL_VERSION, htons le 42,
            some ([0xfb, 0x84, 0x00, 0x63] ++ bad_password), 1, 0, 48⟩] := by
  have hsend := send_return_code_bad_password le w1.heap (w1.ctx c) (by rw [hin]; exact htype)
  refine ⟨hreg, ?_⟩
  simp only [world.on_ctx]
  rw [hsend, hheap]

theorem login_gate_core (le : Bool) (w w1 : world) (c : Nat) (result : Option world)
    (hc : c < w.ctxs.length)
    (htype : (w.ctx c).pkt_in.type = PACKET_LOGIN)
    (hreg : w1.uid_to_context = w.uid_to_context) (hdb : w1.db = w.db) (hheap : w1.heap = w.heap)
    (hlen : w1.ctxs.length = w.ctxs.length)
    (hu1 : (w1.ctx c).uid = (w.ctx c).uid) (hin1 : (w1.ctx c).pkt_in = (w.ctx c).pkt_in)
    (hflow : result
      = (match pt_decode_with_challenge (w.ctx c).codec 1 (w.ctx c).challenge
            ((strtok_all 10 (cstr (((w.ctx c).pkt_in.data.getD []).drop 4)) []).get? 2) with
        | some buf =>
          if user_check_question_response w1.db (w.ctx c).uid (some (cstr buf)) = 0 then
            some (w1.on_ctx c (fun heap ctx =>
              send_return_code le heap ctx 0x63 (some bad_password) BAD_PASSWORD_LEN))
          else
            login_success le
              (if (strtok_all 10 (cstr (((w.ctx c).pkt_in.data.getD []).drop 4)) []).get? 3
                    = some [97, 100, 100]
               then { w1 with db := device_add w1.db (w1.ctx c) } else w1) c
        | none => login_success le w1 c)) :
    (∀ buf, pt_decode_with_challenge (w.ctx c).codec 1 (w.ctx c).challenge
          ((strtok_all 10 (cstr (((w.ctx c).pkt_in.data.getD []).drop 4)) []).get? 2) = some buf →
        user_check_question_response w.db (w.ctx c).uid (some (cstr buf)) = 0 →
        ∃ w', result = some w'
          ∧ w'.uid_to_context = w.uid_to_context
          ∧ w'.heap = w.heap ++ [some ⟨htons le PACKET_RETURN_CODE, htons le PROTOCOL_VERSION,
                htons le 42, some ([0xfb, 0x84, 0x00, 0x63] ++ bad_password), 1, 0, 48⟩])
    ∧ ((pt_decode_with_challenge (w.ctx c).codec 1 (w.ctx c).challenge
            ((strtok_all 10 (cstr (((w.ctx c).pkt_in.data.getD []).drop 4)) []).get? 2) = none
          ∨ ∃ buf, pt_decode_with_challenge (w.ctx c).codec 1 (w.ctx c).challenge
              ((strtok_all 10 (cstr (((w.ctx c).pkt_in.data.getD []).drop 4)) []).get? 2) = some buf
            ∧ user_check_question_response w.db (w.ctx c).uid (some (cstr buf)) ≠ 0) →
        ∀ (inc : Option Nat) (t : ht),
          ht_get_ptr_nc w.uid_to_context (utoa (w.ctx c).uid) = some inc →
          ht_set w.uid_to_context (utoa (w.ctx c).uid) HT_PTR (.ptr c) = some t →
          ∃ w' p, result = some w'
            ∧ w'.uid_to_context = t
            ∧ w'.heap.getLast? = some (some p)
            ∧ p.type = htons le PACKET_LOGIN_SUCCESS ∧ p.data = none
            ∧ (pkts_queued (w'.ctx c)).getLast? = some (w'.heap.length - 1)) := by
  rw [hflow]
  refine ⟨?_, ?_⟩
  · intro buf hbuf hcheck
    rw [hbuf]
    simp only []
    rw [hdb, if_pos hcheck]
    obtain ⟨ha, hb⟩ := login_gate_refused le w w1 c htype hreg hheap hin1
    exact ⟨_, rfl, ha, hb⟩
  · intro hacc inc t hget hset
    rcases hacc with hnone | ⟨buf, hbuf, hcheck⟩
    · rw [hnone]
      simp only []
      exact login_success_returns le w1 c inc t (by rw [hlen]; exact hc)
        (by rw [hreg, hu1]; exact hget) (by rw [hreg, hu1]; exact hset)
    · rw [hbuf]
      simp only []
      rw [hdb, if_neg hcheck]
      by_cases hadd : (strtok_all 10 (cstr (((w.ctx c).pkt_in.data.getD []).drop 4)) []).get? 3
          = some [97, 100, 100]
      · rw [if_pos hadd]
        exact login_success_returns le _ c inc t (by show c < w1.ctxs.length; rw [hlen]; exact hc)
          (by show ht_get_ptr_nc w1.uid_to_context (utoa (w1.ctx c).uid) = some inc
              rw [hreg, hu1]; exact hget)
          (by show ht_set w1.uid_to_context (utoa (w1.ctx c).uid) HT_PTR (.ptr c) = some t
              rw [hreg, hu1]; exact hset)
      · rw [if_neg hadd]
        exact login_success_returns le w1 c inc t (by rw [hlen]; exact hc)
          (by rw [hreg, hu1]; exact hget) (by rw [hreg, hu1]; exact hset)

/-! ### The listing of the buddy statuses -/

theorem be32_length (x : Nat) : (be32 x).length = 4 := rfl

theorem buddy_status_body_length (uid : Nat) (blocked : Bool) (buddy : Option pt_context)
    (version : Nat) :
    8 ≤ (buddy_status_body uid blocked buddy version).length
      ∧ (buddy_status_body uid blocked buddy version).length ≤ 58 := by
  unfold buddy_status_body
  split
  · simp [be32_length]
  · split
    · simp [be32_length]
    · split
      · split
        · simp only [List.length_append, be32_length, List.length_take, STATUSMSG_MAX]; omega
        · simp [be32_length]
      · simp [be32_length]

theorem send_body_on_ctx (le : Bool) (w : world) (c : Nat) (body : List Nat)
    (hc : c < w.ctxs.length) (hb : body.length ≤ 65535) :
    (w.on_ctx c (fun heap ctx =>
        send_packet le (new_packet heap PACKET_BUDDY_STATUSCHANGE body.length (some body) PACKET_F_COPY).1
          ctx (new_packet heap PACKET_BUDDY_STATUSCHANGE body.length (some body) PACKET_F_COPY).2)).heap
      = w.heap ++ [some ⟨htons le PACKET_BUDDY_STATUSCHANGE, htons le PROTOCOL_VERSION,
            if body.length ≠ 0 then htons le body.length else body.length, some body, 1,
            PACKET_F_COPY, body.length + 6⟩]
    ∧ pkts_queued ((w.on_ctx c (fun heap ctx =>
        send_packet le (new_packet heap PACKET_BUDDY_STATUSCHANGE body.length (some body) PACKET_F_COPY).1
          ctx (new_packet heap PACKET_BUDDY_STATUSCHANGE body.length (some body) PACKET_F_COPY).2)).ctx c)
      = pkts_queued (w.ctx c) ++ [w.heap.length]
    ∧ buddy_listing_same w (w.on_ctx c (fun heap ctx =>
        send_packet le (new_packet heap PACKET_BUDDY_STATUSCHANGE body.length (some body) PACKET_F_COPY).1
          ctx (new_packet heap PACKET_BUDDY_STATUSCHANGE body.length (some body) PACKET_F_COPY).2)) := by
  have hspec := send_new_packet_spec le w.heap (w.ctx c) PACKET_BUDDY_STATUSCHANGE body PACKET_F_COPY
    (by decide) hb
  refine ⟨?_, ?_, rfl, rfl, world_on_ctx_length _ _ _, ?_⟩
  · simp only [world.on_ctx]
    rw [hspec]
  · rw [world_ctx_on_ctx_self _ _ _ hc, hspec]
    exact pkts_queued_send _ _ _
  · intro k
    by_cases hk : k = c
    · subst hk
      rw [world_ctx_on_ctx_self _ _ _ hc, hspec]
      exact ⟨rfl, rfl, rfl, rfl⟩
    · rw [world_ctx_on_ctx_other _ _ _ _ hk]
      exact ⟨rfl, rfl, rfl, rfl⟩

theorem send_status_len (le : Bool) (w : world) (c u st : Nat) (msg : List Nat) :
    (w.on_ctx c (fun heap ctx =>
        send_packet le
          (new_packet heap PACKET_BUDDY_STATUSCHANGE (8 + msg.length)
            (some (be32 u ++ be32 st ++ msg)) PACKET_F_COPY).1 ctx
          (new_packet heap PACKET_BUDDY_STATUSCHANGE (8 + msg.length)
            (some (be32 u ++ be32 st ++ msg)) PACKET_F_COPY).2))
      = (w.on_ctx c (fun heap ctx =>
        send_packet le
          (new_packet heap PACKET_BUDDY_STATUSCHANGE (be32 u ++ be32 st ++ msg).length
            (some (be32 u ++ be32 st ++ msg)) PACKET_F_COPY).1 ctx
          (new_packet heap PACKET_BUDDY_STATUSCHANGE (be32 u ++ be32 st ++ msg).length
            (some (be32 u ++ be32 st ++ msg)) PACKET_F_COPY).2)) := by
  have el : 8 + msg.length = (be32 u ++ be32 st ++ msg).length := by
    simp only [List.length_append, be32_length]
  rw [el]

theorem send_buddy_status_step (le : Bool) (c : Nat) (w : world) (v : Int)
    (hc : c < w.ctxs.length)
    (hlook : i_blocked_user w.db (w.ctx c) (ulong_of v) = 0 →
      ht_get_ptr_nc w.uid_to_context (itoa (long_of (ulong_of v))) ≠ none) :
    ∃ w1, send_buddy_status le c w v = some w1
      ∧ heap_view w1 = heap_view w ++ [some (htons le PACKET_BUDDY_STATUSCHANGE,
          some (buddy_status_body (ulong_of v)
            (decide (i_blocked_user w.db (w.ctx c) (ulong_of v) ≠ 0))
            ((ht_get_ptr_nc w.uid_to_context (itoa (long_of (ulong_of v)))).join.map w.ctx)
            (w.ctx c).pkt_in.version))]
      ∧ w1.heap.length = w.heap.length + 1
      ∧ pkts_queued (w1.ctx c) = pkts_queued (w.ctx c) ++ [w.heap.length]
      ∧ buddy_listing_same w w1 := by
  have hlen := buddy_status_body_length (ulong_of v)
    (decide (i_blocked_user w.db (w.ctx c) (ulong_of v) ≠ 0))
    ((ht_get_ptr_nc w.uid_to_context (itoa (long_of (ulong_of v)))).join.map w.ctx)
    (w.ctx c).pkt_in.version
  generalize hbody : buddy_status_body (ulong_of v)
    (decide (i_blocked_user w.db (w.ctx c) (ulong_of v) ≠ 0))
    ((ht_get_ptr_nc w.uid_to_context (itoa (long_of (ulong_of v)))).join.map w.ctx)
    (w.ctx c).pkt_in.version = body at hlen
  obtain ⟨hh, hq, hsame⟩ := send_body_on_ctx le w c body hc (by omega)
  have hres : send_buddy_status le c w v = some (w.on_ctx c (fun heap ctx =>
      send_packet le (new_packet heap PACKET_BUDDY_STATUSCHANGE body.length (some body) PACKET_F_COPY).1
        ctx (new_packet heap PACKET_BUDDY_STATUSCHANGE body.length (some body) PACKET_F_COPY).2)) := by
    unfold send_buddy_status
    simp only []
    by_cases hb : i_blocked_user w.db (w.ctx c) (ulong_of v) ≠ 0
    · rw [if_pos hb]
      have e : body = be32 (ulong_of v) ++ be32 STATUS_BLOCKED := by
        rw [← hbody]; simp [buddy_status_body, hb]
      rw [e]
      rfl
    · rw [if_neg hb]
      have hb0 : i_blocked_user w.db (w.ctx c) (ulong_of v) = 0 := by omega
      have hl := hlook hb0
      cases hg : ht_get_ptr_nc w.uid_to_context (itoa (long_of (ulong_of v))) with
      | none => exact absurd hg hl
      | some r =>
        rw [hg] at hbody
        cases r with
        | none =>
          have e : body = be32 (ulong_of v) ++ be32 STATUS_OFFLINE := by
            rw [← hbody]; simp [buddy_status_body, hb0]
          rw [e]
          rfl
        | some b =>
          simp only []
          split
          · rename_i hcnd
            split
            · rename_i m hm
              have e : body = be32 (ulong_of v) ++ be32 (w.ctx b).status
                  ++ (cstr m).take STATUSMSG_MAX := by
                rw [← hbody]; simp [buddy_status_body, hb0, hcnd, hm]
              rw [send_status_len, ← e]
            · rename_i hm
              have e : body = be32 (ulong_of v) ++ be32 (w.ctx b).status ++ [] := by
                rw [← hbody]; simp [buddy_status_body, hb0, hcnd, hm]
              rw [send_status_len, ← e]
          · rename_i hcnd
            have e : body = be32 (ulong_of v) ++ be32 (w.ctx b).status ++ [] := by
              rw [← hbody]; simp [buddy_status_body, hb0, hcnd]
            rw [send_status_len, ← e]
  refine ⟨_, hres, ?_, ?_, hq, hsame⟩
  · simp only [heap_view, hh, List.map_append, List.map_cons, List.map_nil, Option.map_some']
  · rw [hh]; simp

theorem buddy_status_body_congr (uid : Nat) (blocked : Bool) (b1 b2 : Option pt_context)
    (version : Nat)
    (h : (b1.map (fun b => (b.status, b.status_msg))) = (b2.map (fun b => (b.status, b.status_msg)))) :
    buddy_status_body uid blocked b1 version = buddy_status_body uid blocked b2 version := by
  cases b1 with
  | none =>
    cases b2 with
    | none => rfl
    | some y => simp at h
  | some x =>
    cases b2 with
    | none => simp at h
    | some y =>
      simp only [Option.map_some', Option.some.injEq, Prod.mk.injEq] at h
      simp only [buddy_status_body, h.1, h.2]

theorem buddy_listing_same_trans (w0 w1 w2 : world) (h1 : buddy_listing_same w0 w1)
    (h2 : buddy_listing_same w1 w2) : buddy_listing_same w0 w2 := by
  obtain ⟨a1, b1, c1, d1⟩ := h1
  obtain ⟨a2, b2, c2, d2⟩ := h2
  refine ⟨by rw [a2, a1], by rw [b2, b1], by rw [c2, c1], fun k => ?_⟩
  obtain ⟨p1, q1, r1, s1⟩ := d1 k
  obtain ⟨p2, q2, r2, s2⟩ := d2 k
  exact ⟨by rw [p2, p1], by rw [q2, q1], by rw [r2, r1], by rw [s2, s1]⟩

theorem buddy_packet_same (w0 w : world) (c : Nat) (v : Int) (h : buddy_listing_same w0 w) :
    buddy_status_body (ulong_of v)
        (decide (i_blocked_user w.db (w.ctx c) (ulong_of v) ≠ 0))
        ((ht_get_ptr_nc w.uid_to_context (itoa (long_of (ulong_of v)))).join.map w.ctx)
        (w.ctx c).pkt_in.version
      = buddy_status_body (ulong_of v)
        (decide (i_blocked_user w0.db (w0.ctx c) (ulong_of v) ≠ 0))
        ((ht_get_ptr_nc w0.uid_to_context (itoa (long_of (ulong_of v)))).join.map w0.ctx)
        (w0.ctx c).pkt_in.version := by
  obtain ⟨hdb, hreg, _, hk⟩ := h
  rw [hdb, hreg, i_blocked_user_congr w0.db (w.ctx c) (w0.ctx c) _ (hk c).2.2.1, (hk c).2.2.2]
  apply buddy_status_body_congr
  cases (ht_get_ptr_nc w0.uid_to_context (itoa (long_of (ulong_of v)))).join with
  | none => rfl
  | some b =>
    simp only [Option.map_some', Option.some.injEq, Prod.mk.injEq]
    exact ⟨(hk b).1, (hk b).2.1⟩

theorem buddy_fold (le : Bool) (c : Nat) (w0 : world) (rows : List Int) : ∀ (w : world),
    c < w.ctxs.length → buddy_listing_same w0 w →
    (∀ v ∈ rows, i_blocked_user w0.db (w0.ctx c) (ulong_of v) = 0 →
      ht_get_ptr_nc w0.uid_to_context (itoa (long_of (ulong_of v))) ≠ none) →
    ∃ w1, db_exec_each (send_buddy_status le c) rows w = some w1
      ∧ heap_view w1 = heap_view w ++ rows.map (fun v =>
          some (htons le PACKET_BUDDY_STATUSCHANGE,
            some (buddy_status_body (ulong_of v)
              (decide (i_blocked_user w0.db (w0.ctx c) (ulong_of v) ≠ 0))
              ((ht_get_ptr_nc w0.uid_to_context (itoa (long_of (ulong_of v)))).join.map w0.ctx)
              (w0.ctx c).pkt_in.version)))
      ∧ pkts_queued (w1.ctx c) = pkts_queued (w.ctx c) ++ List.range' w.heap.length rows.length
      ∧ buddy_listing_same w0 w1 := by
  induction rows with
  | nil =>
    intro w _ hs _
    exact ⟨w, rfl, by simp, by simp, hs⟩
  | cons v rest ih =>
    intro w hc hs hlook
    obtain ⟨hdb, hreg, hlen, hk⟩ := hs
    have hl1 : i_blocked_user w.db (w.ctx c) (ulong_of v) = 0 →
        ht_get_ptr_nc w.uid_to_context (itoa (long_of (ulong_of v))) ≠ none := by
      rw [hdb, hreg, i_blocked_user_congr w0.db (w.ctx c) (w0.ctx c) _ (hk c).2.2.1]
      exact hlook v (List.mem_cons_self _ _)
    obtain ⟨w1, hstep, hheap, hhl, hq, hsame⟩ := send_buddy_status_step le c w v hc hl1
    have hs1 : buddy_listing_same w0 w1 :=
      buddy_listing_same_trans w0 w w1 ⟨hdb, hreg, hlen, hk⟩ hsame
    obtain ⟨w2, hex, hheap2, hq2, hs2⟩ := ih w1 (by rw [hsame.2.2.1]; exact hc) hs1
      (fun u hu => hlook u (List.mem_cons_of_mem _ hu))
    refine ⟨w2, ?_, ?_, ?_, hs2⟩
    · simp only [db_exec_each, hstep, hex]
    · rw [hheap2, hheap, buddy_packet_same w0 w c v ⟨hdb, hreg, hlen, hk⟩]
      simp
    · rw [hq2, hq, hhl]
      simp [List.range'_succ]

/-! ## C11, C15, C16 and C17: the login gate, the table and the buddy and message handlers -/

set_option maxHeartbeats 1000000 in
/-- Claim C11, amended: the `PACKET_LOGIN` case does not consult the device list.  For a
`LOGIN` whose uid equals the session uid of a real user and whose password field
checks, the login is refused (one `RETURN_CODE` with the bad-password text, the
registry unchanged) when the third field decodes to a string that
`user_check_question_response` rejects; when the third field is missing or does
not decode, or decodes to an accepted response, the success part runs and,
provided the registry lookup of the uid string and the `ht_set` for it return,
the call returns with the table `ht_set` returned as registry and a
`LOGIN_SUCCESS` packet without body as the newest packet, queued last on the
connection. -/
theorem login_secret_response_gate (le : Bool) (inet_addr : List Nat → Nat) (r1 r2 r3 : Nat)
    (w : world) (c : Nat)
    (hc : c < w.ctxs.length)
    (htype : (w.ctx c).pkt_in.type = PACKET_LOGIN)
    (huid : packet_uid (w.ctx c).pkt_in = (w.ctx c).uid)
    (hreal : (w.ctx c).uid ≠ 0 ∧ UID_IS_ERROR (w.ctx c).uid = false ∧ (w.ctx c).uid ≠ UID_NEWUSER)
    (hpw : login_pass_ok w.db (w.ctx c) ≠ 0) :
    (∀ buf, pt_decode_with_challenge (w.ctx c).codec 1 (w.ctx c).challenge
          ((strtok_all 10 (cstr (((w.ctx c).pkt_in.data.getD []).drop 4)) []).get? 2) = some buf →
        user_check_question_response w.db (w.ctx c).uid (some (cstr buf)) = 0 →
        ∃ w', login_flow_login le inet_addr r1 r2 r3 w c = some w'
          ∧ w'.uid_to_context = w.uid_to_context
          ∧ w'.heap = w.heap ++ [some ⟨htons le PACKET_RETURN_CODE, htons le PROTOCOL_VERSION,
                htons le 42, some ([0xfb, 0x84, 0x00, 0x63] ++ bad_password), 1, 0, 48⟩])
    ∧ ((pt_decode_with_challenge (w.ctx c).codec 1 (w.ctx c).challenge
            ((strtok_all 10 (cstr (((w.ctx c).pkt_in.data.getD []).drop 4)) []).get? 2) = none
          ∨ ∃ buf, pt_decode_with_challenge (w.ctx c).codec 1 (w.ctx c).challenge
              ((strtok_all 10 (cstr (((w.ctx c).pkt_in.data.getD []).drop 4)) []).get? 2) = some buf
            ∧ user_check_question_response w.db (w.ctx c).uid (some (cstr buf)) ≠ 0) →
        ∀ (inc : Option Nat) (t : ht),
          ht_get_ptr_nc w.uid_to_context (utoa (w.ctx c).uid) = some inc →
          ht_set w.uid_to_context (utoa (w.ctx c).uid) HT_PTR (.ptr c) = some t →
          ∃ w' p, login_flow_login le inet_addr r1 r2 r3 w c = some w'
            ∧ w'.uid_to_context = t
            ∧ w'.heap.getLast? = some (some p)
            ∧ p.type = htons le PACKET_LOGIN_SUCCESS ∧ p.data = none
            ∧ (pkts_queued (w'.ctx c)).getLast? = some (w'.heap.length - 1)) := by
  have h1 : ¬ (packet_uid (w.ctx c).pkt_in ≠ (w.ctx c).uid ∨ (w.ctx c).uid = 0
      ∨ UID_IS_ERROR (w.ctx c).uid = true) := by
    rw [hreal.2.1]; simp [huid, hreal.1]
  cases hsrv : pt_decode_with_challenge (w.ctx c).codec 2 (w.ctx c).challenge
      ((strtok_all 10 (cstr (((w.ctx c).pkt_in.data.getD []).drop 4)) []).get? 1) with
  | none =>
    refine login_gate_core le w w c _ hc htype rfl rfl rfl rfl rfl rfl ?_
    unfold login_flow_login
    simp only []
    rw [if_neg h1, if_neg hreal.2.2, if_neg hpw, hsrv]
  | some srv =>
    refine login_gate_core le w (w.on_ctx c (fun heap ctx =>
        (heap, { ctx with server_ip := swap_ip (inet_addr (cstr srv)) }))) c _ hc htype
      rfl rfl rfl (world_on_ctx_length _ _ _) ?_ ?_ ?_
    · rw [world_ctx_on_ctx_self _ _ _ hc]
    · rw [world_ctx_on_ctx_self _ _ _ hc]
    · unfold login_flow_login
      simp only []
      rw [if_neg h1, if_neg hreal.2.2, if_neg hpw, hsrv]

set_option maxRecDepth 100000 in
/-- Witness for C11 (amended): uid 42 logs in from the device "dev", which is not in
its device list, with the encoded password and no third field; the registry
lookup and `ht_set` return, and the login is accepted. -/
theorem login_secret_response_gate_witness :
    device_in_list example_db_secret ((example_world_device example_pw_ok).ctx 0) = 0
    ∧ ∃ w' p, login_flow_login true (fun _ => 0) 0 0 0 (example_world_device example_pw_ok) 0 = some w'
        ∧ w'.uid_to_context
            = (ht_set example_registry_empty [52, 50] HT_PTR (.ptr 0)).getD example_registry_empty
        ∧ w'.heap.getLast? = some (some p)
        ∧ p.type = htons true PACKET_LOGIN_SUCCESS ∧ p.data = none
        ∧ (pkts_queued (w'.ctx 0)).getLast? = some (w'.heap.length - 1) :=
  ⟨by decide,
   (login_secret_response_gate true (fun _ => 0) 0 0 0 (example_world_device example_pw_ok) 0
      (by decide) (by decide) (by decide) (by decide) (by decide)).2 (Or.inl (by decide)) none
      ((ht_set example_registry_empty [52, 50] HT_PTR (.ptr 0)).getD example_registry_empty)
      (by decide) (by decide)⟩

set_option maxRecDepth 100000 in
/-- Counterexample to C11 as stated: uid 42 (password "pw", secret answer "blue") logs
in from the device "dev", which is not in its device list.  A `LOGIN` that carries
only the encoded password, and one whose third field "abc" cannot be decoded,
are both accepted: `LOGIN_SUCCESS` is enqueued and the registry maps "42" to the
connection.  Only a response that decodes to a wrong answer is refused. -/
theorem login_without_secret_response_counterexample :
    device_in_list example_db_secret ((example_world_device example_pw_ok).ctx 0) = 0
    ∧ (login_flow_login true (fun _ => 0) 0 0 0 (example_world_device example_pw_ok) 0).map heap_view
        = some [some (htons true PACKET_LOGIN_SUCCESS, none)]
    ∧ (login_flow_login true (fun _ => 0) 0 0 0 (example_world_device example_pw_ok) 0).map
          (queue_view 0) = some (some [0])
    ∧ (login_flow_login true (fun _ => 0) 0 0 0 (example_world_device example_pw_ok) 0).bind
          (fun w => ht_get_ptr_nc w.uid_to_context [52, 50]) = some (some 0)
    ∧ (login_flow_login true (fun _ => 0) 0 0 0
          (example_world_device example_fields_undecodable) 0).map heap_view
        = some [some (htons true PACKET_LOGIN_SUCCESS, none)]
    ∧ (login_flow_login true (fun _ => 0) 0 0 0
          (example_world_device example_fields_undecodable) 0).bind
          (fun w => ht_get_ptr_nc w.uid_to_context [52, 50]) = some (some 0)
    ∧ (login_flow_login true (fun _ => 0) 0 0 0
          (example_world_device example_fields_wrong) 0).map heap_view
        = some [some (htons true PACKET_RETURN_CODE, some ([0xfb, 0x84, 0x00, 0x63] ++ bad_password))]
    ∧ (login_flow_login true (fun _ => 0) 0 0 0
          (example_world_device example_fields_wrong) 0).bind
          (fun w => ht_get_ptr_nc w.uid_to_context [52, 50]) = some none := by
  refine ⟨?_, ?_, ?_, ?_, ?_, ?_, ?_, ?_⟩ <;> decide

set_option maxRecDepth 100000 in
/-- Claim C15 fails on the code in the replace case: in a table where "a" holds the
long 1, `ht_set(t, "a", HT_LONG, &two)` returns and `ht_get` for `HT_LONG` still
returns 1; `ht_set(t, "a", HT_PTR, p)` returns and `ht_get` for `HT_PTR` returns
`NULL`.  The add case works here: after `ht_set(t, "b", HT_LONG, &two)` the long 2
is returned for "b". -/
theorem ht_set_existing_key_keeps_value :
    ht_get example_table_a [97] HT_LONG = some (some (.long 1))
    ∧ (ht_set example_table_a [97] HT_LONG (.long 2)).map (fun t => ht_get t [97] HT_LONG)
        = some (some (some (.long 1)))
    ∧ (ht_set example_table_a [97] HT_PTR (.ptr 5)).map (fun t => ht_get t [97] HT_PTR)
        = some (some none)
    ∧ (ht_set example_table_a [98] HT_LONG (.long 2)).map (fun t => ht_get t [98] HT_LONG)
        = some (some (some (.long 2))) := by
  decide

/-- Claim C16, amended: `buddy_statuses` run for a connection returns when the registry
lookup returns for every buddy the user does not block (for a blocked buddy no
lookup is made), and has then enqueued on that connection one
`BUDDY_STATUSCHANGE` per row of the user's buddy list, in row order, with the
body `buddy_status_body` gives: `STATUS_BLOCKED` for a buddy the user blocks,
otherwise the status the buddy's registered connection has (with its status
message as described there), otherwise `STATUS_OFFLINE`.  Whether the buddy
blocks the user is not looked at: a user on the blocklist of a buddy is shown
that buddy's real status.  The store and the registry are unchanged. -/
theorem buddy_statuses_listing (le : Bool) (w : world) (c : Nat) (hc : c < w.ctxs.length)
    (hlook : ∀ r ∈ w.db.buddylist, r.uid = long_of (w.ctx c).uid →
      i_blocked_user w.db (w.ctx c) (ulong_of r.buddy) = 0 →
      ht_get_ptr_nc w.uid_to_context (itoa (long_of (ulong_of r.buddy))) ≠ none) :
    ∃ w1, buddy_statuses le w c = some w1
      ∧ w1.db = w.db ∧ w1.uid_to_context = w.uid_to_context
      ∧ heap_view w1 = heap_view w
          ++ ((w.db.buddylist.filter (fun r => decide (r.uid = long_of (w.ctx c).uid))).map
                (fun r => r.buddy)).map (fun v =>
              some (htons le PACKET_BUDDY_STATUSCHANGE,
                some (buddy_status_body (ulong_of v)
                  (decide (i_blocked_user w.db (w.ctx c) (ulong_of v) ≠ 0))
                  ((ht_get_ptr_nc w.uid_to_context (itoa (long_of (ulong_of v)))).join.map w.ctx)
                  (w.ctx c).pkt_in.version)))
      ∧ pkts_queued (w1.ctx c) = pkts_queued (w.ctx c)
          ++ List.range' w.heap.length
              ((w.db.buddylist.filter (fun r => decide (r.uid = long_of (w.ctx c).uid))).map
                (fun r => r.buddy)).length := by
  have hrows : ∀ v ∈ (w.db.buddylist.filter (fun r => decide (r.uid = long_of (w.ctx c).uid))).map
        (fun r => r.buddy),
      i_blocked_user w.db (w.ctx c) (ulong_of v) = 0 →
      ht_get_ptr_nc w.uid_to_context (itoa (long_of (ulong_of v))) ≠ none := by
    intro v hv
    obtain ⟨r, hr, hrv⟩ := List.mem_map.mp hv
    rw [← hrv]
    have hf := List.mem_filter.mp hr
    exact hlook r hf.1 (by simpa using hf.2)
  obtain ⟨w1, hex, hheap, hq, hsame⟩ := buddy_fold le c w _ w hc
    ⟨rfl, rfl, rfl, fun _ => ⟨rfl, rfl, rfl, rfl⟩⟩ hrows
  exact ⟨w1, hex, hsame.1, hsame.2.1, hheap, hq⟩

set_option maxRecDepth 100000 in
/-- Witness for C16 (amended): users 7 (A) and 9 (B) are on each other's buddy list, B is
on A's blocklist and A is logged in with status online (0x1e); `buddy_statuses`
run for B returns and has enqueued one `BUDDY_STATUSCHANGE` for uid 7 with A's
status. -/
theorem buddy_statuses_listing_witness :
    user_blocked_me example_world_buddies.db (example_world_buddies.ctx 1) 7 = 1
    ∧ ∃ w1, buddy_statuses true example_world_buddies 1 = some w1
        ∧ heap_view w1
            = [some (htons true PACKET_BUDDY_STATUSCHANGE, some [0, 0, 0, 7, 0, 0, 0, 0x1e])]
        ∧ pkts_queued (w1.ctx 1) = [0] := by
  obtain ⟨w1, h, _, _, hh, hq⟩ := buddy_statuses_listing true example_world_buddies 1
    (by decide) (by decide)
  refine ⟨by decide, w1, h, ?_, ?_⟩
  · rw [hh]
    decide
  · rw [hq]
    decide

set_option maxRecDepth 100000 in
/-- Counterexample to C16 as stated: users 7 (A) and 9 (B) are on each other's buddy
list, B is on A's blocklist and A is logged in with status online (0x1e).
`buddy_statuses` run for B sends a `BUDDY_STATUSCHANGE` for uid 7 with status 0x1e,
not `STATUS_OFFLINE`; `buddy_statuses` run for A sends one for uid 9 with
`STATUS_BLOCKED`. -/
theorem buddy_statuses_shows_blocker_online_counterexample :
    (buddy_statuses true example_world_buddies 1).map heap_view
      = some [some (htons true PACKET_BUDDY_STATUSCHANGE, some [0, 0, 0, 7, 0, 0, 0, 0x1e])]
    ∧ (buddy_statuses true example_world_buddies 1).map (queue_view 1) = some (some [0])
    ∧ (buddy_statuses true example_world_buddies 0).map heap_view
      = some [some (htons true PACKET_BUDDY_STATUSCHANGE, some [0, 0, 0, 9, 255, 255, 255, 255])]
    ∧ (buddy_statuses true example_world_buddies 0).map (queue_view 0) = some (some [0]) := by
  decide

set_option maxRecDepth 100000 in
/-- Claim C17 fails on the code: users 7 and 9 are logged in with no block between
them and 7 sends `IM_OUT` to 9 with the text "hi".  The registry holds "9", but
the lookup key is the unwritten array `buf`.  When `buf` starts with a NUL byte
the message is stored as an offline message and nothing is enqueued for 9;
when `buf` holds "7" the `IM_IN` is enqueued on the connection of 7 itself.  Only
when `buf` happens to hold "9" is the `IM_IN` (sender uid, then "hi") enqueued on
the connection of 9. -/
theorem im_out_routed_by_unwritten_buffer :
    ht_get_ptr_nc example_registry_two [57] = some (some 1)
    ∧ (general_flow_im_out true [] example_now (example_world_im [] example_im_out) 0).map heap_view
        = some []
    ∧ (general_flow_im_out true [] example_now (example_world_im [] example_im_out) 0).map
          (queue_view 1) = some none
    ∧ (general_flow_im_out true [] example_now (example_world_im [] example_im_out) 0).map
          (fun w => w.db.offline_messages) = some [⟨some 7, 9, example_now, [104, 105]⟩]
    ∧ (general_flow_im_out true [55] example_now (example_world_im [] example_im_out) 0).map heap_view
        = some [some (htons true PACKET_IM_IN, some [0, 0, 0, 7, 104, 105])]
    ∧ (general_flow_im_out true [55] example_now (example_world_im [] example_im_out) 0).map
          (queue_view 0) = some (some [0])
    ∧ (general_flow_im_out true [55] example_now (example_world_im [] example_im_out) 0).map
          (queue_view 1) = some none
    ∧ (general_flow_im_out true [57] example_now (example_world_im [] example_im_out) 0).map heap_view
        = some [some (htons true PACKET_IM_IN, some [0, 0, 0, 7, 104, 105])]
    ∧ (general_flow_im_out true [57] example_now (example_world_im [] example_im_out) 0).map
          (queue_view 1) = some (some [0])
    ∧ (general_flow_im_out true [57] example_now (example_world_im [] example_im_out) 0).map
          (fun w => w.db.offline_messages) = some [] := by
  refine ⟨?_, ?_, ?_, ?_, ?_, ?_, ?_, ?_, ?_, ?_⟩ <;> decide

/-! ## C18, C19 and C20: blocked messages, the offline relay and the room broadcast -/

/-- Claim C18: if the sender has the recipient on its blocklist, or the recipient
has the sender on its blocklist, an `IM_OUT` to that existing recipient changes
nothing: no packet is allocated or enqueued on any connection and no offline
message is stored (whatever the lookup buffer and the clock hold). -/
theorem im_out_blocked_changes_nothing (le : Bool) (buf now : List Nat) (w : world) (c : Nat)
    (hex : user_exists w.db (packet_uid (w.ctx c).pkt_in) ≠ 0)
    (hblk : i_blocked_user w.db (w.ctx c) (packet_uid (w.ctx c).pkt_in) ≠ 0
          ∨ user_blocked_me w.db (w.ctx c) (packet_uid (w.ctx c).pkt_in) ≠ 0) :
    general_flow_im_out le buf now w c = some w := by
  have hr : can_send_to_user le w.db w.heap (w.ctx c) (packet_uid (w.ctx c).pkt_in)
      = ((w.heap, w.ctx c), 0) := by
    unfold can_send_to_user
    rw [if_neg hex, c_not_blocked _ _ (i_blocked_user_cases _ _ _) (user_blocked_me_cases _ _ _) hblk]
  unfold general_flow_im_out
  simp only [hr, if_true, ctxs_set_self]

/-- Witness for C18: user 7 has user 9 on its blocklist and sends `IM_OUT` to 9 while
the lookup buffer holds "9". -/
theorem im_out_blocked_changes_nothing_witness :
    general_flow_im_out true [57] example_now (example_world_im [⟨7, 9⟩] example_im_out) 0
      = some (example_world_im [⟨7, 9⟩] example_im_out) :=
  im_out_blocked_changes_nothing true [57] example_now (example_world_im [⟨7, 9⟩] example_im_out) 0
    (by decide) (by decide)

/-- Claim C20, amended: for every sender, room id and live packet whose type field
(an `unsigned short`) reads neither `PACKET_NUDGE_IN` nor, after `htons`,
`PACKET_NUDGE_IN`, `broadcast_to_room` returns exactly when the registry lookup
returns for the uid of every `room_users` row (rid, u) with u other than the
sender's uid.  When one of these lookups does not return, the call does not
return.  Otherwise it returns and has enqueued the packet once for every such
row whose uid the registry maps to a connection, on that connection: the
connection at address `k` gets the packet appended as often as there are such
rows mapped to `k`, and a connection with no such row is left as it was; the
store and the registry are unchanged. -/
theorem broadcast_to_room_scope (le : Bool) (w : world) (c rid a : Nat) (pkt : pt_packet)
    (hpkt : w.heap.getD a none = some pkt) (ht : pkt.type < 65536)
    (hn1 : pkt.type ≠ PACKET_NUDGE_IN) (hn2 : htons le pkt.type ≠ PACKET_NUDGE_IN) :
    ((∃ r ∈ w.db.room_users, (r.id = long_of rid ∧ r.uid ≠ long_of (w.ctx c).uid)
          ∧ ht_get_ptr_nc w.uid_to_context (itoa r.uid) = none) →
        broadcast_to_room le w c rid a = none)
    ∧ ((∀ r ∈ w.db.room_users, (r.id = long_of rid ∧ r.uid ≠ long_of (w.ctx c).uid) →
          ht_get_ptr_nc w.uid_to_context (itoa r.uid) ≠ none) →
        ∃ w1, broadcast_to_room le w c rid a = some w1
          ∧ w1.db = w.db ∧ w1.uid_to_context = w.uid_to_context ∧ w1.ctxs.length = w.ctxs.length
          ∧ ∀ k, k < w.ctxs.length →
              (w1.ctx k).npkts_out = (w.ctx k).npkts_out
                  + (w.db.room_users.filter (fun r =>
                      decide (r.id = long_of rid ∧ r.uid ≠ long_of (w.ctx c).uid)
                      && decide (ht_get_ptr_nc w.uid_to_context (itoa r.uid) = some (some k)))).length
              ∧ pkts_queued (w1.ctx k) = pkts_queued (w.ctx k)
                  ++ List.replicate (w.db.room_users.filter (fun r =>
                      decide (r.id = long_of rid ∧ r.uid ≠ long_of (w.ctx c).uid)
                      && decide (ht_get_ptr_nc w.uid_to_context (itoa r.uid) = some (some k)))).length a
              ∧ ((w.db.room_users.filter (fun r =>
                      decide (r.id = long_of rid ∧ r.uid ≠ long_of (w.ctx c).uid)
                      && decide (ht_get_ptr_nc w.uid_to_context (itoa r.uid) = some (some k)))).length = 0 →
                  w1.ctx k = w.ctx k)) := by
  refine ⟨?_, ?_⟩
  · rintro ⟨r, hr, hsc, hnone⟩
    unfold broadcast_to_room
    rw [user_in_room_one, if_neg (by decide)]
    apply broadcast_fold_none
    refine ⟨r.uid, List.mem_map.mpr ⟨r, List.mem_filter.mpr ⟨hr, ?_⟩, rfl⟩, hnone⟩
    simpa using hsc
  · intro hlook
    have hus : ∀ u ∈ (w.db.room_users.filter (fun r =>
          decide (r.id = long_of rid ∧ r.uid ≠ long_of (w.ctx c).uid))).map (fun r => r.uid),
        ht_get_ptr_nc w.uid_to_context (itoa u) ≠ none := by
      intro u hu
      obtain ⟨r, hr, hru⟩ := List.mem_map.mp hu
      rw [← hru]
      have hf := List.mem_filter.mp hr
      exact hlook r hf.1 (by simpa using hf.2)
    obtain ⟨w1, hex, hdb, hreg, hlen, hk⟩ := broadcast_fold le a _ w pkt hpkt ⟨ht, hn1, hn2⟩ hus
    refine ⟨w1, ?_, hdb, hreg, hlen, ?_⟩
    · unfold broadcast_to_room
      rw [user_in_room_one, if_neg (by decide)]
      exact hex
    · intro k hkl
      have h := hk k hkl
      rw [filter_map_filter_length] at h
      exact h

set_option maxRecDepth 100000 in
/-- Witness for C20: users 7, 9 and 11 are in room 100, 7 and 9 are logged in, and 7
broadcasts a packet of type 0x017d to the room: every lookup returns, the packet
is enqueued for 9 and the sender's connection is left as it was. -/
theorem broadcast_to_room_scope_witness :
    ∃ w1, broadcast_to_room true (example_world_room PACKET_ROOM_USER_REDDOT_ON) 0 100 0 = some w1
      ∧ pkts_queued (w1.ctx 1) = [0] ∧ w1.ctx 0 = (example_world_room PACKET_ROOM_USER_REDDOT_ON).ctx 0 := by
  obtain ⟨w1, h, _, _, _, hk⟩ := (broadcast_to_room_scope true
    (example_world_room PACKET_ROOM_USER_REDDOT_ON) 0 100 0
    ⟨PACKET_ROOM_USER_REDDOT_ON, PROTOCOL_VERSION, 8, some [0, 0, 0, 100, 0, 0, 0, 7], 0,
     PACKET_F_COPY, 0⟩ (by decide) (by decide) (by decide) (by decide)).2 (by decide)
  refine ⟨w1, h, ?_, ?_⟩
  · have h1 := (hk 1 (by decide)).2.1
    rw [h1]
    decide
  · exact (hk 0 (by decide)).2.2 (by decide)

set_option maxRecDepth 100000 in
/-- Counterexample to C20 as stated: user 9 is in room 100, is not the sender and is
in the registry (connection 1, protocol version 0x0053), but a packet of type
`PACKET_NUDGE_IN` broadcast to the room by user 7 is not enqueued on its
connection. -/
theorem broadcast_to_room_nudge_counterexample :
    (⟨100, 9, 0, 0, 0⟩ : room_user_row) ∈ (example_world_room PACKET_NUDGE_IN).db.room_users
    ∧ ((example_world_room PACKET_NUDGE_IN).ctx 0).uid = 7
    ∧ ht_get_ptr_nc (example_world_room PACKET_NUDGE_IN).uid_to_context (itoa 9) = some (some 1)
    ∧ (broadcast_to_room true (example_world_room PACKET_NUDGE_IN) 0 100 0).map (queue_view 1)
        = some none
    ∧ (broadcast_to_room true (example_world_room PACKET_ROOM_USER_REDDOT_ON) 0 100 0).map
        (queue_view 1) = some (some [0]) := by
  refine ⟨?_, ?_, ?_, ?_, ?_⟩ <;> decide

/-! ## C30: variant 2 without the codebook -/

set_option maxRecDepth 100000 in
theorem ginger_length : ginger.length = 354 := by decide

set_option maxRecDepth 100000 in
theorem ginger_range : ∀ x ∈ ginger, 13 ≤ x ∧ x ≤ 122 := by decide

theorem ginger_at_range (gb k : Nat) (hk : k < 354) : 13 ≤ ginger_at gb k ∧ ginger_at gb k ≤ 122 := by
  have h := getD_range_of_mem ginger k 13 122 (by rw [ginger_length]; exact hk) ginger_range
  unfold ginger_at
  rw [schar_small _ (by omega)]
  omega

theorem schar_range (b : Nat) : -128 ≤ schar b ∧ schar b ≤ 127 := by
  unfold schar; split <;> omega

theorem encode_value_two_range (gb c i b : Nat) (hc : c ≤ 226) (hi : i < 128) :
    0 ≤ encode_value gb 2 c i b ∧ encode_value gb 2 c i b ≤ 999 := by
  have hg := ginger_at_range gb (c + i) (by omega)
  have hb := schar_range b
  have e : encode_value gb 2 c i b = 0x7a + (i : Int) + schar b + ginger_at gb (c + i) := by
    simp [encode_value]
  rw [e]
  omega

theorem fits_three_digits_two (gb c : Nat) (hc : c ≤ 226) (s : List Nat) : ∀ (i : Nat),
    i + s.length ≤ 128 → fits_three_digits gb 2 s i c = true := by
  induction s with
  | nil => intro i _; simp [fits_three_digits]
  | cons b rest ih =>
    intro i hi
    simp only [List.length_cons] at hi
    have hv := encode_value_two_range gb c i b hc (by omega)
    have hn : next_challenge 2 c = c := by simp [next_challenge]
    have hu : to_u16 (encode_value gb 2 c i b) ≤ 999 := by
      generalize encode_value gb 2 c i b = x at hv
      unfold to_u16
      omega
    simp only [fits_three_digits, hn, Bool.and_eq_true, decide_eq_true_eq]
    exact ⟨hu, ih (i + 1) (by omega)⟩

/-- Claim C30: on a context that does not use the codebook, for variant 2, every
challenge c in [1,226] and every non-empty string s of at most 128 non-NUL
bytes, the value 0x7a + i + s[i] + ginger[c + i] handed to `ustoa` at every
position i lies in [0, 999], and decoding the encoded string with variant 2
and challenge c returns s. -/
theorem pt_variant2_round_trip (ctx : codec_ctx) (c : Nat) (s : List Nat)
    (seed0 : Nat) (rands seeds : Nat → Nat)
    (hcb : uses_codebook ctx = false) (hc : 1 ≤ c ∧ c ≤ 226)
    (hs : 1 ≤ s.length ∧ s.length ≤ 128) (hb : ∀ b ∈ s, 1 ≤ b ∧ b ≤ 255) :
    (∀ i, i < s.length →
        0 ≤ encode_value ctx.ginger_beyond 2 c i (s.getD i 0) ∧ encode_value ctx.ginger_beyond 2 c i (s.getD i 0) ≤ 999
        ∧ encode_value ctx.ginger_beyond 2 c i (s.getD i 0)
            = 0x7a + (i : Int) + schar (s.getD i 0) + ginger_at ctx.ginger_beyond (c + i))
    ∧ pt_decode_with_challenge (pt_encode_with_challenge ctx 2 c (some s) seed0 rands seeds).2 2 c
        (pt_encode_with_challenge ctx 2 c (some s) seed0 rands seeds).1 = some s := by
  refine ⟨fun i hi => ?_, ?_⟩
  · have h := encode_value_two_range ctx.ginger_beyond c i (s.getD i 0) hc.2 (by omega)
    exact ⟨h.1, h.2, by simp [encode_value]⟩
  · have hv0 : ¬ ((2 : Nat) = 0 ∨ 2 > 3 ∨ s.length = 0) := by omega
    have htake : s.take ENCODE_MAX_LEN = s :=
      List.take_of_length_le (by unfold ENCODE_MAX_LEN; omega)
    have hmod : c % 65536 = c := by omega
    have hcb' : uses_codebook { ctx with time := (encode_loop ctx.ginger_beyond 2 s 0 c ctx.time).2 } = false := by
      simpa [uses_codebook] using hcb
    simp only [pt_encode_with_challenge, hcb, Bool.false_eq_true, if_false, hv0, htake, hmod]
    simp only [pt_decode_with_challenge, hcb', Bool.false_eq_true, if_false, encode_loop_length,
      and_three_eq_mod]
    have hv1 : ¬ ((2 : Nat) = 0 ∨ 2 > 3 ∨ 4 * s.length = 0 ∨ 4 * s.length % 4 ≠ 0) := by omega
    have hk : (min (4 * s.length) DECODE_MAX_LEN) >>> 2 = s.length := by
      rw [Nat.shiftRight_eq_div_pow]; unfold DECODE_MAX_LEN
      simp only [Nat.shiftLeft_eq]; omega
    rw [if_neg hv1, hk, hmod]
    exact decode_encode_loop _ 2 s 0 c ctx.time (fun b h => by have := hb b h; omega)
      (fits_three_digits_two _ c hc.2 s 0 (by omega))

/-- Witness for C30: challenge 226 and the two bytes 0xff, 0x80. -/
theorem pt_variant2_round_trip_witness :
    (∀ i, i < [255, 128].length →
        0 ≤ encode_value 0 2 226 i ([255, 128].getD i 0) ∧ encode_value 0 2 226 i ([255, 128].getD i 0) ≤ 999
        ∧ encode_value 0 2 226 i ([255, 128].getD i 0)
            = 0x7a + (i : Int) + schar ([255, 128].getD i 0) + ginger_at 0 (226 + i))
    ∧ pt_decode_with_challenge
        (pt_encode_with_challenge ⟨0x53, 0, [], 7, 0⟩ 2 226 (some [255, 128]) 0
          (fun _ => 0) (fun _ => 0)).2 2 226
        (pt_encode_with_challenge ⟨0x53, 0, [], 7, 0⟩ 2 226 (some [255, 128]) 0
          (fun _ => 0) (fun _ => 0)).1 = some [255, 128] :=
  pt_variant2_round_trip ⟨0x53, 0, [], 7, 0⟩ 226 [255, 128] 0 (fun _ => 0) (fun _ => 0)
    (by decide) (by decide) (by decide) (by decide)

/-! ## C27, C28, C29: the table under sequences of calls -/

theorem search_loop_full (t : ht) (key : List Nat) (h : Nat) (hpd : 1 ≤ t.max_pd)
    (hfull : ∀ i, i ≤ t.mask → (t.e.getD i entry_zero).h ≠ 0
      ∧ ¬ ((t.e.getD i entry_zero).h = h ∧ (t.e.getD i entry_zero).k = some key)) :
    ∀ (fuel i q : Nat), i ≤ t.mask → search_loop t key h fuel i q = none := by
  intro fuel
  induction fuel with
  | zero => intro i q _; rfl
  | succ n ih =>
    intro i q hi
    have h1 := hfull i hi
    rw [search_loop]
    simp only [h1.1, hpd, h1.2, ne_eq, not_false_eq_true, and_self, if_true, if_false]
    exact ih _ _ Nat.and_le_right

theorem insert_loop_full (t : ht) (key : List Nat) (h : Nat)
    (hfull : ∀ i, i ≤ t.mask → (t.e.getD i entry_zero).h &&& 0xFFFF7FFF ≠ 0
      ∧ ¬ ((t.e.getD i entry_zero).h = h ∧ (t.e.getD i entry_zero).k = some key)) :
    ∀ (fuel i j q : Nat), i ≤ t.mask → insert_loop t key h fuel i j q = none := by
  intro fuel
  induction fuel with
  | zero => intro i j q _; rfl
  | succ n ih =>
    intro i j q hi
    have h1 := hfull i hi
    rw [insert_loop]
    simp only [h1.1, h1.2, ne_eq, not_false_eq_true, if_true, if_false]
    exact ih _ _ _ Nat.and_le_right

/-- Claim C27 fails on the code: in the table reached from `ht_alloc` by
`ht_set("a", p1)` and `ht_set("b", p2)` (slots 13 and 5 of 32), the key "a" is
present with value p1; `ht_rm("b")` leaves size 1 < 32 / 4, so `resize` runs,
and its loop stops after the first non-empty old slot, the tombstone of "b" in
slot 5, before it reaches "a": afterwards the lookup of "a" returns `NULL` and
the table is empty. -/
theorem ht_rm_loses_other_key :
    hash [97] 0 &&& 31 = 13 ∧ hash [98] 0 &&& 31 = 5
    ∧ (ht_reach [.set [97] 1, .set [98] 2]).map ht_shape = some (32, 31, 2)
    ∧ (ht_reach [.set [97] 1, .set [98] 2]).bind (fun t => ht_get t [97] HT_PTR)
        = some (some (.ptr 1))
    ∧ (ht_reach [.set [97] 1, .set [98] 2, .rm [98]]).bind (fun t => ht_get t [97] HT_PTR)
        = some none
    ∧ (ht_reach [.set [97] 1, .set [98] 2, .rm [98]]).map ht_shape = some (32, 31, 0) := by
  refine ⟨?_, ?_, ?_, ?_, ?_, ?_⟩ <;> decide

set_option maxRecDepth 100000 in
/-- Claim C28 fails on the code: `example_churn_calls` (nine keys stored, then "x"
stored and removed 23 times; every call returns, the size stays between 9 and
10, so the table of capacity 32 neither grows nor shrinks) reach a table in
which all 32 slots have a non-zero hash field, 9 live entries and 23
tombstones.  For the absent key "y" the loop of `search` and the loop of
`insert` then do not stop, whatever the number of turns, so `ht_get` and
`ht_set` for "y" do not return. -/
theorem ht_full_table_probe_never_stops :
    ht_reach example_churn_calls = some example_table_churn
    ∧ ht_shape example_table_churn = (32, 31, 9)
    ∧ (∀ i, i < 32 → (example_table_churn.e.getD i entry_zero).h ≠ 0)
    ∧ (example_table_churn.e.filter (fun e => e.h &&& HT_TOMBSTONE ≠ 0)).length = 23
    ∧ (∀ fuel, search_loop example_table_churn [121] (hash [121] example_table_churn.v) fuel
          (hash [121] example_table_churn.v &&& example_table_churn.mask) 0 = none)
    ∧ (∀ fuel, insert_loop example_table_churn [121] (hash [121] example_table_churn.v) fuel
          (hash [121] example_table_churn.v &&& example_table_churn.mask) 1 0 = none)
    ∧ ht_get example_table_churn [121] HT_PTR = none
    ∧ ht_set example_table_churn [121] HT_PTR (.ptr 5) = none := by
  have hs : ∀ i, i ≤ example_table_churn.mask → (example_table_churn.e.getD i entry_zero).h ≠ 0
      ∧ ¬ ((example_table_churn.e.getD i entry_zero).h = hash [121] example_table_churn.v
            ∧ (example_table_churn.e.getD i entry_zero).k = some [121]) := by
    decide!
  have hi : ∀ i, i ≤ example_table_churn.mask
      → (example_table_churn.e.getD i entry_zero).h &&& 0xFFFF7FFF ≠ 0
      ∧ ¬ ((example_table_churn.e.getD i entry_zero).h = hash [121] example_table_churn.v
            ∧ (example_table_churn.e.getD i entry_zero).k = some [121]) := by
    decide!
  have hpd : 1 ≤ example_table_churn.max_pd := by decide!
  refine ⟨?_, ?_, ?_, ?_, fun fuel => ?_, fun fuel => ?_, ?_, ?_⟩
  · decide!
  · decide!
  · decide!
  · decide!
  · exact search_loop_full example_table_churn [121] (hash [121] example_table_churn.v) hpd hs
      fuel _ 0 Nat.and_le_right
  · exact insert_loop_full example_table_churn [121] (hash [121] example_table_churn.v) hi
      fuel _ 1 0 Nat.and_le_right
  · decide!
  · decide!

/-! ## C29: a table that shrinks to a capacity that is not a power of two -/

theorem ht_value_same_eq (a b : ht_value) (h : a.same b = true) : a = b := by
  cases a <;> cases b <;> simp_all [ht_value.same]

theorem key_same_eq (a b : Option (List Nat)) (h : key_same a b = true) : a = b := by
  cases a <;> cases b <;> simp_all [key_same]

theorem entry_same_eq (a b : entry) (h : a.same b = true) : a = b := by
  cases a; cases b
  simp only [entry.same, Bool.and_eq_true, beq_iff_eq] at h
  obtain ⟨⟨⟨h1, h2⟩, h3⟩, h4⟩ := h
  rw [ht_value_same_eq _ _ h1, key_same_eq _ _ h4, h2, h3]

theorem entries_same_eq : ∀ (a b : List entry), entries_same a b = true → a = b
  | [], [], _ => rfl
  | [], _ :: _, h => by simp [entries_same] at h
  | _ :: _, [], h => by simp [entries_same] at h
  | a :: as, b :: bs, h => by
    simp only [entries_same, Bool.and_eq_true] at h
    rw [entry_same_eq a b h.1, entries_same_eq as bs h.2]

theorem ht_same_eq (a b : ht) (h : a.same b = true) : a = b := by
  cases a; cases b
  simp only [ht.same, Bool.and_eq_true, beq_iff_eq] at h
  obtain ⟨⟨⟨⟨⟨⟨⟨h1, h2⟩, h3⟩, h4⟩, h5⟩, h6⟩, h7⟩, h8⟩ := h
  rw [entries_same_eq _ _ h1, h2, h3, h4, h5, h6, h7, h8]

theorem ht_result_is_eq (r : Option ht) (t : ht) (h : ht_result_is r t = true) : r = some t := by
  cases r with
  | none => simp [ht_result_is] at h
  | some t1 => rw [ht_same_eq t1 t h]

theorem resize_steps_is_eq (r : Option (Nat × ht)) (j : Nat) (t : ht)
    (h : resize_steps_is r j t = true) : r = some (j, t) := by
  cases r with
  | none => simp [resize_steps_is] at h
  | some p =>
    obtain ⟨j1, t1⟩ := p
    simp only [resize_steps_is, Bool.and_eq_true, beq_iff_eq] at h
    rw [h.1, ht_same_eq t1 t h.2]

theorem resize_loop_done (sz : Nat) (l : List entry) (j : Nat) (t : ht) (h : ¬ j < sz) :
    resize_loop sz l j t = some t := by
  cases l with
  | nil => rfl
  | cons ent rest => rw [resize_loop, if_neg h]

theorem resize_loop_append (sz : Nat) (a b : List entry) :
    ∀ (j : Nat) (t : ht), resize_loop sz (a ++ b) j t
      = (resize_steps sz a j t).bind (fun p => resize_loop sz b p.1 p.2) := by
  induction a with
  | nil => intro j t; rfl
  | cons ent rest ih =>
    intro j t
    rw [List.cons_append, resize_loop, resize_steps]
    by_cases hj : j < sz
    · rw [if_pos hj, if_pos hj]
      by_cases hk : ent.k = none ∨ ent.h &&& HT_TOMBSTONE ≠ 0
      · simp only [if_pos hk]; exact ih _ _
      · simp only [if_neg hk]
        cases insert t (ent.k.getD []) ent.v ent.t with
        | none => rfl
        | some t1 => exact ih _ _
    · rw [if_neg hj, if_neg hj]
      exact (resize_loop_done sz b j t hj).symm

/-- A long re-hashing in parts: after the first `n` old entries the loop goes on
with the rest. -/
theorem resize_loop_drop (sz : Nat) (l : List entry) (n j : Nat) (t : ht) (j1 : Nat) (t1 : ht)
    (h : resize_steps sz (l.take n) j t = some (j1, t1)) :
    resize_loop sz l j t = resize_loop sz (l.drop n) j1 t1 := by
  conv_lhs => rw [← List.take_append_drop n l]
  rw [resize_loop_append, h]
  rfl

theorem ht_calls_append (a b : List ht_call) :
    ∀ t : ht, ht_calls (a ++ b) t = (ht_calls a t).bind (ht_calls b) := by
  induction a with
  | nil => intro t; rfl
  | cons o rest ih =>
    intro t
    rw [List.cons_append, ht_calls, ht_calls]
    cases o.run t with
    | none => rfl
    | some t1 => exact ih t1

/-- A sequence of calls in parts. -/
theorem ht_calls_drop (calls : List ht_call) (n : Nat) (t t1 : ht)
    (h : ht_calls (calls.take n) t = some t1) :
    ht_calls calls t = ht_calls (calls.drop n) t1 := by
  conv_lhs => rw [← List.take_append_drop n calls]
  rw [ht_calls_append, h]
  rfl

theorem ht_reach_drop (calls : List ht_call) (n : Nat) (t1 : ht)
    (h : ht_reach (calls.take n) = some t1) :
    ht_reach calls = ht_calls (calls.drop n) t1 := by
  unfold ht_reach at h ⊢
  cases h0 : ht_alloc HT_VALUE_DEFAULT HT_STATIC_KEYS with
  | none => rw [h0] at h; exact absurd h (by simp)
  | some t0 =>
    rw [h0] at h
    exact ht_calls_drop calls n t0 t1 h

theorem ht_calls_cons (o : ht_call) (rest : List ht_call) (t t1 : ht) (h : o.run t = some t1) :
    ht_calls (o :: rest) t = ht_calls rest t1 := by
  rw [ht_calls, h]; rfl

/-- A call of `ht_set` that grows the table, from the parts of `resize`. -/
theorem ht_set_grow (t : ht) (key : List Nat) (v : ht_value) (t1 t2 : ht) (r : Option ht)
    (hk : key ≠ [])
    (hsz : t.size > (t.capacity >>> 1) + (t.capacity >>> 2))
    (h1 : ({ t with e := List.replicate (max ((t.capacity <<< 1) % 4294967296) HT_DEFAULT_SIZE) entry_zero,
                    size := 0, max_pd := 0,
                    capacity := max ((t.capacity <<< 1) % 4294967296) HT_DEFAULT_SIZE,
                    mask := max ((t.capacity <<< 1) % 4294967296) HT_DEFAULT_SIZE - 1,
                    gap := if max ((t.capacity <<< 1) % 4294967296) HT_DEFAULT_SIZE > 8000
                           then HT_GAP_L else HT_GAP_S,
                    flags := t.flags ||| HT_RESIZE } : ht) = t1)
    (h2 : resize_loop t.size (t.e.take t.capacity) 0 t1 = some t2)
    (h3 : insert { t2 with flags := t2.flags &&& (4294967295 - HT_RESIZE) } key v HT_PTR = r) :
    ht_set t key HT_PTR v = r := by
  have hres : resize t (t.capacity <<< 1)
      = some { t2 with flags := t2.flags &&& (4294967295 - HT_RESIZE) } := by
    unfold resize
    simp only [h1, h2]
  have hty : ¬ (key = [] ∨ HT_PTR > HT_MAX) := by
    rintro (h | h)
    · exact hk h
    · exact absurd h (by decide)
  unfold ht_set
  rw [if_neg hty]
  simp only [if_pos hsz, hres, h3]

theorem ht_calls_part (calls : List ht_call) (a n b : Nat) (t t1 : ht) (hb : a + n = b)
    (h : ht_calls ((calls.drop a).take n) t = some t1) :
    ht_calls (calls.drop a) t = ht_calls (calls.drop b) t1 := by
  rw [ht_calls_drop (calls.drop a) n t t1 h, List.drop_drop, ← hb, Nat.add_comm]

theorem resize_loop_part (sz : Nat) (l : List entry) (a n b j : Nat) (t : ht) (j1 : Nat) (t1 : ht)
    (hb : a + n = b) (h : resize_steps sz ((l.drop a).take n) j t = some (j1, t1)) :
    resize_loop sz (l.drop a) j t = resize_loop sz (l.drop b) j1 t1 := by
  rw [resize_loop_drop sz (l.drop a) n j t j1 t1 h, List.drop_drop, ← hb, Nat.add_comm]

set_option maxRecDepth 100000 in
set_option maxHeartbeats 4000000 in
theorem shrink_calls_49 :
    ht_reach (example_shrink_calls.take 49)
      = some (example_shrink_state_64 1049 7 1) := by
  apply ht_result_is_eq
  decide!

set_option maxRecDepth 100000 in
set_option maxHeartbeats 4000000 in
theorem shrink_calls_97 :
    ht_calls ((example_shrink_calls.drop 49).take 48) (example_shrink_state_64 1049 7 1)
      = some (example_shrink_state_128 1097 18 1) := by
  apply ht_result_is_eq
  decide!

set_option maxRecDepth 100000 in
set_option maxHeartbeats 4000000 in
theorem shrink_grow_256_64 :
    resize_steps (example_shrink_state_128 1097 18 1).size
        ((((example_shrink_state_128 1097 18 1).e.take
            (example_shrink_state_128 1097 18 1).capacity)).take 64)
        0 (example_shrink_state_256 0 0 17)
      = some (48, example_shrink_state_256 64 2 17) := by
  apply resize_steps_is_eq
  decide!

set_option maxRecDepth 100000 in
set_option maxHeartbeats 4000000 in
theorem shrink_grow_256_128 :
    resize_steps (example_shrink_state_128 1097 18 1).size
        ((((example_shrink_state_128 1097 18 1).e.take
            (example_shrink_state_128 1097 18 1).capacity).drop 64).take 64)
        48 (example_shrink_state_256 64 2 17)
      = some (97, example_shrink_state_256 128 4 17) := by
  apply resize_steps_is_eq
  decide!

set_option maxRecDepth 100000 in
set_option maxHeartbeats 4000000 in
theorem shrink_grow_256_end :
    resize_loop (example_shrink_state_128 1097 18 1).size
        (((example_shrink_state_128 1097 18 1).e.take
            (example_shrink_state_128 1097 18 1).capacity).drop 128)
        97 (example_shrink_state_256 128 4 17)
      = some (example_shrink_state_256 128 4 17) := by
  apply ht_result_is_eq
  decide!

theorem shrink_grow_256 :
    resize_loop (example_shrink_state_128 1097 18 1).size
        ((example_shrink_state_128 1097 18 1).e.take
          (example_shrink_state_128 1097 18 1).capacity)
        0 (example_shrink_state_256 0 0 17)
      = some (example_shrink_state_256 128 4 17) :=
    (resize_loop_drop _ _ 64 _ _ _ _ shrink_grow_256_64).trans <|
    (resize_loop_part _ _ 64 64 128 _ _ _ _ rfl shrink_grow_256_128).trans <|
    shrink_grow_256_end

set_option maxRecDepth 100000 in
set_option maxHeartbeats 4000000 in
theorem shrink_grow_256_insert :
    insert { example_shrink_state_256 128 4 17 with
             flags := (example_shrink_state_256 128 4 17).flags
                        &&& (4294967295 - HT_RESIZE) }
        (utoa 97) (.ptr 97) HT_PTR
      = some (example_shrink_state_256 1098 4 1) := by
  apply ht_result_is_eq
  decide!

set_option maxRecDepth 100000 in
set_option maxHeartbeats 4000000 in
theorem shrink_calls_98 :
    ht_calls ((example_shrink_calls.drop 97).take 1) (example_shrink_state_128 1097 18 1)
      = some (example_shrink_state_256 1098 4 1) := by
  have hl : (example_shrink_calls.drop 97).take 1 = [ht_call.set (utoa 97) 97] := by
    decide!
  have hs : ht_set (example_shrink_state_128 1097 18 1) (utoa 97) HT_PTR (.ptr 97)
      = some (example_shrink_state_256 1098 4 1) :=
    ht_set_grow _ _ _ (example_shrink_state_256 0 0 17) _ _ (by decide) (by decide!)
      (ht_same_eq _ _ (by decide!)) shrink_grow_256 shrink_grow_256_insert
  rw [hl, ht_calls, ht_call.run, hs]
  rfl

set_option maxRecDepth 100000 in
set_option maxHeartbeats 4000000 in
theorem shrink_calls_130 :
    ht_calls ((example_shrink_calls.drop 98).take 32) (example_shrink_state_256 1098 4 1)
      = some (example_shrink_state_256 1130 6 1) := by
  apply ht_result_is_eq
  decide!

set_option maxRecDepth 100000 in
set_option maxHeartbeats 4000000 in
theorem shrink_calls_162 :
    ht_calls ((example_shrink_calls.drop 130).take 32) (example_shrink_state_256 1130 6 1)
      = some (example_shrink_state_256 1162 7 1) := by
  apply ht_result_is_eq
  decide!

set_option maxRecDepth 100000 in
set_option maxHeartbeats 4000000 in
theorem shrink_calls_193 :
    ht_calls ((example_shrink_calls.drop 162).take 31) (example_shrink_state_256 1162 7 1)
      = some (example_shrink_state_256 1193 10 1) := by
  apply ht_result_is_eq
  decide!

set_option maxRecDepth 100000 in
set_option maxHeartbeats 4000000 in
theorem shrink_grow_512_64 :
    resize_steps (example_shrink_state_256 1193 10 1).size
        ((((example_shrink_state_256 1193 10 1).e.take
            (example_shrink_state_256 1193 10 1).capacity)).take 64)
        0 (example_shrink_state_512 0 0 17)
      = some (42, example_shrink_state_512 64 2 17) := by
  apply resize_steps_is_eq
  decide!

set_option maxRecDepth 100000 in
set_option maxHeartbeats 4000000 in
theorem shrink_grow_512_112 :
    resize_steps (example_shrink_state_256 1193 10 1).size
        ((((example_shrink_state_256 1193 10 1).e.take
            (example_shrink_state_256 1193 10 1).capacity).drop 64).take 48)
        42 (example_shrink_state_512 64 2 17)
      = some (80, example_shrink_state_512 112 3 17) := by
  apply resize_steps_is_eq
  decide!

set_option maxRecDepth 100000 in
set_option maxHeartbeats 4000000 in
theorem shrink_grow_512_144 :
    resize_steps (example_shrink_state_256 1193 10 1).size
        ((((example_shrink_state_256 1193 10 1).e.take
            (example_shrink_state_256 1193 10 1).capacity).drop 112).take 32)
        80 (example_shrink_state_512 112 3 17)
      = some (101, example_shrink_state_512 144 3 17) := by
  apply resize_steps_is_eq
  decide!

set_option maxRecDepth 100000 in
set_option maxHeartbeats 4000000 in
theorem shrink_grow_512_176 :
    resize_steps (example_shrink_state_256 1193 10 1).size
        ((((example_shrink_state_256 1193 10 1).e.take
            (example_shrink_state_256 1193 10 1).capacity).drop 144).take 32)
        101 (example_shrink_state_512 144 3 17)
      = some (127, example_shrink_state_512 176 3 17) := by
  apply resize_steps_is_eq
  decide!

set_option maxRecDepth 100000 in
set_option maxHeartbeats 4000000 in
theorem shrink_grow_512_208 :
    resize_steps (example_shrink_state_256 1193 10 1).size
        ((((example_shrink_state_256 1193 10 1).e.take
            (example_shrink_state_256 1193 10 1).capacity).drop 176).take 32)
        127 (example_shrink_state_512 176 3 17)
      = some (154, example_shrink_state_512 208 3 17) := by
  apply resize_steps_is_eq
  decide!

set_option maxRecDepth 100000 in
set_option maxHeartbeats 4000000 in
theorem shrink_grow_512_232 :
    resize_steps (example_shrink_state_256 1193 10 1).size
        ((((example_shrink_state_256 1193 10 1).e.take
            (example_shrink_state_256 1193 10 1).capacity).drop 208).take 24)
        154 (example_shrink_state_512 208 3 17)
      = some (173, example_shrink_state_512 232 3 17) := by
  apply resize_steps_is_eq
  decide!

set_option maxRecDepth 100000 in
set_option maxHeartbeats 4000000 in
theorem shrink_grow_512_256 :
    resize_steps (example_shrink_state_256 1193 10 1).size
        ((((example_shrink_state_256 1193 10 1).e.take
            (example_shrink_state_256 1193 10 1).capacity).drop 232).take 24)
        173 (example_shrink_state_512 232 3 17)
      = some (193, example_shrink_state_512 256 3 17) := by
  apply resize_steps_is_eq
  decide!

set_option maxRecDepth 100000 in
set_option maxHeartbeats 4000000 in
theorem shrink_grow_512_end :
    resize_loop (example_shrink_state_256 1193 10 1).size
        (((example_shrink_state_256 1193 10 1).e.take
            (example_shrink_state_256 1193 10 1).capacity).drop 256)
        193 (example_shrink_state_512 256 3 17)
      = some (example_shrink_state_512 256 3 17) := by
  apply ht_result_is_eq
  decide!

theorem shrink_grow_512 :
    resize_loop (example_shrink_state_256 1193 10 1).size
        ((example_shrink_state_256 1193 10 1).e.take
          (example_shrink_state_256 1193 10 1).capacity)
        0 (example_shrink_state_512 0 0 17)
      = some (example_shrink_state_512 256 3 17) :=
    (resize_loop_drop _ _ 64 _ _ _ _ shrink_grow_512_64).trans <|
    (resize_loop_part _ _ 64 48 112 _ _ _ _ rfl shrink_grow_512_112).trans <|
    (resize_loop_part _ _ 112 32 144 _ _ _ _ rfl shrink_grow_512_144).trans <|
    (resize_loop_part _ _ 144 32 176 _ _ _ _ rfl shrink_grow_512_176).trans <|
    (resize_loop_part _ _ 176 32 208 _ _ _ _ rfl shrink_grow_512_208).trans <|
    (resize_loop_part _ _ 208 24 232 _ _ _ _ rfl shrink_grow_512_232).trans <|
    (resize_loop_part _ _ 232 24 256 _ _ _ _ rfl shrink_grow_512_256).trans <|
    shrink_grow_512_end

set_option maxRecDepth 100000 in
set_option maxHeartbeats 4000000 in
theorem shrink_grow_512_insert :
    insert { example_shrink_state_512 256 3 17 with
             flags := (example_shrink_state_512 256 3 17).flags
                        &&& (4294967295 - HT_RESIZE) }
        (utoa 193) (.ptr 193) HT_PTR
      = some (example_shrink_state_512 1194 3 1) := by
  apply ht_result_is_eq
  decide!

set_option maxRecDepth 100000 in
set_option maxHeartbeats 4000000 in
theorem shrink_calls_194 :
    ht_calls ((example_shrink_calls.drop 193).take 1) (example_shrink_state_256 1193 10 1)
      = some (example_shrink_state_512 1194 3 1) := by
  have hl : (example_shrink_calls.drop 193).take 1 = [ht_call.set (utoa 193) 193] := by
    decide!
  have hs : ht_set (example_shrink_state_256 1193 10 1) (utoa 193) HT_PTR (.ptr 193)
      = some (example_shrink_state_512 1194 3 1) :=
    ht_set_grow _ _ _ (example_shrink_state_512 0 0 17) _ _ (by decide) (by decide!)
      (ht_same_eq _ _ (by decide!)) shrink_grow_512 shrink_grow_512_insert
  rw [hl, ht_calls, ht_call.run, hs]
  rfl

set_option maxRecDepth 100000 in
set_option maxHeartbeats 4000000 in
theorem shrink_calls_227 :
    ht_calls ((example_shrink_calls.drop 194).take 33) (example_shrink_state_512 1194 3 1)
      = some (example_shrink_state_512 1227 3 1) := by
  apply ht_result_is_eq
  decide!

set_option maxRecDepth 100000 in
set_option maxHeartbeats 4000000 in
theorem shrink_calls_260 :
    ht_calls ((example_shrink_calls.drop 227).take 33) (example_shrink_state_512 1227 3 1)
      = some (example_shrink_state_512 1260 3 1) := by
  apply ht_result_is_eq
  decide!

set_option maxRecDepth 100000 in
set_option maxHeartbeats 4000000 in
theorem shrink_calls_280 :
    ht_calls ((example_shrink_calls.drop 260).take 20) (example_shrink_state_512 1260 3 1)
      = some (example_shrink_state_512 1280 3 1) := by
  apply ht_result_is_eq
  decide!

set_option maxRecDepth 100000 in
set_option maxHeartbeats 4000000 in
theorem shrink_calls_300 :
    ht_calls ((example_shrink_calls.drop 280).take 20) (example_shrink_state_512 1280 3 1)
      = some (example_shrink_state_512 1300 3 1) := by
  apply ht_result_is_eq
  decide!

set_option maxRecDepth 100000 in
set_option maxHeartbeats 4000000 in
theorem shrink_calls_320 :
    ht_calls ((example_shrink_calls.drop 300).take 20) (example_shrink_state_512 1300 3 1)
      = some (example_shrink_state_512 1320 3 1) := by
  apply ht_result_is_eq
  decide!

set_option maxRecDepth 100000 in
set_option maxHeartbeats 4000000 in
theorem shrink_calls_end :
    ht_calls (example_shrink_calls.drop 320) (example_shrink_state_512 1320 3 1)
      = some (example_shrink_state_512 1320 3 1) := by
  apply ht_result_is_eq
  decide!

/-- The 320 calls of `example_shrink_calls` all return; the table they leave. -/
theorem shrink_calls_reach :
    ht_reach example_shrink_calls = some (example_shrink_state_512 1320 3 1) :=
    (ht_reach_drop example_shrink_calls 49 _ shrink_calls_49).trans <|
    (ht_calls_part _ 49 48 97 _ _ rfl shrink_calls_97).trans <|
    (ht_calls_part _ 97 1 98 _ _ rfl shrink_calls_98).trans <|
    (ht_calls_part _ 98 32 130 _ _ rfl shrink_calls_130).trans <|
    (ht_calls_part _ 130 32 162 _ _ rfl shrink_calls_162).trans <|
    (ht_calls_part _ 162 31 193 _ _ rfl shrink_calls_193).trans <|
    (ht_calls_part _ 193 1 194 _ _ rfl shrink_calls_194).trans <|
    (ht_calls_part _ 194 33 227 _ _ rfl shrink_calls_227).trans <|
    (ht_calls_part _ 227 33 260 _ _ rfl shrink_calls_260).trans <|
    (ht_calls_part _ 260 20 280 _ _ rfl shrink_calls_280).trans <|
    (ht_calls_part _ 280 20 300 _ _ rfl shrink_calls_300).trans <|
    (ht_calls_part _ 300 20 320 _ _ rfl shrink_calls_320).trans <|
    shrink_calls_end

set_option maxRecDepth 100000 in
set_option maxHeartbeats 4000000 in
/-- Claim C29 fails on the code: the 320 calls of `example_shrink_calls` all return
and leave a table of capacity 512, mask 511 and size 128 (first component);
the next call, `ht_rm("23")`, brings the size to 127 < 512 / 4 and runs
`resize(ht, 127 >> 1)`, which sets capacity 63 and mask 62.  The call returns
with capacity 63, which is not a power of two, and with 30 of the 127 entries
left (second component). -/
theorem ht_rm_shrinks_to_capacity_63 :
    (ht_reach example_shrink_calls).map
        (fun t => (ht_shape t, (ht_rm t (utoa 23)).map ht_shape))
      = some ((512, 511, 128), some (63, 62, 30))
    ∧ ¬ (∃ k : Nat, 63 = 2 ^ k) := by
  refine ⟨?_, ?_⟩
  · rw [shrink_calls_reach]
    decide!
  rintro ⟨k, hk⟩
  have h6 : k < 6 := by
    by_contra hge
    have : 2 ^ 6 ≤ 2 ^ k := Nat.pow_le_pow_right (by omega) (by omega)
    omega
  interval_cases k <;> omega

/-! ## C25: fields written by `append_field` and read by `each_field_kv` -/

theorem getD_append_length (a : List Nat) (d : Nat) (r : List Nat) (x : Nat) :
    (a ++ d :: r).getD a.length x = d := by
  induction a with
  | nil => rfl
  | cons b a ih => simpa using ih

theorem set_append_length (a : List Nat) (d : Nat) (r : List Nat) (x : Nat) :
    (a ++ d :: r).set a.length x = a ++ x :: r := by
  induction a with
  | nil => rfl
  | cons b a ih => simp [ih]

theorem takeWhile_append_stop (p : Nat → Bool) (k : List Nat) (d : Nat) (r : List Nat)
    (hk : ∀ b ∈ k, p b = true) (hd : p d = false) : (k ++ d :: r).takeWhile p = k := by
  induction k with
  | nil => simp [List.takeWhile, hd]
  | cons b k ih =>
    have hb : p b = true := hk b (List.mem_cons_self _ _)
    rw [List.cons_append, List.takeWhile_cons, hb, if_pos rfl,
      ih (fun c hc => hk c (List.mem_cons_of_mem _ hc))]

theorem cstr_append_nul (k r : List Nat) (hk : ∀ b ∈ k, b ≠ 0) : cstr (k ++ 0 :: r) = k := by
  unfold cstr
  exact takeWhile_append_stop _ k 0 r (fun b hb => by simpa using hk b hb) (by simp)

theorem cstr_no_nul (k : List Nat) (hk : ∀ b ∈ k, b ≠ 0) : cstr k = k := by
  unfold cstr
  rw [List.takeWhile_eq_self_iff]
  intro b hb
  simpa using hk b hb

/-- A token at address `pre.length` that is followed by a delimiter byte. -/
theorem strtok_token (pre tok rest delim : List Nat) (d saved : Nat) (str : Option Nat)
    (hstr : str.getD saved = pre.length) (hne : tok ≠ [])
    (htok : ∀ b ∈ tok, b ≠ 0 ∧ b ∉ delim) (hd0 : d ≠ 0) (hd : d ∈ delim) :
    strtok ⟨pre ++ (tok ++ d :: rest), saved⟩ str delim
      = (⟨pre ++ (tok ++ 0 :: rest), pre.length + tok.length + 1⟩, some pre.length) := by
  obtain ⟨t0, tl, rfl⟩ := List.exists_cons_of_ne_nil hne
  have ht0 := htok t0 (List.mem_cons_self _ _)
  have hspn : c_strspn ((t0 :: tl) ++ d :: rest) delim = 0 := by
    simp [c_strspn, List.takeWhile, ht0.2]
  have hcspn : c_strcspn ((t0 :: tl) ++ d :: rest) delim = (t0 :: tl).length := by
    unfold c_strcspn
    rw [takeWhile_append_stop _ (t0 :: tl) d rest (fun b hb => by simpa using htok b hb)
      (by simp [hd])]
  have e1 : pre ++ ((t0 :: tl) ++ d :: rest) = (pre ++ (t0 :: tl)) ++ d :: rest := by simp
  have hg0 : (pre ++ ((t0 :: tl) ++ d :: rest)).getD pre.length 0 = t0 := by
    simpa using getD_append_length pre t0 (tl ++ d :: rest) 0
  have hge : (pre ++ ((t0 :: tl) ++ d :: rest)).getD (pre.length + (t0 :: tl).length) 0 = d := by
    rw [e1, ← List.length_append]; exact getD_append_length _ d rest 0
  have hse : (pre ++ ((t0 :: tl) ++ d :: rest)).set (pre.length + (t0 :: tl).length) 0
      = pre ++ ((t0 :: tl) ++ 0 :: rest) := by
    rw [e1, ← List.length_append, set_append_length]; simp
  unfold strtok
  simp only [hstr, List.drop_left, hspn, Nat.add_zero, hg0, ht0.1, if_false, hcspn, hge, hd0, hse]

/-- A token at address `pre.length` that is followed by the terminating NUL. -/
theorem strtok_last (pre tok rest delim : List Nat) (saved : Nat) (str : Option Nat)
    (hstr : str.getD saved = pre.length) (hne : tok ≠ [])
    (htok : ∀ b ∈ tok, b ≠ 0 ∧ b ∉ delim) :
    strtok ⟨pre ++ (tok ++ 0 :: rest), saved⟩ str delim
      = (⟨pre ++ (tok ++ 0 :: rest), pre.length + tok.length⟩, some pre.length) := by
  obtain ⟨t0, tl, rfl⟩ := List.exists_cons_of_ne_nil hne
  have ht0 := htok t0 (List.mem_cons_self _ _)
  have hspn : c_strspn ((t0 :: tl) ++ 0 :: rest) delim = 0 := by
    simp [c_strspn, List.takeWhile, ht0.2]
  have hcspn : c_strcspn ((t0 :: tl) ++ 0 :: rest) delim = (t0 :: tl).length := by
    unfold c_strcspn
    rw [takeWhile_append_stop _ (t0 :: tl) 0 rest (fun b hb => by simpa using htok b hb)
      (by simp)]
  have e1 : pre ++ ((t0 :: tl) ++ 0 :: rest) = (pre ++ (t0 :: tl)) ++ 0 :: rest := by simp
  have hg0 : (pre ++ ((t0 :: tl) ++ 0 :: rest)).getD pre.length 0 = t0 := by
    simpa using getD_append_length pre t0 (tl ++ 0 :: rest) 0
  have hge : (pre ++ ((t0 :: tl) ++ 0 :: rest)).getD (pre.length + (t0 :: tl).length) 0 = 0 := by
    rw [e1, ← List.length_append]; exact getD_append_length _ 0 rest 0
  unfold strtok
  simp only [hstr, List.drop_left, hspn, Nat.add_zero, hg0, ht0.1, if_false, hcspn, hge, if_true]

theorem field_text_ok_iff (x : List Nat) :
    field_text_ok x = true ↔ x ≠ [] ∧ ∀ b ∈ x, b ≠ 0 ∧ b ≠ 61 ∧ b ≠ 10 := by
  simp [field_text_ok]

theorem fields_text_cons (p : List Nat × List Nat) (rest : List (List Nat × List Nat)) :
    fields_text (p :: rest) = p.1 ++ 61 :: (p.2 ++ 10 :: fields_text rest) := by
  simp [fields_text, value_sep, field_sep]

theorem append_fields_some (pairs : List (List Nat × List Nat)) :
    ∀ (acc : List Nat), (∀ b ∈ acc, b ≠ 0) →
    (∀ p ∈ pairs, field_text_ok p.1 = true ∧ field_text_ok p.2 = true) →
    pairs.foldl (fun s p => append_field s (some p.1) (some p.2)) (some acc)
      = some (acc ++ fields_text pairs) := by
  induction pairs with
  | nil => intro acc _ _; simp [fields_text]
  | cons p rest ih =>
    intro acc hacc h
    have hp := h p (List.mem_cons_self _ _)
    have h1 := (field_text_ok_iff p.1).1 hp.1
    have h2 := (field_text_ok_iff p.2).1 hp.2
    have c1 : cstr p.1 = p.1 := cstr_no_nul _ (fun b hb => (h1.2 b hb).1)
    have c2 : cstr p.2 = p.2 := cstr_no_nul _ (fun b hb => (h2.2 b hb).1)
    have c0 : cstr acc = acc := cstr_no_nul _ hacc
    have hstep : append_field (some acc) (some p.1) (some p.2)
        = some (acc ++ p.1 ++ [61] ++ p.2 ++ [10]) := by
      simp [append_field, c0, c1, c2, h1.1, h2.1, value_sep, field_sep]
    rw [List.foldl_cons, hstep, ih _ (by
      intro b hb
      simp only [List.mem_append, List.mem_singleton] at hb
      rcases hb with (((hb | hb) | hb) | hb) | hb
      · exact hacc b hb
      · exact (h1.2 b hb).1
      · omega
      · exact (h2.2 b hb).1
      · omega) (fun q hq => h q (List.mem_cons_of_mem _ hq)), fields_text_cons]
    simp

theorem append_fields_eq (p : List Nat × List Nat) (rest : List (List Nat × List Nat))
    (h : ∀ q ∈ p :: rest, field_text_ok q.1 = true ∧ field_text_ok q.2 = true) :
    append_fields (p :: rest) = some (fields_text (p :: rest)) := by
  have hp := h p (List.mem_cons_self _ _)
  have h1 := (field_text_ok_iff p.1).1 hp.1
  have h2 := (field_text_ok_iff p.2).1 hp.2
  have c1 : cstr p.1 = p.1 := cstr_no_nul _ (fun b hb => (h1.2 b hb).1)
  have c2 : cstr p.2 = p.2 := cstr_no_nul _ (fun b hb => (h2.2 b hb).1)
  have hstep : append_field none (some p.1) (some p.2) = some (p.1 ++ [61] ++ p.2 ++ [10]) := by
    have c0 : cstr ([] : List Nat) = [] := rfl
    simp [append_field, c0, c1, c2, h1.1, h2.1, value_sep, field_sep]
  unfold append_fields
  rw [List.foldl_cons, hstep, append_fields_some rest _ (by
      intro b hb
      simp only [List.mem_append, List.mem_singleton] at hb
      rcases hb with ((hb | hb) | hb) | hb
      · exact (h1.2 b hb).1
      · omega
      · exact (h2.2 b hb).1
      · omega) (fun q hq => h q (List.mem_cons_of_mem _ hq)), fields_text_cons]
  simp

theorem each_field_kv_loop_fields (rest : List (List Nat × List Nat)) :
    ∀ (k v pre : List Nat) (saved fuel : Nat),
    field_text_ok k = true → field_text_ok v = true →
    (∀ p ∈ rest, field_text_ok p.1 = true ∧ field_text_ok p.2 = true) →
    rest.length < fuel →
    each_field_kv_loop fuel ⟨pre ++ (k ++ 61 :: (v ++ 0 :: (fields_text rest ++ [0]))), saved⟩
        pre.length pre.length
      = some ((some k, some v) :: rest.map (fun p => (some p.1, some p.2))) := by
  induction rest with
  | nil =>
    intro k v pre saved fuel hk hv _ hfuel
    obtain ⟨n, rfl⟩ : ∃ n, fuel = n + 1 := ⟨fuel - 1, by omega⟩
    have h1 := (field_text_ok_iff k).1 hk
    have h2 := (field_text_ok_iff v).1 hv
    have hstr : (⟨pre ++ (k ++ 61 :: (v ++ 0 :: (fields_text [] ++ [0]))), saved⟩ :
        strtok_state).str pre.length = k ++ 61 :: v := by
      unfold strtok_state.str
      rw [List.drop_left]
      have e : k ++ 61 :: (v ++ 0 :: (fields_text [] ++ [0]))
          = (k ++ 61 :: v) ++ 0 :: (fields_text [] ++ [0]) := by simp
      rw [e]
      exact cstr_append_nul _ _ (by
        intro b hb
        simp only [List.mem_append, List.mem_cons] at hb
        rcases hb with hb | hb | hb
        · exact (h1.2 b hb).1
        · omega
        · exact (h2.2 b hb).1)
    have r1 := strtok_token pre k (v ++ 0 :: (fields_text [] ++ [0])) value_sep 61 saved
      (some pre.length) rfl h1.1 (fun b hb => ⟨(h1.2 b hb).1, by simpa [value_sep] using (h1.2 b hb).2.1⟩)
      (by omega) (by simp [value_sep])
    have e2 : pre ++ (k ++ 0 :: (v ++ 0 :: (fields_text [] ++ [0])))
        = (pre ++ (k ++ [0])) ++ (v ++ 0 :: (fields_text [] ++ [0])) := by simp
    have r2 := strtok_last (pre ++ (k ++ [0])) v (fields_text [] ++ [0]) value_sep
      (pre.length + k.length + 1) none (by simp; omega) h2.1
      (fun b hb => ⟨(h2.2 b hb).1, by simpa [value_sep] using (h2.2 b hb).2.1⟩)
    rw [← e2] at r2
    have hk' : (⟨pre ++ (k ++ 0 :: (v ++ 0 :: (fields_text [] ++ [0]))),
        (pre ++ (k ++ [0])).length + v.length⟩ : strtok_state).str pre.length = k := by
      unfold strtok_state.str
      rw [List.drop_left]
      exact cstr_append_nul _ _ (fun b hb => (h1.2 b hb).1)
    have hv' : (⟨pre ++ (k ++ 0 :: (v ++ 0 :: (fields_text [] ++ [0]))),
        (pre ++ (k ++ [0])).length + v.length⟩ : strtok_state).str (pre ++ (k ++ [0])).length = v := by
      unfold strtok_state.str
      rw [e2, List.drop_left]
      exact cstr_append_nul _ _ (fun b hb => (h2.2 b hb).1)
    have e3 : pre ++ (k ++ 0 :: (v ++ 0 :: (fields_text [] ++ [0])))
        = (pre ++ (k ++ 0 :: (v ++ [0]))) ++ 0 :: [] := by simp [fields_text]
    have hs1 : pre.length + (k ++ 61 :: v).length + 1 = (pre ++ (k ++ 0 :: (v ++ [0]))).length := by
      simp; omega
    have hend : (pre ++ (k ++ 0 :: (v ++ 0 :: (fields_text [] ++ [0])))).getD
        (pre.length + (k ++ 61 :: v).length + 1) 0 = 0 := by
      rw [hs1, e3]; exact getD_append_length _ 0 [] 0
    rw [each_field_kv_loop]
    simp only [hstr, r1, r2, hk', hv', hend, Option.map_some', ne_eq, not_true_eq_false,
      if_false, List.map_nil]
  | cons p rest ih =>
    intro k v pre saved fuel hk hv hrest hfuel
    obtain ⟨n, rfl⟩ : ∃ n, fuel = n + 1 := ⟨fuel - 1, by omega⟩
    have h1 := (field_text_ok_iff k).1 hk
    have h2 := (field_text_ok_iff v).1 hv
    have hp := hrest p (List.mem_cons_self _ _)
    have g1 := (field_text_ok_iff p.1).1 hp.1
    have g2 := (field_text_ok_iff p.2).1 hp.2
    generalize hT : fields_text (p :: rest) ++ [0] = T
    have hTe : T = (p.1 ++ 61 :: p.2) ++ 10 :: (fields_text rest ++ [0]) := by
      rw [← hT, fields_text_cons]; simp
    have hstr : (⟨pre ++ (k ++ 61 :: (v ++ 0 :: T)), saved⟩ :
        strtok_state).str pre.length = k ++ 61 :: v := by
      unfold strtok_state.str
      rw [List.drop_left]
      have e : k ++ 61 :: (v ++ 0 :: T) = (k ++ 61 :: v) ++ 0 :: T := by simp
      rw [e]
      exact cstr_append_nul _ _ (by
        intro b hb
        simp only [List.mem_append, List.mem_cons] at hb
        rcases hb with hb | hb | hb
        · exact (h1.2 b hb).1
        · omega
        · exact (h2.2 b hb).1)
    have r1 := strtok_token pre k (v ++ 0 :: T) value_sep 61 saved
      (some pre.length) rfl h1.1 (fun b hb => ⟨(h1.2 b hb).1, by simpa [value_sep] using (h1.2 b hb).2.1⟩)
      (by omega) (by simp [value_sep])
    have e2 : pre ++ (k ++ 0 :: (v ++ 0 :: T)) = (pre ++ (k ++ [0])) ++ (v ++ 0 :: T) := by simp
    have r2 := strtok_last (pre ++ (k ++ [0])) v T value_sep
      (pre.length + k.length + 1) none (by simp; omega) h2.1
      (fun b hb => ⟨(h2.2 b hb).1, by simpa [value_sep] using (h2.2 b hb).2.1⟩)
    rw [← e2] at r2
    have hk' : (⟨pre ++ (k ++ 0 :: (v ++ 0 :: T)),
        (pre ++ (k ++ [0])).length + v.length⟩ : strtok_state).str pre.length = k := by
      unfold strtok_state.str
      rw [List.drop_left]
      exact cstr_append_nul _ _ (fun b hb => (h1.2 b hb).1)
    have hv' : (⟨pre ++ (k ++ 0 :: (v ++ 0 :: T)),
        (pre ++ (k ++ [0])).length + v.length⟩ : strtok_state).str (pre ++ (k ++ [0])).length = v := by
      unfold strtok_state.str
      rw [e2, List.drop_left]
      exact cstr_append_nul _ _ (fun b hb => (h2.2 b hb).1)
    obtain ⟨t0, tl, ht⟩ := List.exists_cons_of_ne_nil g1.1
    have ht0 := g1.2 t0 (by rw [ht]; exact List.mem_cons_self _ _)
    have e3 : pre ++ (k ++ 0 :: (v ++ 0 :: T))
        = (pre ++ (k ++ 0 :: (v ++ [0]))) ++ ((p.1 ++ 61 :: p.2) ++ 10 :: (fields_text rest ++ [0])) := by
      rw [hTe]; simp
    have e3' : pre ++ (k ++ 0 :: (v ++ 0 :: T))
        = (pre ++ (k ++ 0 :: (v ++ [0]))) ++ t0 :: (tl ++ 61 :: p.2 ++ 10 :: (fields_text rest ++ [0])) := by
      rw [e3, ht]; simp
    have hs1 : pre.length + (k ++ 61 :: v).length + 1 = (pre ++ (k ++ 0 :: (v ++ [0]))).length := by
      simp; omega
    have hnext : (pre ++ (k ++ 0 :: (v ++ 0 :: T))).getD
        (pre ++ (k ++ 0 :: (v ++ [0]))).length 0 = t0 := by
      rw [e3']; exact getD_append_length _ t0 _ 0
    have r3 := strtok_token (pre ++ (k ++ 0 :: (v ++ [0]))) (p.1 ++ 61 :: p.2)
      (fields_text rest ++ [0]) field_sep 10 ((pre ++ (k ++ [0])).length + v.length)
      (some (pre ++ (k ++ 0 :: (v ++ [0]))).length) (by simp) (by simp)
      (by
        intro b hb
        simp only [List.mem_append, List.mem_cons] at hb
        rcases hb with hb | hb | hb
        · exact ⟨(g1.2 b hb).1, by simpa [field_sep] using (g1.2 b hb).2.2⟩
        · subst hb; simp [field_sep]
        · exact ⟨(g2.2 b hb).1, by simpa [field_sep] using (g2.2 b hb).2.2⟩)
      (by omega) (by simp [field_sep])
    rw [← e3] at r3
    have e4 : (pre ++ (k ++ 0 :: (v ++ [0]))) ++ ((p.1 ++ 61 :: p.2) ++ 0 :: (fields_text rest ++ [0]))
        = (pre ++ (k ++ 0 :: (v ++ [0]))) ++ (p.1 ++ 61 :: (p.2 ++ 0 :: (fields_text rest ++ [0]))) := by
      simp
    have hrec := ih p.1 p.2 (pre ++ (k ++ 0 :: (v ++ [0])))
      ((pre ++ (k ++ 0 :: (v ++ [0]))).length + (p.1 ++ 61 :: p.2).length + 1) n hp.1 hp.2
      (fun q hq => hrest q (List.mem_cons_of_mem _ hq)) (by simp only [List.length_cons] at hfuel; omega)
    rw [← e4] at hrec
    rw [each_field_kv_loop]
    simp only [hstr, r1, r2, hk', hv', hs1, hnext, Option.map_some', ne_eq, ht0.1,
      not_false_eq_true, if_true, r3, hrec, List.map_cons]

/-- Claim C25: for every list of (key, value) pairs whose keys and values are
non-empty C strings without '=' and newline (`field_text_ok`), `each_field_kv`
run on the string built from `NULL` by one `append_field` call per pair returns
after calling the callback exactly once per pair, in order, with that key and
that value. -/
theorem each_field_kv_of_append_field (pairs : List (List Nat × List Nat))
    (h : ∀ p ∈ pairs, field_text_ok p.1 = true ∧ field_text_ok p.2 = true) :
    each_field_kv (append_fields pairs) = some (pairs.map (fun p => (some p.1, some p.2))) := by
  cases pairs with
  | nil => rfl
  | cons p rest =>
    have hp := h p (List.mem_cons_self _ _)
    have g1 := (field_text_ok_iff p.1).1 hp.1
    have g2 := (field_text_ok_iff p.2).1 hp.2
    obtain ⟨t0, tl, ht⟩ := List.exists_cons_of_ne_nil g1.1
    have ht0 := g1.2 t0 (by rw [ht]; exact List.mem_cons_self _ _)
    have hnn : ∀ b ∈ fields_text (p :: rest), b ≠ 0 := by
      have hall : ∀ (l : List (List Nat × List Nat)),
          (∀ q ∈ l, field_text_ok q.1 = true ∧ field_text_ok q.2 = true) →
          ∀ b ∈ fields_text l, b ≠ 0 := by
        intro l
        induction l with
        | nil => intro _ b hb; simp [fields_text] at hb
        | cons q l ihl =>
          intro hl b hb
          have hq := hl q (List.mem_cons_self _ _)
          have q1 := (field_text_ok_iff q.1).1 hq.1
          have q2 := (field_text_ok_iff q.2).1 hq.2
          rw [fields_text_cons] at hb
          simp only [List.mem_append, List.mem_cons] at hb
          rcases hb with hb | hb | hb | hb | hb
          · exact (q1.2 b hb).1
          · omega
          · exact (q2.2 b hb).1
          · omega
          · exact ihl (fun r hr => hl r (List.mem_cons_of_mem _ hr)) b hb
      exact hall _ h
    rw [append_fields_eq p rest h]
    unfold each_field_kv
    simp only [cstr_no_nul _ hnn]
    have e0 : fields_text (p :: rest) ++ [0]
        = [] ++ ((p.1 ++ 61 :: p.2) ++ 10 :: (fields_text rest ++ [0])) := by
      rw [fields_text_cons]; simp
    have hfirst : (fields_text (p :: rest) ++ [0]).getD 0 0 = t0 := by
      rw [fields_text_cons, ht]; rfl
    have r0 := strtok_token [] (p.1 ++ 61 :: p.2) (fields_text rest ++ [0]) field_sep 10 0
      (some 0) rfl (by simp)
      (by
        intro b hb
        simp only [List.mem_append, List.mem_cons] at hb
        rcases hb with hb | hb | hb
        · exact ⟨(g1.2 b hb).1, by simpa [field_sep] using (g1.2 b hb).2.2⟩
        · subst hb; simp [field_sep]
        · exact ⟨(g2.2 b hb).1, by simpa [field_sep] using (g2.2 b hb).2.2⟩)
      (by omega) (by simp [field_sep])
    rw [← e0] at r0
    have e4 : ([] : List Nat) ++ ((p.1 ++ 61 :: p.2) ++ 0 :: (fields_text rest ++ [0]))
        = [] ++ (p.1 ++ 61 :: (p.2 ++ 0 :: (fields_text rest ++ [0]))) := by simp
    have hrec := each_field_kv_loop_fields rest p.1 p.2 []
      (([] : List Nat).length + (p.1 ++ 61 :: p.2).length + 1)
      (fields_text (p :: rest) ++ [0]).length hp.1 hp.2
      (fun q hq => h q (List.mem_cons_of_mem _ hq)) (by
        have hlen : ∀ (l : List (List Nat × List Nat)), l.length ≤ (fields_text l).length := by
          intro l
          induction l with
          | nil => simp
          | cons q l ihl => rw [fields_text_cons]; simp; omega
        have := hlen rest
        rw [fields_text_cons]; simp; omega)
    rw [← e4] at hrec
    simp only [hfirst, ht0.1, if_false, r0, List.length_nil]
    exact hrec

/-- Witness for C25: the pairs ("a", "b") and ("cd", "e"). -/
theorem each_field_kv_of_append_field_witness :
    each_field_kv (append_fields [([97], [98]), ([99, 100], [101])])
      = some ([([97], [98]), ([99, 100], [101])].map (fun p => (some p.1, some p.2))) :=
  each_field_kv_of_append_field [([97], [98]), ([99, 100], [101])] (by decide)

/-! ## C23: `suggest_nickname` -/

set_option maxRecDepth 100000 in
theorem utoa_below_1000 : ∀ r, r < 1000 →
    1 ≤ (utoa r).length ∧ (utoa r).length ≤ 3 ∧ ∀ b ∈ utoa r, 48 ≤ b ∧ b ≤ 57 := by
  decide!

theorem suggest_loop_some (db : database) (n : List Nat) (rands : Nat → Nat) :
    ∀ (fuel k : Nat) (s : List Nat), suggest_loop db n rands fuel k = some s →
    ∃ j, k ≤ j ∧ j < k + fuel ∧ s = suggest_candidate n (rands j) ∧ nickname_count db s = 0 := by
  intro fuel
  induction fuel with
  | zero => intro k s h; simp [suggest_loop] at h
  | succ m ih =>
    intro k s h
    rw [suggest_loop] at h
    by_cases hc : nickname_count db (suggest_candidate n (rands k)) ≠ 0
    · rw [if_pos hc] at h
      obtain ⟨j, h1, h2, h3⟩ := ih (k + 1) s h
      exact ⟨j, by omega, by omega, h3⟩
    · rw [if_neg hc] at h
      have hs : suggest_candidate n (rands k) = s := Option.some.inj h
      refine ⟨k, Nat.le_refl k, by omega, hs.symm, ?_⟩
      rw [← hs]
      exact Decidable.of_not_not hc

theorem suggest_loop_returns (db : database) (n : List Nat) (rands : Nat → Nat) :
    ∀ (fuel k : Nat),
    (∃ j, k ≤ j ∧ j < k + fuel ∧ nickname_count db (suggest_candidate n (rands j)) = 0) →
    ∃ s, suggest_loop db n rands fuel k = some s := by
  intro fuel
  induction fuel with
  | zero => rintro k ⟨j, h1, h2, _⟩; omega
  | succ m ih =>
    rintro k ⟨j, h1, h2, h3⟩
    rw [suggest_loop]
    by_cases hc : nickname_count db (suggest_candidate n (rands k)) ≠ 0
    · rw [if_pos hc]
      have hjk : j ≠ k := by
        intro e
        rw [e] at h3
        exact hc h3
      exact ih (k + 1) ⟨j, by omega, by omega, h3⟩
    · rw [if_neg hc]
      exact ⟨_, rfl⟩

/-- Claim C23, amended: for every nickname n, a string returned by `suggest_nickname`
is the first min(|n|, 23) characters of n followed by the decimal digits of
`rand() % 1000` as `%d` prints them (one to three digits, no leading zero
padding), has length at most 26 and is not in use; and the call returns such
a string as soon as one of the first `fuel` draws gives a nickname that is not
in use. -/
theorem suggest_nickname_shape (db : database) (n : List Nat) (rands : Nat → Nat) (fuel : Nat) :
    (∀ s, suggest_nickname db (some n) rands fuel = some (some s) →
      ∃ j, j < fuel ∧ s = (cstr n).take (min (cstr n).length 23) ++ utoa (rands j % 1000)
        ∧ 1 ≤ (utoa (rands j % 1000)).length ∧ (utoa (rands j % 1000)).length ≤ 3
        ∧ (∀ b ∈ utoa (rands j % 1000), 48 ≤ b ∧ b ≤ 57)
        ∧ s.length ≤ 26 ∧ nickname_in_use db (some s) = 0)
    ∧ ((∃ j, j < fuel ∧ nickname_count db (suggest_candidate n (rands j)) = 0) →
        ∃ s, suggest_nickname db (some n) rands fuel = some (some s)) := by
  constructor
  · intro s h
    unfold suggest_nickname at h
    simp only [Option.map_eq_some', Option.some.injEq] at h
    obtain ⟨s', hs', rfl⟩ := h
    obtain ⟨j, _, hj, hs, hz⟩ := suggest_loop_some db n rands fuel 0 s' hs'
    have hu := utoa_below_1000 (rands j % 1000) (Nat.mod_lt _ (by omega))
    have hmin : min (NICKNAME_MAX - 3) (cstr n).length = min (cstr n).length 23 := by
      unfold NICKNAME_MAX; omega
    have hshape : s' = (cstr n).take (min (cstr n).length 23) ++ utoa (rands j % 1000) := by
      rw [hs, suggest_candidate, hmin]
    refine ⟨j, by omega, hshape, hu.1, hu.2.1, hu.2.2, ?_, ?_⟩
    · rw [hshape, List.length_append, List.length_take]
      omega
    · simp only [nickname_in_use, hz, ne_eq, not_true_eq_false, if_false]
  · rintro ⟨j, hj, hz⟩
    obtain ⟨s, hs⟩ := suggest_loop_returns db n rands fuel 0 ⟨j, by omega, by omega, hz⟩
    exact ⟨s, by simp only [suggest_nickname, hs, Option.map_some']⟩

/-- Witness for C23 (amended): with "Bob" and "bob7" taken and the draws 1007, 5 the
call for "bob" returns "bob5", which has the stated shape. -/
theorem suggest_nickname_shape_witness :
    ∃ j, j < 2 ∧ [98, 111, 98, 53]
          = (cstr [98, 111, 98]).take (min (cstr [98, 111, 98]).length 23) ++ utoa (example_rands j % 1000)
      ∧ 1 ≤ (utoa (example_rands j % 1000)).length ∧ (utoa (example_rands j % 1000)).length ≤ 3
      ∧ (∀ b ∈ utoa (example_rands j % 1000), 48 ≤ b ∧ b ≤ 57)
      ∧ [98, 111, 98, 53].length ≤ 26 ∧ nickname_in_use example_db_nick (some [98, 111, 98, 53]) = 0 :=
  (suggest_nickname_shape example_db_nick [98, 111, 98] example_rands 2).1 [98, 111, 98, 53]
    (by decide)

/-- Counterexample to C23 as stated: with "Bob" and "bob7" taken and the `rand()`
results 1007 and 5, `suggest_nickname` for "bob" tries "bob7" and returns "bob5":
the suffix is the single digit "5", not three digits. -/
theorem suggest_nickname_one_digit_counterexample :
    suggest_candidate [98, 111, 98] 1007 = [98, 111, 98, 55]
    ∧ nickname_in_use example_db_nick (some [98, 111, 98, 55]) = 1
    ∧ suggest_nickname example_db_nick (some [98, 111, 98]) example_rands 2
        = some (some [98, 111, 98, 53]) := by
  refine ⟨?_, ?_, ?_⟩ <;> decide

/-! ## C24: the challenge sent in reply to `INITIAL_STATUS` -/

theorem user_get_secret_question_length (db : database) (uid : Nat) (n : Nat)
    (hq : ∀ q ∈ db.secret_questions, q.secret_q.length ≤ n) :
    ((user_get_secret_question db uid).getD []).length ≤ n := by
  unfold user_get_secret_question
  split
  · simp
  · split
    · simp
    · rename_i i _
      cases hf : db.secret_questions.find? (fun q => q.id = i) with
      | none => simp
      | some q =>
        have hm := List.mem_of_find?_eq_some hf
        have hl := hq q hm
        have : (cstr q.secret_q).length ≤ q.secret_q.length := by
          unfold cstr; exact (List.takeWhile_sublist _).length_le
        simp only [Option.map_some', Option.getD_some]
        omega

theorem initial_status_question_length (db : database) (ctx : pt_context) (n : Nat)
    (hq : ∀ q ∈ db.secret_questions, q.secret_q.length ≤ n) :
    ((initial_status_question db ctx).getD []).length ≤ n := by
  unfold initial_status_question
  split
  · exact user_get_secret_question_length db _ n hq
  · simp

theorem initial_status_question_known (db : database) (ctx : pt_context)
    (h : device_in_list db ctx ≠ 0) : initial_status_question db ctx = none := by
  unfold initial_status_question
  rw [if_neg (fun hh => h hh.2)]

theorem ustoa_challenge (c : Nat) :
    ustoa ((c : Int) + 0x01fd) 3
      = [48 + to_u16 ((c : Int) + 0x01fd) / 100 % 10, 48 + to_u16 ((c : Int) + 0x01fd) / 10 % 10,
         48 + to_u16 ((c : Int) + 0x01fd) % 10] := by
  unfold ustoa
  rw [ustoa_digits_three]

theorem to_u16_challenge (c : Nat) (hc : c ≤ 490) :
    to_u16 ((c : Int) + 0x01fd) = c + 509 := by
  unfold to_u16; omega

/-- Claim C24, amended: for a packet version below 0x0056, a uid that is not an error
uid, a body of at least the 14 (`INITIAL_STATUS`) or 13 bytes the case reads and
a question text of at most 65527 bytes, the reply to `INITIAL_STATUS` is one
`CHALLENGE` packet whose body is 4 decimal digits, the three digits `ustoa` writes
for challenge + 0x1FD (the three low decimal digits of that sum as an `unsigned
short`; for a challenge up to 490, so for the challenges 1..226 that
`pt_context_init` draws, the sum itself, which is below 1000) and a newline, in
every case, followed by the text of the secret question that
`initial_status_question` finds (none for a known device, for the "newuser" uid and
for a user without a stored question).  For a known device the body is exactly
those 8 bytes. -/
theorem initial_status_challenge_body (le : Bool) (rands : Nat → Nat) (db : database)
    (heap : pkt_heap) (ctx : pt_context)
    (hlen : (if ctx.pkt_in.type = PACKET_INITIAL_STATUS then 14 else 13) ≤ ctx.pkt_in.length)
    (hv : ctx.pkt_in.version < PROTOCOL_VERSION_82)
    (hu : UID_IS_ERROR (packet_uid ctx.pkt_in) = false)
    (hq : ((initial_status_question db (initial_status_context db ctx)).getD []).length ≤ 65527) :
    ∃ p ctx1, login_flow_initial_status le rands db heap ctx = some (heap ++ [some p], ctx1)
      ∧ p.type = htons le PACKET_CHALLENGE
      ∧ pkts_queued ctx1 = pkts_queued (initial_status_context db ctx) ++ [heap.length]
      ∧ p.data = some (pad_digits rands 0
          ++ [48 + to_u16 ((ctx.challenge : Int) + 0x01fd) / 100 % 10,
              48 + to_u16 ((ctx.challenge : Int) + 0x01fd) / 10 % 10,
              48 + to_u16 ((ctx.challenge : Int) + 0x01fd) % 10]
          ++ [10] ++ (initial_status_question db (initial_status_context db ctx)).getD [])
      ∧ p.remaining
          = 6 + 8 + ((initial_status_question db (initial_status_context db ctx)).getD []).length
      ∧ (∀ b ∈ pad_digits rands 0, 48 ≤ b ∧ b ≤ 57)
      ∧ to_u16 ((ctx.challenge : Int) + 0x01fd) = (ctx.challenge + 509) % 65536
      ∧ (ctx.challenge ≤ 490 →
          to_u16 ((ctx.challenge : Int) + 0x01fd) = ctx.challenge + 509
          ∧ ctx.challenge + 509 < 1000)
      ∧ (device_in_list db (initial_status_context db ctx) ≠ 0 →
          p.data = some (pad_digits rands 0
            ++ [48 + to_u16 ((ctx.challenge : Int) + 0x01fd) / 100 % 10,
                48 + to_u16 ((ctx.challenge : Int) + 0x01fd) / 10 % 10,
                48 + to_u16 ((ctx.challenge : Int) + 0x01fd) % 10] ++ [10])) := by
  have hlen' : ¬ ctx.pkt_in.length < (if ctx.pkt_in.type = PACKET_INITIAL_STATUS then 14 else 13) := by
    omega
  have hlk : (lookup_user db (packet_uid ctx.pkt_in) ctx.user).1 = 0 := by
    simp only [lookup_user, hu, Bool.false_eq_true, if_false]
  have hv4 : (initial_status_context db ctx).pkt_in.version < PROTOCOL_VERSION_82 := hv
  have hc4 : (initial_status_context db ctx).challenge = ctx.challenge := rfl
  generalize hs : (initial_status_question db (initial_status_context db ctx)).getD [] = s at hq
  generalize hx : to_u16 ((ctx.challenge : Int) + 0x01fd) = x
  generalize hbody : pad_digits rands 0
      ++ [48 + x / 100 % 10, 48 + x / 10 % 10, 48 + x % 10] ++ [10] ++ s = body
  have hbl : body.length = 8 + s.length := by
    rw [← hbody]; simp [pad_digits]; omega
  have hres : login_flow_initial_status le rands db heap ctx
      = some (send_packet le (new_packet heap PACKET_CHALLENGE body.length (some body) 0).1
          (initial_status_context db ctx)
          (new_packet heap PACKET_CHALLENGE body.length (some body) 0).2) := by
    unfold login_flow_initial_status
    simp only [hlen', if_false, hlk, ne_eq, not_true_eq_false, hv4, if_true, hc4,
      ustoa_challenge ctx.challenge, hx, hs, hbody, hbl]
  have hspec := send_new_packet_spec le heap (initial_status_context db ctx) PACKET_CHALLENGE body 0
    (by decide) (by omega)
  rw [hspec] at hres
  refine ⟨_, _, hres, rfl, pkts_queued_send _ _ _, rfl, ?_, ?_, ?_, ?_, ?_⟩
  · show body.length + 6 = 6 + 8 + s.length
    omega
  · intro b hb
    simp only [pad_digits, List.mem_cons, List.mem_singleton, List.not_mem_nil, or_false] at hb
    rcases hb with hb | hb | hb | hb <;> omega
  · rw [← hx]; unfold to_u16; omega
  · intro hc
    rw [← hx]
    exact ⟨to_u16_challenge ctx.challenge hc, by omega⟩
  · intro hd
    have hn := initial_status_question_known db _ hd
    rw [hn] at hs
    rw [← hbody, ← hs]
    simp

set_option maxRecDepth 100000 in
/-- Witness for C24 (amended): the known device "old" of user 42 (challenge 1,
version 0x0053, pad digits 0, 1, 2, 3): the body is "0123510" and a newline. -/
theorem initial_status_challenge_body_witness :
    ∃ p ctx1, login_flow_initial_status true (fun k => k) example_db_question []
          (example_initial_status [51, 51, 54, 48, 50, 55, 52, 50, 51, 52, 54, 51])
        = some ([] ++ [some p], ctx1)
      ∧ p.type = htons true PACKET_CHALLENGE
      ∧ p.data = some [48, 49, 50, 51, 53, 49, 48, 10]
      ∧ p.remaining = 14 := by
  obtain ⟨p, ctx1, h, ht, _, hd, hr, _, _, _, hk⟩ :=
    initial_status_challenge_body true (fun k => k) example_db_question []
      (example_initial_status [51, 51, 54, 48, 50, 55, 52, 50, 51, 52, 54, 51])
      (by decide) (by decide) (by decide) (by decide)
  refine ⟨p, ctx1, h, ht, ?_, ?_⟩
  · rw [hk (by decide)]
    decide
  · rw [hr]
    decide

set_option maxRecDepth 100000 in
/-- Counterexample to C24 as stated: user 42 sends `INITIAL_STATUS` from the known
device "old" (the device is in the device list); the body of the `CHALLENGE` is
"0123510" followed by a newline, 8 bytes and not 7.  From the unknown device
(no device id) the body is the same 8 bytes followed by "Street?". -/
theorem initial_status_known_device_counterexample :
    device_in_list example_db_question (initial_status_context example_db_question
        (example_initial_status [51, 51, 54, 48, 50, 55, 52, 50, 51, 52, 54, 51])) = 1
    ∧ (login_flow_initial_status true (fun k => k) example_db_question []
          (example_initial_status [51, 51, 54, 48, 50, 55, 52, 50, 51, 52, 54, 51])).map
        (fun r => r.1.map (fun x => x.map (fun p => (p.type, p.remaining, p.data))))
      = some [some (htons true PACKET_CHALLENGE, 14, some [48, 49, 50, 51, 53, 49, 48, 10])]
    ∧ (login_flow_initial_status true (fun k => k) example_db_question []
          (example_initial_status [])).map
        (fun r => r.1.map (fun x => x.map (fun p => (p.type, p.remaining, p.data))))
      = some [some (htons true PACKET_CHALLENGE, 21,
          some [48, 49, 50, 51, 53, 49, 48, 10, 83, 116, 114, 101, 101, 116, 63])] := by
  refine ⟨?_, ?_, ?_⟩ <;> decide

/-! ## C21: operations that need a room admin -/

/-- Claim C21: when `user_is_room_admin` is false for the invoking connection and the
room, each of `reddot_user`, `set_all_mics`, `lower_all_hands`, `new_user_mic`, `reddot_text`,
`reddot_video`, `room_topic`, `ban_user`, `unban_user`, `bounce_user` and `unbounce_user`
returns with the server state as it was: no stored row is changed, no packet
is made and nothing is enqueued on any connection. -/
theorem room_admin_operations_need_admin (le : Bool) (now : List Nat) (stray topic : Option (List Nat))
    (w : world) (c rid uid : Nat) (onoff : Int)
    (h : user_is_room_admin w.db rid (w.ctx c).uid = 0) :
    reddot_user le w c rid uid onoff = some w
    ∧ set_all_mics le w c rid onoff = some w
    ∧ lower_all_hands le w c rid = some w
    ∧ new_user_mic w c rid onoff = some w
    ∧ reddot_text w c rid onoff = some w
    ∧ reddot_video w c rid onoff = some w
    ∧ room_topic le w c rid topic = some w
    ∧ ban_user le now w c rid uid = some w
    ∧ unban_user w c rid uid = some w
    ∧ bounce_user le now stray w c rid uid = some w
    ∧ unbounce_user w c rid uid = some w := by
  refine ⟨?_, ?_, ?_, ?_, ?_, ?_, ?_, ?_, ?_, ?_, ?_⟩
  · unfold reddot_user; rw [if_pos h]
  · unfold set_all_mics; rw [if_pos h]
  · unfold lower_all_hands; rw [if_pos h]
  · unfold new_user_mic; rw [if_pos h]
  · unfold reddot_text; rw [if_pos h]
  · unfold reddot_video; rw [if_pos h]
  · unfold room_topic; rw [if_pos h]
  · unfold ban_user; rw [if_pos h]
  · unfold unban_user; rw [if_pos h]
  · unfold bounce_user; rw [if_pos h]
  · unfold unbounce_user; rw [if_pos h]

/-- Witness for C21: in `example_world_admin` user 7 (address 0) is in room 100 but is no
admin of it; its calls for room 100 and user 9 change nothing. -/
theorem room_admin_operations_need_admin_witness :
    reddot_user true example_world_admin 0 100 9 1 = some example_world_admin
    ∧ set_all_mics true example_world_admin 0 100 1 = some example_world_admin
    ∧ lower_all_hands true example_world_admin 0 100 = some example_world_admin
    ∧ new_user_mic example_world_admin 0 100 1 = some example_world_admin
    ∧ reddot_text example_world_admin 0 100 1 = some example_world_admin
    ∧ reddot_video example_world_admin 0 100 1 = some example_world_admin
    ∧ room_topic true example_world_admin 0 100 (some [104, 105]) = some example_world_admin
    ∧ ban_user true example_now example_world_admin 0 100 9 = some example_world_admin
    ∧ unban_user example_world_admin 0 100 9 = some example_world_admin
    ∧ bounce_user true example_now none example_world_admin 0 100 9 = some example_world_admin
    ∧ unbounce_user example_world_admin 0 100 9 = some example_world_admin :=
  room_admin_operations_need_admin true example_now none (some [104, 105]) example_world_admin 0 100 9 1
    (by decide)

/-! ## C22 and C26: registration without the nickname checks, the general flow without a login -/

set_option maxRecDepth 100000 in
/-- Claim C22 fails on the code: a connection in the registration flow sends a
`REGISTRATION_INFO` packet whose first field decodes to `example_bad_nickname`, "!" followed
by 27 times "a" (28 characters, the first one not alphanumeric), with a
password, an email address, a question, a response and both names.  The case
has neither the `isalnum` test nor the cut to 26 characters of the
`PT5_REGISTRATION` case: the handler inserts the row of uid 4 with that nickname
and answers `REGISTRATION_SUCCESS` with the uid. -/
theorem registration_info_accepts_bad_nickname :
    isalnum (example_bad_nickname.getD 0 0) = false
    ∧ example_bad_nickname.length = 28
    ∧ pt_decode_with_challenge ((example_world_registration example_bad_nickname).ctx 0).codec 2
        ((example_world_registration example_bad_nickname).ctx 0).challenge
        (some (example_encode2 example_bad_nickname)) = some example_bad_nickname
    ∧ (example_world_registration example_bad_nickname).db.users.map (fun r => r.uid) = [1, 2, 3]
    ∧ (registration_flow_info true (fun _ => 0) 10 example_now
          (example_world_registration example_bad_nickname) 0).map
        (fun w => w.db.users.map (fun r => (r.uid, r.nickname)))
      = some [(1, [110, 120, 117, 115, 101, 114]), (2, [66, 111, 98]), (3, [98, 111, 98, 55]),
              (4, example_bad_nickname)]
    ∧ (registration_flow_info true (fun _ => 0) 10 example_now
          (example_world_registration example_bad_nickname) 0).map
        (fun w => (heap_view w, queue_view 0 w))
      = some ([some (htons true PACKET_REGISTRATION_SUCCESS, some [0, 0, 0, 4])], some [0]) := by
  refine ⟨?_, ?_, ?_, ?_, ?_, ?_⟩ <;> decide!

set_option maxRecDepth 100000 in
/-- Claim C26 fails on the code: a fresh connection sends `INITIAL_STATUS` for uid 42 and
a `LOGIN` with the wrong password "nope"; the password check fails
(`login_pass_ok` is 0), the connection is answered with return code 0x63 and stays
in the login flow, with no registry entry.  It then sends `UID_FONTDEPTH_ETC`,
whose case calls `transition_to(ctx, general_flow)` without any test: the
installed handler is `general_flow` for uid 42, and `general_transition` has
enqueued the `USER_DATA` record of user 42 (the third packet of the queue, whose
text starts with "nickname=u42"). -/
theorem fontdepth_enters_general_flow_without_login :
    example_world_rejected.map (fun w =>
        (login_pass_ok w.db (w.ctx 0), (w.ctx 0).on_packet, (w.ctx 0).uid, (w.ctx 0).uid_str))
      = some (0, some flow.login_flow, 42, [])
    ∧ example_world_rejected.map (fun w => (heap_view w).map (fun x => x.map (fun p => p.1)))
      = some [some (htons true PACKET_CHALLENGE), some (htons true PACKET_RETURN_CODE)]
    ∧ example_world_bypass.map (fun w => ((w.ctx 0).on_packet, (w.ctx 0).prev_on_packet, (w.ctx 0).uid))
      = some (some flow.general_flow, some flow.login_flow, 42)
    ∧ example_world_bypass.map (fun w =>
        ((heap_view w).map (fun x => x.map (fun p => p.1)), pkts_queued (w.ctx 0)))
      = some ([some (htons true PACKET_CHALLENGE), some (htons true PACKET_RETURN_CODE),
               some (htons true PACKET_USER_DATA), some (htons true PACKET_BANNER_INTERVAL),
               some (htons true PACKET_BANNER_INTERVAL), none, none], [0, 1, 2, 3, 4])
    ∧ example_world_bypass.map (fun w =>
        ((w.heap.getD 2 none).bind (fun p => p.data)).map (fun d => d.take 12))
      = some (some [110, 105, 99, 107, 110, 97, 109, 101, 61, 117, 52, 50]) := by
  refine ⟨?_, ?_, ?_, ?_, ?_⟩ <;> decide!

end PtServer
